import Mathlib

/-!
# Plant / condenser loop equipment dispatch (EnergyPlus `PlantCondLoopOperation`)

A shallow embedding of `src/EnergyPlus/PlantCondLoopOperation.cc`.

Conventions of the embedding.

* `Real64` quantities are exact rationals (`ℚ`): rounding is not modelled.
* Fortran-style arrays `A( i )` are total maps `Nat → _` read at the same
  1-based index as in the source; the companion counter (`TotalBranches`,
  `TotalComponents`, `NumComps`, `NumEquipLists`, `NumOpSchemes`) bounds the
  `for` loops exactly as in the source.
* `PlantLoop( L ).LoopSide( S ).Branch( B ).Comp( C )` is `st.comp L S B C`.
* A `for ( i = 1; i <= n; ++i )` loop without `break` is `forLoop body init n`.
* Collaborators that live outside the module (node data, weather, fluid
  properties, schedules, the EMS interpreter, tolerances of `DataHVACGlobals`
  and `DataPlant`) are fields of `Env`.
* The input phase and the one-time topology resolution of
  `InitLoadDistribution` (guards `GetPlantOpInput`, `MyOneTimeFlag`) are taken
  as completed: a `PlantState` is the resolved data structure.
-/

namespace PlantCondLoopOperation

/-! ## Numeric helpers -/

/-- Modelled from the spec: ObjexxFCL `sign( a, b )` (`Fmath.hh`, not among the
sources) gives a load "the sign of the demand": the magnitude of `a` carrying
the sign of `b`, where a zero `b` counts as non-negative (Fortran `SIGN`). -/
def sign (a b : ℚ) : ℚ := if 0 ≤ b then |a| else -|a|

/-- A `for ( i = 1; i <= n; ++i )` loop: `forLoop body init n` runs `body` at
`i = 1, 2, …, n` in this order, threading the state. -/
def forLoop {σ : Type} (body : σ → Nat → σ) (init : σ) : Nat → σ
  | 0 => init
  | n + 1 => body (forLoop body init n) (n + 1)

/-! ## Constants of `DataPlant` used by the module -/

/-- Operation scheme type identifiers (`DataPlant`). -/
inductive OpSchemeType where
  | UnknownStatusOpSchemeType
  | NoControlOpSchemeType
  | HeatingRBOpSchemeType
  | CoolingRBOpSchemeType
  | WetBulbRBOpSchemeType
  | DryBulbRBOpSchemeType
  | DewPointRBOpSchemeType
  | RelHumRBOpSchemeType
  | DryBulbTDBOpSchemeType
  | WetBulbTDBOpSchemeType
  | DewPointTDBOpSchemeType
  | CompSetPtBasedSchemeType
  | UncontrolledOpSchemeType
  | EMSOpSchemeType
  | PumpOpSchemeType
  | DemandOpSchemeType
  | FreeRejectionOpSchemeType
  | WSEconOpSchemeType
  deriving DecidableEq, Repr

/-- Load distribution policy of a loop (`PlantLoop( L ).LoadDistribution`);
`UnsetLoading` stands for any integer other than the three named constants. -/
inductive LoadingScheme where
  | OptimalLoading
  | SequentialLoading
  | UniformLoading
  | UnsetLoading
  deriving DecidableEq, Repr

/-- The tag `HowLoadServed` of a component. -/
inductive HowMet where
  | HowMet_Unknown
  | HowMet_NoneDemand
  | HowMet_PassiveCap
  | HowMet_ByNominalCap
  | HowMet_ByNominalCapLowOutLimit
  | HowMet_ByNominalCapHiOutLimit
  | HowMet_ByNominalCapFreeCoolCntrl
  | HowMet_ByNominalCapLowOutLimitFreeCoolCntrl
  deriving DecidableEq, Repr

/-- Sensor choice of the free cooling control; `FreeCoolControlMode_Unset`
stands for any integer other than the three named constants. -/
inductive FreeCoolControlMode where
  | FreeCoolControlMode_WetBulb
  | FreeCoolControlMode_DryBulb
  | FreeCoolControlMode_Loop
  | FreeCoolControlMode_Unset
  deriving DecidableEq, Repr

/-- General equipment class; only the pump class is tested by the module. -/
inductive GenEquipType where
  | GenEquipTypes_Pump
  | GenEquipTypes_Other (code : Nat)
  deriving DecidableEq, Repr

/-- Component type number `TypeOf_Num`; the module tests for pipes and for the
electric chillers, every other type is `TypeOf_Other`. -/
inductive PlantEquipType where
  | TypeOf_Pipe
  | TypeOf_PipeInterior
  | TypeOf_PipeExterior
  | TypeOf_PipeUnderground
  | TypeOf_Chiller_ElectricEIR
  | TypeOf_Chiller_Electric
  | TypeOf_Chiller_ElectricReformEIR
  | TypeOf_Other (code : Nat)
  deriving DecidableEq, Repr

/-- Loop demand calculation scheme (`LoopDemandCalcScheme`). -/
inductive DemandCalcScheme where
  | SingleSetPoint
  | DualSetPointDeadBand
  deriving DecidableEq, Repr

/-- Control type of a setpoint-controlled list member (`CtrlTypeNum`). -/
inductive CtrlType where
  | HeatingOp
  | CoolingOp
  | DualOp
  deriving DecidableEq, Repr

/-! ## Data model -/

/-- Entry `Comp( C ).OpScheme( i ).EquipList( j )`: where the component sits in
the loop-level scheme data. -/
structure EquipListPtrData where
  ListPtr : Nat := 0
  CompPtr : Nat := 0

/-- Entry `Comp( C ).OpScheme( i )`: a scheme the component belongs to. -/
structure OpSchemePtrData where
  NumEquipLists : Nat := 0
  OpSchemePtr : Nat := 0
  EquipList : Nat → EquipListPtrData := fun _ => {}

/-- A component `PlantLoop( L ).LoopSide( S ).Branch( B ).Comp( C )`. -/
structure CompData where
  TypeOf_Num : PlantEquipType := PlantEquipType.TypeOf_Other 0
  GeneralEquipType : GenEquipType := GenEquipType.GenEquipTypes_Other 0
  CurOpSchemeType : OpSchemeType := OpSchemeType.UnknownStatusOpSchemeType
  NumOpSchemes : Nat := 0
  CurCompLevelOpNum : Nat := 0
  OpScheme : Nat → OpSchemePtrData := fun _ => {}
  MyLoad : ℚ := 0
  MaxLoad : ℚ := 0
  MinLoad : ℚ := 0
  OptLoad : ℚ := 0
  EquipDemand : ℚ := 0
  ON : Bool := false
  Available : Bool := false
  EMSLoadOverrideOn : Bool := false
  EMSLoadOverrideValue : ℚ := 0
  HowLoadServed : HowMet := HowMet.HowMet_Unknown
  MinOutletTemp : ℚ := 0
  MaxOutletTemp : ℚ := 0
  FreeCoolCntrlShutDown : Bool := false
  FreeCoolCntrlMinCntrlTemp : ℚ := 0
  FreeCoolCntrlMode : FreeCoolControlMode := FreeCoolControlMode.FreeCoolControlMode_Unset
  FreeCoolCntrlNodeNum : Nat := 0
  NodeNumIn : Nat := 0

/-- A branch `PlantLoop( L ).LoopSide( S ).Branch( B )`. -/
structure BranchData where
  TotalComponents : Nat := 0
  Comp : Nat → CompData := fun _ => {}
  EMSCtrlOverrideOn : Bool := false
  EMSCtrlOverrideValue : ℚ := 0

/-- A half loop `PlantLoop( L ).LoopSide( S )` (1 = demand side, 2 = supply side). -/
structure HalfLoopData where
  TotalBranches : Nat := 0
  Branch : Nat → BranchData := fun _ => {}
  EMSCtrl : Bool := false
  EMSValue : ℚ := 0

/-- A member `OpScheme( P ).EquipList( K ).Comp( i )` of an equipment list. -/
structure EquipListCompData where
  LoopNumPtr : Nat := 0
  LoopSideNumPtr : Nat := 0
  BranchNumPtr : Nat := 0
  CompNumPtr : Nat := 0
  SetPointFlowRate : ℚ := 0
  DemandNodeNum : Nat := 0
  SetPointNodeNum : Nat := 0
  CtrlTypeNum : CtrlType := CtrlType.DualOp
  EMSIntVarRemainingLoadValue : ℚ := 0
  EMSActuatorDispatchedLoadValue : ℚ := 0

/-- An equipment list `OpScheme( P ).EquipList( K )`. -/
structure EquipListData where
  RangeUpperLimit : ℚ := 0
  RangeLowerLimit : ℚ := 0
  NumComps : Nat := 0
  Comp : Nat → EquipListCompData := fun _ => {}

/-- An operation scheme `PlantLoop( L ).OpScheme( P )`. -/
structure OpSchemeData where
  OpSchemeType : OpSchemeType := OpSchemeType.UnknownStatusOpSchemeType
  SchedPtr : Nat := 0
  Available : Bool := false
  NumEquipLists : Nat := 0
  EquipListNumForLastStage : Nat := 0
  EquipList : Nat → EquipListData := fun _ => {}
  ReferenceNodeNumber : Nat := 0
  ErlSimProgramMngr : Nat := 0
  ErlInitProgramMngr : Nat := 0
  MyEnvrnFlag : Bool := true

/-- A loop `PlantLoop( L )`. -/
structure PlantLoopData where
  LoopSide : Nat → HalfLoopData := fun _ => {}
  NumOpSchemes : Nat := 0
  OpScheme : Nat → OpSchemeData := fun _ => {}
  LoadDistribution : LoadingScheme := LoadingScheme.UnsetLoading
  LoopDemandCalcScheme : DemandCalcScheme := DemandCalcScheme.SingleSetPoint
  FluidIndex : Nat := 0
  EMSCtrl : Bool := false
  EMSValue : ℚ := 0

/-- The mutable data of the module: the `PlantLoop` array and the one local
`static` of `AdjustChangeInLoadByHowServed` whose old value can be read
(`Tsensor`, when the free cooling mode is none of the three constants). -/
structure PlantState where
  TotNumLoops : Nat := 0
  PlantLoop : Nat → PlantLoopData := fun _ => {}
  Tsensor : ℚ := 0

/-- A node of `DataLoopNode::Node`. -/
structure NodeData where
  Temp : ℚ := 0
  TempLastTimestep : ℚ := 0
  MassFlowRate : ℚ := 0
  TempSetPoint : ℚ := 0
  TempSetPointHi : ℚ := 0
  TempSetPointLo : ℚ := 0

/-- What the module reads from its collaborators. `SmallLoad`
(`DataHVACGlobals`), `LoopDemandTol` (`DataPlant`) and `SensedNodeFlagValue`
(`DataLoopNode`) are constants declared outside the sources at hand. -/
structure Env where
  SmallLoad : ℚ
  LoopDemandTol : ℚ
  SensedNodeFlagValue : ℚ
  OutDryBulbTemp : ℚ
  OutWetBulbTemp : ℚ
  OutDewPointTemp : ℚ
  OutRelHum : ℚ
  Node : Nat → NodeData
  GetSpecificHeatGlycol : Nat → ℚ → ℚ
  GetDensityGlycol : Nat → ℚ → ℚ
  GetCurrentScheduleValue : Nat → ℚ
  BeginEnvrnFlag : Bool
  AnyEMSPlantOpSchemesInModel : Bool
  ManageEMS : Nat → PlantState → PlantState

/-! ## Access paths -/

/-- The half loop `PlantLoop( L ).LoopSide( S )`. -/
def PlantState.side (st : PlantState) (L S : Nat) : HalfLoopData :=
  (st.PlantLoop L).LoopSide S

/-- The branch `PlantLoop( L ).LoopSide( S ).Branch( B )`. -/
def PlantState.branch (st : PlantState) (L S B : Nat) : BranchData :=
  ((st.PlantLoop L).LoopSide S).Branch B

/-- The component `PlantLoop( L ).LoopSide( S ).Branch( B ).Comp( C )`. -/
def PlantState.comp (st : PlantState) (L S B C : Nat) : CompData :=
  (((st.PlantLoop L).LoopSide S).Branch B).Comp C

/-- The scheme `PlantLoop( L ).OpScheme( P )`. -/
def PlantState.opScheme (st : PlantState) (L P : Nat) : OpSchemeData :=
  (st.PlantLoop L).OpScheme P

/-- The equipment list `PlantLoop( L ).OpScheme( P ).EquipList( K )`. -/
def PlantState.equipList (st : PlantState) (L P K : Nat) : EquipListData :=
  ((st.PlantLoop L).OpScheme P).EquipList K

/-- Assignment to fields of `PlantLoop( L ).LoopSide( S ).Branch( B ).Comp( C )`:
the component becomes `f` of its old value, nothing else changes. -/
def PlantState.modifyComp (st : PlantState) (L S B C : Nat) (f : CompData → CompData) :
    PlantState :=
  { st with
    PlantLoop := Function.update st.PlantLoop L
      { st.PlantLoop L with
        LoopSide := Function.update (st.PlantLoop L).LoopSide S
          { (st.PlantLoop L).LoopSide S with
            Branch := Function.update ((st.PlantLoop L).LoopSide S).Branch B
              { ((st.PlantLoop L).LoopSide S).Branch B with
                Comp := Function.update (((st.PlantLoop L).LoopSide S).Branch B).Comp C
                  (f ((((st.PlantLoop L).LoopSide S).Branch B).Comp C)) } } } }

/-- Assignment to fields of `PlantLoop( L ).OpScheme( P )`. -/
def PlantState.modifyOpScheme (st : PlantState) (L P : Nat) (f : OpSchemeData → OpSchemeData) :
    PlantState :=
  { st with
    PlantLoop := Function.update st.PlantLoop L
      { st.PlantLoop L with
        OpScheme := Function.update (st.PlantLoop L).OpScheme P (f ((st.PlantLoop L).OpScheme P)) } }

/-! ## Load distribution (`DistributePlantLoad` and its helpers) -/

/-- `AdjustChangeInLoadForLastStageUpperRangeLimit`: on the last stage of a
scheme the load change is limited to the upper range limit of the list. -/
def AdjustChangeInLoadForLastStageUpperRangeLimit (st : PlantState)
    (LoopNum CurOpSchemePtr CurEquipListPtr : Nat) (ChangeInLoad : ℚ) : ℚ :=
  if (st.opScheme LoopNum CurOpSchemePtr).EquipListNumForLastStage = CurEquipListPtr then
    min ChangeInLoad (st.equipList LoopNum CurOpSchemePtr CurEquipListPtr).RangeUpperLimit
  else ChangeInLoad

/-- `AdjustChangeInLoadByEMSControls`: the load change is zeroed when the half
loop or the branch is shut down by EMS, or the component override value is 0. -/
def AdjustChangeInLoadByEMSControls (st : PlantState)
    (LoopNum LoopSideNum BranchNum CompNum : Nat) (ChangeInLoad : ℚ) : ℚ :=
  if (st.side LoopNum LoopSideNum).EMSCtrl ∧ (st.side LoopNum LoopSideNum).EMSValue ≤ 0 then 0
  else if (st.branch LoopNum LoopSideNum BranchNum).EMSCtrlOverrideOn ∧
      (st.branch LoopNum LoopSideNum BranchNum).EMSCtrlOverrideValue ≤ 0 then 0
  else if (st.comp LoopNum LoopSideNum BranchNum CompNum).EMSLoadOverrideOn ∧
      (st.comp LoopNum LoopSideNum BranchNum CompNum).EMSLoadOverrideValue = 0 then 0
  else ChangeInLoad

/-- The outlet temperature capacity `QdotTmp = CurMassFlowRate * CurSpecHeat * dT`
used by `AdjustChangeInLoadByHowServed`, applied only for a positive mass flow;
`dT` is `Tinlet - ToutLowLimit` (chillers) or `ToutHiLimit - Tinlet` (boilers). -/
def outletLimitCorrection (env : Env) (st : PlantState) (LoopNum LoopSideNum BranchNum CompNum : Nat)
    (lowLimit : Bool) (ChangeInLoad : ℚ) : ℚ :=
  let c := st.comp LoopNum LoopSideNum BranchNum CompNum
  let CurMassFlowRate := (env.Node c.NodeNumIn).MassFlowRate
  let Tinlet := (env.Node c.NodeNumIn).Temp
  let CurSpecHeat := env.GetSpecificHeatGlycol (st.PlantLoop LoopNum).FluidIndex Tinlet
  let QdotTmp :=
    if lowLimit then CurMassFlowRate * CurSpecHeat * (Tinlet - c.MinOutletTemp)
    else CurMassFlowRate * CurSpecHeat * (c.MaxOutletTemp - Tinlet)
  if CurMassFlowRate > 0 then min ChangeInLoad QdotTmp else ChangeInLoad

/-- The sensor temperature `Tsensor` of the free cooling control; with a mode
that is none of the three constants the `static` keeps its previous value. -/
def freeCoolTsensor (env : Env) (st : PlantState) (c : CompData) : ℚ :=
  match c.FreeCoolCntrlMode with
  | FreeCoolControlMode.FreeCoolControlMode_WetBulb => env.OutWetBulbTemp
  | FreeCoolControlMode.FreeCoolControlMode_DryBulb => env.OutDryBulbTemp
  | FreeCoolControlMode.FreeCoolControlMode_Loop =>
      if c.FreeCoolCntrlNodeNum > 0 then (env.Node c.FreeCoolCntrlNodeNum).TempLastTimestep
      else 23
  | FreeCoolControlMode.FreeCoolControlMode_Unset => st.Tsensor

/-- `AdjustChangeInLoadByHowServed`: limits the load change according to the
way the component serves load; the free cooling modes also set `Available`
and `FreeCoolCntrlShutDown` of the component. -/
def AdjustChangeInLoadByHowServed (env : Env) (st : PlantState)
    (LoopNum LoopSideNum BranchNum CompNum : Nat) (ChangeInLoad : ℚ) : PlantState × ℚ :=
  let c := st.comp LoopNum LoopSideNum BranchNum CompNum
  match c.HowLoadServed with
  | HowMet.HowMet_ByNominalCapLowOutLimit =>
      (st, outletLimitCorrection env st LoopNum LoopSideNum BranchNum CompNum true ChangeInLoad)
  | HowMet.HowMet_ByNominalCapFreeCoolCntrl =>
      let TinLowLimit := c.FreeCoolCntrlMinCntrlTemp
      let Tsensor := freeCoolTsensor env st c
      let st1 : PlantState := { st with Tsensor := Tsensor }
      if Tsensor < TinLowLimit then
        (st1.modifyComp LoopNum LoopSideNum BranchNum CompNum
          (fun c => { c with Available := false, FreeCoolCntrlShutDown := true }), 0)
      else
        (st1.modifyComp LoopNum LoopSideNum BranchNum CompNum
          (fun c => { c with Available := true, FreeCoolCntrlShutDown := false }), ChangeInLoad)
  | HowMet.HowMet_ByNominalCapLowOutLimitFreeCoolCntrl =>
      let TinLowLimit := c.FreeCoolCntrlMinCntrlTemp
      let Tsensor := freeCoolTsensor env st c
      let st1 : PlantState := { st with Tsensor := Tsensor }
      if Tsensor < TinLowLimit then
        (st1.modifyComp LoopNum LoopSideNum BranchNum CompNum
          (fun c => { c with Available := false, FreeCoolCntrlShutDown := true }), 0)
      else
        let st2 := st1.modifyComp LoopNum LoopSideNum BranchNum CompNum
          (fun c => { c with Available := true, FreeCoolCntrlShutDown := false })
        (st2, outletLimitCorrection env st2 LoopNum LoopSideNum BranchNum CompNum true ChangeInLoad)
  | HowMet.HowMet_ByNominalCapHiOutLimit =>
      (st, outletLimitCorrection env st LoopNum LoopSideNum BranchNum CompNum false ChangeInLoad)
  | HowMet.HowMet_PassiveCap => (st, ChangeInLoad)
  | _ => (st, ChangeInLoad)

/-- The three adjustments applied in a row to a first-pass load change, then
`max( 0.0, ChangeInLoad )`. -/
def adjustChangeInLoad (env : Env) (st : PlantState)
    (LoopNum LoopSideNum CurSchemePtr ListPtr BranchNum CompNum : Nat) (ChangeInLoad : ℚ) :
    PlantState × ℚ :=
  let c1 := AdjustChangeInLoadForLastStageUpperRangeLimit st LoopNum CurSchemePtr ListPtr ChangeInLoad
  let c2 := AdjustChangeInLoadByEMSControls st LoopNum LoopSideNum BranchNum CompNum c1
  let r := AdjustChangeInLoadByHowServed env st LoopNum LoopSideNum BranchNum CompNum c2
  (r.1, max 0 r.2)

/-- `if ( std::abs( RemLoopDemand ) < SmallLoad ) RemLoopDemand = 0.0;` -/
def snapRem (env : Env) (RemLoopDemand : ℚ) : ℚ :=
  if |RemLoopDemand| < env.SmallLoad then 0 else RemLoopDemand

/-- Body of the first loop of a policy (optimal step 1, the sequential loop,
uniform step 1) for list position `CompIndex`; `target c rem` is the unadjusted
load change of component `c` at remaining demand `rem`. -/
def firstPassBody (env : Env) (LoopNum LoopSideNum CurSchemePtr ListPtr : Nat)
    (target : CompData → ℚ → ℚ) (acc : PlantState × ℚ) (CompIndex : Nat) : PlantState × ℚ :=
  let st := acc.1
  let RemLoopDemand := acc.2
  let BranchNum := ((st.equipList LoopNum CurSchemePtr ListPtr).Comp CompIndex).BranchNumPtr
  let CompNum := ((st.equipList LoopNum CurSchemePtr ListPtr).Comp CompIndex).CompNumPtr
  if (st.comp LoopNum LoopSideNum BranchNum CompNum).Available = false then acc
  else
    let ChangeInLoad0 := target (st.comp LoopNum LoopSideNum BranchNum CompNum) RemLoopDemand
    let r := adjustChangeInLoad env st LoopNum LoopSideNum CurSchemePtr ListPtr BranchNum CompNum
      ChangeInLoad0
    let ChangeInLoad := r.2
    let st2 := r.1.modifyComp LoopNum LoopSideNum BranchNum CompNum
      (fun c => { c with MyLoad := sign ChangeInLoad RemLoopDemand })
    (st2, snapRem env (RemLoopDemand - sign ChangeInLoad RemLoopDemand))

/-- Optimal step 1: `min( OptLoad, |RemLoopDemand| )`, or `|RemLoopDemand|`
when `OptLoad` is not positive. -/
def optimalTarget (c : CompData) (RemLoopDemand : ℚ) : ℚ :=
  if c.OptLoad > 0 then min c.OptLoad |RemLoopDemand| else |RemLoopDemand|

/-- Sequential loop: `min( MaxLoad, |RemLoopDemand| )`, or `|RemLoopDemand|`
when `MaxLoad` is not positive. -/
def sequentialTarget (c : CompData) (RemLoopDemand : ℚ) : ℚ :=
  if c.MaxLoad > 0 then min c.MaxLoad |RemLoopDemand| else |RemLoopDemand|

/-- Uniform step 1: `min( MaxLoad, UniformLoad )`, or `|RemLoopDemand|` when
`MaxLoad` is not positive. -/
def uniformTarget (UniformLoad : ℚ) (c : CompData) (RemLoopDemand : ℚ) : ℚ :=
  if c.MaxLoad > 0 then min c.MaxLoad UniformLoad else |RemLoopDemand|

/-- Optimal step 2 for list position `CompIndex`: add `DivideLoad` to the
component, up to `MaxLoad`. -/
def optimalStep2Body (env : Env) (LoopNum LoopSideNum CurSchemePtr ListPtr : Nat)
    (DivideLoad : ℚ) (acc : PlantState × ℚ) (CompIndex : Nat) : PlantState × ℚ :=
  let st := acc.1
  let RemLoopDemand := acc.2
  let BranchNum := ((st.equipList LoopNum CurSchemePtr ListPtr).Comp CompIndex).BranchNumPtr
  let CompNum := ((st.equipList LoopNum CurSchemePtr ListPtr).Comp CompIndex).CompNumPtr
  let c := st.comp LoopNum LoopSideNum BranchNum CompNum
  if c.Available = false then acc
  else
    let NewLoad := min c.MaxLoad (|c.MyLoad| + DivideLoad)
    let ChangeInLoad := NewLoad - |c.MyLoad|
    let st2 := st.modifyComp LoopNum LoopSideNum BranchNum CompNum
      (fun c => { c with MyLoad := sign NewLoad RemLoopDemand })
    (st2, snapRem env (RemLoopDemand - sign ChangeInLoad RemLoopDemand))

/-- Optimal step 3 for list position `CompIndex`: put what remains into the
headroom `MaxLoad - |MyLoad|` of the component. -/
def optimalStep3Body (env : Env) (LoopNum LoopSideNum CurSchemePtr ListPtr : Nat)
    (acc : PlantState × ℚ) (CompIndex : Nat) : PlantState × ℚ :=
  let st := acc.1
  let RemLoopDemand := acc.2
  let BranchNum := ((st.equipList LoopNum CurSchemePtr ListPtr).Comp CompIndex).BranchNumPtr
  let CompNum := ((st.equipList LoopNum CurSchemePtr ListPtr).Comp CompIndex).CompNumPtr
  let c := st.comp LoopNum LoopSideNum BranchNum CompNum
  if c.Available = false then acc
  else
    let DivideLoad := c.MaxLoad - |c.MyLoad|
    let ChangeInLoad := min |RemLoopDemand| DivideLoad
    let st2 := st.modifyComp LoopNum LoopSideNum BranchNum CompNum
      (fun c => { c with MyLoad := c.MyLoad + sign ChangeInLoad RemLoopDemand })
    (st2, snapRem env (RemLoopDemand - sign ChangeInLoad RemLoopDemand))

/-- Uniform step 2 for list position `CompIndex`: the remainder goes to the
components in list order, each up to its headroom. -/
def uniformStep2Body (env : Env) (LoopNum LoopSideNum CurSchemePtr ListPtr : Nat)
    (acc : PlantState × ℚ) (CompIndex : Nat) : PlantState × ℚ :=
  let st := acc.1
  let RemLoopDemand := acc.2
  let BranchNum := ((st.equipList LoopNum CurSchemePtr ListPtr).Comp CompIndex).BranchNumPtr
  let CompNum := ((st.equipList LoopNum CurSchemePtr ListPtr).Comp CompIndex).CompNumPtr
  let c := st.comp LoopNum LoopSideNum BranchNum CompNum
  if c.Available = false then acc
  else
    let ChangeInLoad := max 0 (min (c.MaxLoad - |c.MyLoad|) |RemLoopDemand|)
    let st2 := st.modifyComp LoopNum LoopSideNum BranchNum CompNum
      (fun c => { c with MyLoad := c.MyLoad + sign ChangeInLoad RemLoopDemand })
    (st2, snapRem env (RemLoopDemand - sign ChangeInLoad RemLoopDemand))

/-- The optimal distribution scheme: steps 1, 2 and 3. -/
def distributeOptimal (env : Env) (LoopNum LoopSideNum CurSchemePtr ListPtr NumCompsOnList : Nat)
    (acc : PlantState × ℚ) : PlantState × ℚ :=
  let a1 := forLoop (firstPassBody env LoopNum LoopSideNum CurSchemePtr ListPtr optimalTarget)
    acc NumCompsOnList
  let a2 :=
    if |a1.2| > env.SmallLoad then
      forLoop (optimalStep2Body env LoopNum LoopSideNum CurSchemePtr ListPtr
        (|a1.2| / (NumCompsOnList : ℚ))) a1 NumCompsOnList
    else a1
  if |a2.2| > env.SmallLoad then
    forLoop (optimalStep3Body env LoopNum LoopSideNum CurSchemePtr ListPtr) a2 NumCompsOnList
  else a2

/-- The sequential distribution scheme. -/
def distributeSequential (env : Env) (LoopNum LoopSideNum CurSchemePtr ListPtr NumCompsOnList : Nat)
    (acc : PlantState × ℚ) : PlantState × ℚ :=
  forLoop (firstPassBody env LoopNum LoopSideNum CurSchemePtr ListPtr sequentialTarget)
    acc NumCompsOnList

/-- The uniform distribution scheme: steps 1 and 2. -/
def distributeUniform (env : Env) (LoopNum LoopSideNum CurSchemePtr ListPtr NumCompsOnList : Nat)
    (acc : PlantState × ℚ) : PlantState × ℚ :=
  let UniformLoad := |acc.2| / (NumCompsOnList : ℚ)
  let a1 := forLoop (firstPassBody env LoopNum LoopSideNum CurSchemePtr ListPtr
    (uniformTarget UniformLoad)) acc NumCompsOnList
  if |a1.2| > env.SmallLoad then
    forLoop (uniformStep2Body env LoopNum LoopSideNum CurSchemePtr ListPtr) a1 NumCompsOnList
  else a1

/-- The closing loop of `DistributePlantLoad` for list position `CompIndex`:
`ON` is false when `|MyLoad| < SmallLoad` and true otherwise. -/
def updateOnFlagBody (env : Env) (LoopNum LoopSideNum CurSchemePtr ListPtr : Nat)
    (st : PlantState) (CompIndex : Nat) : PlantState :=
  let BranchNum := ((st.equipList LoopNum CurSchemePtr ListPtr).Comp CompIndex).BranchNumPtr
  let CompNum := ((st.equipList LoopNum CurSchemePtr ListPtr).Comp CompIndex).CompNumPtr
  if |(st.comp LoopNum LoopSideNum BranchNum CompNum).MyLoad| < env.SmallLoad then
    st.modifyComp LoopNum LoopSideNum BranchNum CompNum (fun c => { c with ON := false })
  else
    st.modifyComp LoopNum LoopSideNum BranchNum CompNum (fun c => { c with ON := true })

/-- `DistributePlantLoad`: returns the new plant data and `RemLoopDemand`. -/
def DistributePlantLoad (env : Env) (st : PlantState)
    (LoopNum LoopSideNum CurSchemePtr ListPtr : Nat) (LoopDemand : ℚ) : PlantState × ℚ :=
  let NumCompsOnList := (st.equipList LoopNum CurSchemePtr ListPtr).NumComps
  let RemLoopDemand := LoopDemand
  if NumCompsOnList = 0 then (st, RemLoopDemand)
  else
    let a :=
      if |RemLoopDemand| < env.SmallLoad then (st, RemLoopDemand)
      else
        match (st.PlantLoop LoopNum).LoadDistribution with
        | LoadingScheme.OptimalLoading =>
            distributeOptimal env LoopNum LoopSideNum CurSchemePtr ListPtr NumCompsOnList
              (st, RemLoopDemand)
        | LoadingScheme.SequentialLoading =>
            distributeSequential env LoopNum LoopSideNum CurSchemePtr ListPtr NumCompsOnList
              (st, RemLoopDemand)
        | LoadingScheme.UniformLoading =>
            distributeUniform env LoopNum LoopSideNum CurSchemePtr ListPtr NumCompsOnList
              (st, RemLoopDemand)
        | LoadingScheme.UnsetLoading => (st, RemLoopDemand)
    (forLoop (updateOnFlagBody env LoopNum LoopSideNum CurSchemePtr ListPtr) a.1 NumCompsOnList,
      a.2)

/-! ## On/off utilities -/

/-- `TurnOnPlantLoopPipes`: every pipe component of the half loop is set `ON`. -/
def TurnOnPlantLoopPipes (st : PlantState) (LoopNum LoopSideNum : Nat) : PlantState :=
  forLoop (fun st Num =>
    forLoop (fun st MachineOnLoopNum =>
      match (st.comp LoopNum LoopSideNum Num MachineOnLoopNum).TypeOf_Num with
      | PlantEquipType.TypeOf_Pipe | PlantEquipType.TypeOf_PipeInterior
      | PlantEquipType.TypeOf_PipeExterior | PlantEquipType.TypeOf_PipeUnderground =>
          st.modifyComp LoopNum LoopSideNum Num MachineOnLoopNum (fun c => { c with ON := true })
      | _ => st)
      st (st.branch LoopNum LoopSideNum Num).TotalComponents)
    st (st.side LoopNum LoopSideNum).TotalBranches

/-- Body shared by `TurnOffLoopEquipment` and `TurnOffLoopSideEquipment`: a
component that is not a pump gets `ON = false` and `MyLoad = 0.0`. -/
def turnOffComp (LoopNum LoopSideNum Num : Nat) (st : PlantState) (MachineOnBranch : Nat) :
    PlantState :=
  if (st.comp LoopNum LoopSideNum Num MachineOnBranch).GeneralEquipType
      ≠ GenEquipType.GenEquipTypes_Pump then
    st.modifyComp LoopNum LoopSideNum Num MachineOnBranch
      (fun c => { c with ON := false, MyLoad := 0 })
  else st

/-- `TurnOffLoopSideEquipment`: the two nested loops over the branches and the
components of one half loop. -/
def TurnOffLoopSideEquipment (st : PlantState) (LoopNum LoopSideNum : Nat) : PlantState :=
  forLoop (fun st Num =>
    forLoop (turnOffComp LoopNum LoopSideNum Num) st
      (st.branch LoopNum LoopSideNum Num).TotalComponents)
    st (st.side LoopNum LoopSideNum).TotalBranches

/-- `TurnOffLoopEquipment`: the same loops for `LoopSideNum = 1, 2`. -/
def TurnOffLoopEquipment (st : PlantState) (LoopNum : Nat) : PlantState :=
  forLoop (fun st LoopSideNum =>
    forLoop (fun st Num =>
      forLoop (turnOffComp LoopNum LoopSideNum Num) st
        (st.branch LoopNum LoopSideNum Num).TotalComponents)
      st (st.side LoopNum LoopSideNum).TotalBranches)
    st 2

/-! ## EMS controls -/

/-- The chiller branch of `ActivateEMSControls`: `MyLoad` of an electric chiller
is cut to `MaxLoad` and then to `QTemporary`, when `QTemporary > 0`. -/
def emsChillerClamp (env : Env) (st : PlantState) (LoopNum LoopSideNum BranchNum CompNum : Nat) :
    PlantState :=
  let c := st.comp LoopNum LoopSideNum BranchNum CompNum
  let CurMassFlowRate := (env.Node c.NodeNumIn).MassFlowRate
  let ToutLowLimit := c.MinOutletTemp
  let Tinlet := (env.Node c.NodeNumIn).Temp
  let CurSpecHeat := env.GetSpecificHeatGlycol (st.PlantLoop LoopNum).FluidIndex Tinlet
  let QTemporary := CurMassFlowRate * CurSpecHeat * (Tinlet - ToutLowLimit)
  if QTemporary > 0 then
    let st1 :=
      if |c.MyLoad| > c.MaxLoad then
        st.modifyComp LoopNum LoopSideNum BranchNum CompNum
          (fun c => { c with MyLoad := sign c.MaxLoad c.MyLoad })
      else st
    if |(st1.comp LoopNum LoopSideNum BranchNum CompNum).MyLoad| > QTemporary then
      st1.modifyComp LoopNum LoopSideNum BranchNum CompNum
        (fun c => { c with MyLoad := sign QTemporary c.MyLoad })
    else st1
  else st

/-- `ActivateEMSControls`: returns the new plant data and `LoopShutDownFlag`. -/
def ActivateEMSControls (env : Env) (st : PlantState)
    (LoopNum LoopSideNum BranchNum CompNum : Nat) : PlantState × Bool :=
  if (st.PlantLoop LoopNum).EMSCtrl ∧ (st.PlantLoop LoopNum).EMSValue ≤ 0 then
    (TurnOffLoopEquipment st LoopNum, true)
  else if (st.side LoopNum LoopSideNum).EMSCtrl ∧ (st.side LoopNum LoopSideNum).EMSValue ≤ 0 then
    (TurnOffLoopSideEquipment st LoopNum LoopSideNum, false)
  else if (st.comp LoopNum LoopSideNum BranchNum CompNum).EMSLoadOverrideOn then
    if (st.comp LoopNum LoopSideNum BranchNum CompNum).EMSLoadOverrideValue ≤ 0 then
      (st.modifyComp LoopNum LoopSideNum BranchNum CompNum
        (fun c => { c with ON := false, Available := false, MyLoad := 0 }), false)
    else
      let st1 := st.modifyComp LoopNum LoopSideNum BranchNum CompNum
        (fun c => { c with ON := true, Available := false,
                           MyLoad := min c.MaxLoad (c.MaxLoad * c.EMSLoadOverrideValue) })
      match (st1.comp LoopNum LoopSideNum BranchNum CompNum).TypeOf_Num with
      | PlantEquipType.TypeOf_Chiller_ElectricEIR | PlantEquipType.TypeOf_Chiller_Electric
      | PlantEquipType.TypeOf_Chiller_ElectricReformEIR =>
          (emsChillerClamp env st1 LoopNum LoopSideNum BranchNum CompNum, false)
      | _ => (st1, false)
  else (st, false)

/-! ## Initialisation at the first HVAC iteration (`InitLoadDistribution`) -/

/-- The EMS block of `InitLoadDistribution`: initialisation programs of the
user-defined schemes are run once per environment. -/
def initEMSPrograms (env : Env) (st : PlantState) : PlantState :=
  if env.AnyEMSPlantOpSchemesInModel then
    forLoop (fun st LoopNum =>
      forLoop (fun st OpNum =>
        if (st.opScheme LoopNum OpNum).OpSchemeType = OpSchemeType.EMSOpSchemeType then
          let st1 :=
            if env.BeginEnvrnFlag ∧ (st.opScheme LoopNum OpNum).MyEnvrnFlag then
              let st0 :=
                if (st.opScheme LoopNum OpNum).ErlInitProgramMngr > 0 then
                  env.ManageEMS (st.opScheme LoopNum OpNum).ErlInitProgramMngr st
                else st
              st0.modifyOpScheme LoopNum OpNum (fun o => { o with MyEnvrnFlag := false })
            else st
          if env.BeginEnvrnFlag = false then
            st1.modifyOpScheme LoopNum OpNum (fun o => { o with MyEnvrnFlag := true })
          else st1
        else st)
        st (st.PlantLoop LoopNum).NumOpSchemes)
      st st.TotNumLoops
  else st

/-- The per-component reset of the first HVAC iteration: on, available, no
load, no EMS load override; the scheme type becomes "no control" unless it is
one of demand, pump, water side economizer or no control; no current scheme. -/
def resetComp (c : CompData) : CompData :=
  let c1 : CompData :=
    { c with ON := true, Available := true, MyLoad := 0, EMSLoadOverrideOn := false }
  let c2 : CompData :=
    if c1.CurOpSchemeType ≠ OpSchemeType.DemandOpSchemeType ∧
        c1.CurOpSchemeType ≠ OpSchemeType.PumpOpSchemeType ∧
        c1.CurOpSchemeType ≠ OpSchemeType.WSEconOpSchemeType ∧
        c1.CurOpSchemeType ≠ OpSchemeType.NoControlOpSchemeType then
      { c1 with CurOpSchemeType := OpSchemeType.NoControlOpSchemeType }
    else c1
  { c2 with CurCompLevelOpNum := 0 }

/-- The reset loops over every loop, half loop, branch and component. -/
def resetAllComps (st : PlantState) : PlantState :=
  forLoop (fun st LoopNum =>
    forLoop (fun st LoopSideNum =>
      forLoop (fun st BranchNum =>
        forLoop (fun st CompNum =>
          st.modifyComp LoopNum LoopSideNum BranchNum CompNum resetComp)
          st (st.branch LoopNum LoopSideNum BranchNum).TotalComponents)
        st (st.side LoopNum LoopSideNum).TotalBranches)
      st 2)
    st st.TotNumLoops

/-- One member of an equipment list of an available scheme: the component it
points to takes the scheme type (a pump raises `errFlag2`) and its
`CurCompLevelOpNum` becomes the index of scheme `OpNum` among its own schemes. -/
def activateListMember (LoopNum OpNum ListNum : Nat) (acc : PlantState × Bool) (CompNum : Nat) :
    PlantState × Bool :=
  let st := acc.1
  let m := (st.equipList LoopNum OpNum ListNum).Comp CompNum
  let LoopPtr := m.LoopNumPtr
  let LoopSidePtr := m.LoopSideNumPtr
  let BranchPtr := m.BranchNumPtr
  let CompPtr := m.CompNumPtr
  let acc1 : PlantState × Bool :=
    if (st.comp LoopPtr LoopSidePtr BranchPtr CompPtr).CurOpSchemeType
        ≠ OpSchemeType.PumpOpSchemeType then
      (st.modifyComp LoopPtr LoopSidePtr BranchPtr CompPtr
        (fun c => { c with CurOpSchemeType := (st.opScheme LoopNum OpNum).OpSchemeType }), acc.2)
    else (st, true)
  (forLoop (fun st CompOpNum =>
      if ((st.comp LoopPtr LoopSidePtr BranchPtr CompPtr).OpScheme CompOpNum).OpSchemePtr = OpNum then
        st.modifyComp LoopPtr LoopSidePtr BranchPtr CompPtr
          (fun c => { c with CurCompLevelOpNum := CompOpNum })
      else st)
    acc1.1 (acc1.1.comp LoopPtr LoopSidePtr BranchPtr CompPtr).NumOpSchemes, acc1.2)

/-- The schedule update for scheme `OpNum` of loop `LoopNum`. -/
def updateOpScheme (env : Env) (LoopNum : Nat) (acc : PlantState × Bool) (OpNum : Nat) :
    PlantState × Bool :=
  let st := acc.1
  if env.GetCurrentScheduleValue (st.opScheme LoopNum OpNum).SchedPtr > 0 then
    let st1 := st.modifyOpScheme LoopNum OpNum (fun o => { o with Available := true })
    forLoop (fun acc ListNum =>
      forLoop (activateListMember LoopNum OpNum ListNum) acc
        (acc.1.equipList LoopNum OpNum ListNum).NumComps)
      (st1, acc.2) (st1.opScheme LoopNum OpNum).NumEquipLists
  else
    (st.modifyOpScheme LoopNum OpNum (fun o => { o with Available := false }), acc.2)

/-- The `FirstHVACIteration` block of `InitLoadDistribution`: reset of every
component, then the schedule update of every scheme of every loop. The second
component is `errFlag2`. -/
def firstHVACInits (env : Env) (st : PlantState) : PlantState × Bool :=
  forLoop (fun acc LoopNum =>
    forLoop (updateOpScheme env LoopNum) acc (acc.1.PlantLoop LoopNum).NumOpSchemes)
    (resetAllComps st, false) st.TotNumLoops

/-- `InitLoadDistribution` after the input and one-time phases; a pump found on
an equipment list ends in `ShowFatalError`. -/
def InitLoadDistribution (env : Env) (st : PlantState) (FirstHVACIteration : Bool) :
    Except String PlantState :=
  let st1 := initEMSPrograms env st
  if FirstHVACIteration then
    let r := firstHVACInits env st1
    if r.2 then
      Except.error "InitLoadDistribution: Fatal error caused by previous severe error(s)."
    else Except.ok r.1
  else Except.ok st1

/-! ## Setpoint based and user defined dispatch -/

/-- `FindCompSPLoad`: load of a component under a component setpoint scheme. -/
def FindCompSPLoad (env : Env) (st : PlantState) (LoopNum LoopSideNum BranchNum CompNum OpNum : Nat) :
    PlantState :=
  let c := st.comp LoopNum LoopSideNum BranchNum CompNum
  let OpSchemePtr := (c.OpScheme OpNum).OpSchemePtr
  let ListPtr := ((c.OpScheme OpNum).EquipList 1).ListPtr
  let CompPtr := ((c.OpScheme OpNum).EquipList 1).CompPtr
  let CompMinLoad := c.MinLoad
  let CompMaxLoad := c.MaxLoad
  let m := (st.equipList LoopNum OpSchemePtr ListPtr).Comp CompPtr
  let DemandNode := m.DemandNodeNum
  let SetPtNode := m.SetPointNodeNum
  let TempIn := (env.Node DemandNode).Temp
  let rho := env.GetDensityGlycol (st.PlantLoop LoopNum).FluidIndex TempIn
  let DemandMdot0 := m.SetPointFlowRate * rho
  let ActualMdot := (env.Node DemandNode).MassFlowRate
  let CurSpecHeat := env.GetSpecificHeatGlycol (st.PlantLoop LoopNum).FluidIndex TempIn
  let DemandMdot := if ActualMdot > 0 ∧ ActualMdot ≠ DemandMdot0 then ActualMdot else DemandMdot0
  let TempSetPt : ℚ :=
    match (st.PlantLoop LoopNum).LoopDemandCalcScheme with
    | DemandCalcScheme.SingleSetPoint => (env.Node SetPtNode).TempSetPoint
    | DemandCalcScheme.DualSetPointDeadBand =>
        match m.CtrlTypeNum with
        | CtrlType.CoolingOp => (env.Node SetPtNode).TempSetPointHi
        | CtrlType.HeatingOp => (env.Node SetPtNode).TempSetPointLo
        | CtrlType.DualOp =>
            let CurrentDemandForCoolingOp :=
              DemandMdot * CurSpecHeat * ((env.Node SetPtNode).TempSetPointHi - TempIn)
            let CurrentDemandForHeatingOp :=
              DemandMdot * CurSpecHeat * ((env.Node SetPtNode).TempSetPointLo - TempIn)
            if CurrentDemandForCoolingOp < 0 ∧ CurrentDemandForHeatingOp ≤ 0 then
              (env.Node SetPtNode).TempSetPointHi
            else if CurrentDemandForCoolingOp ≥ 0 ∧ CurrentDemandForHeatingOp > 0 then
              (env.Node SetPtNode).TempSetPointLo
            else TempIn
  if TempSetPt = env.SensedNodeFlagValue then
    st.modifyComp LoopNum LoopSideNum BranchNum CompNum
      (fun c => { c with ON := false, MyLoad := 0, EquipDemand := 0 })
  else
    let CompDemand0 := DemandMdot * CurSpecHeat * (TempSetPt - TempIn)
    let CompDemand := if |CompDemand0| < env.LoopDemandTol then 0 else CompDemand0
    let runs : Bool :=
      match m.CtrlTypeNum with
      | CtrlType.CoolingOp => decide (CompDemand < -env.LoopDemandTol)
      | CtrlType.HeatingOp => decide (CompDemand > env.LoopDemandTol)
      | CtrlType.DualOp =>
          decide (CompDemand > env.LoopDemandTol ∨ CompDemand < -env.LoopDemandTol)
    let MyLoad1 : ℚ := if runs then CompDemand else 0
    let MyLoad2 : ℚ := if |MyLoad1| > CompMaxLoad then sign CompMaxLoad MyLoad1 else MyLoad1
    let MyLoad3 : ℚ := if |MyLoad2| < CompMinLoad then sign CompMinLoad MyLoad2 else MyLoad2
    st.modifyComp LoopNum LoopSideNum BranchNum CompNum
      (fun c => { c with EquipDemand := CompDemand, ON := runs, MyLoad := MyLoad3 })

/-- Assignment to fields of `PlantLoop( L ).OpScheme( P ).EquipList( K ).Comp( i )`. -/
def PlantState.modifyListMember (st : PlantState) (L P K i : Nat)
    (f : EquipListCompData → EquipListCompData) : PlantState :=
  st.modifyOpScheme L P (fun o =>
    { o with
      EquipList := Function.update o.EquipList K
        { o.EquipList K with Comp := Function.update (o.EquipList K).Comp i (f ((o.EquipList K).Comp i)) } })

/-- `DistributeUserDefinedPlantLoad`: the demand is handed to the user program
and the load it leaves in the actuator is adopted. Returns the new plant data
and the reference argument `RemLoopDemand`, which the body never assigns. -/
def DistributeUserDefinedPlantLoad (env : Env) (st : PlantState)
    (LoopNum LoopSideNum BranchNum CompNum CurCompLevelOpNum CurSchemePtr : Nat)
    (LoopDemand RemLoopDemand : ℚ) : PlantState × ℚ :=
  let CompPtr :=
    (((st.comp LoopNum LoopSideNum BranchNum CompNum).OpScheme CurCompLevelOpNum).EquipList 1).CompPtr
  let st1 := st.modifyListMember LoopNum CurSchemePtr 1 CompPtr
    (fun m => { m with EMSIntVarRemainingLoadValue := LoopDemand })
  let st2 :=
    if (st1.opScheme LoopNum CurSchemePtr).ErlSimProgramMngr > 0 then
      env.ManageEMS (st1.opScheme LoopNum CurSchemePtr).ErlSimProgramMngr st1
    else st1
  let v := ((st2.equipList LoopNum CurSchemePtr 1).Comp CompPtr).EMSActuatorDispatchedLoadValue
  (st2.modifyComp LoopNum LoopSideNum BranchNum CompNum
    (fun c => { c with MyLoad := v, EquipDemand := v, ON := decide (|v| > env.LoopDemandTol) }),
    RemLoopDemand)

/-! ## The driver (`ManagePlantLoadDistribution`) -/

/-- `FindRangeVariable`: node temperature minus the outdoor dry bulb, wet bulb
or dew point temperature; the source leaves the result unset for another
scheme type (never requested by the driver), rendered as 0. -/
def FindRangeVariable (env : Env) (st : PlantState) (LoopNum CurSchemePtr : Nat)
    (CurSchemeType : OpSchemeType) : ℚ :=
  let NodeTemperature := (env.Node (st.opScheme LoopNum CurSchemePtr).ReferenceNodeNumber).Temp
  match CurSchemeType with
  | OpSchemeType.DryBulbTDBOpSchemeType => NodeTemperature - env.OutDryBulbTemp
  | OpSchemeType.WetBulbTDBOpSchemeType => NodeTemperature - env.OutWetBulbTemp
  | OpSchemeType.DewPointTDBOpSchemeType => NodeTemperature - env.OutDewPointTemp
  | _ => 0

/-- `any( PlantLoop( LoopNum ).OpScheme.Available() )`. -/
def anyOpSchemeAvailable (st : PlantState) (LoopNum : Nat) : Bool :=
  forLoop (fun b OpNum => b || (st.opScheme LoopNum OpNum).Available) false
    (st.PlantLoop LoopNum).NumOpSchemes

/-- The search loop over the equipment lists of the calling component
(`for ( ListNum = 1; ListNum <= NumEquipLists; ++ListNum )` with its `break`
and `continue`): `remaining` iterations are left, starting at `ListNum`.
Returns `( CurListNum, ListPtr )` as they stand when the loop is left;
`CurListNum = 0` when no list was chosen. -/
def selectEquipList (st : PlantState) (LoopNum LoopSideNum BranchNum CompNum : Nat)
    (CurCompLevelOpNum CurSchemePtr : Nat) (RangeVariable : ℚ) :
    (remaining : Nat) → (ListNum : Nat) → (ListPtr : Nat) → Nat × Nat
  | 0, _, ListPtr => (0, ListPtr)
  | remaining + 1, ListNum, _ =>
      let ListPtr :=
        (((st.comp LoopNum LoopSideNum BranchNum CompNum).OpScheme CurCompLevelOpNum).EquipList
          ListNum).ListPtr
      let RangeHiLimit := (st.equipList LoopNum CurSchemePtr ListPtr).RangeUpperLimit
      let RangeLoLimit := (st.equipList LoopNum CurSchemePtr ListPtr).RangeLowerLimit
      let TestRangeVariable := |RangeVariable|
      if TestRangeVariable < RangeLoLimit ∨ TestRangeVariable > RangeHiLimit then
        if TestRangeVariable > RangeHiLimit ∧
            ListPtr = (st.opScheme LoopNum CurSchemePtr).EquipListNumForLastStage then
          (ListNum, ListPtr)
        else
          selectEquipList st LoopNum LoopSideNum BranchNum CompNum CurCompLevelOpNum CurSchemePtr
            RangeVariable remaining (ListNum + 1) ListPtr
      else (ListNum, ListPtr)

/-- The clean-up loop of the driver: for every `ListNum` other than
`CurListNum`, the components of `OpScheme( CurSchemePtr ).EquipList( ListNum )`
get `MyLoad = 0.0` (on the half loop of the call). -/
def nullOtherLists (st : PlantState) (LoopNum LoopSideNum CurSchemePtr NumEquipLists CurListNum : Nat) :
    PlantState :=
  forLoop (fun st ListNum =>
    if ListNum = CurListNum then st
    else
      forLoop (fun st CompIndex =>
        let EquipBranchNum := ((st.equipList LoopNum CurSchemePtr ListNum).Comp CompIndex).BranchNumPtr
        let EquipCompNum := ((st.equipList LoopNum CurSchemePtr ListNum).Comp CompIndex).CompNumPtr
        st.modifyComp LoopNum LoopSideNum EquipBranchNum EquipCompNum
          (fun c => { c with MyLoad := 0 }))
        st (st.equipList LoopNum CurSchemePtr ListNum).NumComps)
    st NumEquipLists

/-- What a call of the driver leaves behind: the plant data and the three
reference arguments it can write. -/
structure ManageResult where
  st : PlantState
  RemLoopDemand : ℚ
  LoopShutDownFlag : Bool
  LoadDistributionWasPerformed : Option Bool

/-- The range based branch of the driver once `RangeVariable` is known: list
search, clean-up of the other lists, pipes on, `DistributePlantLoad`. -/
def dispatchRangeBased (env : Env) (st : PlantState) (LoopNum LoopSideNum BranchNum CompNum : Nat)
    (CurCompLevelOpNum CurSchemePtr NumEquipLists : Nat) (RangeVariable LoopDemand RemLoopDemand : ℚ)
    (LoopShutDownFlag : Bool) (LoadDistributionWasPerformed : Option Bool) : ManageResult :=
  let sel := selectEquipList st LoopNum LoopSideNum BranchNum CompNum CurCompLevelOpNum CurSchemePtr
    RangeVariable NumEquipLists 1 0
  let CurListNum := sel.1
  let ListPtr := sel.2
  if CurListNum > 0 then
    let st1 := nullOtherLists st LoopNum LoopSideNum CurSchemePtr NumEquipLists CurListNum
    if (st1.equipList LoopNum CurSchemePtr ListPtr).NumComps > 0 then
      let st2 := TurnOnPlantLoopPipes st1 LoopNum LoopSideNum
      let r := DistributePlantLoad env st2 LoopNum LoopSideNum CurSchemePtr ListPtr LoopDemand
      { st := r.1, RemLoopDemand := r.2, LoopShutDownFlag := LoopShutDownFlag,
        LoadDistributionWasPerformed := LoadDistributionWasPerformed.map (fun _ => true) }
    else
      { st := st1, RemLoopDemand := RemLoopDemand, LoopShutDownFlag := LoopShutDownFlag,
        LoadDistributionWasPerformed := LoadDistributionWasPerformed }
  else
    { st := st, RemLoopDemand := RemLoopDemand, LoopShutDownFlag := LoopShutDownFlag,
      LoadDistributionWasPerformed := LoadDistributionWasPerformed }

/-- The zero-demand exit of the load range based schemes: initialisation, then
the calling component gets `MyLoad = 0.0` and `ON = false`. -/
def zeroDemandExit (env : Env) (st : PlantState) (LoopNum LoopSideNum BranchNum CompNum : Nat)
    (RemLoopDemand : ℚ) (FirstHVACIteration LoopShutDownFlag : Bool)
    (LoadDistributionWasPerformed : Option Bool) : Except String ManageResult :=
  match InitLoadDistribution env st FirstHVACIteration with
  | Except.error e => Except.error e
  | Except.ok st1 =>
      Except.ok
        { st := st1.modifyComp LoopNum LoopSideNum BranchNum CompNum
            (fun c => { c with MyLoad := 0, ON := false }),
          RemLoopDemand := RemLoopDemand, LoopShutDownFlag := LoopShutDownFlag,
          LoadDistributionWasPerformed := LoadDistributionWasPerformed }

/-- `ManagePlantLoadDistribution`. `LoopDemand` is only read; the result holds
the plant data, `RemLoopDemand`, `LoopShutDownFlag` and the optional
`LoadDistributionWasPerformed`; `ShowFatalError` is `Except.error`. -/
def ManagePlantLoadDistribution (env : Env) (st : PlantState)
    (LoopNum LoopSideNum BranchNum CompNum : Nat) (LoopDemand RemLoopDemand : ℚ)
    (FirstHVACIteration LoopShutDownFlag : Bool) (LoadDistributionWasPerformed : Option Bool) :
    Except String ManageResult :=
  if LoopShutDownFlag then
    Except.ok { st := TurnOffLoopEquipment st LoopNum, RemLoopDemand := RemLoopDemand,
                LoopShutDownFlag := LoopShutDownFlag,
                LoadDistributionWasPerformed := LoadDistributionWasPerformed }
  else if anyOpSchemeAvailable st LoopNum = false then
    Except.ok { st := st, RemLoopDemand := RemLoopDemand, LoopShutDownFlag := LoopShutDownFlag,
                LoadDistributionWasPerformed := LoadDistributionWasPerformed }
  else
    let a := ActivateEMSControls env st LoopNum LoopSideNum BranchNum CompNum
    let st := a.1
    let LoopShutDownFlag := a.2
    let CurCompLevelOpNum := (st.comp LoopNum LoopSideNum BranchNum CompNum).CurCompLevelOpNum
    if CurCompLevelOpNum = 0 then
      Except.ok { st := st, RemLoopDemand := RemLoopDemand, LoopShutDownFlag := LoopShutDownFlag,
                  LoadDistributionWasPerformed := LoadDistributionWasPerformed }
    else
      let NumEquipLists :=
        ((st.comp LoopNum LoopSideNum BranchNum CompNum).OpScheme CurCompLevelOpNum).NumEquipLists
      let CurSchemePtr :=
        ((st.comp LoopNum LoopSideNum BranchNum CompNum).OpScheme CurCompLevelOpNum).OpSchemePtr
      let CurSchemeType := (st.opScheme LoopNum CurSchemePtr).OpSchemeType
      let ranged (RangeVariable : ℚ) : Except String ManageResult :=
        Except.ok (dispatchRangeBased env st LoopNum LoopSideNum BranchNum CompNum CurCompLevelOpNum
          CurSchemePtr NumEquipLists RangeVariable LoopDemand RemLoopDemand LoopShutDownFlag
          LoadDistributionWasPerformed)
      match CurSchemeType with
      | OpSchemeType.UncontrolledOpSchemeType =>
          Except.ok { st := st, RemLoopDemand := RemLoopDemand, LoopShutDownFlag := LoopShutDownFlag,
                      LoadDistributionWasPerformed := LoadDistributionWasPerformed }
      | OpSchemeType.CompSetPtBasedSchemeType =>
          Except.ok
            { st := FindCompSPLoad env (TurnOnPlantLoopPipes st LoopNum LoopSideNum) LoopNum
                LoopSideNum BranchNum CompNum CurCompLevelOpNum,
              RemLoopDemand := RemLoopDemand, LoopShutDownFlag := LoopShutDownFlag,
              LoadDistributionWasPerformed := LoadDistributionWasPerformed }
      | OpSchemeType.EMSOpSchemeType =>
          match InitLoadDistribution env st FirstHVACIteration with
          | Except.error e => Except.error e
          | Except.ok st1 =>
              let r := DistributeUserDefinedPlantLoad env (TurnOnPlantLoopPipes st1 LoopNum LoopSideNum)
                LoopNum LoopSideNum BranchNum CompNum CurCompLevelOpNum CurSchemePtr LoopDemand
                RemLoopDemand
              Except.ok
                { st := r.1, RemLoopDemand := r.2, LoopShutDownFlag := LoopShutDownFlag,
                  LoadDistributionWasPerformed := LoadDistributionWasPerformed }
      | OpSchemeType.HeatingRBOpSchemeType =>
          if LoopDemand < env.SmallLoad then
            zeroDemandExit env st LoopNum LoopSideNum BranchNum CompNum RemLoopDemand
              FirstHVACIteration LoopShutDownFlag LoadDistributionWasPerformed
          else ranged LoopDemand
      | OpSchemeType.CoolingRBOpSchemeType =>
          if LoopDemand > -1 * env.SmallLoad then
            zeroDemandExit env st LoopNum LoopSideNum BranchNum CompNum RemLoopDemand
              FirstHVACIteration LoopShutDownFlag LoadDistributionWasPerformed
          else ranged LoopDemand
      | OpSchemeType.DryBulbRBOpSchemeType => ranged env.OutDryBulbTemp
      | OpSchemeType.WetBulbRBOpSchemeType => ranged env.OutWetBulbTemp
      | OpSchemeType.RelHumRBOpSchemeType => ranged env.OutRelHum
      | OpSchemeType.DewPointRBOpSchemeType => ranged env.OutDewPointTemp
      | OpSchemeType.DryBulbTDBOpSchemeType | OpSchemeType.WetBulbTDBOpSchemeType
      | OpSchemeType.DewPointTDBOpSchemeType =>
          ranged (FindRangeVariable env st LoopNum CurSchemePtr CurSchemeType)
      | _ =>
          Except.error "Invalid Operation Scheme Type Requested, in ManagePlantLoadDistribution"

/-! ## Input checks (`FindRangeBasedOrUncontrolledInput`) -/

/-- A `ShowWarningError` of the overlap check of
`FindRangeBasedOrUncontrolledInput`: the lower, or the upper, limit of range
`InnerListNum` lies within range `ListNum`. -/
inductive OverlapWarning where
  | lowerLimitWithin (InnerListNum ListNum : Nat)
  | upperLimitWithin (InnerListNum ListNum : Nat)
  deriving DecidableEq

/-- One pass of the inner loop of the overlap check: range `InnerListNum`
against the outer range `ListNum`; the warnings are appended to the log. -/
def overlapInnerBody (st : PlantState) (LoopNum SchemeNum ListNum : Nat)
    (log : List OverlapWarning) (InnerListNum : Nat) : List OverlapWarning :=
  let OuterListNumLowerLimit := (st.equipList LoopNum SchemeNum ListNum).RangeLowerLimit
  let OuterListNumUpperLimit := (st.equipList LoopNum SchemeNum ListNum).RangeUpperLimit
  if InnerListNum = ListNum then log
  else
    let InnerListNumLowerLimit := (st.equipList LoopNum SchemeNum InnerListNum).RangeLowerLimit
    let InnerListNumUpperLimit := (st.equipList LoopNum SchemeNum InnerListNum).RangeUpperLimit
    let log1 :=
      if InnerListNumLowerLimit > OuterListNumLowerLimit ∧
          InnerListNumLowerLimit < OuterListNumUpperLimit then
        log ++ [OverlapWarning.lowerLimitWithin InnerListNum ListNum]
      else log
    if InnerListNumUpperLimit > OuterListNumLowerLimit ∧
        InnerListNumUpperLimit < OuterListNumUpperLimit then
      log1 ++ [OverlapWarning.upperLimitWithin InnerListNum ListNum]
    else log1

/-- The overlap check that closes the range based branch of
`FindRangeBasedOrUncontrolledInput` ("now run through lists again and check
that range limits do not overlap each other"): the warnings it shows, in
order. `ErrorsFound` is not assigned in these loops. -/
def checkRangeOverlap (st : PlantState) (LoopNum SchemeNum NumEquipLists : Nat) :
    List OverlapWarning :=
  forLoop (fun log ListNum =>
      forLoop (overlapInnerBody st LoopNum SchemeNum ListNum) log NumEquipLists)
    [] NumEquipLists

/-! ## One-time inits of `InitLoadDistribution`: indexes of the listed equipment -/

/-- What `ScanPlantLoopsForObject` hands back for one list entry: the position
it found and `errFlag`. -/
structure ScanResult where
  LoopNum : Nat := 0
  LoopSideNum : Nat := 0
  BranchNum : Nat := 0
  CompNum : Nat := 0
  errFlag : Bool := false

/-- Collaborators and `DataPlant` data of the one-time inits. The `TypeOf` and
`Name` strings of a list entry are not carried by `EquipListCompData`, so
`FindItem` and `ScanPlantLoopsForObject` are indexed by the entry
`( LoopNum, OpNum, ListNum, EquipNum )` they are called for; the scan also
takes `ThisTypeOfNum`. The two loop class constants are those of `DataPlant`. -/
structure ScanEnv where
  FindItem : Nat → Nat → Nat → Nat → Nat
  ScanPlantLoopsForObject : Nat → Nat → Nat → Nat → Nat → ScanResult
  ValidLoopEquipTypes : Nat → Nat
  TypeOfLoop : Nat → Nat
  LoopType_Plant : Nat
  LoopType_Condenser : Nat

/-- The error messages of `InitLoadDistribution` that matter here, with the
list entry they are about: the three `ShowSevereError` of the first one-time
loop, the `ShowFatalError` inside that loop and the `ShowFatalError` that ends
the function. -/
inductive InitMessage where
  | equipmentNotFound (LoopNum OpNum ListNum EquipNum : Nat)
  | notValidOnCondenserLoop (LoopNum OpNum ListNum EquipNum : Nat)
  | notValidOnPlantLoop (LoopNum OpNum ListNum EquipNum : Nat)
  | terminatedInOperationScheme
  | fatalPreviousSevereErrors
  deriving DecidableEq

/-- The run of `InitLoadDistribution`: the plant data, `errFlag2`, the messages
shown so far and whether `ShowFatalError` has ended the run (nothing is
executed after it). -/
structure InitRun where
  st : PlantState
  errFlag2 : Bool
  messages : List InitMessage
  terminated : Bool

/-- The body of the innermost of the four loops of the first one-time pass:
entry `EquipNum` of list `ListNum` of scheme `OpNum` of loop `LoopNum`. -/
def resolveListMember (senv : ScanEnv) (LoopNum OpNum ListNum : Nat) (run : InitRun)
    (EquipNum : Nat) : InitRun :=
  if run.terminated then run
  else
    let ThisTypeOfNum := senv.FindItem LoopNum OpNum ListNum EquipNum
    let found := senv.ScanPlantLoopsForObject LoopNum OpNum ListNum EquipNum ThisTypeOfNum
    if found.errFlag then
      { run with
        messages := run.messages ++
          [InitMessage.equipmentNotFound LoopNum OpNum ListNum EquipNum,
            InitMessage.terminatedInOperationScheme],
        terminated := true }
    else
      let st1 := run.st.modifyListMember LoopNum OpNum ListNum EquipNum (fun m =>
        { m with
          LoopNumPtr := found.LoopNum, LoopSideNumPtr := found.LoopSideNum,
          BranchNumPtr := found.BranchNum, CompNumPtr := found.CompNum })
      let run1 : InitRun := { run with st := st1 }
      let run2 : InitRun :=
        if senv.ValidLoopEquipTypes ThisTypeOfNum = senv.LoopType_Plant ∧
            senv.TypeOfLoop LoopNum = senv.LoopType_Condenser then
          { run1 with
            messages := run1.messages ++
              [InitMessage.notValidOnCondenserLoop LoopNum OpNum ListNum EquipNum],
            errFlag2 := true }
        else run1
      if senv.ValidLoopEquipTypes ThisTypeOfNum = senv.LoopType_Condenser ∧
          senv.TypeOfLoop LoopNum = senv.LoopType_Plant then
        { run2 with
          messages := run2.messages ++
            [InitMessage.notValidOnPlantLoop LoopNum OpNum ListNum EquipNum],
          errFlag2 := true }
      else run2

/-- The first loop of the one-time inits: over the loops, their schemes, their
lists and the entries of each list, with `errFlag2` false on entry. -/
def resolveListedEquipment (senv : ScanEnv) (st : PlantState) : InitRun :=
  forLoop (fun run LoopNum =>
    forLoop (fun run OpNum =>
      forLoop (fun run ListNum =>
        forLoop (resolveListMember senv LoopNum OpNum ListNum) run
          (run.st.equipList LoopNum OpNum ListNum).NumComps)
        run (run.st.opScheme LoopNum OpNum).NumEquipLists)
      run (run.st.PlantLoop LoopNum).NumOpSchemes)
    { st := st, errFlag2 := false, messages := [], terminated := false } st.TotNumLoops

/-- The last statement of `InitLoadDistribution`:
`if ( errFlag2 ) ShowFatalError( ... )`. -/
def closingCheck (run : InitRun) : InitRun :=
  if run.terminated then run
  else if run.errFlag2 then
    { run with
      messages := run.messages ++ [InitMessage.fatalPreviousSevereErrors],
      terminated := true }
  else run

/-! ## One-time inits of `InitLoadDistribution`: the last stage of the load schemes -/

/-- The first inner loop of the last of the one-time loops:
`HighestRange = max( HighestRange, RangeUpperLimit )` over the lists of the
scheme, starting from `0.0`. -/
def highestRange (st : PlantState) (LoopNum OpNum : Nat) : ℚ :=
  forLoop (fun HighestRange ListNum =>
      max HighestRange (st.equipList LoopNum OpNum ListNum).RangeUpperLimit)
    0 (st.opScheme LoopNum OpNum).NumEquipLists

/-- The second inner loop: each list whose upper limit equals `HighestRange`
is recorded, in turn, as `EquipListNumForLastStage`. -/
def recordLastStage (LoopNum OpNum : Nat) (HighestRange : ℚ) (st : PlantState) : PlantState :=
  forLoop (fun st ListNum =>
      if HighestRange = (st.equipList LoopNum OpNum ListNum).RangeUpperLimit then
        st.modifyOpScheme LoopNum OpNum (fun o => { o with EquipListNumForLastStage := ListNum })
      else st)
    st (st.opScheme LoopNum OpNum).NumEquipLists

/-- The last of the one-time loops ("fill out information on which equipment
list is the last"): schemes that are not load based are skipped. -/
def fillLastStages (st : PlantState) : PlantState :=
  forLoop (fun st LoopNum =>
    forLoop (fun st OpNum =>
      if (st.opScheme LoopNum OpNum).OpSchemeType ≠ OpSchemeType.HeatingRBOpSchemeType ∧
          (st.opScheme LoopNum OpNum).OpSchemeType ≠ OpSchemeType.CoolingRBOpSchemeType then st
      else recordLastStage LoopNum OpNum (highestRange st LoopNum OpNum) st)
      st (st.PlantLoop LoopNum).NumOpSchemes)
    st st.TotNumLoops

/-! ## Proof devices and sample plants -/

/-- The plant data with `MyLoad` of every component `( B, C )` of half loop
`( L, S )` replaced by `g B C`; everything else as in `st`. -/
def PlantState.withLoads (st : PlantState) (L S : Nat) (g : Nat → Nat → ℚ) : PlantState :=
  { st with
    PlantLoop := Function.update st.PlantLoop L
      { st.PlantLoop L with
        LoopSide := Function.update (st.PlantLoop L).LoopSide S
          { (st.PlantLoop L).LoopSide S with
            Branch := fun B =>
              { ((st.PlantLoop L).LoopSide S).Branch B with
                Comp := fun C =>
                  { (((st.PlantLoop L).LoopSide S).Branch B).Comp C with MyLoad := g B C } } } } }

/-- The plant data `st'` has the skeleton of `st`: the two agree on everything
except the component records (and the `Tsensor` static). -/
structure SameSkeleton (st st' : PlantState) : Prop where
  totNumLoops : st'.TotNumLoops = st.TotNumLoops
  opScheme : ∀ L P, st'.opScheme L P = st.opScheme L P
  numOpSchemes : ∀ L, (st'.PlantLoop L).NumOpSchemes = (st.PlantLoop L).NumOpSchemes
  loadDistribution : ∀ L, (st'.PlantLoop L).LoadDistribution = (st.PlantLoop L).LoadDistribution
  loopDemandCalcScheme :
    ∀ L, (st'.PlantLoop L).LoopDemandCalcScheme = (st.PlantLoop L).LoopDemandCalcScheme
  fluidIndex : ∀ L, (st'.PlantLoop L).FluidIndex = (st.PlantLoop L).FluidIndex
  loopEMSCtrl : ∀ L, (st'.PlantLoop L).EMSCtrl = (st.PlantLoop L).EMSCtrl
  loopEMSValue : ∀ L, (st'.PlantLoop L).EMSValue = (st.PlantLoop L).EMSValue
  totalBranches : ∀ L S, (st'.side L S).TotalBranches = (st.side L S).TotalBranches
  sideEMSCtrl : ∀ L S, (st'.side L S).EMSCtrl = (st.side L S).EMSCtrl
  sideEMSValue : ∀ L S, (st'.side L S).EMSValue = (st.side L S).EMSValue
  totalComponents :
    ∀ L S B, (st'.branch L S B).TotalComponents = (st.branch L S B).TotalComponents
  branchEMSCtrlOverrideOn :
    ∀ L S B, (st'.branch L S B).EMSCtrlOverrideOn = (st.branch L S B).EMSCtrlOverrideOn
  branchEMSCtrlOverrideValue :
    ∀ L S B, (st'.branch L S B).EMSCtrlOverrideValue = (st.branch L S B).EMSCtrlOverrideValue

/-- What `turnOffComp` does to a component record: a component that is not a
pump is switched off with zero load, a pump is left as it is. -/
def turnedOff (c : CompData) : CompData :=
  if c.GeneralEquipType ≠ GenEquipType.GenEquipTypes_Pump then
    { c with ON := false, MyLoad := 0 }
  else c

/-- The range variable with which a call reaches the list search, read off the
first `SELECT_CASE` block of the driver for scheme `P` of loop `L`: the loop
demand for a load scheme (unless the zero-demand exit is taken), the outdoor
reading or temperature difference for the other range based schemes, and
`none` for every other scheme type. -/
def rangeVariableOf (env : Env) (st : PlantState) (L P : Nat) (LoopDemand : ℚ) : Option ℚ :=
  match (st.opScheme L P).OpSchemeType with
  | OpSchemeType.HeatingRBOpSchemeType =>
      if LoopDemand < env.SmallLoad then none else some LoopDemand
  | OpSchemeType.CoolingRBOpSchemeType =>
      if LoopDemand > -1 * env.SmallLoad then none else some LoopDemand
  | OpSchemeType.DryBulbRBOpSchemeType => some env.OutDryBulbTemp
  | OpSchemeType.WetBulbRBOpSchemeType => some env.OutWetBulbTemp
  | OpSchemeType.RelHumRBOpSchemeType => some env.OutRelHum
  | OpSchemeType.DewPointRBOpSchemeType => some env.OutDewPointTemp
  | OpSchemeType.DryBulbTDBOpSchemeType =>
      some (FindRangeVariable env st L P OpSchemeType.DryBulbTDBOpSchemeType)
  | OpSchemeType.WetBulbTDBOpSchemeType =>
      some (FindRangeVariable env st L P OpSchemeType.WetBulbTDBOpSchemeType)
  | OpSchemeType.DewPointTDBOpSchemeType =>
      some (FindRangeVariable env st L P OpSchemeType.DewPointTDBOpSchemeType)
  | _ => none

/-- Branch index of the member at position `i` of list `K` of scheme `P`. -/
def PlantState.memberBranch (st : PlantState) (L P K i : Nat) : Nat :=
  ((st.equipList L P K).Comp i).BranchNumPtr

/-- Component index of the member at position `i` of list `K` of scheme `P`. -/
def PlantState.memberComp (st : PlantState) (L P K i : Nat) : Nat :=
  ((st.equipList L P K).Comp i).CompNumPtr

/-- The component record, on half loop `( L, S )`, of the member at position
`i` of list `K` of scheme `P`. -/
def PlantState.member (st : PlantState) (L S P K i : Nat) : CompData :=
  st.comp L S (st.memberBranch L P K i) (st.memberComp L P K i)

/-- The members of list `K` of scheme `P` are distinct components of half loop
`( L, S )`, all available, with no override in force on the half loop, on
their branches or on themselves, no serving-mode correction (`HowLoadServed`
is none of the four outlet limit or free cooling modes) and no last-stage cap
(the list is not the last stage of the scheme). -/
structure PlainList (st : PlantState) (L S P K : Nat) : Prop where
  distinct : ∀ i j, 1 ≤ i → i ≤ (st.equipList L P K).NumComps → 1 ≤ j →
    j ≤ (st.equipList L P K).NumComps → i ≠ j →
    ¬ (st.memberBranch L P K i = st.memberBranch L P K j ∧
       st.memberComp L P K i = st.memberComp L P K j)
  available : ∀ i, 1 ≤ i → i ≤ (st.equipList L P K).NumComps →
    (st.member L S P K i).Available = true
  sideFree : ¬ ((st.side L S).EMSCtrl = true ∧ (st.side L S).EMSValue ≤ 0)
  branchFree : ∀ i, 1 ≤ i → i ≤ (st.equipList L P K).NumComps →
    ¬ ((st.branch L S (st.memberBranch L P K i)).EMSCtrlOverrideOn = true ∧
       (st.branch L S (st.memberBranch L P K i)).EMSCtrlOverrideValue ≤ 0)
  compFree : ∀ i, 1 ≤ i → i ≤ (st.equipList L P K).NumComps →
    ¬ ((st.member L S P K i).EMSLoadOverrideOn = true ∧
       (st.member L S P K i).EMSLoadOverrideValue = 0)
  plainService : ∀ i, 1 ≤ i → i ≤ (st.equipList L P K).NumComps →
    (st.member L S P K i).HowLoadServed ≠ HowMet.HowMet_ByNominalCapLowOutLimit ∧
    (st.member L S P K i).HowLoadServed ≠ HowMet.HowMet_ByNominalCapFreeCoolCntrl ∧
    (st.member L S P K i).HowLoadServed ≠ HowMet.HowMet_ByNominalCapLowOutLimitFreeCoolCntrl ∧
    (st.member L S P K i).HowLoadServed ≠ HowMet.HowMet_ByNominalCapHiOutLimit
  notLastStage : (st.opScheme L P).EquipListNumForLastStage ≠ K

/-- The load that the load table `g` of a half loop gives the member at
position `i` of list `K` of scheme `P`. -/
def posLoad (st : PlantState) (L P K : Nat) (g : Nat → Nat → ℚ) (i : Nat) : ℚ :=
  g (st.memberBranch L P K i) (st.memberComp L P K i)

/-- A sample environment: `SmallLoad = 1` W, constant fluid properties. -/
def demoEnv : Env :=
  { SmallLoad := 1, LoopDemandTol := 1 / 10, SensedNodeFlagValue := -999,
    OutDryBulbTemp := 20, OutWetBulbTemp := 15, OutDewPointTemp := 10, OutRelHum := 50,
    Node := fun _ => {}, GetSpecificHeatGlycol := fun _ _ => 4180,
    GetDensityGlycol := fun _ _ => 1000, GetCurrentScheduleValue := fun _ => 1,
    BeginEnvrnFlag := false, AnyEMSPlantOpSchemesInModel := false, ManageEMS := fun _ st => st }

/-- A sample component: available, capacity bounded, no override. -/
def demoComp (opt mx : ℚ) : CompData :=
  { Available := true, OptLoad := opt, MaxLoad := mx, HowLoadServed := HowMet.HowMet_ByNominalCap }

/-- A sample plant: loop 1 with `n` branches of one component (`c B` on branch
`B`) on its supply side and one cooling load scheme whose single equipment
list `[0, upper]` names these components in branch order. -/
def demoPlant (policy : LoadingScheme) (n lastStage : Nat) (upper : ℚ) (c : Nat → CompData) :
    PlantState :=
  { TotNumLoops := 1,
    PlantLoop := fun L =>
      if L = 1 then
        { LoadDistribution := policy, NumOpSchemes := 1,
          LoopSide := fun S =>
            if S = 2 then
              { TotalBranches := n,
                Branch := fun B => { TotalComponents := 1, Comp := fun C => if C = 1 then c B else {} } }
            else {},
          OpScheme := fun P =>
            if P = 1 then
              { OpSchemeType := OpSchemeType.CoolingRBOpSchemeType, Available := true,
                NumEquipLists := 1, EquipListNumForLastStage := lastStage,
                EquipList := fun K =>
                  if K = 1 then
                    { RangeLowerLimit := 0, RangeUpperLimit := upper, NumComps := n,
                      Comp := fun i =>
                        { LoopNumPtr := 1, LoopSideNumPtr := 2, BranchNumPtr := i, CompNumPtr := 1 } }
                  else {} }
            else {} }
      else {} }

/-- The component on supply branch `B` of the second sample plant: a pump that
is on (branch 1) and three boilers (branches 2, 3, 4) carrying a load from an
earlier call; boiler `B` is on the equipment lists `ptrs B` of scheme 1. -/
def rangeSupplyComp (B : Nat) : CompData :=
  if B = 1 then
    { GeneralEquipType := GenEquipType.GenEquipTypes_Pump,
      CurOpSchemeType := OpSchemeType.PumpOpSchemeType, ON := true, Available := true }
  else
    { GeneralEquipType := GenEquipType.GenEquipTypes_Other 1,
      CurOpSchemeType := OpSchemeType.HeatingRBOpSchemeType,
      NumOpSchemes := 1, CurCompLevelOpNum := 1,
      OpScheme := fun _ =>
        if B = 2 then
          { NumEquipLists := 3, OpSchemePtr := 1,
            EquipList := fun j => { ListPtr := j, CompPtr := 1 } }
        else if B = 3 then
          { NumEquipLists := 2, OpSchemePtr := 1,
            EquipList := fun j => { ListPtr := j, CompPtr := 2 } }
        else
          { NumEquipLists := 1, OpSchemePtr := 1,
            EquipList := fun _ => { ListPtr := 3, CompPtr := 2 } },
      MyLoad := 5, MaxLoad := 40, OptLoad := 20, ON := true, Available := true,
      HowLoadServed := HowMet.HowMet_ByNominalCap }

/-- The component on the demand side of the second sample plant: a coil that is
on, with no operation scheme of its own. -/
def rangeDemandComp : CompData :=
  { GeneralEquipType := GenEquipType.GenEquipTypes_Other 2,
    CurOpSchemeType := OpSchemeType.DemandOpSchemeType, MyLoad := 7, ON := true,
    Available := true }

/-- Equipment list `K` of the second sample plant: ranges `[0, 10]`, `[10, 20]`
and `[20, 30]`; lists 1 and 2 name the boilers of branches 2 and 3, list 3 the
boilers of branches 2 and 4. -/
def rangeList (K : Nat) : EquipListData :=
  { RangeLowerLimit := if K = 1 then 0 else if K = 2 then 10 else 20,
    RangeUpperLimit := if K = 1 then 10 else if K = 2 then 20 else 30,
    NumComps := 2,
    Comp := fun i =>
      { LoopNumPtr := 1, LoopSideNumPtr := 2,
        BranchNumPtr := if i = 1 then 2 else if K = 3 then 4 else 3,
        CompNumPtr := 1 } }

/-- The second sample plant: loop 1 with a coil on its demand side (1) and a
pump and three boilers on its supply side (2), one available heating load
scheme with the three lists `rangeList` (list 3 is the last stage), sequential
loading; `loopEMS` and `sideEMS` switch on the loop level and the supply side
supervisory override, both with value 0. -/
def rangePlant (loopEMS sideEMS : Bool) : PlantState :=
  { TotNumLoops := 1,
    PlantLoop := fun _ =>
      { LoadDistribution := LoadingScheme.SequentialLoading, NumOpSchemes := 1,
        EMSCtrl := loopEMS, EMSValue := 0,
        LoopSide := fun S =>
          if S = 2 then
            { TotalBranches := 4, EMSCtrl := sideEMS, EMSValue := 0,
              Branch := fun B => { TotalComponents := 1, Comp := fun _ => rangeSupplyComp B } }
          else
            { TotalBranches := 1,
              Branch := fun _ => { TotalComponents := 1, Comp := fun _ => rangeDemandComp } },
        OpScheme := fun _ =>
          { OpSchemeType := OpSchemeType.HeatingRBOpSchemeType, Available := true,
            NumEquipLists := 3, EquipListNumForLastStage := 3, EquipList := rangeList } } }

/-! ## Proof devices and sample plants for the overrides and the setpoint dispatch -/

/-- The list member `OpScheme( OpSchemePtr ).EquipList( ListPtr ).Comp( CompPtr )`
that `FindCompSPLoad` reads for the component `( L, S, B, C )` and its scheme
index `OpNum`. -/
def setPointMember (st : PlantState) (L S B C OpNum : Nat) : EquipListCompData :=
  (st.equipList L ((st.comp L S B C).OpScheme OpNum).OpSchemePtr
    (((st.comp L S B C).OpScheme OpNum).EquipList 1).ListPtr).Comp
    (((st.comp L S B C).OpScheme OpNum).EquipList 1).CompPtr

/-- The inlet temperature `TempIn` of `FindCompSPLoad`: the temperature of the
demand node. -/
def setPointTempIn (env : Env) (st : PlantState) (L S B C OpNum : Nat) : ℚ :=
  (env.Node (setPointMember st L S B C OpNum).DemandNodeNum).Temp

/-- The specific heat `CurSpecHeat` of `FindCompSPLoad`. -/
def setPointSpecHeat (env : Env) (st : PlantState) (L S B C OpNum : Nat) : ℚ :=
  env.GetSpecificHeatGlycol (st.PlantLoop L).FluidIndex (setPointTempIn env st L S B C OpNum)

/-- The design flow of `FindCompSPLoad`: `SetPointFlowRate * rho`. -/
def setPointDesignMdot (env : Env) (st : PlantState) (L S B C OpNum : Nat) : ℚ :=
  (setPointMember st L S B C OpNum).SetPointFlowRate *
    env.GetDensityGlycol (st.PlantLoop L).FluidIndex (setPointTempIn env st L S B C OpNum)

/-- The flow `DemandMdot` of `FindCompSPLoad` after the test on the actual
flow of the demand node. -/
def setPointMdot (env : Env) (st : PlantState) (L S B C OpNum : Nat) : ℚ :=
  if (env.Node (setPointMember st L S B C OpNum).DemandNodeNum).MassFlowRate > 0 ∧
      (env.Node (setPointMember st L S B C OpNum).DemandNodeNum).MassFlowRate ≠
        setPointDesignMdot env st L S B C OpNum then
    (env.Node (setPointMember st L S B C OpNum).DemandNodeNum).MassFlowRate
  else setPointDesignMdot env st L S B C OpNum

/-- The target `TempSetPt` that `FindCompSPLoad` resolves from the demand
calculation scheme of the loop and the control type of the member. -/
def setPointTarget (env : Env) (st : PlantState) (L S B C OpNum : Nat) : ℚ :=
  match (st.PlantLoop L).LoopDemandCalcScheme with
  | DemandCalcScheme.SingleSetPoint =>
      (env.Node (setPointMember st L S B C OpNum).SetPointNodeNum).TempSetPoint
  | DemandCalcScheme.DualSetPointDeadBand =>
      match (setPointMember st L S B C OpNum).CtrlTypeNum with
      | CtrlType.CoolingOp =>
          (env.Node (setPointMember st L S B C OpNum).SetPointNodeNum).TempSetPointHi
      | CtrlType.HeatingOp =>
          (env.Node (setPointMember st L S B C OpNum).SetPointNodeNum).TempSetPointLo
      | CtrlType.DualOp =>
          if setPointMdot env st L S B C OpNum * setPointSpecHeat env st L S B C OpNum *
                ((env.Node (setPointMember st L S B C OpNum).SetPointNodeNum).TempSetPointHi -
                  setPointTempIn env st L S B C OpNum) < 0 ∧
              setPointMdot env st L S B C OpNum * setPointSpecHeat env st L S B C OpNum *
                ((env.Node (setPointMember st L S B C OpNum).SetPointNodeNum).TempSetPointLo -
                  setPointTempIn env st L S B C OpNum) ≤ 0 then
            (env.Node (setPointMember st L S B C OpNum).SetPointNodeNum).TempSetPointHi
          else if setPointMdot env st L S B C OpNum * setPointSpecHeat env st L S B C OpNum *
                ((env.Node (setPointMember st L S B C OpNum).SetPointNodeNum).TempSetPointHi -
                  setPointTempIn env st L S B C OpNum) ≥ 0 ∧
              setPointMdot env st L S B C OpNum * setPointSpecHeat env st L S B C OpNum *
                ((env.Node (setPointMember st L S B C OpNum).SetPointNodeNum).TempSetPointLo -
                  setPointTempIn env st L S B C OpNum) > 0 then
            (env.Node (setPointMember st L S B C OpNum).SetPointNodeNum).TempSetPointLo
          else setPointTempIn env st L S B C OpNum

/-- The demand `DemandMdot * CurSpecHeat * ( TempSetPt - TempIn )` of
`FindCompSPLoad` before the tolerance test. -/
def setPointRawDemand (env : Env) (st : PlantState) (L S B C OpNum : Nat) : ℚ :=
  setPointMdot env st L S B C OpNum * setPointSpecHeat env st L S B C OpNum *
    (setPointTarget env st L S B C OpNum - setPointTempIn env st L S B C OpNum)

/-- A sample environment for the overrides and the setpoint dispatch:
`SmallLoad = 1` W, `LoopDemandTol = 0.1` W, unset setpoints are `-999`, water
with `cp = 4180` J/kg.K and `rho = 1000` kg/m3. Node 1 is an inlet (and demand)
node at temperature `Tin` with mass flow `mdot`; node 2 is a setpoint node with
single setpoint `sp` and dual setpoints `lo` and `hi`. -/
def sampleEnv (Tin mdot sp lo hi : ℚ) : Env :=
  { SmallLoad := 1, LoopDemandTol := 1 / 10, SensedNodeFlagValue := -999,
    OutDryBulbTemp := 20, OutWetBulbTemp := 15, OutDewPointTemp := 10, OutRelHum := 50,
    Node := fun n =>
      if n = 1 then { Temp := Tin, TempLastTimestep := Tin, MassFlowRate := mdot }
      else { TempSetPoint := sp, TempSetPointLo := lo, TempSetPointHi := hi },
    GetSpecificHeatGlycol := fun _ _ => 4180,
    GetDensityGlycol := fun _ _ => 1000, GetCurrentScheduleValue := fun _ => 1,
    BeginEnvrnFlag := false, AnyEMSPlantOpSchemesInModel := false, ManageEMS := fun _ st => st }

/-- A sample machine for the override claims: a component of type `typ` with
`MaxLoad = mx`, inlet node 1 and `MinOutletTemp = 5`, on list 1 of scheme 1,
carrying a load of 5 W from an earlier call, with the component load override
`ovr` at value `v`. -/
def emsMachine (typ : PlantEquipType) (mx : ℚ) (ovr : Bool) (v : ℚ) : CompData :=
  { TypeOf_Num := typ, GeneralEquipType := GenEquipType.GenEquipTypes_Other 1,
    CurOpSchemeType := OpSchemeType.HeatingRBOpSchemeType,
    NumOpSchemes := 1, CurCompLevelOpNum := 1,
    OpScheme := fun _ =>
      { NumEquipLists := 1, OpSchemePtr := 1, EquipList := fun _ => { ListPtr := 1, CompPtr := 1 } },
    MyLoad := 5, MaxLoad := mx, OptLoad := 20, ON := true, Available := true,
    EMSLoadOverrideOn := ovr, EMSLoadOverrideValue := v,
    HowLoadServed := HowMet.HowMet_ByNominalCap, MinOutletTemp := 5, NodeNumIn := 1 }

/-- A sample pipe: not on any list, off. -/
def emsPipe : CompData :=
  { TypeOf_Num := PlantEquipType.TypeOf_Pipe, GeneralEquipType := GenEquipType.GenEquipTypes_Other 2,
    CurOpSchemeType := OpSchemeType.NoControlOpSchemeType, Available := true }

/-- A sample valve: not a pump, not a pipe, not on any list; on and without
load, as the reset of the first HVAC iteration leaves it. -/
def emsValve : CompData :=
  { TypeOf_Num := PlantEquipType.TypeOf_Other 9, GeneralEquipType := GenEquipType.GenEquipTypes_Other 3,
    CurOpSchemeType := OpSchemeType.NoControlOpSchemeType, ON := true, Available := true }

/-- The third sample plant: loop 1 with, on its supply side (2), a pipe on
branch 1 and the machine `c` followed by a valve on branch 2; one available
heating load scheme with the single list `[0, 100]` (the last stage) naming the
machine; `sideEMS` and `branchEMS` switch on the supply side override and the
override of branch 2, both with value 0. -/
def emsPlant (policy : LoadingScheme) (sideEMS branchEMS : Bool) (c : CompData) : PlantState :=
  { TotNumLoops := 1,
    PlantLoop := fun _ =>
      { LoadDistribution := policy, NumOpSchemes := 1,
        LoopSide := fun S =>
          if S = 2 then
            { TotalBranches := 2, EMSCtrl := sideEMS, EMSValue := 0,
              Branch := fun B =>
                if B = 1 then { TotalComponents := 1, Comp := fun _ => emsPipe }
                else { TotalComponents := 2, EMSCtrlOverrideOn := branchEMS,
                       EMSCtrlOverrideValue := 0,
                       Comp := fun C => if C = 1 then c else emsValve } }
          else {},
        OpScheme := fun _ =>
          { OpSchemeType := OpSchemeType.HeatingRBOpSchemeType, Available := true,
            NumEquipLists := 1, EquipListNumForLastStage := 1,
            EquipList := fun _ =>
              { RangeLowerLimit := 0, RangeUpperLimit := 100, NumComps := 1,
                Comp := fun _ =>
                  { LoopNumPtr := 1, LoopSideNumPtr := 2, BranchNumPtr := 2, CompNumPtr := 1 } } } } }

/-- A sample chiller with free cooling control on the outdoor dry bulb
temperature (threshold 25 C), with or without the low outlet limit. -/
def freeCoolChiller (lowLimit : Bool) : CompData :=
  { TypeOf_Num := PlantEquipType.TypeOf_Chiller_Electric,
    GeneralEquipType := GenEquipType.GenEquipTypes_Other 1,
    MaxLoad := 100, OptLoad := 50, Available := true,
    HowLoadServed :=
      if lowLimit then HowMet.HowMet_ByNominalCapLowOutLimitFreeCoolCntrl
      else HowMet.HowMet_ByNominalCapFreeCoolCntrl,
    FreeCoolCntrlMode := FreeCoolControlMode.FreeCoolControlMode_DryBulb,
    FreeCoolCntrlMinCntrlTemp := 25, MinOutletTemp := 5, NodeNumIn := 1 }

/-- The component of the fourth sample plant: under a component setpoint
scheme, with capacity bounds `mn` and `mx`, carrying a load of 5 W and on from
an earlier call. -/
def setPointComp (mn mx : ℚ) : CompData :=
  { GeneralEquipType := GenEquipType.GenEquipTypes_Other 1,
    CurOpSchemeType := OpSchemeType.CompSetPtBasedSchemeType,
    NumOpSchemes := 1, CurCompLevelOpNum := 1,
    OpScheme := fun _ =>
      { NumEquipLists := 1, OpSchemePtr := 1, EquipList := fun _ => { ListPtr := 1, CompPtr := 1 } },
    MyLoad := 5, EquipDemand := 5, MinLoad := mn, MaxLoad := mx, ON := true, Available := true }

/-- The fourth sample plant: loop 1 with demand calculation scheme `scheme` and,
on its supply side (2), two branches with one component `setPointComp mn mx`
each; one component setpoint scheme whose list names the component of branch 1
with control type `ctrl`, design flow `0.001` m3/s, demand node 1 and setpoint
node 2. -/
def setPointPlant (scheme : DemandCalcScheme) (ctrl : CtrlType) (mn mx : ℚ) : PlantState :=
  { TotNumLoops := 1,
    PlantLoop := fun _ =>
      { LoopDemandCalcScheme := scheme, NumOpSchemes := 1,
        LoopSide := fun S =>
          if S = 2 then
            { TotalBranches := 2,
              Branch := fun _ => { TotalComponents := 1, Comp := fun _ => setPointComp mn mx } }
          else {},
        OpScheme := fun _ =>
          { OpSchemeType := OpSchemeType.CompSetPtBasedSchemeType, Available := true,
            NumEquipLists := 1,
            EquipList := fun _ =>
              { NumComps := 1,
                Comp := fun _ =>
                  { LoopNumPtr := 1, LoopSideNumPtr := 2, BranchNumPtr := 1, CompNumPtr := 1,
                    SetPointFlowRate := 1 / 1000, DemandNodeNum := 1, SetPointNodeNum := 2,
                    CtrlTypeNum := ctrl } } } } }

/-- The outlet limit capacity `QTemporary = CurMassFlowRate * CurSpecHeat *
( Tinlet - ToutLowLimit )` that `ActivateEMSControls` computes for a chiller. -/
def emsOutletCapacity (env : Env) (st : PlantState) (L S B C : Nat) : ℚ :=
  (env.Node (st.comp L S B C).NodeNumIn).MassFlowRate *
    env.GetSpecificHeatGlycol (st.PlantLoop L).FluidIndex
      (env.Node (st.comp L S B C).NodeNumIn).Temp *
    ((env.Node (st.comp L S B C).NodeNumIn).Temp - (st.comp L S B C).MinOutletTemp)

/-- The component types for which `ActivateEMSControls` checks the outlet
temperature limit: the three electric chillers. -/
def isElectricChiller (t : PlantEquipType) : Prop :=
  t = PlantEquipType.TypeOf_Chiller_ElectricEIR ∨ t = PlantEquipType.TypeOf_Chiller_Electric ∨
    t = PlantEquipType.TypeOf_Chiller_ElectricReformEIR

/-- The demand `CompDemand` of `FindCompSPLoad` after the tolerance test: what
is recorded as `EquipDemand` on the valid-setpoint path. -/
def setPointDemand (env : Env) (st : PlantState) (L S B C OpNum : Nat) : ℚ :=
  if |setPointRawDemand env st L S B C OpNum| < env.LoopDemandTol then 0
  else setPointRawDemand env st L S B C OpNum

/-- The run flag that `FindCompSPLoad` derives from the demand and the control
type of the member on the valid-setpoint path. -/
def setPointRuns (env : Env) (st : PlantState) (L S B C OpNum : Nat) : Bool :=
  match (setPointMember st L S B C OpNum).CtrlTypeNum with
  | CtrlType.CoolingOp => decide (setPointDemand env st L S B C OpNum < -env.LoopDemandTol)
  | CtrlType.HeatingOp => decide (setPointDemand env st L S B C OpNum > env.LoopDemandTol)
  | CtrlType.DualOp =>
      decide (setPointDemand env st L S B C OpNum > env.LoopDemandTol ∨
        setPointDemand env st L S B C OpNum < -env.LoopDemandTol)

/-- The bounds check at the end of `FindCompSPLoad`, applied to the load `x`
of a component with capacity bounds `mn` and `mx`. -/
def setPointClamp (mn mx x : ℚ) : ℚ :=
  if |(if |x| > mx then sign mx x else x)| < mn then
    sign mn (if |x| > mx then sign mx x else x)
  else (if |x| > mx then sign mx x else x)

/-- The record `c` with the two flags that the free cooling control writes
(`Available`, `FreeCoolCntrlShutDown`) taken from `c'`. -/
def flagsFrom (c c' : CompData) : CompData :=
  { c with Available := c'.Available, FreeCoolCntrlShutDown := c'.FreeCoolCntrlShutDown }

/-- A supervisory override shuts branch `B` of half loop `( L, S )`: the half
loop flag or the branch flag is on with a value `<= 0`. These are the first two
tests of `AdjustChangeInLoadByEMSControls`. -/
def emsBlocked (st : PlantState) (L S B : Nat) : Prop :=
  ((st.side L S).EMSCtrl = true ∧ (st.side L S).EMSValue ≤ 0) ∨
    ((st.branch L S B).EMSCtrlOverrideOn = true ∧ (st.branch L S B).EMSCtrlOverrideValue ≤ 0)

/-- The component is in one of the two free cooling serving modes, its sensor
is one of the three configured kinds and reads below
`FreeCoolCntrlMinCntrlTemp`. -/
def freeCoolTripped (env : Env) (st : PlantState) (c : CompData) : Prop :=
  (c.HowLoadServed = HowMet.HowMet_ByNominalCapFreeCoolCntrl ∨
    c.HowLoadServed = HowMet.HowMet_ByNominalCapLowOutLimitFreeCoolCntrl) ∧
  c.FreeCoolCntrlMode ≠ FreeCoolControlMode.FreeCoolControlMode_Unset ∧
  freeCoolTsensor env st c < c.FreeCoolCntrlMinCntrlTemp

/-- The record `c'` is the machine `c` in another operating state: the two
agree on every field except `MyLoad`, `ON`, `Available` and
`FreeCoolCntrlShutDown`. -/
def sameMachine (c c' : CompData) : Prop :=
  c' = { c with MyLoad := c'.MyLoad, ON := c'.ON, Available := c'.Available,
                FreeCoolCntrlShutDown := c'.FreeCoolCntrlShutDown }

/-- The component has been shut down by its free cooling control: no load, not
available, `FreeCoolCntrlShutDown` set. -/
def shutForFreeCooling (c : CompData) : Prop :=
  c.MyLoad = 0 ∧ c.Available = false ∧ c.FreeCoolCntrlShutDown = true

/-- The four pipe types that `TurnOnPlantLoopPipes` switches on. -/
def isPipeType (t : PlantEquipType) : Prop :=
  t = PlantEquipType.TypeOf_Pipe ∨ t = PlantEquipType.TypeOf_PipeInterior ∨
    t = PlantEquipType.TypeOf_PipeExterior ∨ t = PlantEquipType.TypeOf_PipeUnderground

/-- What the clean-up loop of the driver can do to a component record: nothing,
or `MyLoad = 0.0`. -/
def loadCleared (c c' : CompData) : Prop :=
  c' = c ∨ c' = { c with MyLoad := 0 }

/-- What `TurnOnPlantLoopPipes` can do to a component record: nothing, or
`ON = true` for a pipe. -/
def pipeSwitchedOn (c c' : CompData) : Prop :=
  c' = c ∨ (isPipeType c.TypeOf_Num ∧ c' = { c with ON := true })

/-- The component `c'` is the machine `c` at rest: it carries no load and, when
it is `ON`, it is a pipe. -/
def atRest (c c' : CompData) : Prop :=
  sameMachine c c' ∧ c'.MyLoad = 0 ∧ (c'.ON = true → isPipeType c.TypeOf_Num)

/-- What `TurnOnPlantLoopPipes` does to a component record: a pipe is switched
on, any other component is left as it is. -/
def switchedOnIfPipe (c : CompData) : CompData :=
  match c.TypeOf_Num with
  | PlantEquipType.TypeOf_Pipe | PlantEquipType.TypeOf_PipeInterior
  | PlantEquipType.TypeOf_PipeExterior | PlantEquipType.TypeOf_PipeUnderground =>
      { c with ON := true }
  | _ => c

/-! ## Proof devices for the user defined dispatch, the schedule update and the input checks -/

/-- Position, in list 1 of the scheme, of the component a user defined dispatch
is made for (`Comp( C ).OpScheme( q ).EquipList( 1 ).CompPtr`). -/
def userCompPtr (st : PlantState) (L S B C q : Nat) : Nat :=
  (((st.comp L S B C).OpScheme q).EquipList 1).CompPtr

/-- The plant data handed to the user program by `DistributeUserDefinedPlantLoad`:
the internal variable of the member holds the demand. -/
def userProgramInput (st : PlantState) (L S B C q P : Nat) (D : ℚ) : PlantState :=
  st.modifyListMember L P 1 (userCompPtr st L S B C q)
    (fun m => { m with EMSIntVarRemainingLoadValue := D })

/-- The plant data the user program leaves behind (the input itself when the
scheme has no simulation program). -/
def userProgramOutput (env : Env) (st : PlantState) (L S B C q P : Nat) (D : ℚ) : PlantState :=
  if ((userProgramInput st L S B C q P D).opScheme L P).ErlSimProgramMngr > 0 then
    env.ManageEMS ((userProgramInput st L S B C q P D).opScheme L P).ErlSimProgramMngr
      (userProgramInput st L S B C q P D)
  else userProgramInput st L S B C q P D

/-- The actuator value the user program leaves for the member. -/
def userActuatorValue (env : Env) (st : PlantState) (L S B C q P : Nat) (D : ℚ) : ℚ :=
  (((userProgramOutput env st L S B C q P D).equipList L P 1).Comp
    (userCompPtr st L S B C q)).EMSActuatorDispatchedLoadValue

/-- A sample loop with one range based scheme of two equipment lists with the
ranges `[lo1, hi1]` and `[lo2, hi2]`. -/
def overlapPlant (lo1 hi1 lo2 hi2 : ℚ) : PlantState :=
  { TotNumLoops := 1,
    PlantLoop := fun _ =>
      { NumOpSchemes := 1,
        OpScheme := fun _ =>
          { OpSchemeType := OpSchemeType.HeatingRBOpSchemeType, NumEquipLists := 2,
            EquipList := fun K =>
              if K = 1 then { RangeLowerLimit := lo1, RangeUpperLimit := hi1 }
              else { RangeLowerLimit := lo2, RangeUpperLimit := hi2 } } } }

/-- The ranges of lists `i` and `j` of a scheme share more than one point. -/
def rangesOverlap (st : PlantState) (L P i j : Nat) : Prop :=
  max (st.equipList L P i).RangeLowerLimit (st.equipList L P j).RangeLowerLimit <
    min (st.equipList L P i).RangeUpperLimit (st.equipList L P j).RangeUpperLimit

/-- Lists `i` and `j` of a scheme have the same range. -/
def rangesIdentical (st : PlantState) (L P i j : Nat) : Prop :=
  (st.equipList L P i).RangeLowerLimit = (st.equipList L P j).RangeLowerLimit ∧
    (st.equipList L P i).RangeUpperLimit = (st.equipList L P j).RangeUpperLimit

/-- A warning that names the pair of lists `i`, `j`, in either role. -/
def warningNames (w : OverlapWarning) (i j : Nat) : Prop :=
  w = OverlapWarning.lowerLimitWithin i j ∨ w = OverlapWarning.upperLimitWithin i j ∨
    w = OverlapWarning.lowerLimitWithin j i ∨ w = OverlapWarning.upperLimitWithin j i

/-! ## Proof devices for the schedule update of `InitLoadDistribution` -/

/-- What the schedule update does to the record of a component it finds on a
list of scheme `OpNum`, of type `T`: the scheme type is taken unless the
component has the pump scheme type, and `CurCompLevelOpNum` becomes the last
index among the component's own schemes that points to `OpNum`. -/
def compVisit (T : OpSchemeType) (OpNum : Nat) (c : CompData) : CompData :=
  let c1 : CompData :=
    if c.CurOpSchemeType ≠ OpSchemeType.PumpOpSchemeType then { c with CurOpSchemeType := T }
    else c
  forLoop (fun c CompOpNum =>
      if (c.OpScheme CompOpNum).OpSchemePtr = OpNum then { c with CurCompLevelOpNum := CompOpNum }
      else c)
    c1 c1.NumOpSchemes

/-- A component record after a sequence of visits `( T, OpNum )`. -/
def applyVisits : CompData → List (OpSchemeType × Nat) → CompData
  | c, [] => c
  | c, v :: V => applyVisits (compVisit v.1 v.2 c) V

/-- Some visit of the sequence finds the component with the pump scheme type
(the case in which `errFlag2` is raised). -/
def visitsRaise : CompData → List (OpSchemeType × Nat) → Bool
  | _, [] => false
  | c, v :: V =>
      decide (c.CurOpSchemeType = OpSchemeType.PumpOpSchemeType) ||
        visitsRaise (compVisit v.1 v.2 c) V

/-- The lists `f 1`, ..., `f n` one after the other. -/
def visitsUpTo {α : Type} (f : Nat → List α) (n : Nat) : List α :=
  forLoop (fun l i => l ++ f i) [] n

/-- The visit member `i` of list `K` of scheme `P` of loop `L` pays to the
component at `( L2, S2, B2, C2 )`: one visit when the member points to it. -/
def memberVisits (st : PlantState) (L P K i : Nat) (L2 S2 B2 C2 : Nat) :
    List (OpSchemeType × Nat) :=
  if ((st.equipList L P K).Comp i).LoopNumPtr = L2 ∧
      ((st.equipList L P K).Comp i).LoopSideNumPtr = S2 ∧
      ((st.equipList L P K).Comp i).BranchNumPtr = B2 ∧
      ((st.equipList L P K).Comp i).CompNumPtr = C2 then
    [((st.opScheme L P).OpSchemeType, P)]
  else []

/-- The visits of one list. -/
def listVisits (st : PlantState) (L P K : Nat) (L2 S2 B2 C2 : Nat) :
    List (OpSchemeType × Nat) :=
  visitsUpTo (fun i => memberVisits st L P K i L2 S2 B2 C2) (st.equipList L P K).NumComps

/-- The visits of one scheme: those of its lists when its schedule value is
positive, none otherwise. -/
def schemeVisits (env : Env) (st : PlantState) (L P : Nat) (L2 S2 B2 C2 : Nat) :
    List (OpSchemeType × Nat) :=
  if env.GetCurrentScheduleValue (st.opScheme L P).SchedPtr > 0 then
    visitsUpTo (fun K => listVisits st L P K L2 S2 B2 C2) (st.opScheme L P).NumEquipLists
  else []

/-- The visits of the schemes of one loop, in declaration order. -/
def loopVisits (env : Env) (st : PlantState) (L : Nat) (L2 S2 B2 C2 : Nat) :
    List (OpSchemeType × Nat) :=
  visitsUpTo (fun P => schemeVisits env st L P L2 S2 B2 C2) (st.PlantLoop L).NumOpSchemes

/-- Every visit the schedule update pays to the component at
`( L2, S2, B2, C2 )`, in the order of the loops of the source. -/
def gateVisits (env : Env) (st : PlantState) (L2 S2 B2 C2 : Nat) : List (OpSchemeType × Nat) :=
  visitsUpTo (fun L => loopVisits env st L L2 S2 B2 C2) st.TotNumLoops

/-- The plant data `st'` has the topology of `st`: the two agree on the loop,
scheme, branch and component counts and on the scheme data other than the
`Available` flags. -/
structure SameTopology (st st' : PlantState) : Prop where
  totNumLoops : st'.TotNumLoops = st.TotNumLoops
  numOpSchemes : ∀ L, (st'.PlantLoop L).NumOpSchemes = (st.PlantLoop L).NumOpSchemes
  schemeData : ∀ L P, { st'.opScheme L P with Available := false } =
    { st.opScheme L P with Available := false }
  totalBranches : ∀ L S, (st'.side L S).TotalBranches = (st.side L S).TotalBranches
  totalComponents :
    ∀ L S B, (st'.branch L S B).TotalComponents = (st.branch L S B).TotalComponents

/-- The position `( L, S, B, C )` is one of the components of the plant. -/
def inPlant (st : PlantState) (L S B C : Nat) : Prop :=
  (1 ≤ L ∧ L ≤ st.TotNumLoops) ∧ (S = 1 ∨ S = 2) ∧
    (1 ≤ B ∧ B ≤ (st.side L S).TotalBranches) ∧
    1 ≤ C ∧ C ≤ (st.branch L S B).TotalComponents

/-- Scheme `P` of loop `L` is within the scheme count, its schedule value is
positive and one of its lists names the component at `( L2, S2, B2, C2 )`. -/
def listedBy (env : Env) (st : PlantState) (L P : Nat) (L2 S2 B2 C2 : Nat) : Prop :=
  (1 ≤ P ∧ P ≤ (st.PlantLoop L).NumOpSchemes) ∧
  env.GetCurrentScheduleValue (st.opScheme L P).SchedPtr > 0 ∧
  ∃ K i, (1 ≤ K ∧ K ≤ (st.opScheme L P).NumEquipLists) ∧
    (1 ≤ i ∧ i ≤ (st.equipList L P K).NumComps) ∧
    ((st.equipList L P K).Comp i).LoopNumPtr = L2 ∧
    ((st.equipList L P K).Comp i).LoopSideNumPtr = S2 ∧
    ((st.equipList L P K).Comp i).BranchNumPtr = B2 ∧
    ((st.equipList L P K).Comp i).CompNumPtr = C2

/-- The step from `acc` to `acc'` of the schedule update amounts to the visits
`vis`: the topology is kept, every component record is the old one after its
visits, and `errFlag2` is raised exactly when it was raised before or some
visit found its component with the pump scheme type. -/
def visitStep (acc acc' : PlantState × Bool)
    (vis : Nat → Nat → Nat → Nat → List (OpSchemeType × Nat)) : Prop :=
  SameTopology acc.1 acc'.1 ∧
  (∀ L S B C, acc'.1.comp L S B C = applyVisits (acc.1.comp L S B C) (vis L S B C)) ∧
  (acc'.2 = true ↔
    acc.2 = true ∨ ∃ L S B C, visitsRaise (acc.1.comp L S B C) (vis L S B C) = true)

/-- A scheme record after the schedule update: `Available` tells whether the
schedule value is positive. -/
def scheduled (env : Env) (o : OpSchemeData) : OpSchemeData :=
  { o with Available := decide (env.GetCurrentScheduleValue o.SchedPtr > 0) }

/-- The value of `CurCompLevelOpNum` after the loop over the first `N` of the
component's own schemes that looks for scheme `OpNum`: the last index that
points to it, the old value when there is none. -/
def lastMatch (c : CompData) (OpNum N : Nat) : Nat :=
  forLoop (fun m n => if (c.OpScheme n).OpSchemePtr = OpNum then n else m) c.CurCompLevelOpNum N

/-- The scheme type tag after the reset: kept when it is one of demand, pump,
water side economizer and no control, "no control" otherwise. -/
def resetTag (t : OpSchemeType) : OpSchemeType :=
  if t ≠ OpSchemeType.DemandOpSchemeType ∧ t ≠ OpSchemeType.PumpOpSchemeType ∧
      t ≠ OpSchemeType.WSEconOpSchemeType ∧ t ≠ OpSchemeType.NoControlOpSchemeType then
    OpSchemeType.NoControlOpSchemeType
  else t

/-- A sample environment for the schedule update: schedule 1 has the value
`v1`, every other schedule the value `v2`; no user defined scheme in the model. -/
def gateEnv (v1 v2 : ℚ) : Env :=
  { demoEnv with GetCurrentScheduleValue := fun p => if p = 1 then v1 else v2 }

/-- The machine of the fifth sample plant: on the lists of schemes 1 and 2,
left by an earlier time step off, unavailable, with a load of 5 W, a load
override and the cooling scheme as its current scheme. -/
def gateMachine : CompData :=
  { GeneralEquipType := GenEquipType.GenEquipTypes_Other 1,
    CurOpSchemeType := OpSchemeType.CoolingRBOpSchemeType,
    NumOpSchemes := 2, CurCompLevelOpNum := 2,
    OpScheme := fun n =>
      { NumEquipLists := 1, OpSchemePtr := n, EquipList := fun _ => { ListPtr := 1, CompPtr := 1 } },
    MyLoad := 5, MaxLoad := 40, ON := false, Available := false, EMSLoadOverrideOn := true }

/-- The coil of the fifth sample plant: on no list, with the demand scheme type. -/
def gateCoil : CompData :=
  { GeneralEquipType := GenEquipType.GenEquipTypes_Other 2,
    CurOpSchemeType := OpSchemeType.DemandOpSchemeType, MyLoad := 7 }

/-- The valve of the fifth sample plant: on no list, left with the component
setpoint scheme type and a current scheme index by an earlier time step. -/
def gateValve : CompData :=
  { GeneralEquipType := GenEquipType.GenEquipTypes_Other 3,
    CurOpSchemeType := OpSchemeType.CompSetPtBasedSchemeType, CurCompLevelOpNum := 1,
    MyLoad := 3, ON := true }

/-- The fifth sample plant: loop 1 with the machine, the coil and the valve on
branches 1, 2 and 3 of its supply side (2), and two schemes, a heating load
scheme (schedule 1) and a cooling load scheme (schedule 2), each with one list
that names the machine. -/
def gatePlant : PlantState :=
  { TotNumLoops := 1,
    PlantLoop := fun _ =>
      { NumOpSchemes := 2,
        LoopSide := fun S =>
          if S = 2 then
            { TotalBranches := 3,
              Branch := fun B =>
                { TotalComponents := 1,
                  Comp := fun _ =>
                    if B = 1 then gateMachine else if B = 2 then gateCoil else gateValve } }
          else {},
        OpScheme := fun P =>
          { OpSchemeType :=
              if P = 1 then OpSchemeType.HeatingRBOpSchemeType
              else OpSchemeType.CoolingRBOpSchemeType,
            SchedPtr := P, NumEquipLists := 1,
            EquipList := fun _ =>
              { RangeLowerLimit := 0, RangeUpperLimit := 100, NumComps := 1,
                Comp := fun _ =>
                  { LoopNumPtr := 1, LoopSideNumPtr := 2, BranchNumPtr := 1, CompNumPtr := 1 } } } } }


/-! ## Proof devices for the one-time inits -/

/-- The list entries of the plant in the order in which the first one-time
loop meets them. -/
def listEntries (st : PlantState) : List (Nat × Nat × Nat × Nat) :=
  visitsUpTo (fun L =>
    visitsUpTo (fun P =>
      visitsUpTo (fun K =>
        visitsUpTo (fun i => [(L, P, K, i)]) (st.equipList L P K).NumComps)
        (st.opScheme L P).NumEquipLists)
      (st.PlantLoop L).NumOpSchemes)
    st.TotNumLoops

/-- Entry `i` of list `K` of scheme `P` of loop `L` is within the counts. -/
def inLists (st : PlantState) (L P K i : Nat) : Prop :=
  (1 ≤ L ∧ L ≤ st.TotNumLoops) ∧ (1 ≤ P ∧ P ≤ (st.PlantLoop L).NumOpSchemes) ∧
    (1 ≤ K ∧ K ≤ (st.opScheme L P).NumEquipLists) ∧
    1 ≤ i ∧ i ≤ (st.equipList L P K).NumComps

/-- The plant data `st'` has the lists of `st`: the same counts of loops,
schemes, lists and list entries. -/
structure SameLists (st st' : PlantState) : Prop where
  totNumLoops : st'.TotNumLoops = st.TotNumLoops
  numOpSchemes : ∀ L, (st'.PlantLoop L).NumOpSchemes = (st.PlantLoop L).NumOpSchemes
  numEquipLists : ∀ L P, (st'.opScheme L P).NumEquipLists = (st.opScheme L P).NumEquipLists
  numComps : ∀ L P K, (st'.equipList L P K).NumComps = (st.equipList L P K).NumComps

/-- The scan of the entry sets `errFlag1`: the equipment is not found on the loop. -/
def unresolved (senv : ScanEnv) (L P K i : Nat) : Bool :=
  (senv.ScanPlantLoopsForObject L P K i (senv.FindItem L P K i)).errFlag

/-- The entry names equipment of a type valid on plant loops only and its loop
is a condenser loop. -/
def plantTypeOnCondenserLoop (senv : ScanEnv) (L P K i : Nat) : Prop :=
  senv.ValidLoopEquipTypes (senv.FindItem L P K i) = senv.LoopType_Plant ∧
    senv.TypeOfLoop L = senv.LoopType_Condenser

/-- The entry names equipment of a type valid on condenser loops only and its
loop is a plant loop. -/
def condenserTypeOnPlantLoop (senv : ScanEnv) (L P K i : Nat) : Prop :=
  senv.ValidLoopEquipTypes (senv.FindItem L P K i) = senv.LoopType_Condenser ∧
    senv.TypeOfLoop L = senv.LoopType_Plant

/-- The loop body at an entry given as a tuple. -/
def resolveEntry (senv : ScanEnv) (run : InitRun) (p : Nat × Nat × Nat × Nat) : InitRun :=
  resolveListMember senv p.1 p.2.1 p.2.2.1 run p.2.2.2

/-- The messages about the type of one entry. -/
def typeMessages (senv : ScanEnv) (p : Nat × Nat × Nat × Nat) : List InitMessage :=
  (if senv.ValidLoopEquipTypes (senv.FindItem p.1 p.2.1 p.2.2.1 p.2.2.2) = senv.LoopType_Plant ∧
      senv.TypeOfLoop p.1 = senv.LoopType_Condenser then
    [InitMessage.notValidOnCondenserLoop p.1 p.2.1 p.2.2.1 p.2.2.2] else []) ++
  (if senv.ValidLoopEquipTypes (senv.FindItem p.1 p.2.1 p.2.2.1 p.2.2.2) =
      senv.LoopType_Condenser ∧ senv.TypeOfLoop p.1 = senv.LoopType_Plant then
    [InitMessage.notValidOnPlantLoop p.1 p.2.1 p.2.2.1 p.2.2.2] else [])

/-- The messages about the types of the entries of a list of entries, in order. -/
def entryMessages (senv : ScanEnv) : List (Nat × Nat × Nat × Nat) → List InitMessage
  | [] => []
  | p :: l => typeMessages senv p ++ entryMessages senv l

/-- The message is one of the two type messages. -/
def InitMessage.isTypeMessage : InitMessage → Bool
  | InitMessage.notValidOnCondenserLoop _ _ _ _ => true
  | InitMessage.notValidOnPlantLoop _ _ _ _ => true
  | _ => false

/-- The sixth sample plant: one loop with one scheme whose single list has
three entries, none of them resolved yet. -/
def scanPlant : PlantState :=
  { TotNumLoops := 1,
    PlantLoop := fun _ =>
      { NumOpSchemes := 1,
        OpScheme := fun _ =>
          { OpSchemeType := OpSchemeType.CoolingRBOpSchemeType, NumEquipLists := 1,
            EquipList := fun _ =>
              { RangeLowerLimit := 0, RangeUpperLimit := 100, NumComps := 3 } } } }

/-- A sample of the collaborators for a condenser loop (loop class 2): entry
`i` names equipment of type `i`, found on branch `i` of the supply side unless
`missing i`; `kind t` is the loop class type `t` is valid on. -/
def scanEnv (missing : Nat → Bool) (kind : Nat → Nat) : ScanEnv :=
  { FindItem := fun _ _ _ i => i,
    ScanPlantLoopsForObject := fun _ _ _ i _ =>
      { LoopNum := 1, LoopSideNum := 2, BranchNum := i, CompNum := 1, errFlag := missing i },
    ValidLoopEquipTypes := kind,
    TypeOfLoop := fun _ => 2,
    LoopType_Plant := 1,
    LoopType_Condenser := 2 }


/-! ## Proof devices for the last stage and the driver exits -/

/-- The last of the lists `1 .. n` of the scheme record `o` whose upper limit
is `h`; the value recorded before when there is none. -/
def lastStageIndex (o : OpSchemeData) (h : ℚ) : Nat → Nat
  | 0 => o.EquipListNumForLastStage
  | n + 1 => if h = (o.EquipList (n + 1)).RangeUpperLimit then n + 1 else lastStageIndex o h n

/-- The largest of `0` and the upper limits of the lists `1 .. n` of `o`. -/
def highestUpperLimit (o : OpSchemeData) : Nat → ℚ
  | 0 => 0
  | n + 1 => max (highestUpperLimit o n) (o.EquipList (n + 1)).RangeUpperLimit

/-- The scheme record after the last of the one-time loops. -/
def withLastStage (o : OpSchemeData) : OpSchemeData :=
  if o.OpSchemeType ≠ OpSchemeType.HeatingRBOpSchemeType ∧
      o.OpSchemeType ≠ OpSchemeType.CoolingRBOpSchemeType then o
  else
    { o with
      EquipListNumForLastStage :=
        lastStageIndex o (highestUpperLimit o o.NumEquipLists) o.NumEquipLists }

/-- The type of the scheme that the driver finds current for the calling
component, read as the driver does after `ActivateEMSControls`. -/
def currentSchemeType (env : Env) (st : PlantState) (L S B C : Nat) : OpSchemeType :=
  ((ActivateEMSControls env st L S B C).1.opScheme L
    (((ActivateEMSControls env st L S B C).1.comp L S B C).OpScheme
      ((ActivateEMSControls env st L S B C).1.comp L S B C).CurCompLevelOpNum).OpSchemePtr).OpSchemeType

/-- No override of `ActivateEMSControls` applies to a call made for the
component `( L, S, B, C )`: neither the loop nor the half loop is shut down,
and the component load override is off. -/
def noOverrideApplies (st : PlantState) (L S B C : Nat) : Prop :=
  ¬ ((st.PlantLoop L).EMSCtrl = true ∧ (st.PlantLoop L).EMSValue ≤ 0) ∧
  ¬ ((st.side L S).EMSCtrl = true ∧ (st.side L S).EMSValue ≤ 0) ∧
  (st.comp L S B C).EMSLoadOverrideOn = false

/-- A sample scheme record for the last stage: a scheme of type `t` with three
lists of upper limits `u 1`, `u 2`, `u 3` and no last stage recorded. -/
def stagePlant (t : OpSchemeType) (u : Nat → ℚ) : PlantState :=
  { TotNumLoops := 1,
    PlantLoop := fun _ =>
      { NumOpSchemes := 1,
        OpScheme := fun _ =>
          { OpSchemeType := t, NumEquipLists := 3,
            EquipList := fun K => { RangeLowerLimit := 0, RangeUpperLimit := u K, NumComps := 0 } } } }


/-- Member `i` of the list is assigned a load by a call of
`DistributePlantLoad` with demand `D` under the sequential policy: the
distribution runs (`|D| >= SmallLoad`) and the member is available on entry. -/
def loadAssigned (env : Env) (st : PlantState) (L S P K : Nat) (D : ℚ) (i : Nat) : Bool :=
  decide (env.SmallLoad ≤ |D|) && (st.member L S P K i).Available

/-! # Frame lemmas for component assignments -/

section Frame

variable (st : PlantState) (L S B C : Nat) (f : CompData → CompData)

@[simp] theorem comp_modifyComp (L2 S2 B2 C2 : Nat) :
    (st.modifyComp L S B C f).comp L2 S2 B2 C2 =
      if L2 = L ∧ S2 = S ∧ B2 = B ∧ C2 = C then f (st.comp L S B C) else st.comp L2 S2 B2 C2 := by
  unfold PlantState.modifyComp PlantState.comp
  by_cases hL : L2 = L
  · subst hL
    by_cases hS : S2 = S
    · subst hS
      by_cases hB : B2 = B
      · subst hB
        by_cases hC : C2 = C
        · subst hC; simp
        · simp [hC]
      · simp [hB]
    · simp [hS]
  · simp [hL]

theorem comp_modifyComp_self :
    (st.modifyComp L S B C f).comp L S B C = f (st.comp L S B C) := by
  simp

@[simp] theorem opScheme_modifyComp (L2 P : Nat) :
    (st.modifyComp L S B C f).opScheme L2 P = st.opScheme L2 P := by
  unfold PlantState.modifyComp PlantState.opScheme
  by_cases hL : L2 = L
  · subst hL; simp
  · simp [hL]

@[simp] theorem equipList_modifyComp (L2 P K : Nat) :
    (st.modifyComp L S B C f).equipList L2 P K = st.equipList L2 P K := by
  unfold PlantState.modifyComp PlantState.equipList
  by_cases hL : L2 = L
  · subst hL; simp
  · simp [hL]

@[simp] theorem side_modifyComp_EMSCtrl (L2 S2 : Nat) :
    ((st.modifyComp L S B C f).side L2 S2).EMSCtrl = (st.side L2 S2).EMSCtrl := by
  unfold PlantState.modifyComp PlantState.side
  by_cases hL : L2 = L
  · subst hL
    by_cases hS : S2 = S
    · subst hS; simp
    · simp [hS]
  · simp [hL]

@[simp] theorem side_modifyComp_EMSValue (L2 S2 : Nat) :
    ((st.modifyComp L S B C f).side L2 S2).EMSValue = (st.side L2 S2).EMSValue := by
  unfold PlantState.modifyComp PlantState.side
  by_cases hL : L2 = L
  · subst hL
    by_cases hS : S2 = S
    · subst hS; simp
    · simp [hS]
  · simp [hL]

@[simp] theorem side_modifyComp_TotalBranches (L2 S2 : Nat) :
    ((st.modifyComp L S B C f).side L2 S2).TotalBranches = (st.side L2 S2).TotalBranches := by
  unfold PlantState.modifyComp PlantState.side
  by_cases hL : L2 = L
  · subst hL
    by_cases hS : S2 = S
    · subst hS; simp
    · simp [hS]
  · simp [hL]

@[simp] theorem branch_modifyComp_TotalComponents (L2 S2 B2 : Nat) :
    ((st.modifyComp L S B C f).branch L2 S2 B2).TotalComponents =
      (st.branch L2 S2 B2).TotalComponents := by
  unfold PlantState.modifyComp PlantState.branch
  by_cases hL : L2 = L
  · subst hL
    by_cases hS : S2 = S
    · subst hS
      by_cases hB : B2 = B
      · subst hB; simp
      · simp [hB]
    · simp [hS]
  · simp [hL]

@[simp] theorem branch_modifyComp_EMSCtrlOverrideOn (L2 S2 B2 : Nat) :
    ((st.modifyComp L S B C f).branch L2 S2 B2).EMSCtrlOverrideOn =
      (st.branch L2 S2 B2).EMSCtrlOverrideOn := by
  unfold PlantState.modifyComp PlantState.branch
  by_cases hL : L2 = L
  · subst hL
    by_cases hS : S2 = S
    · subst hS
      by_cases hB : B2 = B
      · subst hB; simp
      · simp [hB]
    · simp [hS]
  · simp [hL]

@[simp] theorem branch_modifyComp_EMSCtrlOverrideValue (L2 S2 B2 : Nat) :
    ((st.modifyComp L S B C f).branch L2 S2 B2).EMSCtrlOverrideValue =
      (st.branch L2 S2 B2).EMSCtrlOverrideValue := by
  unfold PlantState.modifyComp PlantState.branch
  by_cases hL : L2 = L
  · subst hL
    by_cases hS : S2 = S
    · subst hS
      by_cases hB : B2 = B
      · subst hB; simp
      · simp [hB]
    · simp [hS]
  · simp [hL]

@[simp] theorem loop_modifyComp_LoadDistribution (L2 : Nat) :
    ((st.modifyComp L S B C f).PlantLoop L2).LoadDistribution =
      (st.PlantLoop L2).LoadDistribution := by
  unfold PlantState.modifyComp
  by_cases hL : L2 = L
  · subst hL; simp
  · simp [hL]

@[simp] theorem loop_modifyComp_FluidIndex (L2 : Nat) :
    ((st.modifyComp L S B C f).PlantLoop L2).FluidIndex = (st.PlantLoop L2).FluidIndex := by
  unfold PlantState.modifyComp
  by_cases hL : L2 = L
  · subst hL; simp
  · simp [hL]

@[simp] theorem loop_modifyComp_NumOpSchemes (L2 : Nat) :
    ((st.modifyComp L S B C f).PlantLoop L2).NumOpSchemes = (st.PlantLoop L2).NumOpSchemes := by
  unfold PlantState.modifyComp
  by_cases hL : L2 = L
  · subst hL; simp
  · simp [hL]

@[simp] theorem loop_modifyComp_EMSCtrl (L2 : Nat) :
    ((st.modifyComp L S B C f).PlantLoop L2).EMSCtrl = (st.PlantLoop L2).EMSCtrl := by
  unfold PlantState.modifyComp
  by_cases hL : L2 = L
  · subst hL; simp
  · simp [hL]

@[simp] theorem loop_modifyComp_EMSValue (L2 : Nat) :
    ((st.modifyComp L S B C f).PlantLoop L2).EMSValue = (st.PlantLoop L2).EMSValue := by
  unfold PlantState.modifyComp
  by_cases hL : L2 = L
  · subst hL; simp
  · simp [hL]

@[simp] theorem loop_modifyComp_LoopDemandCalcScheme (L2 : Nat) :
    ((st.modifyComp L S B C f).PlantLoop L2).LoopDemandCalcScheme =
      (st.PlantLoop L2).LoopDemandCalcScheme := by
  unfold PlantState.modifyComp
  by_cases hL : L2 = L
  · subst hL; simp
  · simp [hL]

@[simp] theorem modifyComp_TotNumLoops :
    (st.modifyComp L S B C f).TotNumLoops = st.TotNumLoops := rfl

@[simp] theorem modifyComp_Tsensor :
    (st.modifyComp L S B C f).Tsensor = st.Tsensor := rfl

end Frame
section Demo
variable (policy : LoadingScheme) (n lastStage : Nat) (upper : ℚ) (c : Nat → CompData)

@[simp] theorem demoPlant_comp (B : Nat) :
    (demoPlant policy n lastStage upper c).comp 1 2 B 1 = c B := rfl

@[simp] theorem demoPlant_equipList :
    (demoPlant policy n lastStage upper c).equipList 1 1 1 =
      { RangeLowerLimit := 0, RangeUpperLimit := upper, NumComps := n,
        Comp := fun i => { LoopNumPtr := 1, LoopSideNumPtr := 2, BranchNumPtr := i, CompNumPtr := 1 } } := rfl

@[simp] theorem demoPlant_lastStage :
    ((demoPlant policy n lastStage upper c).opScheme 1 1).EquipListNumForLastStage = lastStage := rfl

@[simp] theorem demoPlant_side_EMSCtrl :
    ((demoPlant policy n lastStage upper c).side 1 2).EMSCtrl = false := rfl

@[simp] theorem demoPlant_branch_EMSCtrlOverrideOn (B : Nat) :
    ((demoPlant policy n lastStage upper c).branch 1 2 B).EMSCtrlOverrideOn = false := rfl

@[simp] theorem demoPlant_LoadDistribution :
    ((demoPlant policy n lastStage upper c).PlantLoop 1).LoadDistribution = policy := rfl

end Demo

section RangePlant
variable (loopEMS sideEMS : Bool)

@[simp] theorem rangePlant_comp_supply (L B C : Nat) :
    (rangePlant loopEMS sideEMS).comp L 2 B C = rangeSupplyComp B := rfl

@[simp] theorem rangePlant_comp_demand (L B C : Nat) :
    (rangePlant loopEMS sideEMS).comp L 1 B C = rangeDemandComp := rfl

@[simp] theorem rangePlant_equipList (L P K : Nat) :
    (rangePlant loopEMS sideEMS).equipList L P K = rangeList K := rfl

@[simp] theorem rangePlant_opScheme_type (L P : Nat) :
    ((rangePlant loopEMS sideEMS).opScheme L P).OpSchemeType =
      OpSchemeType.HeatingRBOpSchemeType := rfl

@[simp] theorem rangePlant_opScheme_available (L P : Nat) :
    ((rangePlant loopEMS sideEMS).opScheme L P).Available = true := rfl

@[simp] theorem rangePlant_opScheme_lastStage (L P : Nat) :
    ((rangePlant loopEMS sideEMS).opScheme L P).EquipListNumForLastStage = 3 := rfl

@[simp] theorem rangePlant_opScheme_numEquipLists (L P : Nat) :
    ((rangePlant loopEMS sideEMS).opScheme L P).NumEquipLists = 3 := rfl

@[simp] theorem rangePlant_loop_EMSCtrl (L : Nat) :
    ((rangePlant loopEMS sideEMS).PlantLoop L).EMSCtrl = loopEMS := rfl

@[simp] theorem rangePlant_loop_EMSValue (L : Nat) :
    ((rangePlant loopEMS sideEMS).PlantLoop L).EMSValue = 0 := rfl

@[simp] theorem rangePlant_loop_numOpSchemes (L : Nat) :
    ((rangePlant loopEMS sideEMS).PlantLoop L).NumOpSchemes = 1 := rfl

@[simp] theorem rangePlant_loop_loadDistribution (L : Nat) :
    ((rangePlant loopEMS sideEMS).PlantLoop L).LoadDistribution =
      LoadingScheme.SequentialLoading := rfl

@[simp] theorem rangePlant_side_supply_EMSCtrl (L : Nat) :
    ((rangePlant loopEMS sideEMS).side L 2).EMSCtrl = sideEMS := rfl

@[simp] theorem rangePlant_side_supply_EMSValue (L : Nat) :
    ((rangePlant loopEMS sideEMS).side L 2).EMSValue = 0 := rfl

@[simp] theorem rangePlant_side_supply_totalBranches (L : Nat) :
    ((rangePlant loopEMS sideEMS).side L 2).TotalBranches = 4 := rfl

@[simp] theorem rangePlant_side_demand_EMSCtrl (L : Nat) :
    ((rangePlant loopEMS sideEMS).side L 1).EMSCtrl = false := rfl

@[simp] theorem rangePlant_side_demand_totalBranches (L : Nat) :
    ((rangePlant loopEMS sideEMS).side L 1).TotalBranches = 1 := rfl

@[simp] theorem rangePlant_branch_totalComponents (L S B : Nat) :
    ((rangePlant loopEMS sideEMS).branch L S B).TotalComponents = 1 := by
  unfold rangePlant PlantState.branch
  by_cases h : S = 2 <;> simp [h]

@[simp] theorem rangePlant_branch_EMSCtrlOverrideOn (L S B : Nat) :
    ((rangePlant loopEMS sideEMS).branch L S B).EMSCtrlOverrideOn = false := by
  unfold rangePlant PlantState.branch
  by_cases h : S = 2 <;> simp [h]

end RangePlant

section EmsPlant
variable (policy : LoadingScheme) (sideEMS branchEMS : Bool) (c : CompData)

@[simp] theorem emsPlant_comp_pipe (L C : Nat) :
    (emsPlant policy sideEMS branchEMS c).comp L 2 1 C = emsPipe := rfl

@[simp] theorem emsPlant_comp_machine (L : Nat) :
    (emsPlant policy sideEMS branchEMS c).comp L 2 2 1 = c := rfl

@[simp] theorem emsPlant_comp_valve (L : Nat) :
    (emsPlant policy sideEMS branchEMS c).comp L 2 2 2 = emsValve := rfl

@[simp] theorem emsPlant_equipList (L P K : Nat) :
    (emsPlant policy sideEMS branchEMS c).equipList L P K =
      { RangeLowerLimit := 0, RangeUpperLimit := 100, NumComps := 1,
        Comp := fun _ =>
          { LoopNumPtr := 1, LoopSideNumPtr := 2, BranchNumPtr := 2, CompNumPtr := 1 } } := rfl

@[simp] theorem emsPlant_opScheme_type (L P : Nat) :
    ((emsPlant policy sideEMS branchEMS c).opScheme L P).OpSchemeType =
      OpSchemeType.HeatingRBOpSchemeType := rfl

@[simp] theorem emsPlant_opScheme_available (L P : Nat) :
    ((emsPlant policy sideEMS branchEMS c).opScheme L P).Available = true := rfl

@[simp] theorem emsPlant_opScheme_lastStage (L P : Nat) :
    ((emsPlant policy sideEMS branchEMS c).opScheme L P).EquipListNumForLastStage = 1 := rfl

@[simp] theorem emsPlant_loop_EMSCtrl (L : Nat) :
    ((emsPlant policy sideEMS branchEMS c).PlantLoop L).EMSCtrl = false := rfl

@[simp] theorem emsPlant_loop_numOpSchemes (L : Nat) :
    ((emsPlant policy sideEMS branchEMS c).PlantLoop L).NumOpSchemes = 1 := rfl

@[simp] theorem emsPlant_loop_loadDistribution (L : Nat) :
    ((emsPlant policy sideEMS branchEMS c).PlantLoop L).LoadDistribution = policy := rfl

@[simp] theorem emsPlant_loop_fluidIndex (L : Nat) :
    ((emsPlant policy sideEMS branchEMS c).PlantLoop L).FluidIndex = 0 := rfl

@[simp] theorem emsPlant_side_EMSCtrl (L : Nat) :
    ((emsPlant policy sideEMS branchEMS c).side L 2).EMSCtrl = sideEMS := rfl

@[simp] theorem emsPlant_side_EMSValue (L : Nat) :
    ((emsPlant policy sideEMS branchEMS c).side L 2).EMSValue = 0 := rfl

@[simp] theorem emsPlant_side_totalBranches (L : Nat) :
    ((emsPlant policy sideEMS branchEMS c).side L 2).TotalBranches = 2 := rfl

@[simp] theorem emsPlant_branch1_totalComponents (L : Nat) :
    ((emsPlant policy sideEMS branchEMS c).branch L 2 1).TotalComponents = 1 := rfl

@[simp] theorem emsPlant_branch2_totalComponents (L : Nat) :
    ((emsPlant policy sideEMS branchEMS c).branch L 2 2).TotalComponents = 2 := rfl

@[simp] theorem emsPlant_branch1_EMSCtrlOverrideOn (L : Nat) :
    ((emsPlant policy sideEMS branchEMS c).branch L 2 1).EMSCtrlOverrideOn = false := rfl

@[simp] theorem emsPlant_branch2_EMSCtrlOverrideOn (L : Nat) :
    ((emsPlant policy sideEMS branchEMS c).branch L 2 2).EMSCtrlOverrideOn = branchEMS := rfl

@[simp] theorem emsPlant_branch2_EMSCtrlOverrideValue (L : Nat) :
    ((emsPlant policy sideEMS branchEMS c).branch L 2 2).EMSCtrlOverrideValue = 0 := rfl

theorem emsPlant_anyOpSchemeAvailable :
    anyOpSchemeAvailable (emsPlant policy sideEMS branchEMS c) 1 = true := by
  simp [anyOpSchemeAvailable, forLoop]

end EmsPlant

section SetPointPlant
variable (scheme : DemandCalcScheme) (ctrl : CtrlType) (mn mx : ℚ)

@[simp] theorem setPointPlant_comp (L B C : Nat) :
    (setPointPlant scheme ctrl mn mx).comp L 2 B C = setPointComp mn mx := rfl

@[simp] theorem setPointPlant_member (L S B C q : Nat) :
    setPointMember (setPointPlant scheme ctrl mn mx) L S B C q =
      { LoopNumPtr := 1, LoopSideNumPtr := 2, BranchNumPtr := 1, CompNumPtr := 1,
        SetPointFlowRate := 1 / 1000, DemandNodeNum := 1, SetPointNodeNum := 2,
        CtrlTypeNum := ctrl } := rfl

@[simp] theorem setPointPlant_scheme (L : Nat) :
    ((setPointPlant scheme ctrl mn mx).PlantLoop L).LoopDemandCalcScheme = scheme := rfl

@[simp] theorem setPointPlant_fluidIndex (L : Nat) :
    ((setPointPlant scheme ctrl mn mx).PlantLoop L).FluidIndex = 0 := rfl

end SetPointPlant

section SampleEnv
variable (Tin mdot sp lo hi : ℚ)

@[simp] theorem sampleEnv_node1 :
    (sampleEnv Tin mdot sp lo hi).Node 1 =
      { Temp := Tin, TempLastTimestep := Tin, MassFlowRate := mdot } := rfl

@[simp] theorem sampleEnv_node2 :
    (sampleEnv Tin mdot sp lo hi).Node 2 =
      { TempSetPoint := sp, TempSetPointLo := lo, TempSetPointHi := hi } := rfl

@[simp] theorem sampleEnv_specHeat (i : Nat) (T : ℚ) :
    (sampleEnv Tin mdot sp lo hi).GetSpecificHeatGlycol i T = 4180 := rfl

@[simp] theorem sampleEnv_density (i : Nat) (T : ℚ) :
    (sampleEnv Tin mdot sp lo hi).GetDensityGlycol i T = 1000 := rfl

@[simp] theorem sampleEnv_SmallLoad : (sampleEnv Tin mdot sp lo hi).SmallLoad = 1 := rfl

@[simp] theorem sampleEnv_LoopDemandTol : (sampleEnv Tin mdot sp lo hi).LoopDemandTol = 1 / 10 := rfl

@[simp] theorem sampleEnv_sentinel : (sampleEnv Tin mdot sp lo hi).SensedNodeFlagValue = -999 := rfl

@[simp] theorem sampleEnv_dryBulb : (sampleEnv Tin mdot sp lo hi).OutDryBulbTemp = 20 := rfl

end SampleEnv
/-! # Skeleton preservation and loops of component assignments -/

theorem SameSkeleton.refl (st : PlantState) : SameSkeleton st st := by
  constructor <;> intros <;> rfl

theorem SameSkeleton.trans {a b c : PlantState} (h1 : SameSkeleton a b) (h2 : SameSkeleton b c) :
    SameSkeleton a c := by
  constructor
  · rw [h2.totNumLoops, h1.totNumLoops]
  · intro L P; rw [h2.opScheme, h1.opScheme]
  · intro L; rw [h2.numOpSchemes, h1.numOpSchemes]
  · intro L; rw [h2.loadDistribution, h1.loadDistribution]
  · intro L; rw [h2.loopDemandCalcScheme, h1.loopDemandCalcScheme]
  · intro L; rw [h2.fluidIndex, h1.fluidIndex]
  · intro L; rw [h2.loopEMSCtrl, h1.loopEMSCtrl]
  · intro L; rw [h2.loopEMSValue, h1.loopEMSValue]
  · intro L S; rw [h2.totalBranches, h1.totalBranches]
  · intro L S; rw [h2.sideEMSCtrl, h1.sideEMSCtrl]
  · intro L S; rw [h2.sideEMSValue, h1.sideEMSValue]
  · intro L S B; rw [h2.totalComponents, h1.totalComponents]
  · intro L S B; rw [h2.branchEMSCtrlOverrideOn, h1.branchEMSCtrlOverrideOn]
  · intro L S B; rw [h2.branchEMSCtrlOverrideValue, h1.branchEMSCtrlOverrideValue]

theorem SameSkeleton.modifyComp (st : PlantState) (L S B C : Nat) (f : CompData → CompData) :
    SameSkeleton st (st.modifyComp L S B C f) := by
  constructor <;> intros <;> simp

theorem SameSkeleton.equipList {st st' : PlantState} (h : SameSkeleton st st') (L P K : Nat) :
    st'.equipList L P K = st.equipList L P K := by
  have := h.opScheme L P
  unfold PlantState.opScheme at this
  unfold PlantState.equipList
  rw [this]

/-- Assigning a component its own value changes nothing. -/
theorem modifyComp_eq_self (st : PlantState) (L S B C : Nat) (f : CompData → CompData)
    (h : f (st.comp L S B C) = st.comp L S B C) : st.modifyComp L S B C f = st := by
  unfold PlantState.comp at h
  unfold PlantState.modifyComp
  rw [h]
  simp [Function.update_eq_self]

/-- Only the value assigned matters. -/
theorem modifyComp_congr (st : PlantState) (L S B C : Nat) (f g : CompData → CompData)
    (h : f (st.comp L S B C) = g (st.comp L S B C)) :
    st.modifyComp L S B C f = st.modifyComp L S B C g := by
  unfold PlantState.comp at h
  unfold PlantState.modifyComp
  rw [h]

theorem turnOffComp_eq (L S Num : Nat) (st : PlantState) (M : Nat) :
    turnOffComp L S Num st M = st.modifyComp L S Num M turnedOff := by
  unfold turnOffComp
  by_cases h : (st.comp L S Num M).GeneralEquipType ≠ GenEquipType.GenEquipTypes_Pump
  · rw [if_pos h]
    apply modifyComp_congr
    simp [turnedOff, h]
  · rw [if_neg h]
    symm
    apply modifyComp_eq_self
    simp [turnedOff, h]

/-- A loop over the components `1 .. m` of one branch that assigns `f c` to
each component `c`. -/
theorem forLoop_modifyComp (L S B : Nat) (f : CompData → CompData) (st : PlantState) (m : Nat) :
    SameSkeleton st (forLoop (fun st C => st.modifyComp L S B C f) st m) ∧
    ∀ L2 S2 B2 C2, (forLoop (fun st C => st.modifyComp L S B C f) st m).comp L2 S2 B2 C2 =
      if L2 = L ∧ S2 = S ∧ B2 = B ∧ 1 ≤ C2 ∧ C2 ≤ m then f (st.comp L2 S2 B2 C2)
      else st.comp L2 S2 B2 C2 := by
  induction m with
  | zero =>
    refine ⟨SameSkeleton.refl st, ?_⟩
    intro L2 S2 B2 C2
    have : ¬ (L2 = L ∧ S2 = S ∧ B2 = B ∧ 1 ≤ C2 ∧ C2 ≤ 0) := by omega
    rw [if_neg this]
    rfl
  | succ m ih =>
    obtain ⟨ihs, ihc⟩ := ih
    refine ⟨ihs.trans (SameSkeleton.modifyComp _ _ _ _ _ _), ?_⟩
    intro L2 S2 B2 C2
    simp only [forLoop, comp_modifyComp, ihc]
    by_cases h1 : L2 = L ∧ S2 = S ∧ B2 = B ∧ C2 = m + 1
    · obtain ⟨rfl, rfl, rfl, rfl⟩ := h1
      have h2 : ¬ (L2 = L2 ∧ S2 = S2 ∧ B2 = B2 ∧ 1 ≤ m + 1 ∧ m + 1 ≤ m) := by omega
      simp [h2]
    · rw [if_neg h1]
      by_cases h3 : L2 = L ∧ S2 = S ∧ B2 = B ∧ 1 ≤ C2 ∧ C2 ≤ m
      · have h4 : L2 = L ∧ S2 = S ∧ B2 = B ∧ 1 ≤ C2 ∧ C2 ≤ m + 1 := by omega
        rw [if_pos h3, if_pos h4]
      · have h4 : ¬ (L2 = L ∧ S2 = S ∧ B2 = B ∧ 1 ≤ C2 ∧ C2 ≤ m + 1) := by
          intro h; apply h3; refine ⟨h.1, h.2.1, h.2.2.1, h.2.2.2.1, ?_⟩
          by_contra hc; apply h1; refine ⟨h.1, h.2.1, h.2.2.1, ?_⟩; omega
        rw [if_neg h3, if_neg h4]

/-- The two nested loops over the branches `1 .. n` of a half loop and the
components of each branch, assigning `f c` to each component `c`. -/
theorem forLoop_branches_modifyComp (L S : Nat) (f : CompData → CompData) (st : PlantState)
    (n : Nat) :
    SameSkeleton st
      (forLoop (fun st B => forLoop (fun st C => st.modifyComp L S B C f) st
        (st.branch L S B).TotalComponents) st n) ∧
    ∀ L2 S2 B2 C2,
      (forLoop (fun st B => forLoop (fun st C => st.modifyComp L S B C f) st
        (st.branch L S B).TotalComponents) st n).comp L2 S2 B2 C2 =
      if L2 = L ∧ S2 = S ∧ (1 ≤ B2 ∧ B2 ≤ n) ∧ 1 ≤ C2 ∧ C2 ≤ (st.branch L S B2).TotalComponents
      then f (st.comp L2 S2 B2 C2) else st.comp L2 S2 B2 C2 := by
  induction n with
  | zero =>
    refine ⟨SameSkeleton.refl st, ?_⟩
    intro L2 S2 B2 C2
    have : ¬ (L2 = L ∧ S2 = S ∧ (1 ≤ B2 ∧ B2 ≤ 0) ∧ 1 ≤ C2 ∧
        C2 ≤ (st.branch L S B2).TotalComponents) := by omega
    rw [if_neg this]
    rfl
  | succ n ih =>
    obtain ⟨ihs, ihc⟩ := ih
    have hin := forLoop_modifyComp L S (n + 1) f
      (forLoop (fun st B => forLoop (fun st C => st.modifyComp L S B C f) st
        (st.branch L S B).TotalComponents) st n)
      ((forLoop (fun st B => forLoop (fun st C => st.modifyComp L S B C f) st
        (st.branch L S B).TotalComponents) st n).branch L S (n + 1)).TotalComponents
    obtain ⟨hs, hc⟩ := hin
    refine ⟨ihs.trans hs, ?_⟩
    intro L2 S2 B2 C2
    simp only [forLoop]
    rw [hc, ihc, ihs.totalComponents]
    by_cases h1 : L2 = L ∧ S2 = S ∧ B2 = n + 1 ∧ 1 ≤ C2 ∧
        C2 ≤ (st.branch L S (n + 1)).TotalComponents
    · rw [if_pos h1]
      obtain ⟨rfl, rfl, rfl, h4, h5⟩ := h1
      have h2 : ¬ (L2 = L2 ∧ S2 = S2 ∧ (1 ≤ n + 1 ∧ n + 1 ≤ n) ∧ 1 ≤ C2 ∧
          C2 ≤ (st.branch L2 S2 (n + 1)).TotalComponents) := by omega
      have h3 : L2 = L2 ∧ S2 = S2 ∧ (1 ≤ n + 1 ∧ n + 1 ≤ n + 1) ∧ 1 ≤ C2 ∧
          C2 ≤ (st.branch L2 S2 (n + 1)).TotalComponents :=
        ⟨rfl, rfl, ⟨by omega, le_refl _⟩, h4, h5⟩
      rw [if_neg h2, if_pos h3]
    · rw [if_neg h1]
      by_cases h3 : L2 = L ∧ S2 = S ∧ (1 ≤ B2 ∧ B2 ≤ n) ∧ 1 ≤ C2 ∧
          C2 ≤ (st.branch L S B2).TotalComponents
      · have h4 : L2 = L ∧ S2 = S ∧ (1 ≤ B2 ∧ B2 ≤ n + 1) ∧ 1 ≤ C2 ∧
            C2 ≤ (st.branch L S B2).TotalComponents :=
          ⟨h3.1, h3.2.1, ⟨h3.2.2.1.1, by omega⟩, h3.2.2.2⟩
        rw [if_pos h3, if_pos h4]
      · have h4 : ¬ (L2 = L ∧ S2 = S ∧ (1 ≤ B2 ∧ B2 ≤ n + 1) ∧ 1 ≤ C2 ∧
            C2 ≤ (st.branch L S B2).TotalComponents) := by
          intro h
          by_cases hb : B2 = n + 1
          · apply h1; subst hb; exact ⟨h.1, h.2.1, rfl, h.2.2.2⟩
          · apply h3; exact ⟨h.1, h.2.1, ⟨h.2.2.1.1, by omega⟩, h.2.2.2⟩
        rw [if_neg h3, if_neg h4]

/-- The loops of `TurnOffLoopSideEquipment` are loops of component assignments. -/
theorem turnOff_branches_eq (L S : Nat) (st : PlantState) (n : Nat) :
    forLoop (fun st Num => forLoop (turnOffComp L S Num) st
        (st.branch L S Num).TotalComponents) st n =
      forLoop (fun st B => forLoop (fun st C => st.modifyComp L S B C turnedOff) st
        (st.branch L S B).TotalComponents) st n := by
  congr 1
  funext st B
  congr 1
  funext st C
  exact turnOffComp_eq L S B st C

/-- `TurnOffLoopSideEquipment` component by component: the components of the
half loop within the branch and component counts are `turnedOff`, every other
component record is untouched, and the skeleton is kept. -/
theorem TurnOffLoopSideEquipment_spec (st : PlantState) (L S : Nat) :
    SameSkeleton st (TurnOffLoopSideEquipment st L S) ∧
    ∀ L2 S2 B2 C2, (TurnOffLoopSideEquipment st L S).comp L2 S2 B2 C2 =
      if L2 = L ∧ S2 = S ∧ (1 ≤ B2 ∧ B2 ≤ (st.side L S).TotalBranches) ∧ 1 ≤ C2 ∧
          C2 ≤ (st.branch L S B2).TotalComponents
      then turnedOff (st.comp L2 S2 B2 C2) else st.comp L2 S2 B2 C2 := by
  unfold TurnOffLoopSideEquipment
  rw [turnOff_branches_eq]
  exact forLoop_branches_modifyComp L S turnedOff st _

/-- `TurnOffLoopEquipment` component by component: the same on both half
loops. -/
theorem TurnOffLoopEquipment_spec (st : PlantState) (L : Nat) :
    SameSkeleton st (TurnOffLoopEquipment st L) ∧
    ∀ L2 S2 B2 C2, (TurnOffLoopEquipment st L).comp L2 S2 B2 C2 =
      if L2 = L ∧ (S2 = 1 ∨ S2 = 2) ∧ (1 ≤ B2 ∧ B2 ≤ (st.side L S2).TotalBranches) ∧ 1 ≤ C2 ∧
          C2 ≤ (st.branch L S2 B2).TotalComponents
      then turnedOff (st.comp L2 S2 B2 C2) else st.comp L2 S2 B2 C2 := by
  have e : TurnOffLoopEquipment st L =
      TurnOffLoopSideEquipment (TurnOffLoopSideEquipment st L 1) L 2 := rfl
  obtain ⟨s1, c1⟩ := TurnOffLoopSideEquipment_spec st L 1
  obtain ⟨s2, c2⟩ := TurnOffLoopSideEquipment_spec (TurnOffLoopSideEquipment st L 1) L 2
  rw [e]
  refine ⟨s1.trans s2, ?_⟩
  intro L2 S2 B2 C2
  rw [c2, c1, s1.totalBranches, s1.totalComponents]
  by_cases hL : L2 = L
  · subst hL
    by_cases hS1 : S2 = 1
    · subst hS1
      simp
    · by_cases hS2 : S2 = 2
      · subst hS2
        simp
      · simp [hS1, hS2]
  · simp [hL]
/-! # Unfolding lemmas for the loop bodies -/

theorem firstPassBody_eq (env : Env) (L S P K : Nat) (target : CompData → ℚ → ℚ)
    (st : PlantState) (rem : ℚ) (i : Nat) :
    firstPassBody env L S P K target (st, rem) i =
      (let B := ((st.equipList L P K).Comp i).BranchNumPtr
       let C := ((st.equipList L P K).Comp i).CompNumPtr
       if (st.comp L S B C).Available = false then (st, rem)
       else
         let r := adjustChangeInLoad env st L S P K B C (target (st.comp L S B C) rem)
         (r.1.modifyComp L S B C (fun c => { c with MyLoad := sign r.2 rem }),
           snapRem env (rem - sign r.2 rem))) := rfl

theorem optimalStep2Body_eq (env : Env) (L S P K : Nat) (DivideLoad : ℚ)
    (st : PlantState) (rem : ℚ) (i : Nat) :
    optimalStep2Body env L S P K DivideLoad (st, rem) i =
      (let B := ((st.equipList L P K).Comp i).BranchNumPtr
       let C := ((st.equipList L P K).Comp i).CompNumPtr
       if (st.comp L S B C).Available = false then (st, rem)
       else
         let NewLoad := min (st.comp L S B C).MaxLoad (|(st.comp L S B C).MyLoad| + DivideLoad)
         let ChangeInLoad := NewLoad - |(st.comp L S B C).MyLoad|
         (st.modifyComp L S B C (fun c => { c with MyLoad := sign NewLoad rem }),
           snapRem env (rem - sign ChangeInLoad rem))) := rfl

theorem optimalStep3Body_eq (env : Env) (L S P K : Nat) (st : PlantState) (rem : ℚ) (i : Nat) :
    optimalStep3Body env L S P K (st, rem) i =
      (let B := ((st.equipList L P K).Comp i).BranchNumPtr
       let C := ((st.equipList L P K).Comp i).CompNumPtr
       if (st.comp L S B C).Available = false then (st, rem)
       else
         let ChangeInLoad := min |rem| ((st.comp L S B C).MaxLoad - |(st.comp L S B C).MyLoad|)
         (st.modifyComp L S B C (fun c => { c with MyLoad := c.MyLoad + sign ChangeInLoad rem }),
           snapRem env (rem - sign ChangeInLoad rem))) := rfl

theorem uniformStep2Body_eq (env : Env) (L S P K : Nat) (st : PlantState) (rem : ℚ) (i : Nat) :
    uniformStep2Body env L S P K (st, rem) i =
      (let B := ((st.equipList L P K).Comp i).BranchNumPtr
       let C := ((st.equipList L P K).Comp i).CompNumPtr
       if (st.comp L S B C).Available = false then (st, rem)
       else
         let ChangeInLoad :=
           max 0 (min ((st.comp L S B C).MaxLoad - |(st.comp L S B C).MyLoad|) |rem|)
         (st.modifyComp L S B C (fun c => { c with MyLoad := c.MyLoad + sign ChangeInLoad rem }),
           snapRem env (rem - sign ChangeInLoad rem))) := rfl

theorem updateOnFlagBody_eq (env : Env) (L S P K : Nat) (st : PlantState) (i : Nat) :
    updateOnFlagBody env L S P K st i =
      (let B := ((st.equipList L P K).Comp i).BranchNumPtr
       let C := ((st.equipList L P K).Comp i).CompNumPtr
       st.modifyComp L S B C
         (fun c => { c with ON := decide (¬ |(st.comp L S B C).MyLoad| < env.SmallLoad) })) := by
  unfold updateOnFlagBody
  by_cases h : |(st.comp L S ((st.equipList L P K).Comp i).BranchNumPtr
      ((st.equipList L P K).Comp i).CompNumPtr).MyLoad| < env.SmallLoad
  · simp [h]
  · simp [h]
/-! # Claims on `DistributePlantLoad` settled by evaluation -/

/-- C1 (defect shown at a cooling demand). Optimal policy, two available
components with `OptLoad = 1`, `MaxLoad = 10`, no override, `SmallLoad = 1`,
`LoopDemand = -7/2`: the members end with loads `-7/4` and `+7/4`, so their sum
`0` differs from `LoopDemand - RemLoopDemand = -7/2` by `7/2`, not by less
than `SmallLoad`. -/
theorem C1_load_sum_misses_served_demand :
    ((DistributePlantLoad demoEnv
        (demoPlant LoadingScheme.OptimalLoading 2 0 1000 (fun _ => demoComp 1 10))
        1 2 1 1 (-7 / 2)).1.comp 1 2 1 1).MyLoad = -(7 / 4) ∧
    ((DistributePlantLoad demoEnv
        (demoPlant LoadingScheme.OptimalLoading 2 0 1000 (fun _ => demoComp 1 10))
        1 2 1 1 (-7 / 2)).1.comp 1 2 2 1).MyLoad = 7 / 4 ∧
    (DistributePlantLoad demoEnv
        (demoPlant LoadingScheme.OptimalLoading 2 0 1000 (fun _ => demoComp 1 10))
        1 2 1 1 (-7 / 2)).2 = 0 ∧
    ¬ |(-(7 / 4) + 7 / 4 : ℚ) - (-7 / 2 - 0)| < demoEnv.SmallLoad := by
  norm_num [DistributePlantLoad, distributeOptimal, forLoop, firstPassBody_eq, optimalStep2Body_eq,
    optimalStep3Body_eq, updateOnFlagBody_eq, adjustChangeInLoad, AdjustChangeInLoadByHowServed,
    AdjustChangeInLoadByEMSControls, AdjustChangeInLoadForLastStageUpperRangeLimit, optimalTarget,
    snapRem, sign, demoComp, demoEnv, abs_of_nonneg, abs_of_neg]

/-- C2 (defect shown at cooling demands). With `SmallLoad = 1` and two available
components (`MaxLoad = 10`, no override): under the optimal policy
(`OptLoad = 1`) a demand of `-7/2` leaves the second member with the positive
load `7/4`, and under the uniform policy a demand of `-3/2` leaves the second
member with the positive load `3/4`: a load of the sign opposite to
`LoopDemand`. -/
theorem C2_member_load_of_opposite_sign :
    (0 < ((DistributePlantLoad demoEnv
        (demoPlant LoadingScheme.OptimalLoading 2 0 1000 (fun _ => demoComp 1 10))
        1 2 1 1 (-7 / 2)).1.comp 1 2 2 1).MyLoad ∧ (-7 / 2 : ℚ) < 0) ∧
    (0 < ((DistributePlantLoad demoEnv
        (demoPlant LoadingScheme.UniformLoading 2 0 1000 (fun _ => demoComp 5 10))
        1 2 1 1 (-3 / 2)).1.comp 1 2 2 1).MyLoad ∧ (-3 / 2 : ℚ) < 0) := by
  norm_num [DistributePlantLoad, distributeOptimal, distributeUniform, forLoop, firstPassBody_eq,
    optimalStep2Body_eq, optimalStep3Body_eq, uniformStep2Body_eq, updateOnFlagBody_eq,
    adjustChangeInLoad, AdjustChangeInLoadByHowServed, AdjustChangeInLoadByEMSControls,
    AdjustChangeInLoadForLastStageUpperRangeLimit, optimalTarget, uniformTarget,
    snapRem, sign, demoComp, demoEnv, abs_of_nonneg, abs_of_neg]

/-- C4 (defect shown at a cooling demand). Uniform policy, two available
components with `MaxLoad = 10`, `SmallLoad = 1`, `LoopDemand = -3/2` (so
`SmallLoad <= |LoopDemand| <= 2 * 10`): `RemLoopDemand` comes back 0, the first
member has `LoopDemand / 2 = -3/4` but the second has `+3/4`. -/
theorem C4_uniform_second_member_not_demand_share :
    ((DistributePlantLoad demoEnv
        (demoPlant LoadingScheme.UniformLoading 2 0 1000 (fun _ => demoComp 5 10))
        1 2 1 1 (-3 / 2)).1.comp 1 2 1 1).MyLoad = (-3 / 2) / 2 ∧
    ((DistributePlantLoad demoEnv
        (demoPlant LoadingScheme.UniformLoading 2 0 1000 (fun _ => demoComp 5 10))
        1 2 1 1 (-3 / 2)).1.comp 1 2 2 1).MyLoad = 3 / 4 ∧
    ((DistributePlantLoad demoEnv
        (demoPlant LoadingScheme.UniformLoading 2 0 1000 (fun _ => demoComp 5 10))
        1 2 1 1 (-3 / 2)).1.comp 1 2 2 1).MyLoad ≠ (-3 / 2) / 2 ∧
    (DistributePlantLoad demoEnv
        (demoPlant LoadingScheme.UniformLoading 2 0 1000 (fun _ => demoComp 5 10))
        1 2 1 1 (-3 / 2)).2 = 0 := by
  norm_num [DistributePlantLoad, distributeUniform, forLoop, firstPassBody_eq,
    uniformStep2Body_eq, updateOnFlagBody_eq,
    adjustChangeInLoad, AdjustChangeInLoadByHowServed, AdjustChangeInLoadByEMSControls,
    AdjustChangeInLoadForLastStageUpperRangeLimit, uniformTarget,
    snapRem, sign, demoComp, demoEnv, abs_of_nonneg, abs_of_neg]

/-- C5 (counterexample). Optimal policy, two available components with
`OptLoad = 2`, `MaxLoad = 10`, `SmallLoad = 1`, `LoopDemand = 3` (so
`SmallLoad <= |LoopDemand| <= 2 * 10`): the first member is loaded to its
optimal load 2, the second gets the rest 1; the loads are not equal. -/
theorem C5_optimal_loads_not_equal :
    ((DistributePlantLoad demoEnv
        (demoPlant LoadingScheme.OptimalLoading 2 0 1000 (fun _ => demoComp 2 10))
        1 2 1 1 3).1.comp 1 2 1 1).MyLoad = 2 ∧
    ((DistributePlantLoad demoEnv
        (demoPlant LoadingScheme.OptimalLoading 2 0 1000 (fun _ => demoComp 2 10))
        1 2 1 1 3).1.comp 1 2 2 1).MyLoad = 1 ∧
    ((DistributePlantLoad demoEnv
        (demoPlant LoadingScheme.OptimalLoading 2 0 1000 (fun _ => demoComp 2 10))
        1 2 1 1 3).1.comp 1 2 1 1).MyLoad ≠
      ((DistributePlantLoad demoEnv
        (demoPlant LoadingScheme.OptimalLoading 2 0 1000 (fun _ => demoComp 2 10))
        1 2 1 1 3).1.comp 1 2 2 1).MyLoad := by
  norm_num [DistributePlantLoad, distributeOptimal, forLoop, firstPassBody_eq, optimalStep2Body_eq,
    optimalStep3Body_eq, updateOnFlagBody_eq, adjustChangeInLoad, AdjustChangeInLoadByHowServed,
    AdjustChangeInLoadByEMSControls, AdjustChangeInLoadForLastStageUpperRangeLimit, optimalTarget,
    snapRem, sign, demoComp, demoEnv, abs_of_nonneg, abs_of_neg]

/-- C8 (defect shown on later passes). One available component (`MaxLoad = 100`)
on a list that is the last stage of its scheme with `RangeUpperLimit = 30`,
`LoopDemand = -35`, `SmallLoad = 1`: under the optimal policy (`OptLoad = 20`)
step 2 raises the load to magnitude 35, and under the uniform policy step 2
adds the 5 that step 1 had cut off; both exceed the upper range limit 30. -/
theorem C8_last_stage_load_exceeds_upper_limit :
    ((demoPlant LoadingScheme.OptimalLoading 1 1 30 (fun _ => demoComp 20 100)).opScheme 1
        1).EquipListNumForLastStage = 1 ∧
    ((demoPlant LoadingScheme.OptimalLoading 1 1 30 (fun _ => demoComp 20 100)).equipList 1 1
        1).RangeUpperLimit = 30 ∧
    ((DistributePlantLoad demoEnv
        (demoPlant LoadingScheme.OptimalLoading 1 1 30 (fun _ => demoComp 20 100))
        1 2 1 1 (-35)).1.comp 1 2 1 1).MyLoad = -35 ∧
    ((DistributePlantLoad demoEnv
        (demoPlant LoadingScheme.UniformLoading 1 1 30 (fun _ => demoComp 20 100))
        1 2 1 1 (-35)).1.comp 1 2 1 1).MyLoad = -35 ∧
    ¬ |(-35 : ℚ)| ≤ 30 := by
  norm_num [DistributePlantLoad, distributeOptimal, distributeUniform, forLoop, firstPassBody_eq,
    optimalStep2Body_eq, optimalStep3Body_eq, uniformStep2Body_eq, updateOnFlagBody_eq,
    adjustChangeInLoad, AdjustChangeInLoadByHowServed, AdjustChangeInLoadByEMSControls,
    AdjustChangeInLoadForLastStageUpperRangeLimit, optimalTarget, uniformTarget,
    snapRem, sign, demoComp, demoEnv, abs_of_nonneg, abs_of_neg]

/-! # Claims on the supervisory overrides -/

/-- C10. `ActivateEMSControls`, when the loop level override does not shut the
loop down and the half loop flag of the calling side is on with
`EMSValue <= 0`: `LoopShutDownFlag` comes back false; every component of that
half loop (within its branch and component counts) that is not a pump gets
`ON = false` and `MyLoad = 0` and keeps all its other fields; every pump, on
whatever side, and every component of another half loop is left unchanged. -/
theorem C10_half_loop_override_turns_off_side (env : Env) (st : PlantState)
    (LoopNum LoopSideNum BranchNum CompNum : Nat)
    (hloop : ¬ ((st.PlantLoop LoopNum).EMSCtrl = true ∧ (st.PlantLoop LoopNum).EMSValue ≤ 0))
    (hside : (st.side LoopNum LoopSideNum).EMSCtrl = true)
    (hval : (st.side LoopNum LoopSideNum).EMSValue ≤ 0) :
    (ActivateEMSControls env st LoopNum LoopSideNum BranchNum CompNum).2 = false ∧
    (∀ B C, 1 ≤ B → B ≤ (st.side LoopNum LoopSideNum).TotalBranches → 1 ≤ C →
      C ≤ (st.branch LoopNum LoopSideNum B).TotalComponents →
      (st.comp LoopNum LoopSideNum B C).GeneralEquipType ≠ GenEquipType.GenEquipTypes_Pump →
      ((ActivateEMSControls env st LoopNum LoopSideNum BranchNum CompNum).1.comp
          LoopNum LoopSideNum B C).ON = false ∧
      ((ActivateEMSControls env st LoopNum LoopSideNum BranchNum CompNum).1.comp
          LoopNum LoopSideNum B C).MyLoad = 0 ∧
      (ActivateEMSControls env st LoopNum LoopSideNum BranchNum CompNum).1.comp
          LoopNum LoopSideNum B C =
        { st.comp LoopNum LoopSideNum B C with ON := false, MyLoad := 0 }) ∧
    (∀ L S B C, (st.comp L S B C).GeneralEquipType = GenEquipType.GenEquipTypes_Pump →
      (ActivateEMSControls env st LoopNum LoopSideNum BranchNum CompNum).1.comp L S B C =
        st.comp L S B C) ∧
    (∀ L S B C, (L ≠ LoopNum ∨ S ≠ LoopSideNum) →
      (ActivateEMSControls env st LoopNum LoopSideNum BranchNum CompNum).1.comp L S B C =
        st.comp L S B C) := by
  have e : ActivateEMSControls env st LoopNum LoopSideNum BranchNum CompNum =
      (TurnOffLoopSideEquipment st LoopNum LoopSideNum, false) := by
    unfold ActivateEMSControls
    rw [if_neg hloop, if_pos ⟨hside, hval⟩]
  obtain ⟨_, hc⟩ := TurnOffLoopSideEquipment_spec st LoopNum LoopSideNum
  rw [e]
  refine ⟨rfl, ?_, ?_, ?_⟩
  · intro B C hB1 hB2 hC1 hC2 hp
    have hcond : LoopNum = LoopNum ∧ LoopSideNum = LoopSideNum ∧
        (1 ≤ B ∧ B ≤ (st.side LoopNum LoopSideNum).TotalBranches) ∧ 1 ≤ C ∧
        C ≤ (st.branch LoopNum LoopSideNum B).TotalComponents :=
      ⟨rfl, rfl, ⟨hB1, hB2⟩, hC1, hC2⟩
    have h := hc LoopNum LoopSideNum B C
    rw [if_pos hcond] at h
    simp only [h, turnedOff, if_pos hp]
    exact ⟨trivial, trivial, trivial⟩
  · intro L S B C hp
    rw [hc L S B C]
    split
    · simp [turnedOff, hp]
    · rfl
  · intro L S B C hne
    rw [hc L S B C]
    have : ¬ (L = LoopNum ∧ S = LoopSideNum ∧
        (1 ≤ B ∧ B ≤ (st.side LoopNum LoopSideNum).TotalBranches) ∧ 1 ≤ C ∧
        C ≤ (st.branch LoopNum LoopSideNum B).TotalComponents) := by
      intro h
      rcases hne with h1 | h1
      · exact h1 h.1
      · exact h1 h.2.1
    rw [if_neg this]

/-- C10 at the second sample plant with the supply side override on (value 0),
called for the boiler on branch 2: that boiler is switched off with zero load,
the pump on branch 1 and the coil on the demand side are as before. -/
theorem C10_half_loop_override_witness :
    (ActivateEMSControls demoEnv (rangePlant false true) 1 2 2 1).2 = false ∧
    ((ActivateEMSControls demoEnv (rangePlant false true) 1 2 2 1).1.comp 1 2 2 1).ON = false ∧
    ((ActivateEMSControls demoEnv (rangePlant false true) 1 2 2 1).1.comp 1 2 2 1).MyLoad = 0 ∧
    (ActivateEMSControls demoEnv (rangePlant false true) 1 2 2 1).1.comp 1 2 1 1 =
      (rangePlant false true).comp 1 2 1 1 ∧
    (ActivateEMSControls demoEnv (rangePlant false true) 1 2 2 1).1.comp 1 1 1 1 =
      (rangePlant false true).comp 1 1 1 1 := by
  have h := C10_half_loop_override_turns_off_side demoEnv (rangePlant false true) 1 2 2 1
    (by simp) (by simp) (by simp)
  obtain ⟨h1, h2, h3, h4⟩ := h
  have hb := h2 2 1 (by norm_num) (by simp) (by norm_num) (by simp)
    (by simp [rangeSupplyComp])
  exact ⟨h1, hb.1, hb.2.1, h3 1 2 1 1 (by simp [rangeSupplyComp]), h4 1 1 1 1 (Or.inr (by norm_num))⟩

/-- `turnedOff` keeps the scheme index of a component. -/
theorem turnedOff_CurCompLevelOpNum (c : CompData) :
    (turnedOff c).CurCompLevelOpNum = c.CurCompLevelOpNum := by
  unfold turnedOff
  split <;> rfl

/-- With the loop level override on at a value `<= 0`, `ActivateEMSControls`
is `TurnOffLoopEquipment` and raises `LoopShutDownFlag`. -/
theorem ActivateEMSControls_loop_override (env : Env) (st : PlantState)
    (LoopNum LoopSideNum BranchNum CompNum : Nat)
    (hctrl : (st.PlantLoop LoopNum).EMSCtrl = true) (hval : (st.PlantLoop LoopNum).EMSValue ≤ 0) :
    ActivateEMSControls env st LoopNum LoopSideNum BranchNum CompNum =
      (TurnOffLoopEquipment st LoopNum, true) := by
  unfold ActivateEMSControls
  rw [if_pos ⟨hctrl, hval⟩]

/-- The range based branch hands `LoopShutDownFlag` through. -/
theorem dispatchRangeBased_flag (env : Env) (st : PlantState) (L S B C q P n : Nat)
    (v D R : ℚ) (flag : Bool) (perf : Option Bool) :
    (dispatchRangeBased env st L S B C q P n v D R flag perf).LoopShutDownFlag = flag := by
  unfold dispatchRangeBased
  simp only []
  split
  · split <;> rfl
  · rfl

/-- The zero-demand exit hands `LoopShutDownFlag` through. -/
theorem zeroDemandExit_flag (env : Env) (st : PlantState) (L S B C : Nat) (R : ℚ)
    (first flag : Bool) (perf : Option Bool) (r : ManageResult)
    (h : zeroDemandExit env st L S B C R first flag perf = Except.ok r) :
    r.LoopShutDownFlag = flag := by
  unfold zeroDemandExit at h
  split at h
  · cases h
  · cases h; rfl

/-- Past the two early exits the flag a call returns is the one
`ActivateEMSControls` computed. -/
theorem Manage_flag_of_ok (env : Env) (st : PlantState) (L S B C : Nat) (D R : ℚ)
    (first : Bool) (perf : Option Bool) (r : ManageResult)
    (havail : anyOpSchemeAvailable st L = true)
    (h : ManagePlantLoadDistribution env st L S B C D R first false perf = Except.ok r) :
    r.LoopShutDownFlag = (ActivateEMSControls env st L S B C).2 := by
  unfold ManagePlantLoadDistribution at h
  rw [if_neg (by simp), if_neg (by simp [havail])] at h
  simp only [] at h
  split at h
  · cases h; rfl
  · split at h
    · cases h; rfl
    · cases h; rfl
    · split at h
      · cases h
      · cases h; rfl
    · split at h
      · exact zeroDemandExit_flag _ _ _ _ _ _ _ _ _ _ _ h
      · cases h; exact dispatchRangeBased_flag _ _ _ _ _ _ _ _ _ _ _ _ _ _
    · split at h
      · exact zeroDemandExit_flag _ _ _ _ _ _ _ _ _ _ _ h
      · cases h; exact dispatchRangeBased_flag _ _ _ _ _ _ _ _ _ _ _ _ _ _
    · cases h; exact dispatchRangeBased_flag _ _ _ _ _ _ _ _ _ _ _ _ _ _
    · cases h; exact dispatchRangeBased_flag _ _ _ _ _ _ _ _ _ _ _ _ _ _
    · cases h; exact dispatchRangeBased_flag _ _ _ _ _ _ _ _ _ _ _ _ _ _
    · cases h; exact dispatchRangeBased_flag _ _ _ _ _ _ _ _ _ _ _ _ _ _
    · cases h; exact dispatchRangeBased_flag _ _ _ _ _ _ _ _ _ _ _ _ _ _
    · cases h; exact dispatchRangeBased_flag _ _ _ _ _ _ _ _ _ _ _ _ _ _
    · cases h; exact dispatchRangeBased_flag _ _ _ _ _ _ _ _ _ _ _ _ _ _
    · cases h

/-- A call for a component without current scheme returns right after
`ActivateEMSControls`. -/
theorem Manage_no_current_scheme (env : Env) (st : PlantState) (L S B C : Nat) (D R : ℚ)
    (first : Bool) (perf : Option Bool)
    (havail : anyOpSchemeAvailable st L = true)
    (hq : ((ActivateEMSControls env st L S B C).1.comp L S B C).CurCompLevelOpNum = 0) :
    ManagePlantLoadDistribution env st L S B C D R first false perf =
      Except.ok { st := (ActivateEMSControls env st L S B C).1, RemLoopDemand := R,
                  LoopShutDownFlag := (ActivateEMSControls env st L S B C).2,
                  LoadDistributionWasPerformed := perf } := by
  unfold ManagePlantLoadDistribution
  rw [if_neg (by simp), if_neg (by simp [havail])]
  simp only []
  rw [if_pos hq]

/-- C9 (as amended). With the loop level supervisory flag on at `EMSValue <= 0`,
`LoopShutDownFlag` false on entry and some operation scheme of the loop
available: `ActivateEMSControls` is `TurnOffLoopEquipment` with the flag raised,
which leaves every component of both half loops that is not a pump with
`MyLoad = 0` and `ON = false` and every pump as it was; every call of
`ManagePlantLoadDistribution` that returns, returns `LoopShutDownFlag = true`;
and for a calling component without current scheme the call returns exactly
the turned-off plant. -/
theorem C9_loop_override_turns_off_and_raises_flag (env : Env) (st : PlantState)
    (LoopNum LoopSideNum BranchNum CompNum : Nat) (LoopDemand RemLoopDemand : ℚ)
    (FirstHVACIteration : Bool) (perf : Option Bool)
    (havail : anyOpSchemeAvailable st LoopNum = true)
    (hctrl : (st.PlantLoop LoopNum).EMSCtrl = true)
    (hval : (st.PlantLoop LoopNum).EMSValue ≤ 0) :
    ActivateEMSControls env st LoopNum LoopSideNum BranchNum CompNum =
      (TurnOffLoopEquipment st LoopNum, true) ∧
    (∀ S B C, (S = 1 ∨ S = 2) → 1 ≤ B → B ≤ (st.side LoopNum S).TotalBranches → 1 ≤ C →
      C ≤ (st.branch LoopNum S B).TotalComponents →
      (st.comp LoopNum S B C).GeneralEquipType ≠ GenEquipType.GenEquipTypes_Pump →
      ((TurnOffLoopEquipment st LoopNum).comp LoopNum S B C).MyLoad = 0 ∧
      ((TurnOffLoopEquipment st LoopNum).comp LoopNum S B C).ON = false) ∧
    (∀ L S B C, (st.comp L S B C).GeneralEquipType = GenEquipType.GenEquipTypes_Pump →
      (TurnOffLoopEquipment st LoopNum).comp L S B C = st.comp L S B C) ∧
    (∀ r, ManagePlantLoadDistribution env st LoopNum LoopSideNum BranchNum CompNum LoopDemand
        RemLoopDemand FirstHVACIteration false perf = Except.ok r → r.LoopShutDownFlag = true) ∧
    ((st.comp LoopNum LoopSideNum BranchNum CompNum).CurCompLevelOpNum = 0 →
      ManagePlantLoadDistribution env st LoopNum LoopSideNum BranchNum CompNum LoopDemand
        RemLoopDemand FirstHVACIteration false perf =
      Except.ok { st := TurnOffLoopEquipment st LoopNum, RemLoopDemand := RemLoopDemand,
                  LoopShutDownFlag := true, LoadDistributionWasPerformed := perf }) := by
  have e := ActivateEMSControls_loop_override env st LoopNum LoopSideNum BranchNum CompNum
    hctrl hval
  obtain ⟨_, hc⟩ := TurnOffLoopEquipment_spec st LoopNum
  refine ⟨e, ?_, ?_, ?_, ?_⟩
  · intro S B C hS hB1 hB2 hC1 hC2 hp
    have h := hc LoopNum S B C
    rw [if_pos ⟨rfl, hS, ⟨hB1, hB2⟩, hC1, hC2⟩] at h
    rw [h]
    simp [turnedOff, hp]
  · intro L S B C hp
    rw [hc L S B C]
    split
    · simp [turnedOff, hp]
    · rfl
  · intro r hr
    have h := Manage_flag_of_ok env st LoopNum LoopSideNum BranchNum CompNum LoopDemand
      RemLoopDemand FirstHVACIteration perf r havail hr
    rw [h, e]
  · intro hq
    have hq2 : ((ActivateEMSControls env st LoopNum LoopSideNum BranchNum CompNum).1.comp
        LoopNum LoopSideNum BranchNum CompNum).CurCompLevelOpNum = 0 := by
      rw [e]
      simp only []
      rw [hc]
      split
      · rw [turnedOff_CurCompLevelOpNum]; exact hq
      · exact hq
    have h := Manage_no_current_scheme env st LoopNum LoopSideNum BranchNum CompNum LoopDemand
      RemLoopDemand FirstHVACIteration perf havail hq2
    rw [h, e]

/-- The second sample plant has an available scheme. -/
theorem rangePlant_anyOpSchemeAvailable (loopEMS sideEMS : Bool) :
    anyOpSchemeAvailable (rangePlant loopEMS sideEMS) 1 = true := by
  simp [anyOpSchemeAvailable, forLoop]

/-- C9 at the second sample plant with the loop level override on (value 0):
the boiler on supply branch 2 and the coil on the demand side end with zero
load and off, and the call made for the coil, which has no current scheme,
returns the turned-off plant with `LoopShutDownFlag = true`. -/
theorem C9_loop_override_witness :
    ((TurnOffLoopEquipment (rangePlant true false) 1).comp 1 2 2 1).MyLoad = 0 ∧
    ((TurnOffLoopEquipment (rangePlant true false) 1).comp 1 2 2 1).ON = false ∧
    ((TurnOffLoopEquipment (rangePlant true false) 1).comp 1 1 1 1).MyLoad = 0 ∧
    ((TurnOffLoopEquipment (rangePlant true false) 1).comp 1 1 1 1).ON = false ∧
    ManagePlantLoadDistribution demoEnv (rangePlant true false) 1 1 1 1 25 0 true false none =
      Except.ok { st := TurnOffLoopEquipment (rangePlant true false) 1, RemLoopDemand := 0,
                  LoopShutDownFlag := true, LoadDistributionWasPerformed := none } := by
  have h := C9_loop_override_turns_off_and_raises_flag demoEnv (rangePlant true false) 1 1 1 1
    25 0 true none (rangePlant_anyOpSchemeAvailable true false) (by simp) (by simp)
  obtain ⟨_, h2, _, _, h5⟩ := h
  have hb := h2 2 2 1 (Or.inr rfl) (by norm_num) (by simp) (by norm_num) (by simp)
    (by simp [rangeSupplyComp])
  have hd := h2 1 1 1 (Or.inl rfl) (by norm_num) (by simp) (by norm_num) (by simp)
    (by simp [rangeDemandComp])
  exact ⟨hb.1, hb.2, hd.1, hd.2, h5 (by simp [rangeDemandComp])⟩

/-- C9 (counterexample). Second sample plant, loop level override on with
value 0, call made for the coil on the demand side at a demand of 25: the call
returns with `LoopShutDownFlag = true`, and in the plant it returns the pump
on supply branch 1 (a component of the loop) is still `ON`. -/
theorem C9_pump_left_on_after_loop_shutdown :
    ((rangePlant true false).PlantLoop 1).EMSCtrl = true ∧
    ((rangePlant true false).PlantLoop 1).EMSValue ≤ 0 ∧
    ManagePlantLoadDistribution demoEnv (rangePlant true false) 1 1 1 1 25 0 true false none =
      Except.ok { st := TurnOffLoopEquipment (rangePlant true false) 1, RemLoopDemand := 0,
                  LoopShutDownFlag := true, LoadDistributionWasPerformed := none } ∧
    ((TurnOffLoopEquipment (rangePlant true false) 1).comp 1 2 1 1).ON = true := by
  have e := ActivateEMSControls_loop_override demoEnv (rangePlant true false) 1 1 1 1
    (by simp) (by simp)
  obtain ⟨_, hc⟩ := TurnOffLoopEquipment_spec (rangePlant true false) 1
  refine ⟨by simp, by simp, ?_, ?_⟩
  · have h := Manage_no_current_scheme demoEnv (rangePlant true false) 1 1 1 1 25 0 true none
      (rangePlant_anyOpSchemeAvailable true false)
      (by rw [e]; simp only []; rw [hc]; simp [turnedOff, rangeDemandComp])
    rw [h, e]
  · rw [hc]
    simp [turnedOff, rangeSupplyComp]

/-! # The list search of the driver -/

/-- Induction principle for `forLoop`: a property of the initial state that
every iteration preserves holds when the loop is left. -/
theorem forLoop_induction {σ : Type} (P : σ → Prop) (body : σ → Nat → σ) (init : σ) (n : Nat)
    (h0 : P init) (hstep : ∀ s i, P s → P (body s i)) : P (forLoop body init n) := by
  induction n with
  | zero => exact h0
  | succ n ih => exact hstep _ _ ih

/-- The clean-up loop of the driver touches component records only. -/
theorem nullOtherLists_skeleton (st : PlantState) (L S P n cur : Nat) :
    SameSkeleton st (nullOtherLists st L S P n cur) := by
  unfold nullOtherLists
  apply forLoop_induction (fun s => SameSkeleton st s)
  · exact SameSkeleton.refl st
  · intro s i hs
    simp only []
    split
    · exact hs
    · apply forLoop_induction (fun s => SameSkeleton st s)
      · exact hs
      · intro s2 k hs2
        exact hs2.trans (SameSkeleton.modifyComp _ _ _ _ _ _)

/-- Past the early exits, a call whose component has a current scheme of a
range based type, and that does not take the zero-demand exit, is the range
based branch run on the plant `ActivateEMSControls` leaves. -/
theorem Manage_range_based (env : Env) (st : PlantState) (L S B C : Nat) (D R : ℚ)
    (first : Bool) (perf : Option Bool) (v : ℚ)
    (havail : anyOpSchemeAvailable st L = true)
    (hq : ((ActivateEMSControls env st L S B C).1.comp L S B C).CurCompLevelOpNum ≠ 0)
    (hv : rangeVariableOf env (ActivateEMSControls env st L S B C).1 L
      (((ActivateEMSControls env st L S B C).1.comp L S B C).OpScheme
        ((ActivateEMSControls env st L S B C).1.comp L S B C).CurCompLevelOpNum).OpSchemePtr D
      = some v) :
    ManagePlantLoadDistribution env st L S B C D R first false perf =
      Except.ok (dispatchRangeBased env (ActivateEMSControls env st L S B C).1 L S B C
        ((ActivateEMSControls env st L S B C).1.comp L S B C).CurCompLevelOpNum
        (((ActivateEMSControls env st L S B C).1.comp L S B C).OpScheme
          ((ActivateEMSControls env st L S B C).1.comp L S B C).CurCompLevelOpNum).OpSchemePtr
        (((ActivateEMSControls env st L S B C).1.comp L S B C).OpScheme
          ((ActivateEMSControls env st L S B C).1.comp L S B C).CurCompLevelOpNum).NumEquipLists
        v D R (ActivateEMSControls env st L S B C).2 perf) := by
  unfold ManagePlantLoadDistribution
  rw [if_neg (by simp), if_neg (by simp [havail])]
  simp only []
  rw [if_neg hq]
  unfold rangeVariableOf at hv
  split at hv
  all_goals rename_i hty
  all_goals try simp only [hty]
  · split at hv
    · cases hv
    · rename_i hd
      cases hv
      rw [if_neg hd]
  · split at hv
    · cases hv
    · rename_i hd
      cases hv
      rw [if_neg hd]
  · cases hv; rfl
  · cases hv; rfl
  · cases hv; rfl
  · cases hv; rfl
  · cases hv; rfl
  · cases hv; rfl
  · cases hv; rfl
  · cases hv

/-- The list search stops at position `j0` when every earlier position is
passed over (out of range and not the last-stage fallback) and position `j0`
is taken (in range, or the last stage with the variable above its limit). -/
theorem selectEquipList_stops_at (st : PlantState) (L S B C q P : Nat) (v : ℚ) (j0 : Nat) :
    ∀ (remaining start ptr0 : Nat), start ≤ j0 → j0 < start + remaining →
    (∀ j, start ≤ j → j < j0 →
      (|v| < (st.equipList L P (((st.comp L S B C).OpScheme q).EquipList j).ListPtr).RangeLowerLimit ∨
        |v| > (st.equipList L P (((st.comp L S B C).OpScheme q).EquipList j).ListPtr).RangeUpperLimit) ∧
      ¬ (|v| > (st.equipList L P (((st.comp L S B C).OpScheme q).EquipList j).ListPtr).RangeUpperLimit ∧
        (((st.comp L S B C).OpScheme q).EquipList j).ListPtr =
          (st.opScheme L P).EquipListNumForLastStage)) →
    (¬ (|v| < (st.equipList L P (((st.comp L S B C).OpScheme q).EquipList j0).ListPtr).RangeLowerLimit ∨
        |v| > (st.equipList L P (((st.comp L S B C).OpScheme q).EquipList j0).ListPtr).RangeUpperLimit) ∨
      (|v| > (st.equipList L P (((st.comp L S B C).OpScheme q).EquipList j0).ListPtr).RangeUpperLimit ∧
        (((st.comp L S B C).OpScheme q).EquipList j0).ListPtr =
          (st.opScheme L P).EquipListNumForLastStage)) →
    selectEquipList st L S B C q P v remaining start ptr0 =
      (j0, (((st.comp L S B C).OpScheme q).EquipList j0).ListPtr) := by
  intro remaining
  induction remaining with
  | zero => intro start ptr0 h1 h2; omega
  | succ k ih =>
    intro start ptr0 h1 h2 hskip htake
    unfold selectEquipList
    simp only []
    by_cases hj : start = j0
    · subst hj
      rcases htake with ht | ht
      · rw [if_neg ht]
      · rw [if_pos (Or.inr ht.1), if_pos ht]
    · have hlt : start < j0 := by omega
      obtain ⟨hs1, hs2⟩ := hskip start (le_refl _) hlt
      rw [if_pos hs1, if_neg hs2]
      apply ih (start + 1) _ (by omega) (by omega)
      · intro j hj1 hj2
        exact hskip j (by omega) hj2
      · exact htake

/-- The list search finds nothing when every position is passed over. -/
theorem selectEquipList_none (st : PlantState) (L S B C q P : Nat) (v : ℚ) :
    ∀ (remaining start ptr0 : Nat),
    (∀ j, start ≤ j → j < start + remaining →
      (|v| < (st.equipList L P (((st.comp L S B C).OpScheme q).EquipList j).ListPtr).RangeLowerLimit ∨
        |v| > (st.equipList L P (((st.comp L S B C).OpScheme q).EquipList j).ListPtr).RangeUpperLimit) ∧
      ¬ (|v| > (st.equipList L P (((st.comp L S B C).OpScheme q).EquipList j).ListPtr).RangeUpperLimit ∧
        (((st.comp L S B C).OpScheme q).EquipList j).ListPtr =
          (st.opScheme L P).EquipListNumForLastStage)) →
    (selectEquipList st L S B C q P v remaining start ptr0).1 = 0 := by
  intro remaining
  induction remaining with
  | zero => intro start ptr0 _; rfl
  | succ k ih =>
    intro start ptr0 hskip
    unfold selectEquipList
    simp only []
    obtain ⟨hs1, hs2⟩ := hskip start (le_refl _) (by omega)
    rw [if_pos hs1, if_neg hs2]
    apply ih (start + 1)
    intro j hj1 hj2
    exact hskip j (by omega) (by omega)

/-- The range based branch when the search stops at list `K` (position `j0`)
and that list has members: the other lists are cleaned up, the pipes are
turned on and `DistributePlantLoad` runs on list `K`. -/
theorem dispatchRangeBased_selected (env : Env) (st : PlantState) (L S B C q P n : Nat)
    (v D R : ℚ) (flag : Bool) (perf : Option Bool) (j0 K : Nat)
    (hsel : selectEquipList st L S B C q P v n 1 0 = (j0, K)) (hj0 : 0 < j0)
    (hcomps : 0 < (st.equipList L P K).NumComps) :
    dispatchRangeBased env st L S B C q P n v D R flag perf =
      { st := (DistributePlantLoad env
            (TurnOnPlantLoopPipes (nullOtherLists st L S P n j0) L S) L S P K D).1,
        RemLoopDemand := (DistributePlantLoad env
            (TurnOnPlantLoopPipes (nullOtherLists st L S P n j0) L S) L S P K D).2,
        LoopShutDownFlag := flag,
        LoadDistributionWasPerformed := perf.map (fun _ => true) } := by
  unfold dispatchRangeBased
  simp only [hsel]
  rw [if_pos hj0]
  have hk : (nullOtherLists st L S P n j0).equipList L P K = st.equipList L P K :=
    (nullOtherLists_skeleton st L S P n j0).equipList L P K
  rw [hk, if_pos hcomps]

/-- The range based branch when the search finds no list: nothing happens. -/
theorem dispatchRangeBased_not_selected (env : Env) (st : PlantState) (L S B C q P n : Nat)
    (v D R : ℚ) (flag : Bool) (perf : Option Bool)
    (hsel : (selectEquipList st L S B C q P v n 1 0).1 = 0) :
    dispatchRangeBased env st L S B C q P n v D R flag perf =
      { st := st, RemLoopDemand := R, LoopShutDownFlag := flag,
        LoadDistributionWasPerformed := perf } := by
  unfold dispatchRangeBased
  simp only [hsel]
  rw [if_neg (by omega)]

/-! # Claims on the choice of the equipment list -/

/-- C6. A call that reaches the list search of a range based scheme with range
variable `v` (plant `st'` left by `ActivateEMSControls`, component scheme index
`q`, scheme `P`, `n` lists searched): if position `j0` is the first searched
position whose list has `RangeLowerLimit <= |v| <= RangeUpperLimit` (both ends
included), that list is not empty, and an earlier searched list that is the
last stage has an upper limit not below that of list `j0` (the last stage
holds the largest upper limit), then the search stops at `j0` and the call is
`DistributePlantLoad` on that list, after the clean-up of the other lists and
the turning on of the pipes: no later list is looked at. -/
theorem C6_first_list_in_range_is_dispatched (env : Env) (st st' : PlantState) (flag : Bool)
    (LoopNum LoopSideNum BranchNum CompNum q P n : Nat) (LoopDemand RemLoopDemand : ℚ)
    (FirstHVACIteration : Bool) (perf : Option Bool) (v : ℚ) (j0 : Nat)
    (havail : anyOpSchemeAvailable st LoopNum = true)
    (hact : ActivateEMSControls env st LoopNum LoopSideNum BranchNum CompNum = (st', flag))
    (hq : (st'.comp LoopNum LoopSideNum BranchNum CompNum).CurCompLevelOpNum = q) (hq0 : q ≠ 0)
    (hP : ((st'.comp LoopNum LoopSideNum BranchNum CompNum).OpScheme q).OpSchemePtr = P)
    (hn : ((st'.comp LoopNum LoopSideNum BranchNum CompNum).OpScheme q).NumEquipLists = n)
    (hv : rangeVariableOf env st' LoopNum P LoopDemand = some v)
    (hj1 : 1 ≤ j0) (hj2 : j0 ≤ n)
    (hin : (st'.equipList LoopNum P
          (((st'.comp LoopNum LoopSideNum BranchNum CompNum).OpScheme q).EquipList j0).ListPtr
          ).RangeLowerLimit ≤ |v| ∧
        |v| ≤ (st'.equipList LoopNum P
          (((st'.comp LoopNum LoopSideNum BranchNum CompNum).OpScheme q).EquipList j0).ListPtr
          ).RangeUpperLimit)
    (hfirst : ∀ j, 1 ≤ j → j < j0 →
      ¬ ((st'.equipList LoopNum P
          (((st'.comp LoopNum LoopSideNum BranchNum CompNum).OpScheme q).EquipList j).ListPtr
          ).RangeLowerLimit ≤ |v| ∧
        |v| ≤ (st'.equipList LoopNum P
          (((st'.comp LoopNum LoopSideNum BranchNum CompNum).OpScheme q).EquipList j).ListPtr
          ).RangeUpperLimit))
    (hlast : ∀ j, 1 ≤ j → j < j0 →
      (((st'.comp LoopNum LoopSideNum BranchNum CompNum).OpScheme q).EquipList j).ListPtr =
        (st'.opScheme LoopNum P).EquipListNumForLastStage →
      (st'.equipList LoopNum P
          (((st'.comp LoopNum LoopSideNum BranchNum CompNum).OpScheme q).EquipList j0).ListPtr
          ).RangeUpperLimit ≤
        (st'.equipList LoopNum P
          (((st'.comp LoopNum LoopSideNum BranchNum CompNum).OpScheme q).EquipList j).ListPtr
          ).RangeUpperLimit)
    (hcomps : 0 < (st'.equipList LoopNum P
        (((st'.comp LoopNum LoopSideNum BranchNum CompNum).OpScheme q).EquipList j0).ListPtr
        ).NumComps) :
    selectEquipList st' LoopNum LoopSideNum BranchNum CompNum q P v n 1 0 =
      (j0, (((st'.comp LoopNum LoopSideNum BranchNum CompNum).OpScheme q).EquipList j0).ListPtr) ∧
    ManagePlantLoadDistribution env st LoopNum LoopSideNum BranchNum CompNum LoopDemand
        RemLoopDemand FirstHVACIteration false perf =
      Except.ok
        { st := (DistributePlantLoad env
              (TurnOnPlantLoopPipes (nullOtherLists st' LoopNum LoopSideNum P n j0)
                LoopNum LoopSideNum) LoopNum LoopSideNum P
              (((st'.comp LoopNum LoopSideNum BranchNum CompNum).OpScheme q).EquipList j0).ListPtr
              LoopDemand).1,
          RemLoopDemand := (DistributePlantLoad env
              (TurnOnPlantLoopPipes (nullOtherLists st' LoopNum LoopSideNum P n j0)
                LoopNum LoopSideNum) LoopNum LoopSideNum P
              (((st'.comp LoopNum LoopSideNum BranchNum CompNum).OpScheme q).EquipList j0).ListPtr
              LoopDemand).2,
          LoopShutDownFlag := flag,
          LoadDistributionWasPerformed := perf.map (fun _ => true) } := by
  have hsel : selectEquipList st' LoopNum LoopSideNum BranchNum CompNum q P v n 1 0 =
      (j0, (((st'.comp LoopNum LoopSideNum BranchNum CompNum).OpScheme q).EquipList j0).ListPtr) := by
    apply selectEquipList_stops_at st' LoopNum LoopSideNum BranchNum CompNum q P v j0 n 1 0 hj1
      (by omega)
    · intro j h1 h2
      have hnot := hfirst j h1 h2
      constructor
      · by_contra hc
        apply hnot
        push_neg at hc
        exact hc
      · rintro ⟨hgt, hl⟩
        have := hlast j h1 h2 hl
        have h3 := hin.2
        linarith
    · left
      push_neg
      exact hin
  refine ⟨hsel, ?_⟩
  have hm := Manage_range_based env st LoopNum LoopSideNum BranchNum CompNum LoopDemand
    RemLoopDemand FirstHVACIteration perf v havail
    (by rw [hact]; simp only []; rw [hq]; exact hq0)
    (by rw [hact]; simp only []; rw [hq, hP]; exact hv)
  rw [hm, hact]
  simp only []
  rw [hq, hP, hn]
  rw [dispatchRangeBased_selected env st' LoopNum LoopSideNum BranchNum CompNum q P n v LoopDemand
    RemLoopDemand flag perf j0 _ hsel (by omega) hcomps]

/-- Without any override `ActivateEMSControls` leaves the second sample plant
as it is, for a call made for a boiler. -/
theorem rangePlant_activate_none (B : Nat) (hB : B ≠ 1) :
    ActivateEMSControls demoEnv (rangePlant false false) 1 2 B 1 =
      (rangePlant false false, false) := by
  simp [ActivateEMSControls, rangeSupplyComp, hB]

/-- C6 at the second sample plant (ranges `[0, 10]`, `[10, 20]`, `[20, 30]`),
called for the boiler that is on all three lists: a heating demand of 10, on
the boundary of the first two ranges, stops the search at the first list, and
a demand of 25 at the third list. -/
theorem C6_first_list_witness :
    selectEquipList (rangePlant false false) 1 2 2 1 1 1 10 3 1 0 = (1, 1) ∧
    selectEquipList (rangePlant false false) 1 2 2 1 1 1 25 3 1 0 = (3, 3) := by
  have h10 := C6_first_list_in_range_is_dispatched demoEnv (rangePlant false false)
    (rangePlant false false) false 1 2 2 1 1 1 3 10 0 true none 10 1
    (rangePlant_anyOpSchemeAvailable false false) (rangePlant_activate_none 2 (by norm_num))
    (by simp [rangeSupplyComp]) (by norm_num) (by simp [rangeSupplyComp])
    (by simp [rangeSupplyComp])
    (by norm_num [rangeVariableOf, demoEnv])
    (by norm_num) (by norm_num)
    (by norm_num [rangeSupplyComp, rangeList, abs_of_nonneg])
    (by intro j h1 h2; omega)
    (by intro j h1 h2; omega)
    (by simp [rangeList])
  have h25 := C6_first_list_in_range_is_dispatched demoEnv (rangePlant false false)
    (rangePlant false false) false 1 2 2 1 1 1 3 25 0 true none 25 3
    (rangePlant_anyOpSchemeAvailable false false) (rangePlant_activate_none 2 (by norm_num))
    (by simp [rangeSupplyComp]) (by norm_num) (by simp [rangeSupplyComp])
    (by simp [rangeSupplyComp])
    (by norm_num [rangeVariableOf, demoEnv])
    (by norm_num) (by norm_num)
    (by norm_num [rangeSupplyComp, rangeList, abs_of_nonneg])
    (by
      intro j h1 h2
      have hj : j = 1 ∨ j = 2 := by omega
      rcases hj with rfl | rfl <;> norm_num [rangeSupplyComp, rangeList, abs_of_nonneg])
    (by
      intro j h1 h2
      have hj : j = 1 ∨ j = 2 := by omega
      rcases hj with rfl | rfl <;> norm_num [rangeSupplyComp, rangeList])
    (by simp [rangeList])
  refine ⟨?_, ?_⟩
  · simpa [rangeSupplyComp] using h10.1
  · simpa [rangeSupplyComp] using h25.1

/-- C7 (as amended). For a heating load scheme with `LoopDemand >= SmallLoad`,
or a cooling load scheme with `LoopDemand <= -SmallLoad`: when `|LoopDemand|`
is above the upper limit of every list searched for the calling component, and
the last-stage list of the scheme is one of these lists (first at position
`j0`) and is not empty, the search stops at the last-stage list and the call is
`DistributePlantLoad` on it. -/
theorem C7_last_stage_selected_above_all_ranges (env : Env) (st st' : PlantState) (flag : Bool)
    (LoopNum LoopSideNum BranchNum CompNum q P n : Nat) (LoopDemand RemLoopDemand : ℚ)
    (FirstHVACIteration : Bool) (perf : Option Bool) (j0 : Nat)
    (havail : anyOpSchemeAvailable st LoopNum = true)
    (hact : ActivateEMSControls env st LoopNum LoopSideNum BranchNum CompNum = (st', flag))
    (hq : (st'.comp LoopNum LoopSideNum BranchNum CompNum).CurCompLevelOpNum = q) (hq0 : q ≠ 0)
    (hP : ((st'.comp LoopNum LoopSideNum BranchNum CompNum).OpScheme q).OpSchemePtr = P)
    (hn : ((st'.comp LoopNum LoopSideNum BranchNum CompNum).OpScheme q).NumEquipLists = n)
    (hty : ((st'.opScheme LoopNum P).OpSchemeType = OpSchemeType.HeatingRBOpSchemeType ∧
          env.SmallLoad ≤ LoopDemand) ∨
        ((st'.opScheme LoopNum P).OpSchemeType = OpSchemeType.CoolingRBOpSchemeType ∧
          LoopDemand ≤ -env.SmallLoad))
    (hexceed : ∀ j, 1 ≤ j → j ≤ n →
      (st'.equipList LoopNum P
          (((st'.comp LoopNum LoopSideNum BranchNum CompNum).OpScheme q).EquipList j).ListPtr
          ).RangeUpperLimit < |LoopDemand|)
    (hj1 : 1 ≤ j0) (hj2 : j0 ≤ n)
    (hlastj : (((st'.comp LoopNum LoopSideNum BranchNum CompNum).OpScheme q).EquipList j0).ListPtr =
      (st'.opScheme LoopNum P).EquipListNumForLastStage)
    (hfirstj : ∀ j, 1 ≤ j → j < j0 →
      (((st'.comp LoopNum LoopSideNum BranchNum CompNum).OpScheme q).EquipList j).ListPtr ≠
        (st'.opScheme LoopNum P).EquipListNumForLastStage)
    (hcomps : 0 < (st'.equipList LoopNum P
        (st'.opScheme LoopNum P).EquipListNumForLastStage).NumComps) :
    selectEquipList st' LoopNum LoopSideNum BranchNum CompNum q P LoopDemand n 1 0 =
      (j0, (st'.opScheme LoopNum P).EquipListNumForLastStage) ∧
    ManagePlantLoadDistribution env st LoopNum LoopSideNum BranchNum CompNum LoopDemand
        RemLoopDemand FirstHVACIteration false perf =
      Except.ok
        { st := (DistributePlantLoad env
              (TurnOnPlantLoopPipes (nullOtherLists st' LoopNum LoopSideNum P n j0)
                LoopNum LoopSideNum) LoopNum LoopSideNum P
              (st'.opScheme LoopNum P).EquipListNumForLastStage LoopDemand).1,
          RemLoopDemand := (DistributePlantLoad env
              (TurnOnPlantLoopPipes (nullOtherLists st' LoopNum LoopSideNum P n j0)
                LoopNum LoopSideNum) LoopNum LoopSideNum P
              (st'.opScheme LoopNum P).EquipListNumForLastStage LoopDemand).2,
          LoopShutDownFlag := flag,
          LoadDistributionWasPerformed := perf.map (fun _ => true) } := by
  have hsel : selectEquipList st' LoopNum LoopSideNum BranchNum CompNum q P LoopDemand n 1 0 =
      (j0, (st'.opScheme LoopNum P).EquipListNumForLastStage) := by
    rw [← hlastj]
    apply selectEquipList_stops_at st' LoopNum LoopSideNum BranchNum CompNum q P LoopDemand j0 n
      1 0 hj1 (by omega)
    · intro j h1 h2
      refine ⟨Or.inr (hexceed j h1 (by omega)), ?_⟩
      rintro ⟨_, hl⟩
      exact hfirstj j h1 h2 hl
    · right
      exact ⟨hexceed j0 hj1 hj2, hlastj⟩
  refine ⟨hsel, ?_⟩
  have hv : rangeVariableOf env st' LoopNum P LoopDemand = some LoopDemand := by
    unfold rangeVariableOf
    rcases hty with ⟨ht, hd⟩ | ⟨ht, hd⟩
    · simp only [ht]
      rw [if_neg (by linarith)]
    · simp only [ht]
      rw [if_neg (by linarith)]
  have hm := Manage_range_based env st LoopNum LoopSideNum BranchNum CompNum LoopDemand
    RemLoopDemand FirstHVACIteration perf LoopDemand havail
    (by rw [hact]; simp only []; rw [hq]; exact hq0)
    (by rw [hact]; simp only []; rw [hq, hP]; exact hv)
  rw [hm, hact]
  simp only []
  rw [hq, hP, hn]
  rw [dispatchRangeBased_selected env st' LoopNum LoopSideNum BranchNum CompNum q P n LoopDemand
    LoopDemand RemLoopDemand flag perf j0 _ hsel (by omega) hcomps]

/-- C7 at the second sample plant, called for the boiler that is on all three
lists with a heating demand of 35, above the three upper limits 10, 20, 30:
the search stops at the third list, the last stage. -/
theorem C7_last_stage_witness :
    selectEquipList (rangePlant false false) 1 2 2 1 1 1 35 3 1 0 = (3, 3) := by
  have h := C7_last_stage_selected_above_all_ranges demoEnv (rangePlant false false)
    (rangePlant false false) false 1 2 2 1 1 1 3 35 0 true none 3
    (rangePlant_anyOpSchemeAvailable false false) (rangePlant_activate_none 2 (by norm_num))
    (by simp [rangeSupplyComp]) (by norm_num) (by simp [rangeSupplyComp])
    (by simp [rangeSupplyComp])
    (Or.inl ⟨by simp, by norm_num [demoEnv]⟩)
    (by
      intro j h1 h2
      have hj : j = 1 ∨ j = 2 ∨ j = 3 := by omega
      rcases hj with rfl | rfl | rfl <;> norm_num [rangeSupplyComp, rangeList, abs_of_nonneg])
    (by norm_num) (by norm_num)
    (by simp [rangeSupplyComp])
    (by
      intro j h1 h2
      have hj : j = 1 ∨ j = 2 := by omega
      rcases hj with rfl | rfl <;> simp [rangeSupplyComp])
    (by simp [rangeList])
  simpa using h.1

/-- C7 (counterexample). Second sample plant, heating load scheme, lists
`[0, 10]`, `[10, 20]`, `[20, 30]` with the third recorded as last stage, demand
35 above every upper limit, no override: the call made for the boiler on
branch 3, which is on the first two lists only, searches these two lists,
chooses none, and returns the plant unchanged with no distribution performed. -/
theorem C7_no_list_for_component_off_last_stage :
    ((rangePlant false false).opScheme 1 1).OpSchemeType = OpSchemeType.HeatingRBOpSchemeType ∧
    ((rangePlant false false).opScheme 1 1).EquipListNumForLastStage = 3 ∧
    ((rangePlant false false).equipList 1 1 1).RangeUpperLimit < |(35 : ℚ)| ∧
    ((rangePlant false false).equipList 1 1 2).RangeUpperLimit < |(35 : ℚ)| ∧
    ((rangePlant false false).equipList 1 1 3).RangeUpperLimit < |(35 : ℚ)| ∧
    (selectEquipList (rangePlant false false) 1 2 3 1 1 1 35 2 1 0).1 = 0 ∧
    ManagePlantLoadDistribution demoEnv (rangePlant false false) 1 2 3 1 35 0 true false
        (some false) =
      Except.ok { st := rangePlant false false, RemLoopDemand := 0, LoopShutDownFlag := false,
                  LoadDistributionWasPerformed := some false } := by
  have hsel : (selectEquipList (rangePlant false false) 1 2 3 1 1 1 35 2 1 0).1 = 0 := by
    apply selectEquipList_none
    intro j h1 h2
    have hj : j = 1 ∨ j = 2 := by omega
    rcases hj with rfl | rfl <;> norm_num [rangeSupplyComp, rangeList, abs_of_nonneg]
  have hact := rangePlant_activate_none 3 (by norm_num)
  have hm := Manage_range_based demoEnv (rangePlant false false) 1 2 3 1 35 0 true (some false) 35
    (rangePlant_anyOpSchemeAvailable false false)
    (by rw [hact]; simp [rangeSupplyComp])
    (by rw [hact]; norm_num [rangeVariableOf, demoEnv])
  refine ⟨by simp, by simp, by norm_num [rangeList, abs_of_nonneg],
    by norm_num [rangeList, abs_of_nonneg], by norm_num [rangeList, abs_of_nonneg], hsel, ?_⟩
  rw [hm, hact]
  have hd := dispatchRangeBased_not_selected demoEnv (rangePlant false false) 1 2 3 1 1 1 2 35 35 0
    false (some false) hsel
  simpa [rangeSupplyComp] using hd

/-! # Plants that differ in the loads of one half loop -/

section WithLoads

variable (st : PlantState) (L S : Nat) (g : Nat → Nat → ℚ)

theorem comp_withLoads (B C : Nat) :
    (st.withLoads L S g).comp L S B C = { st.comp L S B C with MyLoad := g B C } := by
  unfold PlantState.withLoads PlantState.comp
  simp

@[simp] theorem comp_withLoads_MyLoad (B C : Nat) :
    ((st.withLoads L S g).comp L S B C).MyLoad = g B C := by
  rw [comp_withLoads]

@[simp] theorem comp_withLoads_Available (B C : Nat) :
    ((st.withLoads L S g).comp L S B C).Available = (st.comp L S B C).Available := by
  rw [comp_withLoads]

@[simp] theorem comp_withLoads_MaxLoad (B C : Nat) :
    ((st.withLoads L S g).comp L S B C).MaxLoad = (st.comp L S B C).MaxLoad := by
  rw [comp_withLoads]

@[simp] theorem comp_withLoads_OptLoad (B C : Nat) :
    ((st.withLoads L S g).comp L S B C).OptLoad = (st.comp L S B C).OptLoad := by
  rw [comp_withLoads]

@[simp] theorem comp_withLoads_HowLoadServed (B C : Nat) :
    ((st.withLoads L S g).comp L S B C).HowLoadServed = (st.comp L S B C).HowLoadServed := by
  rw [comp_withLoads]

@[simp] theorem comp_withLoads_EMSLoadOverrideOn (B C : Nat) :
    ((st.withLoads L S g).comp L S B C).EMSLoadOverrideOn =
      (st.comp L S B C).EMSLoadOverrideOn := by
  rw [comp_withLoads]

@[simp] theorem comp_withLoads_EMSLoadOverrideValue (B C : Nat) :
    ((st.withLoads L S g).comp L S B C).EMSLoadOverrideValue =
      (st.comp L S B C).EMSLoadOverrideValue := by
  rw [comp_withLoads]

@[simp] theorem opScheme_withLoads (L2 P : Nat) :
    (st.withLoads L S g).opScheme L2 P = st.opScheme L2 P := by
  unfold PlantState.withLoads PlantState.opScheme
  by_cases hL : L2 = L
  · subst hL; simp
  · simp [hL]

@[simp] theorem equipList_withLoads (L2 P K : Nat) :
    (st.withLoads L S g).equipList L2 P K = st.equipList L2 P K := by
  unfold PlantState.withLoads PlantState.equipList
  by_cases hL : L2 = L
  · subst hL; simp
  · simp [hL]

@[simp] theorem side_withLoads_EMSCtrl :
    ((st.withLoads L S g).side L S).EMSCtrl = (st.side L S).EMSCtrl := by
  unfold PlantState.withLoads PlantState.side
  simp

@[simp] theorem side_withLoads_EMSValue :
    ((st.withLoads L S g).side L S).EMSValue = (st.side L S).EMSValue := by
  unfold PlantState.withLoads PlantState.side
  simp

@[simp] theorem branch_withLoads_EMSCtrlOverrideOn (B : Nat) :
    ((st.withLoads L S g).branch L S B).EMSCtrlOverrideOn =
      (st.branch L S B).EMSCtrlOverrideOn := by
  unfold PlantState.withLoads PlantState.branch
  simp

@[simp] theorem branch_withLoads_EMSCtrlOverrideValue (B : Nat) :
    ((st.withLoads L S g).branch L S B).EMSCtrlOverrideValue =
      (st.branch L S B).EMSCtrlOverrideValue := by
  unfold PlantState.withLoads PlantState.branch
  simp

@[simp] theorem loop_withLoads_LoadDistribution :
    ((st.withLoads L S g).PlantLoop L).LoadDistribution = (st.PlantLoop L).LoadDistribution := by
  unfold PlantState.withLoads
  simp

/-- A plant is itself with its own loads. -/
theorem withLoads_self :
    st.withLoads L S (fun B C => (st.comp L S B C).MyLoad) = st := by
  unfold PlantState.withLoads PlantState.comp
  simp [Function.update_eq_self]

/-- Assigning a load to one component of a plant with loads `g`. -/
theorem modifyComp_withLoads (B C : Nat) (x : ℚ) :
    (st.withLoads L S g).modifyComp L S B C (fun c => { c with MyLoad := x }) =
      st.withLoads L S (fun B2 C2 => if B2 = B ∧ C2 = C then x else g B2 C2) := by
  unfold PlantState.withLoads PlantState.modifyComp
  simp only [Function.update_same, Function.update_idem]
  congr 1
  refine congrArg (Function.update st.PlantLoop L) ?_
  congr 1
  refine congrArg (Function.update (st.PlantLoop L).LoopSide S) ?_
  congr 1
  funext B2
  by_cases hB : B2 = B
  · subst hB
    simp only [Function.update_same, true_and]
    congr 1
    funext C2
    by_cases hC : C2 = C
    · subst hC; simp
    · simp [hC]
  · simp [hB]

end WithLoads

/-! # Arithmetic of `sign` and `snapRem` -/

theorem sign_of_nonneg (a b : ℚ) (hb : 0 ≤ b) : sign a b = |a| := by
  unfold sign; rw [if_pos hb]

theorem sign_of_neg (a b : ℚ) (hb : b < 0) : sign a b = -|a| := by
  unfold sign; rw [if_neg (not_le.mpr hb)]

theorem abs_sign (a b : ℚ) : |sign a b| = |a| := by
  unfold sign
  split
  · exact abs_abs a
  · rw [abs_neg, abs_abs]

theorem sign_zero_left (b : ℚ) : sign 0 b = 0 := by
  unfold sign
  split <;> simp

theorem sign_eq_zero_iff (a b : ℚ) : sign a b = 0 ↔ a = 0 := by
  rw [← abs_eq_zero, abs_sign, abs_eq_zero]

/-- A demand is its own magnitude with its own sign. -/
theorem sign_abs_self (b : ℚ) : sign |b| b = b := by
  unfold sign
  split
  · rename_i h; rw [abs_abs, abs_of_nonneg h]
  · rename_i h
    push_neg at h
    rw [abs_abs, abs_of_neg h, neg_neg]

/-- A positive magnitude signed by `b` has the sign of `b`. -/
theorem sign_sign (x r b : ℚ) (hr : 0 < r) : sign x (sign r b) = sign x b := by
  by_cases hb : 0 ≤ b
  · have h1 : sign r b = |r| := sign_of_nonneg r b hb
    rw [sign_of_nonneg x b hb, sign_of_nonneg x _ (by rw [h1]; exact abs_nonneg r)]
  · push_neg at hb
    have h1 : sign r b = -|r| := sign_of_neg r b hb
    have h2 : sign r b < 0 := by
      rw [h1]; have := abs_pos.mpr (ne_of_gt hr); linarith
    rw [sign_of_neg x b hb, sign_of_neg x _ h2]

/-- Taking `x` off a magnitude `r >= x >= 0`, both signed by `b`. -/
theorem sign_sub_sign (r x b : ℚ) (hx : 0 ≤ x) (hxr : x ≤ r) :
    sign r b - sign x b = sign (r - x) b := by
  have hr : 0 ≤ r := le_trans hx hxr
  unfold sign
  split
  · rw [abs_of_nonneg hr, abs_of_nonneg hx, abs_of_nonneg (by linarith)]
  · rw [abs_of_nonneg hr, abs_of_nonneg hx, abs_of_nonneg (by linarith)]
    ring

theorem snapRem_zero (env : Env) : snapRem env 0 = 0 := by
  unfold snapRem
  split <;> rfl

theorem snapRem_of_le (env : Env) (r : ℚ) (h : env.SmallLoad ≤ |r|) : snapRem env r = r := by
  unfold snapRem
  rw [if_neg (not_lt.mpr h)]

/-! # One iteration on a plain list -/

/-- Without a serving-mode correction `AdjustChangeInLoadByHowServed` changes
nothing. -/
theorem AdjustChangeInLoadByHowServed_plain (env : Env) (st : PlantState) (L S B C : Nat) (x : ℚ)
    (h : (st.comp L S B C).HowLoadServed ≠ HowMet.HowMet_ByNominalCapLowOutLimit ∧
      (st.comp L S B C).HowLoadServed ≠ HowMet.HowMet_ByNominalCapFreeCoolCntrl ∧
      (st.comp L S B C).HowLoadServed ≠ HowMet.HowMet_ByNominalCapLowOutLimitFreeCoolCntrl ∧
      (st.comp L S B C).HowLoadServed ≠ HowMet.HowMet_ByNominalCapHiOutLimit) :
    AdjustChangeInLoadByHowServed env st L S B C x = (st, x) := by
  unfold AdjustChangeInLoadByHowServed
  obtain ⟨h1, h2, h3, h4⟩ := h
  simp only []
  split
  · rename_i heq; exact absurd heq h1
  · rename_i heq; exact absurd heq h2
  · rename_i heq; exact absurd heq h3
  · rename_i heq; exact absurd heq h4
  · rfl
  · rfl

/-- On a plain list the three adjustments leave a load change as it is, up to
the final `max( 0.0, . )`. -/
theorem adjustChangeInLoad_plain (env : Env) (st : PlantState) (L S P K : Nat)
    (g : Nat → Nat → ℚ) (hp : PlainList st L S P K) (i : Nat) (hi1 : 1 ≤ i)
    (hi2 : i ≤ (st.equipList L P K).NumComps) (x : ℚ) :
    adjustChangeInLoad env (st.withLoads L S g) L S P K (st.memberBranch L P K i)
      (st.memberComp L P K i) x = (st.withLoads L S g, max 0 x) := by
  unfold adjustChangeInLoad
  have h1 : AdjustChangeInLoadForLastStageUpperRangeLimit (st.withLoads L S g) L P K x = x := by
    unfold AdjustChangeInLoadForLastStageUpperRangeLimit
    rw [opScheme_withLoads, if_neg hp.notLastStage]
  have h2 : AdjustChangeInLoadByEMSControls (st.withLoads L S g) L S (st.memberBranch L P K i)
      (st.memberComp L P K i) x = x := by
    unfold AdjustChangeInLoadByEMSControls
    have hs := hp.sideFree
    have hb := hp.branchFree i hi1 hi2
    have hc := hp.compFree i hi1 hi2
    unfold PlantState.member at hc
    simp only [side_withLoads_EMSCtrl, side_withLoads_EMSValue,
      branch_withLoads_EMSCtrlOverrideOn, branch_withLoads_EMSCtrlOverrideValue,
      comp_withLoads_EMSLoadOverrideOn, comp_withLoads_EMSLoadOverrideValue]
    rw [if_neg hs, if_neg hb, if_neg hc]
  have h3 : AdjustChangeInLoadByHowServed env (st.withLoads L S g) L S (st.memberBranch L P K i)
      (st.memberComp L P K i) x = (st.withLoads L S g, x) := by
    apply AdjustChangeInLoadByHowServed_plain
    have := hp.plainService i hi1 hi2
    unfold PlantState.member at this
    simpa using this
  simp only [h1, h2, h3]

/-- One iteration of a first pass on a plain list: the member at position `i`
gets the load `max 0 t` signed by the remaining demand, where `t` is its
target, and that much is taken off the remaining demand. -/
theorem firstPassBody_plain (env : Env) (st : PlantState) (L S P K : Nat)
    (target : CompData → ℚ → ℚ) (g : Nat → Nat → ℚ) (R : ℚ) (hp : PlainList st L S P K)
    (i : Nat) (hi1 : 1 ≤ i) (hi2 : i ≤ (st.equipList L P K).NumComps) :
    firstPassBody env L S P K target (st.withLoads L S g, R) i =
      (st.withLoads L S (fun B2 C2 =>
          if B2 = st.memberBranch L P K i ∧ C2 = st.memberComp L P K i then
            sign (max 0 (target ((st.withLoads L S g).comp L S (st.memberBranch L P K i)
              (st.memberComp L P K i)) R)) R
          else g B2 C2),
        snapRem env (R - sign (max 0 (target ((st.withLoads L S g).comp L S
          (st.memberBranch L P K i) (st.memberComp L P K i)) R)) R)) := by
  rw [firstPassBody_eq]
  simp only [equipList_withLoads]
  have hav := hp.available i hi1 hi2
  unfold PlantState.member PlantState.memberBranch PlantState.memberComp at hav
  have hadj := adjustChangeInLoad_plain env st L S P K g hp i hi1 hi2
  unfold PlantState.memberBranch PlantState.memberComp at hadj
  unfold PlantState.memberBranch PlantState.memberComp
  rw [comp_withLoads_Available, hav]
  simp only [Bool.true_eq_false, if_false, hadj]
  rw [modifyComp_withLoads]

/-! # The sequential loop on a plain list -/

/-- Writing the load of position `k + 1` leaves the loads of the other
positions of a list of distinct members as they are. -/
theorem posLoad_update_other (st : PlantState) (L S P K : Nat) (hp : PlainList st L S P K)
    (g : Nat → Nat → ℚ) (x : ℚ) (k i : Nat) (hk : k + 1 ≤ (st.equipList L P K).NumComps)
    (hi1 : 1 ≤ i) (hi2 : i ≤ (st.equipList L P K).NumComps) (hne : i ≠ k + 1) :
    posLoad st L P K (fun B2 C2 =>
        if B2 = st.memberBranch L P K (k + 1) ∧ C2 = st.memberComp L P K (k + 1) then x
        else g B2 C2) i = posLoad st L P K g i := by
  unfold posLoad
  beta_reduce
  rw [if_neg (hp.distinct i (k + 1) hi1 hi2 (by omega) hk hne)]

theorem posLoad_update_self (st : PlantState) (L P K : Nat) (g : Nat → Nat → ℚ) (x : ℚ)
    (k : Nat) :
    posLoad st L P K (fun B2 C2 =>
        if B2 = st.memberBranch L P K (k + 1) ∧ C2 = st.memberComp L P K (k + 1) then x
        else g B2 C2) (k + 1) = x := by
  unfold posLoad
  beta_reduce
  rw [if_pos ⟨rfl, rfl⟩]

/-- The sum of the loads of the first `m <= k` positions does not see the load
written at position `k + 1`. -/
theorem sum_posLoad_update (st : PlantState) (L S P K : Nat) (hp : PlainList st L S P K)
    (g : Nat → Nat → ℚ) (x : ℚ) (k m : Nat) (hk : k + 1 ≤ (st.equipList L P K).NumComps)
    (hm : m ≤ k) :
    (∑ i in Finset.range m, posLoad st L P K (fun B2 C2 =>
        if B2 = st.memberBranch L P K (k + 1) ∧ C2 = st.memberComp L P K (k + 1) then x
        else g B2 C2) (i + 1)) = ∑ i in Finset.range m, posLoad st L P K g (i + 1) := by
  apply Finset.sum_congr rfl
  intro i hi
  have := Finset.mem_range.mp hi
  exact posLoad_update_other st L S P K hp g x k (i + 1) hk (by omega) (by omega) (by omega)

/-- Invariant of the sequential loop on a plain list whose members have a
positive `MaxLoad`, after `k` iterations: the plant is the initial one with
loads `g`, and with `R` the remaining demand
* the first member carries `min( MaxLoad, |LoopDemand| )`;
* a loaded member has all its predecessors at their `MaxLoad`;
* a member behind a running remainder below `SmallLoad` has no load;
* `R` is zero, or it is the demand less the loads given out, all members so
  far are at `MaxLoad` and no running remainder was below `SmallLoad`. -/
theorem sequential_plain_invariant (env : Env) (st : PlantState) (L S P K : Nat) (D : ℚ)
    (hp : PlainList st L S P K)
    (hmax : ∀ i, 1 ≤ i → i ≤ (st.equipList L P K).NumComps → 0 < (st.member L S P K i).MaxLoad)
    (hD : env.SmallLoad ≤ |D|) :
    ∀ k, k ≤ (st.equipList L P K).NumComps →
    ∃ g R, forLoop (firstPassBody env L S P K sequentialTarget) (st, D) k =
        (st.withLoads L S g, R) ∧
      (k = 0 → R = D) ∧
      (1 ≤ k → |posLoad st L P K g 1| = min (st.member L S P K 1).MaxLoad |D|) ∧
      (∀ i j, 1 ≤ i → i < j → j ≤ k → posLoad st L P K g j ≠ 0 →
        |posLoad st L P K g i| = (st.member L S P K i).MaxLoad) ∧
      (∀ m j, m < j → j ≤ k →
        |D - ∑ i in Finset.range m, posLoad st L P K g (i + 1)| < env.SmallLoad →
        posLoad st L P K g j = 0) ∧
      (R = 0 ∨
        (R = D - ∑ i in Finset.range k, posLoad st L P K g (i + 1) ∧
          (∀ i, 1 ≤ i → i ≤ k → |posLoad st L P K g i| = (st.member L S P K i).MaxLoad) ∧
          ∀ m, m ≤ k →
            env.SmallLoad ≤ |D - ∑ i in Finset.range m, posLoad st L P K g (i + 1)|)) := by
  intro k
  induction k with
  | zero =>
    intro _
    refine ⟨fun B C => (st.comp L S B C).MyLoad, D, ?_, fun _ => rfl, ?_, ?_, ?_, ?_⟩
    · rw [withLoads_self]; rfl
    · intro h; omega
    · intro i j _ _ h; omega
    · intro m j _ h; omega
    · right
      refine ⟨by simp, ?_, ?_⟩
      · intro i _ h; omega
      · intro m hm
        have : m = 0 := by omega
        subst this
        simpa using hD
  | succ k ih =>
    intro hk
    obtain ⟨g, R, hloop, h0, ha, hb, hc, hd⟩ := ih (by omega)
    have hstep := firstPassBody_plain env st L S P K sequentialTarget g R hp (k + 1) (by omega) hk
    -- the target of position k + 1
    have hM := hmax (k + 1) (by omega) hk
    have htgt : sequentialTarget ((st.withLoads L S g).comp L S (st.memberBranch L P K (k + 1))
        (st.memberComp L P K (k + 1))) R = min (st.member L S P K (k + 1)).MaxLoad |R| := by
      unfold sequentialTarget
      rw [comp_withLoads_MaxLoad]
      unfold PlantState.member at hM
      rw [if_pos hM]
      rfl
    have htnn : 0 ≤ min (st.member L S P K (k + 1)).MaxLoad |R| :=
      le_min (le_of_lt hM) (abs_nonneg R)
    rw [htgt, max_eq_right htnn] at hstep
    -- abbreviations
    generalize hℓ : sign (min (st.member L S P K (k + 1)).MaxLoad |R|) R = ℓ at hstep
    have habsℓ : |ℓ| = min (st.member L S P K (k + 1)).MaxLoad |R| := by
      rw [← hℓ, abs_sign, abs_of_nonneg htnn]
    have hother : ∀ i, 1 ≤ i → i ≤ k →
        posLoad st L P K (fun B2 C2 =>
          if B2 = st.memberBranch L P K (k + 1) ∧ C2 = st.memberComp L P K (k + 1) then ℓ
          else g B2 C2) i = posLoad st L P K g i := by
      intro i hi1 hi2
      exact posLoad_update_other st L S P K hp g ℓ k i hk hi1 (by omega) (by omega)
    have hself := posLoad_update_self st L P K g ℓ k
    have hsum : ∀ m, m ≤ k →
        (∑ i in Finset.range m, posLoad st L P K (fun B2 C2 =>
          if B2 = st.memberBranch L P K (k + 1) ∧ C2 = st.memberComp L P K (k + 1) then ℓ
          else g B2 C2) (i + 1)) = ∑ i in Finset.range m, posLoad st L P K g (i + 1) :=
      fun m hm => sum_posLoad_update st L S P K hp g ℓ k m hk hm
    have hR0 : R = 0 → ℓ = 0 := by
      intro hR
      rw [← abs_eq_zero, habsℓ, hR, abs_zero]
      exact min_eq_right (le_of_lt hM)
    refine ⟨_, _, by rw [forLoop, hloop, hstep], ?_, ?_, ?_, ?_, ?_⟩
    · intro h; omega
    · intro _
      by_cases hk0 : k = 0
      · subst hk0
        rw [hself, habsℓ, h0 rfl]
      · rw [hother 1 (le_refl _) (by omega)]
        exact ha (by omega)
    · intro i j hi hij hj hne
      rw [hother i hi (by omega)]
      by_cases hjk : j ≤ k
      · rw [hother j (by omega) hjk] at hne
        exact hb i j hi hij hjk hne
      · have hjeq : j = k + 1 := by omega
        subst hjeq
        rw [hself] at hne
        rcases hd with hR | ⟨_, hall, _⟩
        · exact absurd (hR0 hR) hne
        · exact hall i hi (by omega)
    · intro m j hmj hj hlt
      rw [hsum m (by omega)] at hlt
      by_cases hjk : j ≤ k
      · rw [hother j (by omega) hjk]
        exact hc m j hmj hjk hlt
      · have hjeq : j = k + 1 := by omega
        subst hjeq
        rw [hself]
        rcases hd with hR | ⟨_, _, hge⟩
        · exact hR0 hR
        · have := hge m (by omega)
          linarith
    · rcases hd with hR | ⟨hReq, hall, hge⟩
      · left
        rw [hR0 hR, hR]
        simp [snapRem_zero]
      · by_cases hcase : |R| ≤ (st.member L S P K (k + 1)).MaxLoad
        · left
          have hℓR : ℓ = R := by
            rw [← hℓ, min_eq_right hcase]
            exact sign_abs_self R
          rw [hℓR, sub_self]
          exact snapRem_zero env
        · push_neg at hcase
          have hℓM : |ℓ| = (st.member L S P K (k + 1)).MaxLoad := by
            rw [habsℓ]; exact min_eq_left (le_of_lt hcase)
          by_cases hsnap : |R - ℓ| < env.SmallLoad
          · left
            unfold snapRem
            rw [if_pos hsnap]
          · right
            push_neg at hsnap
            have hsumk : (∑ i in Finset.range (k + 1), posLoad st L P K (fun B2 C2 =>
                if B2 = st.memberBranch L P K (k + 1) ∧ C2 = st.memberComp L P K (k + 1) then ℓ
                else g B2 C2) (i + 1)) =
                (∑ i in Finset.range k, posLoad st L P K g (i + 1)) + ℓ := by
              rw [Finset.sum_range_succ, hsum k (le_refl _), hself]
            refine ⟨?_, ?_, ?_⟩
            · rw [snapRem_of_le env _ hsnap, hsumk, hReq]
              ring
            · intro i hi1 hi2
              by_cases hik : i ≤ k
              · rw [hother i hi1 hik]
                exact hall i hi1 hik
              · have hieq : i = k + 1 := by omega
                subst hieq
                rw [hself]
                exact hℓM
            · intro m hm
              by_cases hmk : m ≤ k
              · rw [hsum m hmk]
                exact hge m hmk
              · have hmeq : m = k + 1 := by omega
                subst hmeq
                rw [hsumk]
                have : D - ((∑ i in Finset.range k, posLoad st L P K g (i + 1)) + ℓ) = R - ℓ := by
                  rw [hReq]; ring
                rw [this]
                exact hsnap

/-! # The closing loop and the sequential claim -/

/-- The closing loop of `DistributePlantLoad` writes `ON` flags only: the
skeleton and every load are kept. -/
theorem updateOnFlag_loop_frame (env : Env) (L S P K : Nat) (st : PlantState) (n : Nat) :
    SameSkeleton st (forLoop (updateOnFlagBody env L S P K) st n) ∧
    ∀ L2 S2 B C, ((forLoop (updateOnFlagBody env L S P K) st n).comp L2 S2 B C).MyLoad =
      (st.comp L2 S2 B C).MyLoad := by
  apply forLoop_induction
    (fun s => SameSkeleton st s ∧
      ∀ L2 S2 B C, (s.comp L2 S2 B C).MyLoad = (st.comp L2 S2 B C).MyLoad)
  · exact ⟨SameSkeleton.refl st, fun _ _ _ _ => rfl⟩
  · intro s i hs
    rw [updateOnFlagBody_eq]
    refine ⟨hs.1.trans (SameSkeleton.modifyComp _ _ _ _ _ _), ?_⟩
    intro L2 S2 B C
    simp only [comp_modifyComp]
    split
    · rename_i h
      obtain ⟨rfl, rfl, rfl, rfl⟩ := h
      exact hs.2 _ _ _ _
    · exact hs.2 _ _ _ _

/-- The member at position `i` of the returned plant, when the distribution
proper ended in the plant `st.withLoads L S g`: its load is `g` at its place. -/
theorem member_after_onFlags (env : Env) (st : PlantState) (L S P K : Nat) (g : Nat → Nat → ℚ)
    (n i : Nat) :
    ((forLoop (updateOnFlagBody env L S P K) (st.withLoads L S g) n).member L S P K i).MyLoad =
      posLoad st L P K g i := by
  obtain ⟨hs, hl⟩ := updateOnFlag_loop_frame env L S P K (st.withLoads L S g) n
  unfold PlantState.member PlantState.memberBranch PlantState.memberComp posLoad
  rw [hl, hs.equipList, equipList_withLoads, comp_withLoads_MyLoad]
  rfl

/-- `DistributePlantLoad` under the sequential policy, for a non-empty list and
a demand not below `SmallLoad`: the sequential loop, then the closing loop. -/
theorem DistributePlantLoad_sequential (env : Env) (st : PlantState) (L S P K : Nat) (D : ℚ)
    (hpol : (st.PlantLoop L).LoadDistribution = LoadingScheme.SequentialLoading)
    (hn : (st.equipList L P K).NumComps ≠ 0) (hD : env.SmallLoad ≤ |D|) :
    DistributePlantLoad env st L S P K D =
      (forLoop (updateOnFlagBody env L S P K)
          (forLoop (firstPassBody env L S P K sequentialTarget) (st, D)
            (st.equipList L P K).NumComps).1 (st.equipList L P K).NumComps,
        (forLoop (firstPassBody env L S P K sequentialTarget) (st, D)
            (st.equipList L P K).NumComps).2) := by
  unfold DistributePlantLoad
  simp only []
  rw [if_neg hn, if_neg (not_lt.mpr hD), hpol]
  rfl

/-- C3. Sequential policy, plain list (distinct available members, no
override, no serving-mode correction, no last-stage cap) whose members have
`MaxLoad > 0`, and `|LoopDemand| >= SmallLoad`. In the plant that
`DistributePlantLoad` returns: the first member has
`|MyLoad| = min( MaxLoad, |LoopDemand| )`; a member with a non-zero load has
every earlier member loaded to exactly its `MaxLoad`; and when the running
remainder after the first `m` members (`LoopDemand` less their loads) is below
`SmallLoad` in magnitude, every later member has `MyLoad = 0`. -/
theorem C3_sequential_loads_in_list_order (env : Env) (st : PlantState)
    (LoopNum LoopSideNum CurSchemePtr ListPtr : Nat) (LoopDemand : ℚ)
    (hpol : (st.PlantLoop LoopNum).LoadDistribution = LoadingScheme.SequentialLoading)
    (hp : PlainList st LoopNum LoopSideNum CurSchemePtr ListPtr)
    (hmax : ∀ i, 1 ≤ i → i ≤ (st.equipList LoopNum CurSchemePtr ListPtr).NumComps →
      0 < (st.member LoopNum LoopSideNum CurSchemePtr ListPtr i).MaxLoad)
    (hD : env.SmallLoad ≤ |LoopDemand|) :
    (1 ≤ (st.equipList LoopNum CurSchemePtr ListPtr).NumComps →
      |((DistributePlantLoad env st LoopNum LoopSideNum CurSchemePtr ListPtr LoopDemand).1.member
          LoopNum LoopSideNum CurSchemePtr ListPtr 1).MyLoad| =
        min (st.member LoopNum LoopSideNum CurSchemePtr ListPtr 1).MaxLoad |LoopDemand|) ∧
    (∀ i j, 1 ≤ i → i < j → j ≤ (st.equipList LoopNum CurSchemePtr ListPtr).NumComps →
      ((DistributePlantLoad env st LoopNum LoopSideNum CurSchemePtr ListPtr LoopDemand).1.member
          LoopNum LoopSideNum CurSchemePtr ListPtr j).MyLoad ≠ 0 →
      |((DistributePlantLoad env st LoopNum LoopSideNum CurSchemePtr ListPtr LoopDemand).1.member
          LoopNum LoopSideNum CurSchemePtr ListPtr i).MyLoad| =
        (st.member LoopNum LoopSideNum CurSchemePtr ListPtr i).MaxLoad) ∧
    (∀ m j, m < j → j ≤ (st.equipList LoopNum CurSchemePtr ListPtr).NumComps →
      |LoopDemand - ∑ i in Finset.range m,
          ((DistributePlantLoad env st LoopNum LoopSideNum CurSchemePtr ListPtr LoopDemand).1.member
            LoopNum LoopSideNum CurSchemePtr ListPtr (i + 1)).MyLoad| < env.SmallLoad →
      ((DistributePlantLoad env st LoopNum LoopSideNum CurSchemePtr ListPtr LoopDemand).1.member
          LoopNum LoopSideNum CurSchemePtr ListPtr j).MyLoad = 0) := by
  by_cases hn : (st.equipList LoopNum CurSchemePtr ListPtr).NumComps = 0
  · refine ⟨?_, ?_, ?_⟩
    · intro h; omega
    · intro i j _ _ h; omega
    · intro m j _ h; omega
  · obtain ⟨g, R, hloop, _, ha, hb, hc, _⟩ :=
      sequential_plain_invariant env st LoopNum LoopSideNum CurSchemePtr ListPtr LoopDemand hp
        hmax hD _ (le_refl _)
    have hout : ∀ i,
        ((DistributePlantLoad env st LoopNum LoopSideNum CurSchemePtr ListPtr LoopDemand).1.member
          LoopNum LoopSideNum CurSchemePtr ListPtr i).MyLoad =
        posLoad st LoopNum CurSchemePtr ListPtr g i := by
      intro i
      rw [DistributePlantLoad_sequential env st LoopNum LoopSideNum CurSchemePtr ListPtr
        LoopDemand hpol hn hD, hloop]
      exact member_after_onFlags env st LoopNum LoopSideNum CurSchemePtr ListPtr g _ i
    simp only [hout]
    exact ⟨ha, fun i j hi hij hj => hb i j hi hij hj, fun m j hmj hj => hc m j hmj hj⟩

section DemoPlain
variable (policy : LoadingScheme) (n lastStage : Nat) (upper : ℚ) (c : Nat → CompData)

@[simp] theorem demoPlant_memberBranch (i : Nat) :
    (demoPlant policy n lastStage upper c).memberBranch 1 1 1 i = i := rfl

@[simp] theorem demoPlant_memberComp (i : Nat) :
    (demoPlant policy n lastStage upper c).memberComp 1 1 1 i = 1 := rfl

@[simp] theorem demoPlant_member (i : Nat) :
    (demoPlant policy n lastStage upper c).member 1 2 1 1 i = c i := rfl

@[simp] theorem demoPlant_numComps :
    ((demoPlant policy n lastStage upper c).equipList 1 1 1).NumComps = n := rfl

/-- The sample plant with sample components and a list that is not the last
stage is a plain list. -/
theorem demoPlant_plain (opt mx : ℚ) :
    PlainList (demoPlant policy n 0 upper (fun _ => demoComp opt mx)) 1 2 1 1 := by
  constructor
  · intro i j _ _ _ _ hij h
    simp only [demoPlant_memberBranch] at h
    exact hij h.1
  · intro i _ _; rfl
  · simp
  · intro i _ _; simp
  · intro i _ _; simp [demoComp]
  · intro i _ _; simp [demoComp]
  · simp

end DemoPlain

/-- C3 at the sample plant under the sequential policy: two components with
`MaxLoad = 10` and a demand of 15 (`SmallLoad = 1`); the first member is loaded
to `min( 10, 15 )`. -/
theorem C3_sequential_witness :
    |((DistributePlantLoad demoEnv
        (demoPlant LoadingScheme.SequentialLoading 2 0 1000 (fun _ => demoComp 5 10))
        1 2 1 1 15).1.member 1 2 1 1 1).MyLoad| = min (10 : ℚ) |15| := by
  have h := C3_sequential_loads_in_list_order demoEnv
    (demoPlant LoadingScheme.SequentialLoading 2 0 1000 (fun _ => demoComp 5 10)) 1 2 1 1 15
    (by simp) (demoPlant_plain _ _ _ _ _)
    (by intro i _ _; norm_num [demoComp])
    (by norm_num [demoEnv, abs_of_nonneg])
  have h1 := h.1 (by simp)
  simpa [demoComp] using h1

/-! # The optimal policy on a plain list of equal machines -/

/-- One iteration of optimal step 2 on a plain list. -/
theorem optimalStep2Body_plain (env : Env) (st : PlantState) (L S P K : Nat) (d : ℚ)
    (g : Nat → Nat → ℚ) (R : ℚ) (hp : PlainList st L S P K)
    (i : Nat) (hi1 : 1 ≤ i) (hi2 : i ≤ (st.equipList L P K).NumComps) :
    optimalStep2Body env L S P K d (st.withLoads L S g, R) i =
      (st.withLoads L S (fun B2 C2 =>
          if B2 = st.memberBranch L P K i ∧ C2 = st.memberComp L P K i then
            sign (min (st.member L S P K i).MaxLoad (|posLoad st L P K g i| + d)) R
          else g B2 C2),
        snapRem env (R - sign (min (st.member L S P K i).MaxLoad (|posLoad st L P K g i| + d)
          - |posLoad st L P K g i|) R)) := by
  rw [optimalStep2Body_eq]
  simp only [equipList_withLoads]
  have hav := hp.available i hi1 hi2
  unfold PlantState.member PlantState.memberBranch PlantState.memberComp at hav
  unfold PlantState.member PlantState.memberBranch PlantState.memberComp posLoad
  rw [comp_withLoads_Available, hav]
  simp only [Bool.true_eq_false, if_false, comp_withLoads_MaxLoad, comp_withLoads_MyLoad]
  rw [modifyComp_withLoads]
  rfl

/-- A share of the magnitude of a demand, signed by the demand, is that share
of the demand. -/
theorem sign_abs_div (D : ℚ) (n : ℚ) (hn : 0 < n) : sign (|D| / n) D = D / n := by
  have h0 : 0 ≤ |D| / n := div_nonneg (abs_nonneg D) (le_of_lt hn)
  by_cases hD : 0 ≤ D
  · rw [sign_of_nonneg _ _ hD, abs_of_nonneg h0, abs_of_nonneg hD]
  · push_neg at hD
    rw [sign_of_neg _ _ hD, abs_of_nonneg h0, abs_of_neg hD]
    ring

/-- Optimal step 1 on a plain list of members with the same `OptLoad = O`, for
a demand above `n * (O + SmallLoad)`: after `k` iterations the first `k`
members carry `O` with the sign of the demand and `|LoopDemand| - k * O`
remains, with that sign. -/
theorem optimal_step1_invariant (env : Env) (st : PlantState) (L S P K : Nat) (D O : ℚ)
    (hp : PlainList st L S P K)
    (hopt : ∀ i, 1 ≤ i → i ≤ (st.equipList L P K).NumComps → (st.member L S P K i).OptLoad = O)
    (hO : 0 < O) (hSL : 0 < env.SmallLoad)
    (hlo : ((st.equipList L P K).NumComps : ℚ) * (O + env.SmallLoad) < |D|) :
    ∀ k, k ≤ (st.equipList L P K).NumComps →
    ∃ g, forLoop (firstPassBody env L S P K optimalTarget) (st, D) k =
        (st.withLoads L S g, sign (|D| - (k : ℚ) * O) D) ∧
      ∀ i, 1 ≤ i → i ≤ k → posLoad st L P K g i = sign O D := by
  intro k
  induction k with
  | zero =>
    intro _
    refine ⟨fun B C => (st.comp L S B C).MyLoad, ?_, ?_⟩
    · rw [withLoads_self]
      simp [forLoop, sign_abs_self]
    · intro i _ h; omega
  | succ k ih =>
    intro hk
    obtain ⟨g, hloop, hg⟩ := ih (by omega)
    have hkn : ((k : ℚ) + 1) ≤ ((st.equipList L P K).NumComps : ℚ) := by
      exact_mod_cast hk
    have hn0 : (0 : ℚ) ≤ ((st.equipList L P K).NumComps : ℚ) := Nat.cast_nonneg _
    have hk0 : (0 : ℚ) ≤ (k : ℚ) := Nat.cast_nonneg _
    -- what remains before this iteration is at least O + SmallLoad
    have hr : O + env.SmallLoad ≤ |D| - (k : ℚ) * O := by
      have h1 : ((k : ℚ) + 1) * (O + env.SmallLoad) ≤
          ((st.equipList L P K).NumComps : ℚ) * (O + env.SmallLoad) :=
        mul_le_mul_of_nonneg_right hkn (by linarith)
      have h2 : 0 ≤ (k : ℚ) * env.SmallLoad := mul_nonneg hk0 (le_of_lt hSL)
      nlinarith
    have hrpos : 0 < |D| - (k : ℚ) * O := by linarith
    have hstep := firstPassBody_plain env st L S P K optimalTarget g
      (sign (|D| - (k : ℚ) * O) D) hp (k + 1) (by omega) hk
    have habsR : |sign (|D| - (k : ℚ) * O) D| = |D| - (k : ℚ) * O := by
      rw [abs_sign, abs_of_pos hrpos]
    have htgt : optimalTarget ((st.withLoads L S g).comp L S (st.memberBranch L P K (k + 1))
        (st.memberComp L P K (k + 1))) (sign (|D| - (k : ℚ) * O) D) = O := by
      unfold optimalTarget
      have ho := hopt (k + 1) (by omega) hk
      unfold PlantState.member at ho
      rw [comp_withLoads_OptLoad, ho, if_pos hO, habsR]
      exact min_eq_left (by linarith)
    rw [htgt, max_eq_right (le_of_lt hO), sign_sign O _ D hrpos,
      sign_sub_sign _ _ D (le_of_lt hO) (by linarith)] at hstep
    have hsnap : snapRem env (sign (|D| - (k : ℚ) * O - O) D) =
        sign (|D| - ((k + 1 : ℕ) : ℚ) * O) D := by
      have e : |D| - (k : ℚ) * O - O = |D| - ((k + 1 : ℕ) : ℚ) * O := by
        push_cast; ring
      rw [e]
      apply snapRem_of_le
      rw [abs_sign, ← e, abs_of_nonneg (by linarith)]
      linarith
    rw [hsnap] at hstep
    refine ⟨_, by rw [forLoop, hloop, hstep], ?_⟩
    intro i hi1 hi2
    by_cases hik : i ≤ k
    · rw [posLoad_update_other st L S P K hp g _ k i hk hi1 (by omega) (by omega)]
      exact hg i hi1 hik
    · have hieq : i = k + 1 := by omega
      subst hieq
      exact posLoad_update_self st L P K g _ k

/-- Optimal step 2 on a plain list of `n` members with the same `MaxLoad = M`,
each carrying `O` with the sign of the demand, when `n * d` remains with
`d > SmallLoad` and `O + d <= M`: after `k` iterations the first `k` members
carry `O + d`, the others still `O`, and `(n - k) * d` remains. -/
theorem optimal_step2_invariant (env : Env) (st : PlantState) (L S P K : Nat) (D O M d : ℚ)
    (hp : PlainList st L S P K)
    (hmax : ∀ i, 1 ≤ i → i ≤ (st.equipList L P K).NumComps → (st.member L S P K i).MaxLoad = M)
    (hO : 0 < O) (hd : env.SmallLoad < d) (hSL : 0 < env.SmallLoad) (hM : O + d ≤ M)
    (g1 : Nat → Nat → ℚ)
    (hg1 : ∀ i, 1 ≤ i → i ≤ (st.equipList L P K).NumComps → posLoad st L P K g1 i = sign O D) :
    ∀ k, k ≤ (st.equipList L P K).NumComps →
    ∃ g, forLoop (optimalStep2Body env L S P K d)
          (st.withLoads L S g1, sign (((st.equipList L P K).NumComps : ℚ) * d) D) k =
        (st.withLoads L S g, sign ((((st.equipList L P K).NumComps : ℚ) - (k : ℚ)) * d) D) ∧
      (∀ i, 1 ≤ i → i ≤ k → posLoad st L P K g i = sign (O + d) D) ∧
      (∀ i, k < i → i ≤ (st.equipList L P K).NumComps → posLoad st L P K g i = sign O D) := by
  intro k
  induction k with
  | zero =>
    intro _
    refine ⟨g1, ?_, ?_, ?_⟩
    · simp [forLoop]
    · intro i _ h; omega
    · intro i hi1 hi2; exact hg1 i (by omega) hi2
  | succ k ih =>
    intro hk
    obtain ⟨g, hloop, hdone, htodo⟩ := ih (by omega)
    have hdpos : 0 < d := lt_trans hSL hd
    have hkn : ((k : ℚ) + 1) ≤ ((st.equipList L P K).NumComps : ℚ) := by
      exact_mod_cast hk
    have hrem : d ≤ (((st.equipList L P K).NumComps : ℚ) - (k : ℚ)) * d := by
      have : (1 : ℚ) ≤ ((st.equipList L P K).NumComps : ℚ) - (k : ℚ) := by linarith
      nlinarith
    have hrempos : 0 < (((st.equipList L P K).NumComps : ℚ) - (k : ℚ)) * d := by linarith
    have hstep := optimalStep2Body_plain env st L S P K d g
      (sign ((((st.equipList L P K).NumComps : ℚ) - (k : ℚ)) * d) D) hp (k + 1) (by omega) hk
    have hload : |posLoad st L P K g (k + 1)| = O := by
      rw [htodo (k + 1) (by omega) hk, abs_sign, abs_of_pos hO]
    rw [hload, hmax (k + 1) (by omega) hk, min_eq_right hM, add_sub_cancel_left,
      sign_sign _ _ D hrempos, sign_sign _ _ D hrempos,
      sign_sub_sign _ _ D (le_of_lt hdpos) hrem] at hstep
    have e : (((st.equipList L P K).NumComps : ℚ) - (k : ℚ)) * d - d =
        (((st.equipList L P K).NumComps : ℚ) - ((k + 1 : ℕ) : ℚ)) * d := by
      push_cast; ring
    have hsnap : snapRem env (sign ((((st.equipList L P K).NumComps : ℚ) - (k : ℚ)) * d - d) D) =
        sign ((((st.equipList L P K).NumComps : ℚ) - ((k + 1 : ℕ) : ℚ)) * d) D := by
      rw [e]
      by_cases hlast : k + 1 = (st.equipList L P K).NumComps
      · rw [hlast, sub_self, zero_mul, sign_zero_left]
        exact snapRem_zero env
      · apply snapRem_of_le
        have hlt : k + 1 < (st.equipList L P K).NumComps := by omega
        have hltq : ((k + 1 : ℕ) : ℚ) + 1 ≤ ((st.equipList L P K).NumComps : ℚ) := by
          exact_mod_cast hlt
        have h1 : (1 : ℚ) ≤ ((st.equipList L P K).NumComps : ℚ) - ((k + 1 : ℕ) : ℚ) := by
          linarith
        have h2 : d ≤ (((st.equipList L P K).NumComps : ℚ) - ((k + 1 : ℕ) : ℚ)) * d := by
          nlinarith
        rw [abs_sign, abs_of_nonneg (by linarith)]
        linarith
    rw [hsnap] at hstep
    refine ⟨_, by rw [forLoop, hloop, hstep], ?_, ?_⟩
    · intro i hi1 hi2
      by_cases hik : i ≤ k
      · rw [posLoad_update_other st L S P K hp g _ k i hk hi1 (by omega) (by omega)]
        exact hdone i hi1 hik
      · have hieq : i = k + 1 := by omega
        subst hieq
        exact posLoad_update_self st L P K g _ k
    · intro i hi1 hi2
      rw [posLoad_update_other st L S P K hp g _ k i hk (by omega) hi2 (by omega)]
      exact htodo i (by omega) hi2

/-- `DistributePlantLoad` under the optimal policy, for a non-empty list and a
demand not below `SmallLoad`: the three steps, then the closing loop. -/
theorem DistributePlantLoad_optimal (env : Env) (st : PlantState) (L S P K : Nat) (D : ℚ)
    (hpol : (st.PlantLoop L).LoadDistribution = LoadingScheme.OptimalLoading)
    (hn : (st.equipList L P K).NumComps ≠ 0) (hD : env.SmallLoad ≤ |D|) :
    DistributePlantLoad env st L S P K D =
      (forLoop (updateOnFlagBody env L S P K)
          (distributeOptimal env L S P K (st.equipList L P K).NumComps (st, D)).1
          (st.equipList L P K).NumComps,
        (distributeOptimal env L S P K (st.equipList L P K).NumComps (st, D)).2) := by
  unfold DistributePlantLoad
  simp only []
  rw [if_neg hn, if_neg (not_lt.mpr hD), hpol]

/-- The optimal policy over exact arithmetic, on a plain list of `N` members
with the same `MaxLoad = M` and the same `OptLoad = O`, `0 < O`: for a demand
of either sign with `N * (O + SmallLoad) < |LoopDemand| <= N * M` the share of
step 2 stays above `SmallLoad`, the remaining demand is not set to 0 before the
last member, nothing remains and every member carries `LoopDemand / N`. -/
theorem optimal_equal_share (env : Env) (st : PlantState)
    (LoopNum LoopSideNum CurSchemePtr ListPtr : Nat) (LoopDemand O M : ℚ)
    (hpol : (st.PlantLoop LoopNum).LoadDistribution = LoadingScheme.OptimalLoading)
    (hp : PlainList st LoopNum LoopSideNum CurSchemePtr ListPtr)
    (hmax : ∀ i, 1 ≤ i → i ≤ (st.equipList LoopNum CurSchemePtr ListPtr).NumComps →
      (st.member LoopNum LoopSideNum CurSchemePtr ListPtr i).MaxLoad = M)
    (hopt : ∀ i, 1 ≤ i → i ≤ (st.equipList LoopNum CurSchemePtr ListPtr).NumComps →
      (st.member LoopNum LoopSideNum CurSchemePtr ListPtr i).OptLoad = O)
    (hO : 0 < O) (hSL : 0 < env.SmallLoad)
    (hlo : ((st.equipList LoopNum CurSchemePtr ListPtr).NumComps : ℚ) * (O + env.SmallLoad)
      < |LoopDemand|)
    (hhi : |LoopDemand| ≤ ((st.equipList LoopNum CurSchemePtr ListPtr).NumComps : ℚ) * M) :
    (DistributePlantLoad env st LoopNum LoopSideNum CurSchemePtr ListPtr LoopDemand).2 = 0 ∧
    ∀ i, 1 ≤ i → i ≤ (st.equipList LoopNum CurSchemePtr ListPtr).NumComps →
      ((DistributePlantLoad env st LoopNum LoopSideNum CurSchemePtr ListPtr LoopDemand).1.member
          LoopNum LoopSideNum CurSchemePtr ListPtr i).MyLoad =
        LoopDemand / ((st.equipList LoopNum CurSchemePtr ListPtr).NumComps : ℚ) := by
  -- the list is not empty
  have hn : (st.equipList LoopNum CurSchemePtr ListPtr).NumComps ≠ 0 := by
    intro h0
    rw [h0] at hlo hhi
    simp only [Nat.cast_zero, zero_mul] at hlo hhi
    linarith
  have hnq : (0 : ℚ) < ((st.equipList LoopNum CurSchemePtr ListPtr).NumComps : ℚ) := by
    exact_mod_cast Nat.pos_of_ne_zero hn
  have hn1 : (1 : ℚ) ≤ ((st.equipList LoopNum CurSchemePtr ListPtr).NumComps : ℚ) := by
    exact_mod_cast Nat.pos_of_ne_zero hn
  have hD : env.SmallLoad ≤ |LoopDemand| := by nlinarith
  -- step 1
  obtain ⟨g1, hloop1, hg1⟩ := optimal_step1_invariant env st LoopNum LoopSideNum CurSchemePtr
    ListPtr LoopDemand O hp hopt hO hSL hlo _ (le_refl _)
  -- what remains after step 1
  have hrest : ((st.equipList LoopNum CurSchemePtr ListPtr).NumComps : ℚ) * env.SmallLoad <
      |LoopDemand| - ((st.equipList LoopNum CurSchemePtr ListPtr).NumComps : ℚ) * O := by
    linarith
  have hrestpos : 0 < |LoopDemand| -
      ((st.equipList LoopNum CurSchemePtr ListPtr).NumComps : ℚ) * O := by nlinarith
  have habs1 : |sign (|LoopDemand| -
      ((st.equipList LoopNum CurSchemePtr ListPtr).NumComps : ℚ) * O) LoopDemand| =
      |LoopDemand| - ((st.equipList LoopNum CurSchemePtr ListPtr).NumComps : ℚ) * O := by
    rw [abs_sign, abs_of_pos hrestpos]
  have hgo2 : env.SmallLoad < |LoopDemand| -
      ((st.equipList LoopNum CurSchemePtr ListPtr).NumComps : ℚ) * O := by nlinarith
  -- step 2
  have hdiv : env.SmallLoad < (|LoopDemand| -
      ((st.equipList LoopNum CurSchemePtr ListPtr).NumComps : ℚ) * O) /
      ((st.equipList LoopNum CurSchemePtr ListPtr).NumComps : ℚ) := by
    rw [lt_div_iff₀ hnq]
    linarith
  have hshare : O + (|LoopDemand| -
      ((st.equipList LoopNum CurSchemePtr ListPtr).NumComps : ℚ) * O) /
      ((st.equipList LoopNum CurSchemePtr ListPtr).NumComps : ℚ) =
      |LoopDemand| / ((st.equipList LoopNum CurSchemePtr ListPtr).NumComps : ℚ) := by
    field_simp
    ring
  have hM : O + (|LoopDemand| -
      ((st.equipList LoopNum CurSchemePtr ListPtr).NumComps : ℚ) * O) /
      ((st.equipList LoopNum CurSchemePtr ListPtr).NumComps : ℚ) ≤ M := by
    rw [hshare, div_le_iff₀ hnq]
    linarith
  obtain ⟨g2, hloop2, hg2, _⟩ := optimal_step2_invariant env st LoopNum LoopSideNum CurSchemePtr
    ListPtr LoopDemand O M _ hp hmax hO hdiv hSL hM g1 hg1 _ (le_refl _)
  have hmul : ((st.equipList LoopNum CurSchemePtr ListPtr).NumComps : ℚ) *
      ((|LoopDemand| - ((st.equipList LoopNum CurSchemePtr ListPtr).NumComps : ℚ) * O) /
        ((st.equipList LoopNum CurSchemePtr ListPtr).NumComps : ℚ)) =
      |LoopDemand| - ((st.equipList LoopNum CurSchemePtr ListPtr).NumComps : ℚ) * O := by
    field_simp
  rw [hmul, sub_self, zero_mul, sign_zero_left] at hloop2
  -- the three steps together
  have hopt3 : distributeOptimal env LoopNum LoopSideNum CurSchemePtr ListPtr
      (st.equipList LoopNum CurSchemePtr ListPtr).NumComps (st, LoopDemand) =
      (st.withLoads LoopNum LoopSideNum g2, 0) := by
    unfold distributeOptimal
    simp only [hloop1, habs1]
    rw [if_pos hgo2, hloop2]
    simp only [abs_zero]
    rw [if_neg (not_lt.mpr (le_of_lt hSL))]
  rw [DistributePlantLoad_optimal env st LoopNum LoopSideNum CurSchemePtr ListPtr LoopDemand hpol
    hn hD, hopt3]
  refine ⟨rfl, ?_⟩
  intro i hi1 hi2
  simp only []
  rw [member_after_onFlags, hg2 i hi1 hi2, hshare]
  exact sign_abs_div LoopDemand _ hnq

/-- C5 (as amended). Optimal policy, plain list (distinct available members, no
override, no serving-mode correction, no last-stage cap) of `N` members with
the same `MaxLoad = M` and the same `OptLoad = O`, `0 < O`, `SmallLoad > 0`,
and a demand of either sign with
`N * (O + 2 * SmallLoad) <= |LoopDemand| <= N * M`: `DistributePlantLoad`
returns `RemLoopDemand = 0` and the members' loads are all equal, each being
`LoopDemand / N`. The lower end of the range lies `N * SmallLoad` above the
demand `N * (O + SmallLoad)` at which the share of step 2 equals `SmallLoad`
and the test `abs( RemLoopDemand ) < SmallLoad` changes sides, so that the
rounding of the divisions and subtractions of the program does not decide the
outcome. -/
theorem C5_optimal_equal_machines_share_demand (env : Env) (st : PlantState)
    (LoopNum LoopSideNum CurSchemePtr ListPtr : Nat) (LoopDemand O M : ℚ)
    (hpol : (st.PlantLoop LoopNum).LoadDistribution = LoadingScheme.OptimalLoading)
    (hp : PlainList st LoopNum LoopSideNum CurSchemePtr ListPtr)
    (hmax : ∀ i, 1 ≤ i → i ≤ (st.equipList LoopNum CurSchemePtr ListPtr).NumComps →
      (st.member LoopNum LoopSideNum CurSchemePtr ListPtr i).MaxLoad = M)
    (hopt : ∀ i, 1 ≤ i → i ≤ (st.equipList LoopNum CurSchemePtr ListPtr).NumComps →
      (st.member LoopNum LoopSideNum CurSchemePtr ListPtr i).OptLoad = O)
    (hO : 0 < O) (hSL : 0 < env.SmallLoad)
    (hlo : ((st.equipList LoopNum CurSchemePtr ListPtr).NumComps : ℚ) *
      (O + 2 * env.SmallLoad) ≤ |LoopDemand|)
    (hhi : |LoopDemand| ≤ ((st.equipList LoopNum CurSchemePtr ListPtr).NumComps : ℚ) * M) :
    (DistributePlantLoad env st LoopNum LoopSideNum CurSchemePtr ListPtr LoopDemand).2 = 0 ∧
    (∀ i, 1 ≤ i → i ≤ (st.equipList LoopNum CurSchemePtr ListPtr).NumComps →
      ((DistributePlantLoad env st LoopNum LoopSideNum CurSchemePtr ListPtr LoopDemand).1.member
          LoopNum LoopSideNum CurSchemePtr ListPtr i).MyLoad =
        LoopDemand / ((st.equipList LoopNum CurSchemePtr ListPtr).NumComps : ℚ)) ∧
    ∀ i j, 1 ≤ i → i ≤ (st.equipList LoopNum CurSchemePtr ListPtr).NumComps →
      1 ≤ j → j ≤ (st.equipList LoopNum CurSchemePtr ListPtr).NumComps →
      ((DistributePlantLoad env st LoopNum LoopSideNum CurSchemePtr ListPtr LoopDemand).1.member
          LoopNum LoopSideNum CurSchemePtr ListPtr i).MyLoad =
      ((DistributePlantLoad env st LoopNum LoopSideNum CurSchemePtr ListPtr LoopDemand).1.member
          LoopNum LoopSideNum CurSchemePtr ListPtr j).MyLoad := by
  by_cases hn : (st.equipList LoopNum CurSchemePtr ListPtr).NumComps = 0
  · have hD0 : LoopDemand = 0 := by
      rw [hn, Nat.cast_zero, zero_mul] at hhi
      exact abs_nonpos_iff.mp hhi
    have hret : DistributePlantLoad env st LoopNum LoopSideNum CurSchemePtr ListPtr LoopDemand =
        (st, LoopDemand) := by
      unfold DistributePlantLoad
      simp only []
      rw [if_pos hn]
    rw [hret, hn]
    exact ⟨hD0, fun i h1 h2 => by omega, fun i j h1 h2 => by omega⟩
  · have hn1 : (1 : ℚ) ≤ ((st.equipList LoopNum CurSchemePtr ListPtr).NumComps : ℚ) := by
      exact_mod_cast Nat.pos_of_ne_zero hn
    have hlo2 : ((st.equipList LoopNum CurSchemePtr ListPtr).NumComps : ℚ) *
        (O + env.SmallLoad) < |LoopDemand| := by nlinarith
    obtain ⟨h0, hall⟩ := optimal_equal_share env st LoopNum LoopSideNum
      CurSchemePtr ListPtr LoopDemand O M hpol hp hmax hopt hO hSL hlo2 hhi
    exact ⟨h0, hall, fun i j hi1 hi2 hj1 hj2 => by rw [hall i hi1 hi2, hall j hj1 hj2]⟩

/-- C5 at the sample plant under the optimal policy: two components with
`OptLoad = 2`, `MaxLoad = 10` and a cooling demand of `-8` (`SmallLoad = 1`,
`2 * (2 + 2 * 1) <= 8 <= 2 * 10`); nothing remains and each member carries
`-8 / 2`. -/
theorem C5_optimal_witness :
    (DistributePlantLoad demoEnv
        (demoPlant LoadingScheme.OptimalLoading 2 0 1000 (fun _ => demoComp 2 10))
        1 2 1 1 (-8)).2 = 0 ∧
    ((DistributePlantLoad demoEnv
        (demoPlant LoadingScheme.OptimalLoading 2 0 1000 (fun _ => demoComp 2 10))
        1 2 1 1 (-8)).1.member 1 2 1 1 1).MyLoad = -8 / 2 ∧
    ((DistributePlantLoad demoEnv
        (demoPlant LoadingScheme.OptimalLoading 2 0 1000 (fun _ => demoComp 2 10))
        1 2 1 1 (-8)).1.member 1 2 1 1 2).MyLoad = -8 / 2 := by
  have h := C5_optimal_equal_machines_share_demand demoEnv
    (demoPlant LoadingScheme.OptimalLoading 2 0 1000 (fun _ => demoComp 2 10)) 1 2 1 1 (-8) 2 10
    (by simp) (demoPlant_plain _ _ _ _ _)
    (by intro i _ _; simp [demoComp])
    (by intro i _ _; simp [demoComp])
    (by norm_num) (by norm_num [demoEnv])
    (by norm_num [demoEnv, abs_of_neg])
    (by norm_num [abs_of_neg])
  have h1 := h.2.1 1 (by norm_num) (by simp)
  have h2 := h.2.1 2 (by norm_num) (by simp)
  refine ⟨h.1, ?_, ?_⟩
  · simpa using h1
  · simpa using h2

/-! # Claims on the component load override -/

/-- When neither the loop nor the half loop is shut down and the component
load override is on, `ActivateEMSControls` returns `LoopShutDownFlag = false`
and changes no component but the calling one. -/
theorem ActivateEMSControls_component_frame (env : Env) (st : PlantState) (L S B C : Nat)
    (hloop : ¬ ((st.PlantLoop L).EMSCtrl = true ∧ (st.PlantLoop L).EMSValue ≤ 0))
    (hside : ¬ ((st.side L S).EMSCtrl = true ∧ (st.side L S).EMSValue ≤ 0)) :
    (ActivateEMSControls env st L S B C).2 = false ∧
    ∀ L2 S2 B2 C2, ¬ (L2 = L ∧ S2 = S ∧ B2 = B ∧ C2 = C) →
      (ActivateEMSControls env st L S B C).1.comp L2 S2 B2 C2 = st.comp L2 S2 B2 C2 := by
  unfold ActivateEMSControls
  rw [if_neg hloop, if_neg hside]
  split
  · split
    · refine ⟨rfl, ?_⟩
      intro L2 S2 B2 C2 hne
      simp [hne]
    · simp only []
      split
      all_goals
        refine ⟨rfl, ?_⟩
        intro L2 S2 B2 C2 hne
        try unfold emsChillerClamp
        simp only []
        repeat' split
        all_goals simp [hne]
  · exact ⟨rfl, fun _ _ _ _ _ => rfl⟩

/-- C13. `ActivateEMSControls`, when neither the loop level nor the half loop
shut-down applies and the load override of the calling component is on with a
value `<= 0`: the component is left with `ON = false`, `Available = false` and
`MyLoad = 0`, its other fields are kept, no other component is changed and
`LoopShutDownFlag` comes back false. -/
theorem C13_component_override_switches_off (env : Env) (st : PlantState)
    (LoopNum LoopSideNum BranchNum CompNum : Nat)
    (hloop : ¬ ((st.PlantLoop LoopNum).EMSCtrl = true ∧ (st.PlantLoop LoopNum).EMSValue ≤ 0))
    (hside : ¬ ((st.side LoopNum LoopSideNum).EMSCtrl = true ∧
      (st.side LoopNum LoopSideNum).EMSValue ≤ 0))
    (hon : (st.comp LoopNum LoopSideNum BranchNum CompNum).EMSLoadOverrideOn = true)
    (hval : (st.comp LoopNum LoopSideNum BranchNum CompNum).EMSLoadOverrideValue ≤ 0) :
    ((ActivateEMSControls env st LoopNum LoopSideNum BranchNum CompNum).1.comp
        LoopNum LoopSideNum BranchNum CompNum).ON = false ∧
    ((ActivateEMSControls env st LoopNum LoopSideNum BranchNum CompNum).1.comp
        LoopNum LoopSideNum BranchNum CompNum).Available = false ∧
    ((ActivateEMSControls env st LoopNum LoopSideNum BranchNum CompNum).1.comp
        LoopNum LoopSideNum BranchNum CompNum).MyLoad = 0 ∧
    (ActivateEMSControls env st LoopNum LoopSideNum BranchNum CompNum).1.comp
        LoopNum LoopSideNum BranchNum CompNum =
      { st.comp LoopNum LoopSideNum BranchNum CompNum with
        ON := false, Available := false, MyLoad := 0 } ∧
    (∀ L S B C, ¬ (L = LoopNum ∧ S = LoopSideNum ∧ B = BranchNum ∧ C = CompNum) →
      (ActivateEMSControls env st LoopNum LoopSideNum BranchNum CompNum).1.comp L S B C =
        st.comp L S B C) ∧
    (ActivateEMSControls env st LoopNum LoopSideNum BranchNum CompNum).2 = false := by
  have hf := ActivateEMSControls_component_frame env st LoopNum LoopSideNum BranchNum CompNum
    hloop hside
  have e : ActivateEMSControls env st LoopNum LoopSideNum BranchNum CompNum =
      (st.modifyComp LoopNum LoopSideNum BranchNum CompNum
        (fun c => { c with ON := false, Available := false, MyLoad := 0 }), false) := by
    unfold ActivateEMSControls
    rw [if_neg hloop, if_neg hside, if_pos hon, if_pos hval]
  refine ⟨?_, ?_, ?_, ?_, hf.2, hf.1⟩
  all_goals rw [e]
  all_goals simp

/-- C13 at the third sample plant: the boiler on branch 2 has its load override
on with value 0; the call made for it leaves it off, unavailable and without
load, and the pipe on branch 1 as it was. -/
theorem C13_component_override_witness :
    ((ActivateEMSControls (sampleEnv 10 1 7 5 7)
        (emsPlant LoadingScheme.SequentialLoading false false
          (emsMachine (PlantEquipType.TypeOf_Other 1) 40 true 0)) 1 2 2 1).1.comp 1 2 2 1).ON
      = false ∧
    ((ActivateEMSControls (sampleEnv 10 1 7 5 7)
        (emsPlant LoadingScheme.SequentialLoading false false
          (emsMachine (PlantEquipType.TypeOf_Other 1) 40 true 0)) 1 2 2 1).1.comp 1 2 2 1).Available
      = false ∧
    ((ActivateEMSControls (sampleEnv 10 1 7 5 7)
        (emsPlant LoadingScheme.SequentialLoading false false
          (emsMachine (PlantEquipType.TypeOf_Other 1) 40 true 0)) 1 2 2 1).1.comp 1 2 2 1).MyLoad
      = 0 ∧
    (ActivateEMSControls (sampleEnv 10 1 7 5 7)
        (emsPlant LoadingScheme.SequentialLoading false false
          (emsMachine (PlantEquipType.TypeOf_Other 1) 40 true 0)) 1 2 2 1).1.comp 1 2 1 1 =
      emsPipe := by
  have h := C13_component_override_switches_off (sampleEnv 10 1 7 5 7)
    (emsPlant LoadingScheme.SequentialLoading false false
      (emsMachine (PlantEquipType.TypeOf_Other 1) 40 true 0)) 1 2 2 1
    (by simp) (by simp) (by simp [emsMachine]) (by simp [emsMachine])
  obtain ⟨h1, h2, h3, _, h5, _⟩ := h
  refine ⟨h1, h2, h3, ?_⟩
  rw [h5 1 2 1 1 (by omega)]
  rfl
/-- The load an electric chiller is left with by the outlet limit check of
`ActivateEMSControls`, as a function of its load `m` before the check. -/
theorem emsChillerClamp_comp (env : Env) (st : PlantState) (L S B C : Nat) :
    (emsChillerClamp env st L S B C).comp L S B C =
      { st.comp L S B C with
        MyLoad :=
          if emsOutletCapacity env st L S B C > 0 then
            if |(if |(st.comp L S B C).MyLoad| > (st.comp L S B C).MaxLoad then
                  sign (st.comp L S B C).MaxLoad (st.comp L S B C).MyLoad
                else (st.comp L S B C).MyLoad)| > emsOutletCapacity env st L S B C then
              sign (emsOutletCapacity env st L S B C)
                (if |(st.comp L S B C).MyLoad| > (st.comp L S B C).MaxLoad then
                  sign (st.comp L S B C).MaxLoad (st.comp L S B C).MyLoad
                else (st.comp L S B C).MyLoad)
            else
              (if |(st.comp L S B C).MyLoad| > (st.comp L S B C).MaxLoad then
                  sign (st.comp L S B C).MaxLoad (st.comp L S B C).MyLoad
                else (st.comp L S B C).MyLoad)
          else (st.comp L S B C).MyLoad } := by
  unfold emsChillerClamp emsOutletCapacity
  simp only []
  by_cases hq : (env.Node (st.comp L S B C).NodeNumIn).MassFlowRate *
      env.GetSpecificHeatGlycol (st.PlantLoop L).FluidIndex
        (env.Node (st.comp L S B C).NodeNumIn).Temp *
      ((env.Node (st.comp L S B C).NodeNumIn).Temp - (st.comp L S B C).MinOutletTemp) > 0
  · rw [if_pos hq, if_pos hq]
    by_cases h1 : |(st.comp L S B C).MyLoad| > (st.comp L S B C).MaxLoad
    · simp only [if_pos h1, comp_modifyComp_self]
      split <;> simp
    · simp only [if_neg h1]
      split <;> simp
  · rw [if_neg hq, if_neg hq]


/-- The outlet limit capacity is read from fields that the load override
assignment does not touch. -/
theorem emsOutletCapacity_modifyComp (env : Env) (st : PlantState) (L S B C : Nat)
    (f : CompData → CompData)
    (h1 : (f (st.comp L S B C)).NodeNumIn = (st.comp L S B C).NodeNumIn)
    (h2 : (f (st.comp L S B C)).MinOutletTemp = (st.comp L S B C).MinOutletTemp) :
    emsOutletCapacity env (st.modifyComp L S B C f) L S B C = emsOutletCapacity env st L S B C := by
  unfold emsOutletCapacity
  simp only [comp_modifyComp_self, loop_modifyComp_FluidIndex, h1, h2]

/-- With the component load override on at a positive value (and no loop or
half loop shut-down), `ActivateEMSControls` is the override assignment,
followed for an electric chiller by the outlet limit check. -/
theorem ActivateEMSControls_override_on (env : Env) (st : PlantState) (L S B C : Nat)
    (hloop : ¬ ((st.PlantLoop L).EMSCtrl = true ∧ (st.PlantLoop L).EMSValue ≤ 0))
    (hside : ¬ ((st.side L S).EMSCtrl = true ∧ (st.side L S).EMSValue ≤ 0))
    (hon : (st.comp L S B C).EMSLoadOverrideOn = true)
    (hval : 0 < (st.comp L S B C).EMSLoadOverrideValue) :
    (isElectricChiller (st.comp L S B C).TypeOf_Num →
      ActivateEMSControls env st L S B C =
        (emsChillerClamp env (st.modifyComp L S B C
          (fun c => { c with ON := true, Available := false,
                             MyLoad := min c.MaxLoad (c.MaxLoad * c.EMSLoadOverrideValue) }))
          L S B C, false)) ∧
    (¬ isElectricChiller (st.comp L S B C).TypeOf_Num →
      ActivateEMSControls env st L S B C =
        (st.modifyComp L S B C
          (fun c => { c with ON := true, Available := false,
                             MyLoad := min c.MaxLoad (c.MaxLoad * c.EMSLoadOverrideValue) }),
          false)) := by
  unfold ActivateEMSControls
  rw [if_neg hloop, if_neg hside, if_pos hon, if_neg (not_le.mpr hval)]
  simp only [comp_modifyComp_self]
  constructor
  · intro hch
    rcases hch with h | h | h <;> simp only [h]
  · intro hch
    unfold isElectricChiller at hch
    push_neg at hch
    obtain ⟨h1, h2, h3⟩ := hch
    split
    · rename_i h; exact absurd h h1
    · rename_i h; exact absurd h h2
    · rename_i h; exact absurd h h3
    · rfl

/-- C14 (as amended). `ActivateEMSControls`, when neither the loop level nor
the half loop shut-down applies and the load override of the calling component
is on with a value `v > 0`: the component gets `ON = true` and
`Available = false`; a component that is not an electric chiller (a boiler, for
one), and an electric chiller whose outlet limit capacity
`Q = massFlow * cp * ( Tinlet - MinOutletTemp )` is not positive, ends with
`MyLoad = min( MaxLoad, MaxLoad * v )`, no outlet temperature check being made;
an electric chiller with `Q > 0` and `MaxLoad >= 0` ends with that value cut
down to `Q`, so that `|MyLoad| <= min( MaxLoad, Q )`. -/
theorem C14_component_override_sets_load (env : Env) (st : PlantState)
    (LoopNum LoopSideNum BranchNum CompNum : Nat)
    (hloop : ¬ ((st.PlantLoop LoopNum).EMSCtrl = true ∧ (st.PlantLoop LoopNum).EMSValue ≤ 0))
    (hside : ¬ ((st.side LoopNum LoopSideNum).EMSCtrl = true ∧
      (st.side LoopNum LoopSideNum).EMSValue ≤ 0))
    (hon : (st.comp LoopNum LoopSideNum BranchNum CompNum).EMSLoadOverrideOn = true)
    (hval : 0 < (st.comp LoopNum LoopSideNum BranchNum CompNum).EMSLoadOverrideValue) :
    ((ActivateEMSControls env st LoopNum LoopSideNum BranchNum CompNum).1.comp
        LoopNum LoopSideNum BranchNum CompNum).ON = true ∧
    ((ActivateEMSControls env st LoopNum LoopSideNum BranchNum CompNum).1.comp
        LoopNum LoopSideNum BranchNum CompNum).Available = false ∧
    (¬ isElectricChiller (st.comp LoopNum LoopSideNum BranchNum CompNum).TypeOf_Num →
      ((ActivateEMSControls env st LoopNum LoopSideNum BranchNum CompNum).1.comp
          LoopNum LoopSideNum BranchNum CompNum).MyLoad =
        min (st.comp LoopNum LoopSideNum BranchNum CompNum).MaxLoad
          ((st.comp LoopNum LoopSideNum BranchNum CompNum).MaxLoad *
            (st.comp LoopNum LoopSideNum BranchNum CompNum).EMSLoadOverrideValue)) ∧
    (isElectricChiller (st.comp LoopNum LoopSideNum BranchNum CompNum).TypeOf_Num →
      ¬ 0 < emsOutletCapacity env st LoopNum LoopSideNum BranchNum CompNum →
      ((ActivateEMSControls env st LoopNum LoopSideNum BranchNum CompNum).1.comp
          LoopNum LoopSideNum BranchNum CompNum).MyLoad =
        min (st.comp LoopNum LoopSideNum BranchNum CompNum).MaxLoad
          ((st.comp LoopNum LoopSideNum BranchNum CompNum).MaxLoad *
            (st.comp LoopNum LoopSideNum BranchNum CompNum).EMSLoadOverrideValue)) ∧
    (isElectricChiller (st.comp LoopNum LoopSideNum BranchNum CompNum).TypeOf_Num →
      0 < emsOutletCapacity env st LoopNum LoopSideNum BranchNum CompNum →
      0 ≤ (st.comp LoopNum LoopSideNum BranchNum CompNum).MaxLoad →
      ((ActivateEMSControls env st LoopNum LoopSideNum BranchNum CompNum).1.comp
          LoopNum LoopSideNum BranchNum CompNum).MyLoad =
        min (min (st.comp LoopNum LoopSideNum BranchNum CompNum).MaxLoad
            ((st.comp LoopNum LoopSideNum BranchNum CompNum).MaxLoad *
              (st.comp LoopNum LoopSideNum BranchNum CompNum).EMSLoadOverrideValue))
          (emsOutletCapacity env st LoopNum LoopSideNum BranchNum CompNum) ∧
      |((ActivateEMSControls env st LoopNum LoopSideNum BranchNum CompNum).1.comp
          LoopNum LoopSideNum BranchNum CompNum).MyLoad| ≤
        min (st.comp LoopNum LoopSideNum BranchNum CompNum).MaxLoad
          (emsOutletCapacity env st LoopNum LoopSideNum BranchNum CompNum)) := by
  obtain ⟨hc, hn⟩ := ActivateEMSControls_override_on env st LoopNum LoopSideNum BranchNum CompNum
    hloop hside hon hval
  have hq := emsOutletCapacity_modifyComp env st LoopNum LoopSideNum BranchNum CompNum
    (fun c => { c with ON := true, Available := false,
                       MyLoad := min c.MaxLoad (c.MaxLoad * c.EMSLoadOverrideValue) }) rfl rfl
  refine ⟨?_, ?_, ?_, ?_, ?_⟩
  · by_cases hch : isElectricChiller (st.comp LoopNum LoopSideNum BranchNum CompNum).TypeOf_Num
    · rw [hc hch]
      simp only []
      rw [emsChillerClamp_comp]
      simp
    · rw [hn hch]
      simp
  · by_cases hch : isElectricChiller (st.comp LoopNum LoopSideNum BranchNum CompNum).TypeOf_Num
    · rw [hc hch]
      simp only []
      rw [emsChillerClamp_comp]
      simp
    · rw [hn hch]
      simp
  · intro hch
    rw [hn hch]
    simp
  · intro hch hQ
    rw [hc hch]
    simp only []
    rw [emsChillerClamp_comp, hq]
    simp only [gt_iff_lt, if_neg hQ, comp_modifyComp_self]
  · intro hch hQ hmax
    rw [hc hch]
    simp only []
    rw [emsChillerClamp_comp, hq]
    simp only [gt_iff_lt, if_pos hQ, comp_modifyComp_self]
    generalize emsOutletCapacity env st LoopNum LoopSideNum BranchNum CompNum = Q at hQ ⊢
    generalize (st.comp LoopNum LoopSideNum BranchNum CompNum).MaxLoad = M at hmax ⊢
    generalize (st.comp LoopNum LoopSideNum BranchNum CompNum).EMSLoadOverrideValue = v at hval ⊢
    have hm0 : 0 ≤ min M (M * v) := le_min hmax (mul_nonneg hmax (le_of_lt hval))
    have hm1 : min M (M * v) ≤ M := min_le_left _ _
    have h1 : ¬ M < min M (M * v) := not_lt.mpr hm1
    simp only [abs_of_nonneg hm0, if_neg h1]
    by_cases h2 : Q < min M (M * v)
    · simp only [if_pos h2]
      rw [sign_of_nonneg _ _ hm0, abs_of_pos hQ, abs_of_pos hQ]
      exact ⟨(min_eq_right (le_of_lt h2)).symm, le_min (le_trans (le_of_lt h2) hm1) (le_refl _)⟩
    · simp only [if_neg h2]
      push_neg at h2
      rw [abs_of_nonneg hm0]
      exact ⟨(min_eq_left h2).symm, le_min hm1 h2⟩

/-- The outlet limit capacity at the third sample plant: 1 kg/s of water
entering at 10 C against an outlet limit of 5 C. -/
theorem emsPlant_outletCapacity (policy : LoadingScheme) (a b : Bool) (typ : PlantEquipType)
    (mx : ℚ) (ovr : Bool) (v : ℚ) :
    emsOutletCapacity (sampleEnv 10 1 7 5 7) (emsPlant policy a b (emsMachine typ mx ovr v))
      1 2 2 1 = 20900 := by
  unfold emsOutletCapacity
  simp only [emsPlant_comp_machine, emsMachine, sampleEnv_node1, sampleEnv_specHeat]
  norm_num

/-- C14 at the third sample plant: an electric chiller with `MaxLoad = 40000`
and load override value 1, inlet at 10 C with 1 kg/s and `MinOutletTemp = 5`
(`Q = 20900`), is switched on, unavailable, with `MyLoad = 20900`. -/
theorem C14_component_override_witness :
    ((ActivateEMSControls (sampleEnv 10 1 7 5 7)
        (emsPlant LoadingScheme.SequentialLoading false false
          (emsMachine PlantEquipType.TypeOf_Chiller_Electric 40000 true 1)) 1 2 2 1).1.comp
        1 2 2 1).ON = true ∧
    ((ActivateEMSControls (sampleEnv 10 1 7 5 7)
        (emsPlant LoadingScheme.SequentialLoading false false
          (emsMachine PlantEquipType.TypeOf_Chiller_Electric 40000 true 1)) 1 2 2 1).1.comp
        1 2 2 1).Available = false ∧
    ((ActivateEMSControls (sampleEnv 10 1 7 5 7)
        (emsPlant LoadingScheme.SequentialLoading false false
          (emsMachine PlantEquipType.TypeOf_Chiller_Electric 40000 true 1)) 1 2 2 1).1.comp
        1 2 2 1).MyLoad = 20900 := by
  have h := C14_component_override_sets_load (sampleEnv 10 1 7 5 7)
    (emsPlant LoadingScheme.SequentialLoading false false
      (emsMachine PlantEquipType.TypeOf_Chiller_Electric 40000 true 1)) 1 2 2 1
    (by simp) (by simp) (by simp [emsMachine]) (by simp [emsMachine])
  obtain ⟨h1, h2, _, _, h5⟩ := h
  have h6 := (h5 (by simp [isElectricChiller, emsMachine])
    (by rw [emsPlant_outletCapacity]; norm_num) (by simp [emsMachine])).1
  refine ⟨h1, h2, ?_⟩
  rw [h6, emsPlant_outletCapacity]
  simp only [emsPlant_comp_machine, emsMachine]
  norm_num

/-- C14 (counterexample). Third sample plant, electric chiller with
`MaxLoad = -10` and load override value 1, `Q = 20900 > 0`: the chiller ends
with `MyLoad = -10`, whose magnitude 10 is above `min( MaxLoad, Q ) = -10`. -/
theorem C14_bound_fails_for_negative_capacity :
    ((emsPlant LoadingScheme.SequentialLoading false false
        (emsMachine PlantEquipType.TypeOf_Chiller_Electric (-10) true 1)).comp 1 2 2 1).EMSLoadOverrideOn
      = true ∧
    0 < ((emsPlant LoadingScheme.SequentialLoading false false
        (emsMachine PlantEquipType.TypeOf_Chiller_Electric (-10) true 1)).comp
          1 2 2 1).EMSLoadOverrideValue ∧
    isElectricChiller ((emsPlant LoadingScheme.SequentialLoading false false
        (emsMachine PlantEquipType.TypeOf_Chiller_Electric (-10) true 1)).comp 1 2 2 1).TypeOf_Num ∧
    0 < emsOutletCapacity (sampleEnv 10 1 7 5 7)
        (emsPlant LoadingScheme.SequentialLoading false false
          (emsMachine PlantEquipType.TypeOf_Chiller_Electric (-10) true 1)) 1 2 2 1 ∧
    ((ActivateEMSControls (sampleEnv 10 1 7 5 7)
        (emsPlant LoadingScheme.SequentialLoading false false
          (emsMachine PlantEquipType.TypeOf_Chiller_Electric (-10) true 1)) 1 2 2 1).1.comp
        1 2 2 1).MyLoad = -10 ∧
    min ((emsPlant LoadingScheme.SequentialLoading false false
          (emsMachine PlantEquipType.TypeOf_Chiller_Electric (-10) true 1)).comp 1 2 2 1).MaxLoad
        (emsOutletCapacity (sampleEnv 10 1 7 5 7)
          (emsPlant LoadingScheme.SequentialLoading false false
            (emsMachine PlantEquipType.TypeOf_Chiller_Electric (-10) true 1)) 1 2 2 1) <
      |((ActivateEMSControls (sampleEnv 10 1 7 5 7)
        (emsPlant LoadingScheme.SequentialLoading false false
          (emsMachine PlantEquipType.TypeOf_Chiller_Electric (-10) true 1)) 1 2 2 1).1.comp
        1 2 2 1).MyLoad| := by
  have hc := (ActivateEMSControls_override_on (sampleEnv 10 1 7 5 7)
    (emsPlant LoadingScheme.SequentialLoading false false
      (emsMachine PlantEquipType.TypeOf_Chiller_Electric (-10) true 1)) 1 2 2 1
    (by simp) (by simp) (by simp [emsMachine]) (by simp [emsMachine])).1
    (by simp [isElectricChiller, emsMachine])
  have hq := emsOutletCapacity_modifyComp (sampleEnv 10 1 7 5 7)
    (emsPlant LoadingScheme.SequentialLoading false false
      (emsMachine PlantEquipType.TypeOf_Chiller_Electric (-10) true 1)) 1 2 2 1
    (fun c => { c with ON := true, Available := false,
                       MyLoad := min c.MaxLoad (c.MaxLoad * c.EMSLoadOverrideValue) }) rfl rfl
  have hload : ((ActivateEMSControls (sampleEnv 10 1 7 5 7)
        (emsPlant LoadingScheme.SequentialLoading false false
          (emsMachine PlantEquipType.TypeOf_Chiller_Electric (-10) true 1)) 1 2 2 1).1.comp
        1 2 2 1).MyLoad = -10 := by
    rw [hc]
    simp only []
    rw [emsChillerClamp_comp, hq, emsPlant_outletCapacity]
    simp only [comp_modifyComp_self, emsPlant_comp_machine, emsMachine]
    norm_num [sign, abs_of_neg]
  refine ⟨by simp [emsMachine], by simp [emsMachine], by simp [isElectricChiller, emsMachine],
    by rw [emsPlant_outletCapacity]; norm_num, hload, ?_⟩
  rw [hload, emsPlant_outletCapacity]
  simp only [emsPlant_comp_machine, emsMachine]
  norm_num [abs_of_neg]

/-! # Claims on the serving-mode correction -/

/-- C16. `AdjustChangeInLoadByHowServed` leaves the plant data as they are and
returns: in low outlet limit mode `min( ChangeInLoad, massFlow * cp *
( Tinlet - MinOutletTemp ) )` when the inlet mass flow is positive and
`ChangeInLoad` when it is zero or negative; in high outlet limit mode the same
with `massFlow * cp * ( MaxOutletTemp - Tinlet )`; in passive capacity mode and
for every tag that is none of the outlet limit and free cooling modes,
`ChangeInLoad`. -/
theorem C16_outlet_limit_correction (env : Env) (st : PlantState)
    (LoopNum LoopSideNum BranchNum CompNum : Nat) (ChangeInLoad : ℚ) :
    ((st.comp LoopNum LoopSideNum BranchNum CompNum).HowLoadServed =
        HowMet.HowMet_ByNominalCapLowOutLimit →
      AdjustChangeInLoadByHowServed env st LoopNum LoopSideNum BranchNum CompNum ChangeInLoad =
        (st,
          if (env.Node (st.comp LoopNum LoopSideNum BranchNum CompNum).NodeNumIn).MassFlowRate > 0
          then
            min ChangeInLoad
              ((env.Node (st.comp LoopNum LoopSideNum BranchNum CompNum).NodeNumIn).MassFlowRate *
                env.GetSpecificHeatGlycol (st.PlantLoop LoopNum).FluidIndex
                  (env.Node (st.comp LoopNum LoopSideNum BranchNum CompNum).NodeNumIn).Temp *
                ((env.Node (st.comp LoopNum LoopSideNum BranchNum CompNum).NodeNumIn).Temp -
                  (st.comp LoopNum LoopSideNum BranchNum CompNum).MinOutletTemp))
          else ChangeInLoad)) ∧
    ((st.comp LoopNum LoopSideNum BranchNum CompNum).HowLoadServed =
        HowMet.HowMet_ByNominalCapHiOutLimit →
      AdjustChangeInLoadByHowServed env st LoopNum LoopSideNum BranchNum CompNum ChangeInLoad =
        (st,
          if (env.Node (st.comp LoopNum LoopSideNum BranchNum CompNum).NodeNumIn).MassFlowRate > 0
          then
            min ChangeInLoad
              ((env.Node (st.comp LoopNum LoopSideNum BranchNum CompNum).NodeNumIn).MassFlowRate *
                env.GetSpecificHeatGlycol (st.PlantLoop LoopNum).FluidIndex
                  (env.Node (st.comp LoopNum LoopSideNum BranchNum CompNum).NodeNumIn).Temp *
                ((st.comp LoopNum LoopSideNum BranchNum CompNum).MaxOutletTemp -
                  (env.Node (st.comp LoopNum LoopSideNum BranchNum CompNum).NodeNumIn).Temp))
          else ChangeInLoad)) ∧
    ((st.comp LoopNum LoopSideNum BranchNum CompNum).HowLoadServed = HowMet.HowMet_PassiveCap →
      AdjustChangeInLoadByHowServed env st LoopNum LoopSideNum BranchNum CompNum ChangeInLoad =
        (st, ChangeInLoad)) ∧
    ((st.comp LoopNum LoopSideNum BranchNum CompNum).HowLoadServed ≠
          HowMet.HowMet_ByNominalCapLowOutLimit →
      (st.comp LoopNum LoopSideNum BranchNum CompNum).HowLoadServed ≠
          HowMet.HowMet_ByNominalCapHiOutLimit →
      (st.comp LoopNum LoopSideNum BranchNum CompNum).HowLoadServed ≠
          HowMet.HowMet_ByNominalCapFreeCoolCntrl →
      (st.comp LoopNum LoopSideNum BranchNum CompNum).HowLoadServed ≠
          HowMet.HowMet_ByNominalCapLowOutLimitFreeCoolCntrl →
      AdjustChangeInLoadByHowServed env st LoopNum LoopSideNum BranchNum CompNum ChangeInLoad =
        (st, ChangeInLoad)) := by
  refine ⟨?_, ?_, ?_, ?_⟩
  · intro h
    unfold AdjustChangeInLoadByHowServed outletLimitCorrection
    simp only [h, if_true]
  · intro h
    unfold AdjustChangeInLoadByHowServed outletLimitCorrection
    simp only [h]
    rfl
  · intro h
    unfold AdjustChangeInLoadByHowServed
    simp only [h]
  · intro h1 h2 h3 h4
    exact AdjustChangeInLoadByHowServed_plain env st LoopNum LoopSideNum BranchNum CompNum
      ChangeInLoad ⟨h1, h3, h4, h2⟩

/-! # Claims on the setpoint dispatch (`FindCompSPLoad`) -/
/-- `FindCompSPLoad` in terms of the target, the demand, the run flag and the
bounds check. -/
theorem FindCompSPLoad_eq (env : Env) (st : PlantState) (L S B C q : Nat) :
    FindCompSPLoad env st L S B C q =
      if setPointTarget env st L S B C q = env.SensedNodeFlagValue then
        st.modifyComp L S B C (fun c => { c with ON := false, MyLoad := 0, EquipDemand := 0 })
      else
        st.modifyComp L S B C (fun c =>
          { c with
            EquipDemand := setPointDemand env st L S B C q,
            ON := setPointRuns env st L S B C q,
            MyLoad := setPointClamp (st.comp L S B C).MinLoad (st.comp L S B C).MaxLoad
              (if setPointRuns env st L S B C q then setPointDemand env st L S B C q else 0) }) :=
  rfl


/-- The flow used by `FindCompSPLoad`: the actual flow of the demand node when
that is positive, the design flow otherwise. -/
theorem setPointMdot_eq (env : Env) (st : PlantState) (L S B C q : Nat) :
    setPointMdot env st L S B C q =
      if (env.Node (setPointMember st L S B C q).DemandNodeNum).MassFlowRate > 0 then
        (env.Node (setPointMember st L S B C q).DemandNodeNum).MassFlowRate
      else setPointDesignMdot env st L S B C q := by
  unfold setPointMdot
  by_cases h1 : (env.Node (setPointMember st L S B C q).DemandNodeNum).MassFlowRate > 0
  · rw [if_pos h1]
    by_cases h2 : (env.Node (setPointMember st L S B C q).DemandNodeNum).MassFlowRate =
        setPointDesignMdot env st L S B C q
    · rw [if_neg (by simp [h2])]
      exact h2.symm
    · rw [if_pos ⟨h1, h2⟩]
  · rw [if_neg h1, if_neg (fun h => h1 h.1)]

/-- The component record that `FindCompSPLoad` leaves on the valid-setpoint
path. -/
theorem FindCompSPLoad_valid (env : Env) (st : PlantState) (L S B C q : Nat)
    (h : setPointTarget env st L S B C q ≠ env.SensedNodeFlagValue) :
    (FindCompSPLoad env st L S B C q).comp L S B C =
      { st.comp L S B C with
        EquipDemand := setPointDemand env st L S B C q,
        ON := setPointRuns env st L S B C q,
        MyLoad := setPointClamp (st.comp L S B C).MinLoad (st.comp L S B C).MaxLoad
          (if setPointRuns env st L S B C q then setPointDemand env st L S B C q else 0) } := by
  rw [FindCompSPLoad_eq, if_neg h, comp_modifyComp_self]

/-- C17. `FindCompSPLoad` on a loop with a single setpoint that is set (not
`SensedNodeFlagValue`): `EquipDemand` is `F * cp * ( TempSetPoint - Tinlet )`,
replaced by 0 when its magnitude is below `LoopDemandTol`, where `F` is the
mass flow of the demand node when that is positive and the design flow
`SetPointFlowRate * rho` otherwise; a cooling member is `ON` iff
`EquipDemand < -LoopDemandTol`, a heating member iff
`EquipDemand > LoopDemandTol`, a dual member iff either holds. -/
theorem C17_setpoint_demand_and_run_flag (env : Env) (st : PlantState)
    (LoopNum LoopSideNum BranchNum CompNum OpNum : Nat)
    (hsingle : (st.PlantLoop LoopNum).LoopDemandCalcScheme = DemandCalcScheme.SingleSetPoint)
    (hset : (env.Node (setPointMember st LoopNum LoopSideNum BranchNum CompNum
      OpNum).SetPointNodeNum).TempSetPoint ≠ env.SensedNodeFlagValue) :
    ((FindCompSPLoad env st LoopNum LoopSideNum BranchNum CompNum OpNum).comp
        LoopNum LoopSideNum BranchNum CompNum).EquipDemand =
      (if |(if (env.Node (setPointMember st LoopNum LoopSideNum BranchNum CompNum
                OpNum).DemandNodeNum).MassFlowRate > 0 then
              (env.Node (setPointMember st LoopNum LoopSideNum BranchNum CompNum
                OpNum).DemandNodeNum).MassFlowRate
            else setPointDesignMdot env st LoopNum LoopSideNum BranchNum CompNum OpNum) *
            setPointSpecHeat env st LoopNum LoopSideNum BranchNum CompNum OpNum *
            ((env.Node (setPointMember st LoopNum LoopSideNum BranchNum CompNum
                OpNum).SetPointNodeNum).TempSetPoint -
              setPointTempIn env st LoopNum LoopSideNum BranchNum CompNum OpNum)| <
          env.LoopDemandTol then 0
       else
        (if (env.Node (setPointMember st LoopNum LoopSideNum BranchNum CompNum
                OpNum).DemandNodeNum).MassFlowRate > 0 then
              (env.Node (setPointMember st LoopNum LoopSideNum BranchNum CompNum
                OpNum).DemandNodeNum).MassFlowRate
            else setPointDesignMdot env st LoopNum LoopSideNum BranchNum CompNum OpNum) *
          setPointSpecHeat env st LoopNum LoopSideNum BranchNum CompNum OpNum *
          ((env.Node (setPointMember st LoopNum LoopSideNum BranchNum CompNum
              OpNum).SetPointNodeNum).TempSetPoint -
            setPointTempIn env st LoopNum LoopSideNum BranchNum CompNum OpNum)) ∧
    ((setPointMember st LoopNum LoopSideNum BranchNum CompNum OpNum).CtrlTypeNum =
        CtrlType.CoolingOp →
      (((FindCompSPLoad env st LoopNum LoopSideNum BranchNum CompNum OpNum).comp
          LoopNum LoopSideNum BranchNum CompNum).ON = true ↔
        ((FindCompSPLoad env st LoopNum LoopSideNum BranchNum CompNum OpNum).comp
          LoopNum LoopSideNum BranchNum CompNum).EquipDemand < -env.LoopDemandTol)) ∧
    ((setPointMember st LoopNum LoopSideNum BranchNum CompNum OpNum).CtrlTypeNum =
        CtrlType.HeatingOp →
      (((FindCompSPLoad env st LoopNum LoopSideNum BranchNum CompNum OpNum).comp
          LoopNum LoopSideNum BranchNum CompNum).ON = true ↔
        ((FindCompSPLoad env st LoopNum LoopSideNum BranchNum CompNum OpNum).comp
          LoopNum LoopSideNum BranchNum CompNum).EquipDemand > env.LoopDemandTol)) ∧
    ((setPointMember st LoopNum LoopSideNum BranchNum CompNum OpNum).CtrlTypeNum =
        CtrlType.DualOp →
      (((FindCompSPLoad env st LoopNum LoopSideNum BranchNum CompNum OpNum).comp
          LoopNum LoopSideNum BranchNum CompNum).ON = true ↔
        (((FindCompSPLoad env st LoopNum LoopSideNum BranchNum CompNum OpNum).comp
            LoopNum LoopSideNum BranchNum CompNum).EquipDemand > env.LoopDemandTol ∨
          ((FindCompSPLoad env st LoopNum LoopSideNum BranchNum CompNum OpNum).comp
            LoopNum LoopSideNum BranchNum CompNum).EquipDemand < -env.LoopDemandTol))) := by
  have htgt : setPointTarget env st LoopNum LoopSideNum BranchNum CompNum OpNum =
      (env.Node (setPointMember st LoopNum LoopSideNum BranchNum CompNum
        OpNum).SetPointNodeNum).TempSetPoint := by
    unfold setPointTarget
    rw [hsingle]
  have hvalid : setPointTarget env st LoopNum LoopSideNum BranchNum CompNum OpNum ≠
      env.SensedNodeFlagValue := by
    rw [htgt]; exact hset
  rw [FindCompSPLoad_valid env st LoopNum LoopSideNum BranchNum CompNum OpNum hvalid]
  simp only []
  refine ⟨?_, ?_, ?_, ?_⟩
  · unfold setPointDemand setPointRawDemand
    rw [htgt, setPointMdot_eq]
  · intro hc
    unfold setPointRuns
    rw [hc]
    simp
  · intro hc
    unfold setPointRuns
    rw [hc]
    simp
  · intro hc
    unfold setPointRuns
    rw [hc]
    simp

/-- The fourth sample plant at the sample environment: inlet at `Tin` with
1 kg/s, which is also the design flow. -/
theorem setPointPlant_mdot (scheme : DemandCalcScheme) (ctrl : CtrlType) (mn mx : ℚ)
    (Tin sp lo hi : ℚ) (L S B C q : Nat) :
    setPointMdot (sampleEnv Tin 1 sp lo hi) (setPointPlant scheme ctrl mn mx) L S B C q = 1 := by
  unfold setPointMdot setPointDesignMdot setPointTempIn
  simp

theorem setPointPlant_tempIn (scheme : DemandCalcScheme) (ctrl : CtrlType) (mn mx : ℚ)
    (Tin mdot sp lo hi : ℚ) (L S B C q : Nat) :
    setPointTempIn (sampleEnv Tin mdot sp lo hi) (setPointPlant scheme ctrl mn mx) L S B C q =
      Tin := by
  unfold setPointTempIn
  simp

theorem setPointPlant_specHeat (scheme : DemandCalcScheme) (ctrl : CtrlType) (mn mx : ℚ)
    (Tin mdot sp lo hi : ℚ) (L S B C q : Nat) :
    setPointSpecHeat (sampleEnv Tin mdot sp lo hi) (setPointPlant scheme ctrl mn mx) L S B C q =
      4180 := by
  unfold setPointSpecHeat
  simp

/-- C17 at the fourth sample plant, the example of the claim: inlet at 10 C,
setpoint 7 C, flow 1 kg/s and `cp = 4180` give `EquipDemand = -12540`; the
component is `ON` as a cooling and as a dual member and off as a heating
member. -/
theorem C17_setpoint_example_witness :
    ((FindCompSPLoad (sampleEnv 10 1 7 5 7)
        (setPointPlant DemandCalcScheme.SingleSetPoint CtrlType.CoolingOp 0 20000)
        1 2 1 1 1).comp 1 2 1 1).EquipDemand = -12540 ∧
    ((FindCompSPLoad (sampleEnv 10 1 7 5 7)
        (setPointPlant DemandCalcScheme.SingleSetPoint CtrlType.CoolingOp 0 20000)
        1 2 1 1 1).comp 1 2 1 1).ON = true ∧
    ((FindCompSPLoad (sampleEnv 10 1 7 5 7)
        (setPointPlant DemandCalcScheme.SingleSetPoint CtrlType.DualOp 0 20000)
        1 2 1 1 1).comp 1 2 1 1).ON = true ∧
    ((FindCompSPLoad (sampleEnv 10 1 7 5 7)
        (setPointPlant DemandCalcScheme.SingleSetPoint CtrlType.HeatingOp 0 20000)
        1 2 1 1 1).comp 1 2 1 1).ON = false := by
  have hc := C17_setpoint_demand_and_run_flag (sampleEnv 10 1 7 5 7)
    (setPointPlant DemandCalcScheme.SingleSetPoint CtrlType.CoolingOp 0 20000) 1 2 1 1 1
    rfl (by norm_num)
  have hd := C17_setpoint_demand_and_run_flag (sampleEnv 10 1 7 5 7)
    (setPointPlant DemandCalcScheme.SingleSetPoint CtrlType.DualOp 0 20000) 1 2 1 1 1
    rfl (by norm_num)
  have hh := C17_setpoint_demand_and_run_flag (sampleEnv 10 1 7 5 7)
    (setPointPlant DemandCalcScheme.SingleSetPoint CtrlType.HeatingOp 0 20000) 1 2 1 1 1
    rfl (by norm_num)
  have e : ∀ ctrl, ((FindCompSPLoad (sampleEnv 10 1 7 5 7)
        (setPointPlant DemandCalcScheme.SingleSetPoint ctrl 0 20000)
        1 2 1 1 1).comp 1 2 1 1).EquipDemand = -12540 := by
    intro ctrl
    have h := (C17_setpoint_demand_and_run_flag (sampleEnv 10 1 7 5 7)
      (setPointPlant DemandCalcScheme.SingleSetPoint ctrl 0 20000) 1 2 1 1 1 rfl (by norm_num)).1
    rw [h]
    simp only [setPointPlant_member, sampleEnv_node1, sampleEnv_node2, setPointPlant_specHeat,
      setPointPlant_tempIn, sampleEnv_LoopDemandTol]
    norm_num [abs_of_neg]
  refine ⟨e _, ?_, ?_, ?_⟩
  · rw [hc.2.1 rfl, e]
    norm_num
  · rw [hd.2.2.2 rfl, e]
    norm_num
  · have := hh.2.2.1 rfl
    rw [e] at this
    cases hon : ((FindCompSPLoad (sampleEnv 10 1 7 5 7)
        (setPointPlant DemandCalcScheme.SingleSetPoint CtrlType.HeatingOp 0 20000)
        1 2 1 1 1).comp 1 2 1 1).ON
    · rfl
    · have h2 := this.mp hon
      norm_num at h2

/-- C18. `FindCompSPLoad` for a dual control member on a loop with dual
setpoints and a dead band, both setpoints set, `lo <= hi`, positive flow and
specific heat (and `LoopDemandTol >= 0`): with the inlet above `hi` the target
is `hi` and the demand `F * cp * ( hi - Tinlet )` is negative (cooling); with
the inlet below `lo` the target is `lo` and the demand
`F * cp * ( lo - Tinlet )` is positive (heating); with `lo <= Tinlet <= hi` the
target is the inlet temperature, `EquipDemand = 0` and the component is off. In
the first two cases `EquipDemand` is that demand, replaced by 0 when its
magnitude is below `LoopDemandTol`. -/
theorem C18_dual_setpoint_dead_band (env : Env) (st : PlantState)
    (LoopNum LoopSideNum BranchNum CompNum OpNum : Nat)
    (hdual : (st.PlantLoop LoopNum).LoopDemandCalcScheme = DemandCalcScheme.DualSetPointDeadBand)
    (hctrl : (setPointMember st LoopNum LoopSideNum BranchNum CompNum OpNum).CtrlTypeNum =
      CtrlType.DualOp)
    (hhi : (env.Node (setPointMember st LoopNum LoopSideNum BranchNum CompNum
      OpNum).SetPointNodeNum).TempSetPointHi ≠ env.SensedNodeFlagValue)
    (hlo : (env.Node (setPointMember st LoopNum LoopSideNum BranchNum CompNum
      OpNum).SetPointNodeNum).TempSetPointLo ≠ env.SensedNodeFlagValue)
    (hle : (env.Node (setPointMember st LoopNum LoopSideNum BranchNum CompNum
        OpNum).SetPointNodeNum).TempSetPointLo ≤
      (env.Node (setPointMember st LoopNum LoopSideNum BranchNum CompNum
        OpNum).SetPointNodeNum).TempSetPointHi)
    (hF : 0 < setPointMdot env st LoopNum LoopSideNum BranchNum CompNum OpNum)
    (hcp : 0 < setPointSpecHeat env st LoopNum LoopSideNum BranchNum CompNum OpNum)
    (htol : 0 ≤ env.LoopDemandTol) :
    ((env.Node (setPointMember st LoopNum LoopSideNum BranchNum CompNum
          OpNum).SetPointNodeNum).TempSetPointHi <
        setPointTempIn env st LoopNum LoopSideNum BranchNum CompNum OpNum →
      setPointTarget env st LoopNum LoopSideNum BranchNum CompNum OpNum =
        (env.Node (setPointMember st LoopNum LoopSideNum BranchNum CompNum
          OpNum).SetPointNodeNum).TempSetPointHi ∧
      setPointMdot env st LoopNum LoopSideNum BranchNum CompNum OpNum *
          setPointSpecHeat env st LoopNum LoopSideNum BranchNum CompNum OpNum *
          ((env.Node (setPointMember st LoopNum LoopSideNum BranchNum CompNum
              OpNum).SetPointNodeNum).TempSetPointHi -
            setPointTempIn env st LoopNum LoopSideNum BranchNum CompNum OpNum) < 0 ∧
      ((FindCompSPLoad env st LoopNum LoopSideNum BranchNum CompNum OpNum).comp
          LoopNum LoopSideNum BranchNum CompNum).EquipDemand =
        (if |setPointMdot env st LoopNum LoopSideNum BranchNum CompNum OpNum *
              setPointSpecHeat env st LoopNum LoopSideNum BranchNum CompNum OpNum *
              ((env.Node (setPointMember st LoopNum LoopSideNum BranchNum CompNum
                  OpNum).SetPointNodeNum).TempSetPointHi -
                setPointTempIn env st LoopNum LoopSideNum BranchNum CompNum OpNum)| <
            env.LoopDemandTol then 0
         else
          setPointMdot env st LoopNum LoopSideNum BranchNum CompNum OpNum *
            setPointSpecHeat env st LoopNum LoopSideNum BranchNum CompNum OpNum *
            ((env.Node (setPointMember st LoopNum LoopSideNum BranchNum CompNum
                OpNum).SetPointNodeNum).TempSetPointHi -
              setPointTempIn env st LoopNum LoopSideNum BranchNum CompNum OpNum))) ∧
    (setPointTempIn env st LoopNum LoopSideNum BranchNum CompNum OpNum <
        (env.Node (setPointMember st LoopNum LoopSideNum BranchNum CompNum
          OpNum).SetPointNodeNum).TempSetPointLo →
      setPointTarget env st LoopNum LoopSideNum BranchNum CompNum OpNum =
        (env.Node (setPointMember st LoopNum LoopSideNum BranchNum CompNum
          OpNum).SetPointNodeNum).TempSetPointLo ∧
      0 < setPointMdot env st LoopNum LoopSideNum BranchNum CompNum OpNum *
          setPointSpecHeat env st LoopNum LoopSideNum BranchNum CompNum OpNum *
          ((env.Node (setPointMember st LoopNum LoopSideNum BranchNum CompNum
              OpNum).SetPointNodeNum).TempSetPointLo -
            setPointTempIn env st LoopNum LoopSideNum BranchNum CompNum OpNum) ∧
      ((FindCompSPLoad env st LoopNum LoopSideNum BranchNum CompNum OpNum).comp
          LoopNum LoopSideNum BranchNum CompNum).EquipDemand =
        (if |setPointMdot env st LoopNum LoopSideNum BranchNum CompNum OpNum *
              setPointSpecHeat env st LoopNum LoopSideNum BranchNum CompNum OpNum *
              ((env.Node (setPointMember st LoopNum LoopSideNum BranchNum CompNum
                  OpNum).SetPointNodeNum).TempSetPointLo -
                setPointTempIn env st LoopNum LoopSideNum BranchNum CompNum OpNum)| <
            env.LoopDemandTol then 0
         else
          setPointMdot env st LoopNum LoopSideNum BranchNum CompNum OpNum *
            setPointSpecHeat env st LoopNum LoopSideNum BranchNum CompNum OpNum *
            ((env.Node (setPointMember st LoopNum LoopSideNum BranchNum CompNum
                OpNum).SetPointNodeNum).TempSetPointLo -
              setPointTempIn env st LoopNum LoopSideNum BranchNum CompNum OpNum))) ∧
    ((env.Node (setPointMember st LoopNum LoopSideNum BranchNum CompNum
          OpNum).SetPointNodeNum).TempSetPointLo ≤
        setPointTempIn env st LoopNum LoopSideNum BranchNum CompNum OpNum →
      setPointTempIn env st LoopNum LoopSideNum BranchNum CompNum OpNum ≤
        (env.Node (setPointMember st LoopNum LoopSideNum BranchNum CompNum
          OpNum).SetPointNodeNum).TempSetPointHi →
      setPointTarget env st LoopNum LoopSideNum BranchNum CompNum OpNum =
        setPointTempIn env st LoopNum LoopSideNum BranchNum CompNum OpNum ∧
      ((FindCompSPLoad env st LoopNum LoopSideNum BranchNum CompNum OpNum).comp
          LoopNum LoopSideNum BranchNum CompNum).EquipDemand = 0 ∧
      ((FindCompSPLoad env st LoopNum LoopSideNum BranchNum CompNum OpNum).comp
          LoopNum LoopSideNum BranchNum CompNum).ON = false) := by
  have hk : 0 < setPointMdot env st LoopNum LoopSideNum BranchNum CompNum OpNum *
      setPointSpecHeat env st LoopNum LoopSideNum BranchNum CompNum OpNum := mul_pos hF hcp
  generalize hkdef : setPointMdot env st LoopNum LoopSideNum BranchNum CompNum OpNum *
      setPointSpecHeat env st LoopNum LoopSideNum BranchNum CompNum OpNum = k at hk ⊢
  generalize hhidef : (env.Node (setPointMember st LoopNum LoopSideNum BranchNum CompNum
      OpNum).SetPointNodeNum).TempSetPointHi = hi at hhi hle ⊢
  generalize hlodef : (env.Node (setPointMember st LoopNum LoopSideNum BranchNum CompNum
      OpNum).SetPointNodeNum).TempSetPointLo = lo at hlo hle ⊢
  generalize hTdef : setPointTempIn env st LoopNum LoopSideNum BranchNum CompNum OpNum = T
  have htgt : setPointTarget env st LoopNum LoopSideNum BranchNum CompNum OpNum =
      if k * (hi - T) < 0 ∧ k * (lo - T) ≤ 0 then hi
      else if k * (hi - T) ≥ 0 ∧ k * (lo - T) > 0 then lo else T := by
    unfold setPointTarget
    rw [hdual, hctrl]
    simp only [hkdef, hhidef, hlodef, hTdef]
  have hdem : ∀ t, setPointTarget env st LoopNum LoopSideNum BranchNum CompNum OpNum = t →
      t ≠ env.SensedNodeFlagValue →
      ((FindCompSPLoad env st LoopNum LoopSideNum BranchNum CompNum OpNum).comp
          LoopNum LoopSideNum BranchNum CompNum).EquipDemand =
        (if |k * (t - T)| < env.LoopDemandTol then 0 else k * (t - T)) ∧
      ((FindCompSPLoad env st LoopNum LoopSideNum BranchNum CompNum OpNum).comp
          LoopNum LoopSideNum BranchNum CompNum).ON =
        decide ((if |k * (t - T)| < env.LoopDemandTol then 0 else k * (t - T)) >
            env.LoopDemandTol ∨
          (if |k * (t - T)| < env.LoopDemandTol then 0 else k * (t - T)) <
            -env.LoopDemandTol) := by
    intro t ht hne
    rw [FindCompSPLoad_valid env st LoopNum LoopSideNum BranchNum CompNum OpNum
      (by rw [ht]; exact hne)]
    simp only []
    unfold setPointRuns
    rw [hctrl]
    simp only []
    unfold setPointDemand setPointRawDemand
    rw [ht, hkdef, hTdef]
    exact ⟨rfl, rfl⟩
  refine ⟨?_, ?_, ?_⟩
  · intro hT
    have h1 : k * (hi - T) < 0 := mul_neg_of_pos_of_neg hk (by linarith)
    have h2 : k * (lo - T) ≤ 0 := le_of_lt (mul_neg_of_pos_of_neg hk (by linarith))
    have ht : setPointTarget env st LoopNum LoopSideNum BranchNum CompNum OpNum = hi := by
      rw [htgt, if_pos ⟨h1, h2⟩]
    exact ⟨ht, h1, (hdem hi ht hhi).1⟩
  · intro hT
    have h1 : 0 < k * (lo - T) := mul_pos hk (by linarith)
    have h2 : 0 ≤ k * (hi - T) := le_of_lt (mul_pos hk (by linarith))
    have ht : setPointTarget env st LoopNum LoopSideNum BranchNum CompNum OpNum = lo := by
      rw [htgt, if_neg (fun h => absurd h.1 (not_lt.mpr h2)), if_pos ⟨h2, h1⟩]
    exact ⟨ht, h1, (hdem lo ht hlo).1⟩
  · intro hT1 hT2
    have h1 : 0 ≤ k * (hi - T) := mul_nonneg (le_of_lt hk) (by linarith)
    have h2 : k * (lo - T) ≤ 0 := mul_nonpos_of_nonneg_of_nonpos (le_of_lt hk) (by linarith)
    have ht : setPointTarget env st LoopNum LoopSideNum BranchNum CompNum OpNum = T := by
      rw [htgt, if_neg (fun h => absurd h.1 (not_lt.mpr h1)),
        if_neg (fun h => absurd h.2 (not_lt.mpr h2))]
    refine ⟨ht, ?_⟩
    by_cases hs : T = env.SensedNodeFlagValue
    · rw [FindCompSPLoad_eq, if_pos (by rw [ht]; exact hs), comp_modifyComp_self]
      exact ⟨rfl, rfl⟩
    · obtain ⟨hd, hon⟩ := hdem T ht hs
      rw [hd, hon]
      simp only [sub_self, mul_zero, abs_zero, ite_self]
      refine ⟨trivial, ?_⟩
      simp only [decide_eq_false_iff_not, not_or, not_lt]
      exact ⟨htol, by linarith⟩

/-- C18 at the fourth sample plant with setpoints `lo = 5` and `hi = 7`: an
inlet at 10 C gives the cooling demand `-12540`, an inlet at 3 C the heating
demand `8360`, and an inlet at 6 C, inside the dead band, gives
`EquipDemand = 0` with the component off. -/
theorem C18_dual_setpoint_witness :
    ((FindCompSPLoad (sampleEnv 10 1 7 5 7)
        (setPointPlant DemandCalcScheme.DualSetPointDeadBand CtrlType.DualOp 0 20000)
        1 2 1 1 1).comp 1 2 1 1).EquipDemand = -12540 ∧
    ((FindCompSPLoad (sampleEnv 3 1 7 5 7)
        (setPointPlant DemandCalcScheme.DualSetPointDeadBand CtrlType.DualOp 0 20000)
        1 2 1 1 1).comp 1 2 1 1).EquipDemand = 8360 ∧
    ((FindCompSPLoad (sampleEnv 6 1 7 5 7)
        (setPointPlant DemandCalcScheme.DualSetPointDeadBand CtrlType.DualOp 0 20000)
        1 2 1 1 1).comp 1 2 1 1).EquipDemand = 0 ∧
    ((FindCompSPLoad (sampleEnv 6 1 7 5 7)
        (setPointPlant DemandCalcScheme.DualSetPointDeadBand CtrlType.DualOp 0 20000)
        1 2 1 1 1).comp 1 2 1 1).ON = false := by
  have h : ∀ Tin : ℚ, _ := fun Tin =>
    C18_dual_setpoint_dead_band (sampleEnv Tin 1 7 5 7)
      (setPointPlant DemandCalcScheme.DualSetPointDeadBand CtrlType.DualOp 0 20000) 1 2 1 1 1
      rfl rfl (by norm_num) (by norm_num) (by norm_num)
      (by rw [setPointPlant_mdot]; norm_num) (by rw [setPointPlant_specHeat]; norm_num)
      (by norm_num)
  refine ⟨?_, ?_, ?_, ?_⟩
  · have h1 := ((h 10).1 (by rw [setPointPlant_tempIn]; norm_num)).2.2
    rw [h1]
    simp only [setPointPlant_mdot, setPointPlant_specHeat, setPointPlant_tempIn,
      setPointPlant_member, sampleEnv_node2, sampleEnv_LoopDemandTol]
    norm_num [abs_of_neg]
  · have h1 := ((h 3).2.1 (by rw [setPointPlant_tempIn]; norm_num)).2.2
    rw [h1]
    simp only [setPointPlant_mdot, setPointPlant_specHeat, setPointPlant_tempIn,
      setPointPlant_member, sampleEnv_node2, sampleEnv_LoopDemandTol]
    norm_num [abs_of_pos]
  · exact ((h 6).2.2 (by rw [setPointPlant_tempIn]; norm_num)
      (by rw [setPointPlant_tempIn]; norm_num)).2.1
  · exact ((h 6).2.2 (by rw [setPointPlant_tempIn]; norm_num)
      (by rw [setPointPlant_tempIn]; norm_num)).2.2

/-! # The bounds check of the setpoint dispatch -/

/-- The bounds check brings a load into `[ mn, mx ]` in magnitude and never
turns its sign around; with `mx > 0` a load that is not zero keeps its sign. -/
theorem setPointClamp_bounds (mn mx x : ℚ) (h0 : 0 ≤ mn) (h1 : mn ≤ mx) :
    mn ≤ |setPointClamp mn mx x| ∧ |setPointClamp mn mx x| ≤ mx ∧
    (0 < x → 0 ≤ setPointClamp mn mx x) ∧ (x < 0 → setPointClamp mn mx x ≤ 0) ∧
    (0 < mx → (0 < x → 0 < setPointClamp mn mx x) ∧ (x < 0 → setPointClamp mn mx x < 0)) := by
  have hmx : 0 ≤ mx := le_trans h0 h1
  unfold setPointClamp
  generalize hy : (if |x| > mx then sign mx x else x) = y
  have hy1 : |y| ≤ mx := by
    rw [← hy]
    split
    · rw [abs_sign, abs_of_nonneg hmx]
    · rename_i h; exact not_lt.mp h
  have hy2 : 0 < x → 0 ≤ y := by
    intro hx
    rw [← hy]
    split
    · rw [sign_of_nonneg _ _ (le_of_lt hx)]; exact abs_nonneg _
    · exact le_of_lt hx
  have hy3 : x < 0 → y ≤ 0 := by
    intro hx
    rw [← hy]
    split
    · rw [sign_of_neg _ _ hx]; exact neg_nonpos.mpr (abs_nonneg _)
    · exact le_of_lt hx
  have hy4 : 0 < mx → 0 < x → 0 < y := by
    intro hm hx
    rw [← hy]
    split
    · rw [sign_of_nonneg _ _ (le_of_lt hx), abs_of_pos hm]; exact hm
    · exact hx
  have hy5 : 0 < mx → x < 0 → y < 0 := by
    intro hm hx
    rw [← hy]
    split
    · rw [sign_of_neg _ _ hx, abs_of_pos hm]; exact neg_neg_of_pos hm
    · exact hx
  by_cases hlt : |y| < mn
  · simp only [if_pos hlt]
    have hmn : 0 < mn := lt_of_le_of_lt (abs_nonneg y) hlt
    refine ⟨?_, ?_, ?_, ?_, ?_⟩
    · rw [abs_sign, abs_of_nonneg h0]
    · rw [abs_sign, abs_of_nonneg h0]; exact h1
    · intro hx
      rw [sign_of_nonneg _ _ (hy2 hx)]; exact abs_nonneg _
    · intro hx
      by_cases hy0 : y < 0
      · rw [sign_of_neg _ _ hy0]; exact neg_nonpos.mpr (abs_nonneg _)
      · have hyz : y = 0 := le_antisymm (hy3 hx) (not_lt.mp hy0)
        have hmxpos : 0 < mx := lt_of_lt_of_le hmn h1
        exact absurd (hy5 hmxpos hx) (by rw [hyz]; exact lt_irrefl 0)
    · intro hm
      constructor
      · intro hx
        rw [sign_of_nonneg _ _ (hy2 hx), abs_of_pos hmn]; exact hmn
      · intro hx
        rw [sign_of_neg _ _ (hy5 hm hx), abs_of_pos hmn]; exact neg_neg_of_pos hmn
  · simp only [if_neg hlt]
    exact ⟨not_lt.mp hlt, hy1, hy2, hy3, fun hm => ⟨hy4 hm, hy5 hm⟩⟩

/-- C19. On the valid-setpoint path of `FindCompSPLoad`, for a component with
`0 <= MinLoad <= MaxLoad`: the load it is left with satisfies
`MinLoad <= |MyLoad| <= MaxLoad`; the computed load (`EquipDemand` when the
component is switched on, 0 otherwise) never comes out with its sign turned
around, and with `MaxLoad > 0` a computed load that is not zero comes out with
the same strict sign. -/
theorem C19_setpoint_load_within_capacity (env : Env) (st : PlantState)
    (LoopNum LoopSideNum BranchNum CompNum OpNum : Nat)
    (hvalid : setPointTarget env st LoopNum LoopSideNum BranchNum CompNum OpNum ≠
      env.SensedNodeFlagValue)
    (hmin : 0 ≤ (st.comp LoopNum LoopSideNum BranchNum CompNum).MinLoad)
    (hmax : (st.comp LoopNum LoopSideNum BranchNum CompNum).MinLoad ≤
      (st.comp LoopNum LoopSideNum BranchNum CompNum).MaxLoad) :
    (st.comp LoopNum LoopSideNum BranchNum CompNum).MinLoad ≤
      |((FindCompSPLoad env st LoopNum LoopSideNum BranchNum CompNum OpNum).comp
          LoopNum LoopSideNum BranchNum CompNum).MyLoad| ∧
    |((FindCompSPLoad env st LoopNum LoopSideNum BranchNum CompNum OpNum).comp
        LoopNum LoopSideNum BranchNum CompNum).MyLoad| ≤
      (st.comp LoopNum LoopSideNum BranchNum CompNum).MaxLoad ∧
    (0 < (if ((FindCompSPLoad env st LoopNum LoopSideNum BranchNum CompNum OpNum).comp
              LoopNum LoopSideNum BranchNum CompNum).ON = true then
            ((FindCompSPLoad env st LoopNum LoopSideNum BranchNum CompNum OpNum).comp
              LoopNum LoopSideNum BranchNum CompNum).EquipDemand
          else 0) →
      0 ≤ ((FindCompSPLoad env st LoopNum LoopSideNum BranchNum CompNum OpNum).comp
          LoopNum LoopSideNum BranchNum CompNum).MyLoad) ∧
    ((if ((FindCompSPLoad env st LoopNum LoopSideNum BranchNum CompNum OpNum).comp
              LoopNum LoopSideNum BranchNum CompNum).ON = true then
            ((FindCompSPLoad env st LoopNum LoopSideNum BranchNum CompNum OpNum).comp
              LoopNum LoopSideNum BranchNum CompNum).EquipDemand
          else 0) < 0 →
      ((FindCompSPLoad env st LoopNum LoopSideNum BranchNum CompNum OpNum).comp
          LoopNum LoopSideNum BranchNum CompNum).MyLoad ≤ 0) ∧
    (0 < (st.comp LoopNum LoopSideNum BranchNum CompNum).MaxLoad →
      (0 < (if ((FindCompSPLoad env st LoopNum LoopSideNum BranchNum CompNum OpNum).comp
                LoopNum LoopSideNum BranchNum CompNum).ON = true then
              ((FindCompSPLoad env st LoopNum LoopSideNum BranchNum CompNum OpNum).comp
                LoopNum LoopSideNum BranchNum CompNum).EquipDemand
            else 0) →
        0 < ((FindCompSPLoad env st LoopNum LoopSideNum BranchNum CompNum OpNum).comp
            LoopNum LoopSideNum BranchNum CompNum).MyLoad) ∧
      ((if ((FindCompSPLoad env st LoopNum LoopSideNum BranchNum CompNum OpNum).comp
                LoopNum LoopSideNum BranchNum CompNum).ON = true then
              ((FindCompSPLoad env st LoopNum LoopSideNum BranchNum CompNum OpNum).comp
                LoopNum LoopSideNum BranchNum CompNum).EquipDemand
            else 0) < 0 →
        ((FindCompSPLoad env st LoopNum LoopSideNum BranchNum CompNum OpNum).comp
            LoopNum LoopSideNum BranchNum CompNum).MyLoad < 0)) := by
  rw [FindCompSPLoad_valid env st LoopNum LoopSideNum BranchNum CompNum OpNum hvalid]
  simp only []
  exact setPointClamp_bounds _ _ _ hmin hmax

/-- C19 at the fourth sample plant with `MinLoad = 1000` and `MaxLoad = 10000`:
the cooling demand `-12540` is dispatched as a load between 1000 and 10000 in
magnitude, and negative. -/
theorem C19_setpoint_clamp_witness :
    (1000 : ℚ) ≤ |((FindCompSPLoad (sampleEnv 10 1 7 5 7)
        (setPointPlant DemandCalcScheme.SingleSetPoint CtrlType.CoolingOp 1000 10000)
        1 2 1 1 1).comp 1 2 1 1).MyLoad| ∧
    |((FindCompSPLoad (sampleEnv 10 1 7 5 7)
        (setPointPlant DemandCalcScheme.SingleSetPoint CtrlType.CoolingOp 1000 10000)
        1 2 1 1 1).comp 1 2 1 1).MyLoad| ≤ 10000 := by
  have h := C19_setpoint_load_within_capacity (sampleEnv 10 1 7 5 7)
    (setPointPlant DemandCalcScheme.SingleSetPoint CtrlType.CoolingOp 1000 10000) 1 2 1 1 1
    (by unfold setPointTarget; norm_num)
    (by simp [setPointComp]) (by simp only [setPointPlant_comp, setPointComp]; norm_num)
  simp only [setPointPlant_comp, setPointComp] at h
  exact ⟨h.1, h.2.1⟩

/-- C20. When the target that `FindCompSPLoad` resolves is the unset marker
`SensedNodeFlagValue`, the component is left with `ON = false`, `MyLoad = 0`
and `EquipDemand = 0` (and its other fields as they were: no bound of
`MinLoad` or `MaxLoad` is applied), and no other component is changed. -/
theorem C20_unset_setpoint_switches_off (env : Env) (st : PlantState)
    (LoopNum LoopSideNum BranchNum CompNum OpNum : Nat)
    (hunset : setPointTarget env st LoopNum LoopSideNum BranchNum CompNum OpNum =
      env.SensedNodeFlagValue) :
    ((FindCompSPLoad env st LoopNum LoopSideNum BranchNum CompNum OpNum).comp
        LoopNum LoopSideNum BranchNum CompNum).ON = false ∧
    ((FindCompSPLoad env st LoopNum LoopSideNum BranchNum CompNum OpNum).comp
        LoopNum LoopSideNum BranchNum CompNum).MyLoad = 0 ∧
    ((FindCompSPLoad env st LoopNum LoopSideNum BranchNum CompNum OpNum).comp
        LoopNum LoopSideNum BranchNum CompNum).EquipDemand = 0 ∧
    (FindCompSPLoad env st LoopNum LoopSideNum BranchNum CompNum OpNum).comp
        LoopNum LoopSideNum BranchNum CompNum =
      { st.comp LoopNum LoopSideNum BranchNum CompNum with
        ON := false, MyLoad := 0, EquipDemand := 0 } ∧
    (∀ L S B C, ¬ (L = LoopNum ∧ S = LoopSideNum ∧ B = BranchNum ∧ C = CompNum) →
      (FindCompSPLoad env st LoopNum LoopSideNum BranchNum CompNum OpNum).comp L S B C =
        st.comp L S B C) := by
  rw [FindCompSPLoad_eq, if_pos hunset]
  refine ⟨by simp, by simp, by simp, by simp, ?_⟩
  intro L S B C hne
  simp [hne]

/-- C20 at the fourth sample plant with an unset single setpoint (`-999`) and
`MinLoad = 1000`: the component of branch 1, which carried 5 W, ends off with
`MyLoad = 0` and `EquipDemand = 0`, and the component of branch 2 is as
before. -/
theorem C20_unset_setpoint_witness :
    ((FindCompSPLoad (sampleEnv 10 1 (-999) 5 7)
        (setPointPlant DemandCalcScheme.SingleSetPoint CtrlType.CoolingOp 1000 10000)
        1 2 1 1 1).comp 1 2 1 1).ON = false ∧
    ((FindCompSPLoad (sampleEnv 10 1 (-999) 5 7)
        (setPointPlant DemandCalcScheme.SingleSetPoint CtrlType.CoolingOp 1000 10000)
        1 2 1 1 1).comp 1 2 1 1).MyLoad = 0 ∧
    ((FindCompSPLoad (sampleEnv 10 1 (-999) 5 7)
        (setPointPlant DemandCalcScheme.SingleSetPoint CtrlType.CoolingOp 1000 10000)
        1 2 1 1 1).comp 1 2 1 1).EquipDemand = 0 ∧
    (FindCompSPLoad (sampleEnv 10 1 (-999) 5 7)
        (setPointPlant DemandCalcScheme.SingleSetPoint CtrlType.CoolingOp 1000 10000)
        1 2 1 1 1).comp 1 2 2 1 = setPointComp 1000 10000 := by
  have h := C20_unset_setpoint_switches_off (sampleEnv 10 1 (-999) 5 7)
    (setPointPlant DemandCalcScheme.SingleSetPoint CtrlType.CoolingOp 1000 10000) 1 2 1 1 1
    (by unfold setPointTarget; simp)
  obtain ⟨h1, h2, h3, _, h5⟩ := h
  refine ⟨h1, h2, h3, ?_⟩
  rw [h5 1 2 2 1 (by omega)]
  rfl

/-! # What an iteration of a distribution loop does to the component records -/

theorem SameSkeleton.setTsensor (st : PlantState) (t : ℚ) :
    SameSkeleton st { st with Tsensor := t } := by
  constructor <;> intros <;> rfl

theorem flagsFrom_self (c : CompData) : flagsFrom c c = c := rfl

/-- `AdjustChangeInLoadByHowServed` writes, at most, the two free cooling flags
of the component it is called for. -/
theorem AdjustChangeInLoadByHowServed_frame (env : Env) (st : PlantState) (L S B C : Nat)
    (x : ℚ) :
    SameSkeleton st (AdjustChangeInLoadByHowServed env st L S B C x).1 ∧
    ∀ L2 S2 B2 C2, (AdjustChangeInLoadByHowServed env st L S B C x).1.comp L2 S2 B2 C2 =
      if L2 = L ∧ S2 = S ∧ B2 = B ∧ C2 = C then
        flagsFrom (st.comp L S B C) ((AdjustChangeInLoadByHowServed env st L S B C x).1.comp L S B C)
      else st.comp L2 S2 B2 C2 := by
  have hst : SameSkeleton st st ∧ ∀ L2 S2 B2 C2, st.comp L2 S2 B2 C2 =
      if L2 = L ∧ S2 = S ∧ B2 = B ∧ C2 = C then flagsFrom (st.comp L S B C) (st.comp L S B C)
      else st.comp L2 S2 B2 C2 := by
    refine ⟨SameSkeleton.refl st, ?_⟩
    intro L2 S2 B2 C2
    split
    · rename_i h; obtain ⟨rfl, rfl, rfl, rfl⟩ := h; rfl
    · rfl
  have hmod : ∀ (t : ℚ) (f : CompData → CompData),
      (∀ c, f c = flagsFrom c (f c)) →
      SameSkeleton st (({ st with Tsensor := t } : PlantState).modifyComp L S B C f) ∧
      ∀ L2 S2 B2 C2, (({ st with Tsensor := t } : PlantState).modifyComp L S B C f).comp
          L2 S2 B2 C2 =
        if L2 = L ∧ S2 = S ∧ B2 = B ∧ C2 = C then
          flagsFrom (st.comp L S B C)
            ((({ st with Tsensor := t } : PlantState).modifyComp L S B C f).comp L S B C)
        else st.comp L2 S2 B2 C2 := by
    intro t f hf
    refine ⟨(SameSkeleton.setTsensor st t).trans (SameSkeleton.modifyComp _ _ _ _ _ _), ?_⟩
    intro L2 S2 B2 C2
    rw [comp_modifyComp, comp_modifyComp_self]
    split
    · exact hf _
    · rfl
  unfold AdjustChangeInLoadByHowServed
  simp only []
  split
  · exact hst
  · split
    · simp only []
      refine hmod _ _ ?_
      intro c; rfl
    · simp only []
      refine hmod _ _ ?_
      intro c; rfl
  · split
    · simp only []
      refine hmod _ _ ?_
      intro c; rfl
    · simp only []
      refine hmod _ _ ?_
      intro c; rfl
  · exact hst
  · exact hst
  · exact hst

theorem sameMachine.ofSelf (c : CompData) : sameMachine c c := rfl

theorem sameMachine.followedBy {a b c : CompData} (h1 : sameMachine a b) (h2 : sameMachine b c) :
    sameMachine a c := by
  unfold sameMachine at *
  rw [h2, h1]

theorem sameMachine.flagsFrom (c c' : CompData) : sameMachine c (flagsFrom c c') := rfl

theorem sameMachine.setMyLoad {c c' : CompData} (h : sameMachine c c') (x : ℚ) :
    sameMachine c { c' with MyLoad := x } := by
  unfold sameMachine at *
  rw [h]

theorem sameMachine.setON {c c' : CompData} (h : sameMachine c c') (b : Bool) :
    sameMachine c { c' with ON := b } := by
  unfold sameMachine at *
  rw [h]

/-- Nothing positive comes out of the serving-mode correction of a zero load
change. -/
theorem AdjustChangeInLoadByHowServed_zero (env : Env) (st : PlantState) (L S B C : Nat) :
    (AdjustChangeInLoadByHowServed env st L S B C 0).2 ≤ 0 := by
  unfold AdjustChangeInLoadByHowServed outletLimitCorrection
  simp only []
  split
  · split
    · exact min_le_left _ _
    · exact le_refl _
  · split <;> exact le_refl _
  · split
    · exact le_refl _
    · simp only []
      split
      · exact min_le_left _ _
      · exact le_refl _
  · split
    · exact min_le_left _ _
    · exact le_refl _
  · exact le_refl _
  · exact le_refl _

/-- On a branch shut by a supervisory override the load change is zeroed. -/
theorem AdjustChangeInLoadByEMSControls_blocked (st : PlantState) (L S B C : Nat) (x : ℚ)
    (h : emsBlocked st L S B) : AdjustChangeInLoadByEMSControls st L S B C x = 0 := by
  unfold AdjustChangeInLoadByEMSControls
  rcases h with h | h
  · rw [if_pos h]
  · by_cases hs : (st.side L S).EMSCtrl = true ∧ (st.side L S).EMSValue ≤ 0
    · rw [if_pos hs]
    · rw [if_neg hs, if_pos h]

/-- The state that the three adjustments leave is the state that the serving
mode correction leaves. -/
theorem adjustChangeInLoad_frame (env : Env) (st : PlantState) (L S P K B C : Nat) (x : ℚ) :
    SameSkeleton st (adjustChangeInLoad env st L S P K B C x).1 ∧
    ∀ L2 S2 B2 C2, (adjustChangeInLoad env st L S P K B C x).1.comp L2 S2 B2 C2 =
      if L2 = L ∧ S2 = S ∧ B2 = B ∧ C2 = C then
        flagsFrom (st.comp L S B C) ((adjustChangeInLoad env st L S P K B C x).1.comp L S B C)
      else st.comp L2 S2 B2 C2 := by
  unfold adjustChangeInLoad
  exact AdjustChangeInLoadByHowServed_frame env st L S B C _

theorem adjustChangeInLoad_nonneg (env : Env) (st : PlantState) (L S P K B C : Nat) (x : ℚ) :
    0 ≤ (adjustChangeInLoad env st L S P K B C x).2 := by
  unfold adjustChangeInLoad
  exact le_max_left _ _

/-- On a branch shut by a supervisory override the adjusted load change of a
first pass is zero. -/
theorem adjustChangeInLoad_blocked (env : Env) (st : PlantState) (L S P K B C : Nat) (x : ℚ)
    (h : emsBlocked st L S B) : (adjustChangeInLoad env st L S P K B C x).2 = 0 := by
  unfold adjustChangeInLoad
  simp only []
  rw [AdjustChangeInLoadByEMSControls_blocked st L S B C _ h]
  exact max_eq_left (AdjustChangeInLoadByHowServed_zero env st L S B C)

/-- The free cooling control of a tripped component zeroes the load change and
records the shut-down. -/
theorem AdjustChangeInLoadByHowServed_tripped (env : Env) (st : PlantState) (L S B C : Nat)
    (x : ℚ) (h : freeCoolTripped env st (st.comp L S B C)) :
    (AdjustChangeInLoadByHowServed env st L S B C x).2 = 0 ∧
    ((AdjustChangeInLoadByHowServed env st L S B C x).1.comp L S B C).Available = false ∧
    ((AdjustChangeInLoadByHowServed env st L S B C x).1.comp L S B C).FreeCoolCntrlShutDown =
      true := by
  obtain ⟨hmode, _, hlt⟩ := h
  unfold AdjustChangeInLoadByHowServed
  simp only []
  rcases hmode with hm | hm
  · simp only [hm, if_pos hlt, comp_modifyComp_self]
    exact ⟨trivial, trivial, trivial⟩
  · simp only [hm, if_pos hlt, comp_modifyComp_self]
    exact ⟨trivial, trivial, trivial⟩

theorem adjustChangeInLoad_tripped (env : Env) (st : PlantState) (L S P K B C : Nat) (x : ℚ)
    (h : freeCoolTripped env st (st.comp L S B C)) :
    (adjustChangeInLoad env st L S P K B C x).2 = 0 ∧
    ((adjustChangeInLoad env st L S P K B C x).1.comp L S B C).Available = false ∧
    ((adjustChangeInLoad env st L S P K B C x).1.comp L S B C).FreeCoolCntrlShutDown = true := by
  unfold adjustChangeInLoad
  simp only []
  obtain ⟨h1, h2, h3⟩ := AdjustChangeInLoadByHowServed_tripped env st L S B C
    (AdjustChangeInLoadByEMSControls st L S B C
      (AdjustChangeInLoadForLastStageUpperRangeLimit st L P K x)) h
  refine ⟨?_, h2, h3⟩
  rw [h1]
  exact max_self 0

/-- A tripped free cooling control stays tripped while the machine is the
same: the sensor of a configured mode is read from the environment. -/
theorem freeCoolTripped_congr (env : Env) (st st' : PlantState) (c c' : CompData)
    (hm : sameMachine c c') (h : freeCoolTripped env st c) : freeCoolTripped env st' c' := by
  have e1 : c'.HowLoadServed = c.HowLoadServed := by rw [hm]
  have e2 : c'.FreeCoolCntrlMode = c.FreeCoolCntrlMode := by rw [hm]
  have e3 : c'.FreeCoolCntrlMinCntrlTemp = c.FreeCoolCntrlMinCntrlTemp := by rw [hm]
  have e4 : c'.FreeCoolCntrlNodeNum = c.FreeCoolCntrlNodeNum := by rw [hm]
  obtain ⟨h1, h2, h3⟩ := h
  refine ⟨by rw [e1]; exact h1, by rw [e2]; exact h2, ?_⟩
  rw [e3]
  have : freeCoolTsensor env st' c' = freeCoolTsensor env st c := by
    unfold freeCoolTsensor
    rw [e2, e4]
    split
    · rfl
    · rfl
    · rfl
    · rename_i hu; exact absurd hu h2
  rw [this]
  exact h3

/-- One iteration of a first pass, component by component: only the member at
position `i` is written, and only when it is available; it gets the flags of
the free cooling control and the adjusted load change, signed by the
remaining demand. -/
theorem firstPassBody_comp (env : Env) (L S P K : Nat) (target : CompData → ℚ → ℚ)
    (s : PlantState) (R : ℚ) (i : Nat) :
    SameSkeleton s (firstPassBody env L S P K target (s, R) i).1 ∧
    ∀ L2 S2 B2 C2, (firstPassBody env L S P K target (s, R) i).1.comp L2 S2 B2 C2 =
      if (L2 = L ∧ S2 = S ∧ B2 = s.memberBranch L P K i ∧ C2 = s.memberComp L P K i) ∧
          (s.member L S P K i).Available = true then
        { flagsFrom (s.member L S P K i)
            ((adjustChangeInLoad env s L S P K (s.memberBranch L P K i) (s.memberComp L P K i)
              (target (s.member L S P K i) R)).1.comp L S (s.memberBranch L P K i)
              (s.memberComp L P K i)) with
          MyLoad := sign (adjustChangeInLoad env s L S P K (s.memberBranch L P K i)
            (s.memberComp L P K i) (target (s.member L S P K i) R)).2 R }
      else s.comp L2 S2 B2 C2 := by
  rw [firstPassBody_eq]
  unfold PlantState.member PlantState.memberBranch PlantState.memberComp
  simp only []
  generalize ((s.equipList L P K).Comp i).BranchNumPtr = B
  generalize ((s.equipList L P K).Comp i).CompNumPtr = C
  by_cases hav : (s.comp L S B C).Available = false
  · rw [if_pos hav]
    refine ⟨SameSkeleton.refl s, ?_⟩
    intro L2 S2 B2 C2
    rw [if_neg]
    intro h
    rw [hav] at h
    exact absurd h.2 (by decide)
  · rw [if_neg hav]
    have hav2 : (s.comp L S B C).Available = true := by
      cases h : (s.comp L S B C).Available
      · exact absurd h hav
      · rfl
    obtain ⟨hs, hc⟩ := adjustChangeInLoad_frame env s L S P K B C (target (s.comp L S B C) R)
    simp only []
    refine ⟨hs.trans (SameSkeleton.modifyComp _ _ _ _ _ _), ?_⟩
    intro L2 S2 B2 C2
    rw [comp_modifyComp]
    by_cases hp : L2 = L ∧ S2 = S ∧ B2 = B ∧ C2 = C
    · rw [if_pos hp, if_pos ⟨hp, hav2⟩]
      have := hc L S B C
      rw [if_pos ⟨rfl, rfl, rfl, rfl⟩] at this
      rw [this]
      rfl
    · rw [if_neg hp, if_neg (fun h => hp h.1), hc, if_neg hp]

/-- One iteration of a later pass (optimal steps 2 and 3, uniform step 2),
component by component: only `MyLoad` of the member at position `i` is written,
and only when the member is available. -/
theorem laterPass_comp (env : Env) (L S P K : Nat) (s : PlantState) (R : ℚ) (i : Nat)
    (body : PlantState × ℚ → Nat → PlantState × ℚ)
    (hbody : (∃ d, body = optimalStep2Body env L S P K d) ∨
      body = optimalStep3Body env L S P K ∨ body = uniformStep2Body env L S P K) :
    SameSkeleton s (body (s, R) i).1 ∧
    ∀ L2 S2 B2 C2, (body (s, R) i).1.comp L2 S2 B2 C2 =
      if (L2 = L ∧ S2 = S ∧ B2 = s.memberBranch L P K i ∧ C2 = s.memberComp L P K i) ∧
          (s.member L S P K i).Available = true then
        { s.member L S P K i with
          MyLoad := ((body (s, R) i).1.comp L S (s.memberBranch L P K i)
            (s.memberComp L P K i)).MyLoad }
      else s.comp L2 S2 B2 C2 := by
  have key : ∀ (f : CompData → CompData) (r : ℚ),
      (∀ c, f c = { c with MyLoad := (f c).MyLoad }) →
      body (s, R) i =
        (if (s.comp L S ((s.equipList L P K).Comp i).BranchNumPtr
              ((s.equipList L P K).Comp i).CompNumPtr).Available = false then (s, R)
          else (s.modifyComp L S ((s.equipList L P K).Comp i).BranchNumPtr
              ((s.equipList L P K).Comp i).CompNumPtr f, r)) →
      SameSkeleton s (body (s, R) i).1 ∧
      ∀ L2 S2 B2 C2, (body (s, R) i).1.comp L2 S2 B2 C2 =
        if (L2 = L ∧ S2 = S ∧ B2 = s.memberBranch L P K i ∧ C2 = s.memberComp L P K i) ∧
            (s.member L S P K i).Available = true then
          { s.member L S P K i with
            MyLoad := ((body (s, R) i).1.comp L S (s.memberBranch L P K i)
              (s.memberComp L P K i)).MyLoad }
        else s.comp L2 S2 B2 C2 := by
    intro f r hf e
    rw [e]
    unfold PlantState.member PlantState.memberBranch PlantState.memberComp
    generalize ((s.equipList L P K).Comp i).BranchNumPtr = B
    generalize ((s.equipList L P K).Comp i).CompNumPtr = C
    by_cases hav : (s.comp L S B C).Available = false
    · rw [if_pos hav]
      refine ⟨SameSkeleton.refl s, ?_⟩
      intro L2 S2 B2 C2
      rw [if_neg]
      intro h
      rw [hav] at h
      exact absurd h.2 (by decide)
    · rw [if_neg hav]
      have hav2 : (s.comp L S B C).Available = true := by
        cases h : (s.comp L S B C).Available
        · exact absurd h hav
        · rfl
      simp only []
      refine ⟨SameSkeleton.modifyComp _ _ _ _ _ _, ?_⟩
      intro L2 S2 B2 C2
      rw [comp_modifyComp, comp_modifyComp_self]
      by_cases hp : L2 = L ∧ S2 = S ∧ B2 = B ∧ C2 = C
      · rw [if_pos hp, if_pos ⟨hp, hav2⟩]
        exact hf _
      · rw [if_neg hp, if_neg (fun h => hp h.1)]
  rcases hbody with ⟨d, rfl⟩ | rfl | rfl
  · exact key _ _ (fun c => rfl) (optimalStep2Body_eq env L S P K d s R i)
  · exact key _ _ (fun c => rfl) (optimalStep3Body_eq env L S P K s R i)
  · exact key _ _ (fun c => rfl) (uniformStep2Body_eq env L S P K s R i)

/-- One iteration of the closing loop, component by component: the member at
position `i` gets `ON` from its load. -/
theorem updateOnFlagBody_comp (env : Env) (L S P K : Nat) (s : PlantState) (i : Nat) :
    SameSkeleton s (updateOnFlagBody env L S P K s i) ∧
    ∀ L2 S2 B2 C2, (updateOnFlagBody env L S P K s i).comp L2 S2 B2 C2 =
      if L2 = L ∧ S2 = S ∧ B2 = s.memberBranch L P K i ∧ C2 = s.memberComp L P K i then
        { s.member L S P K i with
          ON := decide (¬ |(s.member L S P K i).MyLoad| < env.SmallLoad) }
      else s.comp L2 S2 B2 C2 := by
  rw [updateOnFlagBody_eq]
  refine ⟨SameSkeleton.modifyComp _ _ _ _ _ _, ?_⟩
  intro L2 S2 B2 C2
  simp only []
  rw [comp_modifyComp]
  rfl

/-! # Loops of the distribution, seen from one component -/

theorem SameSkeleton.memberBranch {st st' : PlantState} (h : SameSkeleton st st')
    (L P K i : Nat) : st'.memberBranch L P K i = st.memberBranch L P K i := by
  unfold PlantState.memberBranch
  rw [h.equipList]

theorem SameSkeleton.memberComp {st st' : PlantState} (h : SameSkeleton st st')
    (L P K i : Nat) : st'.memberComp L P K i = st.memberComp L P K i := by
  unfold PlantState.memberComp
  rw [h.equipList]

/-- A first pass seen from an available component `( B0, C0 )` whose free
cooling control is tripped: after `k` iterations the component has been shut
down with zero load, or it is untouched and is none of the first `k` members. -/
theorem firstPass_tripped (env : Env) (st : PlantState) (L S P K : Nat)
    (target : CompData → ℚ → ℚ) (B0 C0 : Nat)
    (hav0 : (st.comp L S B0 C0).Available = true)
    (htrip : freeCoolTripped env st (st.comp L S B0 C0)) (R0 : ℚ) :
    ∀ k,
      SameSkeleton st (forLoop (firstPassBody env L S P K target) (st, R0) k).1 ∧
      sameMachine (st.comp L S B0 C0)
        ((forLoop (firstPassBody env L S P K target) (st, R0) k).1.comp L S B0 C0) ∧
      ((((forLoop (firstPassBody env L S P K target) (st, R0) k).1.comp L S B0 C0).MyLoad = 0 ∧
        ((forLoop (firstPassBody env L S P K target) (st, R0) k).1.comp L S B0 C0).Available =
          false ∧
        ((forLoop (firstPassBody env L S P K target) (st, R0) k).1.comp
          L S B0 C0).FreeCoolCntrlShutDown = true) ∨
       ((forLoop (firstPassBody env L S P K target) (st, R0) k).1.comp L S B0 C0 =
          st.comp L S B0 C0 ∧
        ∀ j, 1 ≤ j → j ≤ k →
          ¬ (st.memberBranch L P K j = B0 ∧ st.memberComp L P K j = C0))) := by
  intro k
  induction k with
  | zero =>
    refine ⟨SameSkeleton.refl st, sameMachine.ofSelf _, Or.inr ⟨rfl, ?_⟩⟩
    intro j h1 h2; omega
  | succ k ih =>
    simp only [forLoop]
    generalize forLoop (firstPassBody env L S P K target) (st, R0) k = acc at ih ⊢
    obtain ⟨s, R⟩ := acc
    obtain ⟨hsk, hsm, hcase⟩ := ih
    simp only [] at hsk hsm hcase
    obtain ⟨hs2, hc2⟩ := firstPassBody_comp env L S P K target s R (k + 1)
    have hmB := hsk.memberBranch L P K (k + 1)
    have hmC := hsk.memberComp L P K (k + 1)
    refine ⟨hsk.trans hs2, ?_, ?_⟩
    · rw [hc2]
      split
      · rename_i h
        obtain ⟨⟨_, _, hB, hC⟩, _⟩ := h
        have hmem : s.member L S P K (k + 1) = s.comp L S B0 C0 := by
          unfold PlantState.member; rw [← hB, ← hC]
        rw [hmem]
        exact (hsm.followedBy (sameMachine.flagsFrom _ _)).setMyLoad _
      · exact hsm
    · rw [hc2]
      by_cases hcond : (L = L ∧ S = S ∧ B0 = s.memberBranch L P K (k + 1) ∧
          C0 = s.memberComp L P K (k + 1)) ∧ (s.member L S P K (k + 1)).Available = true
      · rw [if_pos hcond]
        obtain ⟨⟨_, _, hB, hC⟩, hav⟩ := hcond
        have hmem : s.member L S P K (k + 1) = s.comp L S B0 C0 := by
          unfold PlantState.member; rw [← hB, ← hC]
        left
        rcases hcase with hdone | ⟨hsame, _⟩
        · rw [hmem, hdone.2.1] at hav
          exact absurd hav (by decide)
        · have ht : freeCoolTripped env s (s.comp L S (s.memberBranch L P K (k + 1))
              (s.memberComp L P K (k + 1))) := by
            rw [← hB, ← hC]
            exact freeCoolTripped_congr env st s _ _ hsm htrip
          obtain ⟨h1, h2, h3⟩ := adjustChangeInLoad_tripped env s L S P K
            (s.memberBranch L P K (k + 1)) (s.memberComp L P K (k + 1))
            (target (s.member L S P K (k + 1)) R) ht
          refine ⟨?_, ?_, ?_⟩
          · simp only [h1]
            exact sign_zero_left R
          · exact h2
          · exact h3
      · rw [if_neg hcond]
        rcases hcase with hdone | ⟨hsame, hnot⟩
        · exact Or.inl hdone
        · right
          refine ⟨hsame, ?_⟩
          intro j hj1 hj2
          by_cases hjk : j ≤ k
          · exact hnot j hj1 hjk
          · have hj : j = k + 1 := by omega
            subst hj
            intro hpos
            apply hcond
            rw [hmB, hmC]
            refine ⟨⟨rfl, rfl, hpos.1.symm, hpos.2.symm⟩, ?_⟩
            unfold PlantState.member
            rw [hmB, hmC, hpos.1, hpos.2, hsame]
            exact hav0

/-- A later pass does not touch a component that is not available. -/
theorem laterPass_unavailable (env : Env) (L S P K : Nat)
    (body : PlantState × ℚ → Nat → PlantState × ℚ)
    (hbody : (∃ d, body = optimalStep2Body env L S P K d) ∨
      body = optimalStep3Body env L S P K ∨ body = uniformStep2Body env L S P K)
    (s : PlantState) (R : ℚ) (B0 C0 : Nat) (hun : (s.comp L S B0 C0).Available = false) :
    ∀ n, SameSkeleton s (forLoop body (s, R) n).1 ∧
      (forLoop body (s, R) n).1.comp L S B0 C0 = s.comp L S B0 C0 := by
  intro n
  induction n with
  | zero => exact ⟨SameSkeleton.refl s, rfl⟩
  | succ n ih =>
    simp only [forLoop]
    generalize forLoop body (s, R) n = acc at ih ⊢
    obtain ⟨s1, R1⟩ := acc
    obtain ⟨hsk, hc⟩ := ih
    simp only [] at hsk hc
    obtain ⟨hs2, hc2⟩ := laterPass_comp env L S P K s1 R1 (n + 1) body hbody
    refine ⟨hsk.trans hs2, ?_⟩
    rw [hc2, if_neg, hc]
    intro h
    obtain ⟨⟨_, _, hB, hC⟩, hav⟩ := h
    unfold PlantState.member at hav
    rw [← hB, ← hC, hc, hun] at hav
    exact absurd hav (by decide)

/-- The closing loop seen from one component: only its `ON` flag can change,
and once one of the first `n` members is this component the flag is set from
its load. -/
theorem closingLoop_comp (env : Env) (L S P K : Nat) (s : PlantState) (B0 C0 : Nat) :
    ∀ n, SameSkeleton s (forLoop (updateOnFlagBody env L S P K) s n) ∧
      (forLoop (updateOnFlagBody env L S P K) s n).comp L S B0 C0 =
        { s.comp L S B0 C0 with
          ON := ((forLoop (updateOnFlagBody env L S P K) s n).comp L S B0 C0).ON } ∧
      ((∃ j, 1 ≤ j ∧ j ≤ n ∧ s.memberBranch L P K j = B0 ∧ s.memberComp L P K j = C0) →
        ((forLoop (updateOnFlagBody env L S P K) s n).comp L S B0 C0).ON =
          decide (¬ |(s.comp L S B0 C0).MyLoad| < env.SmallLoad)) := by
  intro n
  induction n with
  | zero =>
    refine ⟨SameSkeleton.refl s, rfl, ?_⟩
    rintro ⟨j, h1, h2, _⟩
    omega
  | succ n ih =>
    simp only [forLoop]
    generalize forLoop (updateOnFlagBody env L S P K) s n = s1 at ih ⊢
    obtain ⟨hsk, hc, hon⟩ := ih
    obtain ⟨hs2, hc2⟩ := updateOnFlagBody_comp env L S P K s1 (n + 1)
    have hmB := hsk.memberBranch L P K (n + 1)
    have hmC := hsk.memberComp L P K (n + 1)
    have hload : (s1.comp L S B0 C0).MyLoad = (s.comp L S B0 C0).MyLoad := by rw [hc]
    refine ⟨hsk.trans hs2, ?_, ?_⟩
    · rw [hc2]
      split
      · rename_i h
        obtain ⟨_, _, hB, hC⟩ := h
        unfold PlantState.member
        rw [← hB, ← hC]
        simp only []
        rw [hc]
      · rw [hc]
    · rintro ⟨j, hj1, hj2, hjB, hjC⟩
      rw [hc2]
      by_cases hp : L = L ∧ S = S ∧ B0 = s1.memberBranch L P K (n + 1) ∧
          C0 = s1.memberComp L P K (n + 1)
      · rw [if_pos hp]
        obtain ⟨_, _, hB, hC⟩ := hp
        unfold PlantState.member
        rw [← hB, ← hC]
        simp only []
        rw [hload]
      · rw [if_neg hp]
        have hjn : j ≤ n := by
          by_contra hcon
          have hj : j = n + 1 := by omega
          subst hj
          apply hp
          rw [hmB, hmC]
          exact ⟨rfl, rfl, hjB.symm, hjC.symm⟩
        exact hon ⟨j, hj1, hjn, hjB, hjC⟩

/-- A whole first pass over a list that has the tripped component among its
members leaves it shut down. -/
theorem firstPass_tripped_done (env : Env) (st : PlantState) (L S P K : Nat)
    (target : CompData → ℚ → ℚ) (i : Nat) (hi1 : 1 ≤ i)
    (hi2 : i ≤ (st.equipList L P K).NumComps)
    (hav0 : (st.member L S P K i).Available = true)
    (htrip : freeCoolTripped env st (st.member L S P K i)) (R0 : ℚ) :
    SameSkeleton st (forLoop (firstPassBody env L S P K target) (st, R0)
      (st.equipList L P K).NumComps).1 ∧
    shutForFreeCooling ((forLoop (firstPassBody env L S P K target) (st, R0)
      (st.equipList L P K).NumComps).1.comp L S (st.memberBranch L P K i)
      (st.memberComp L P K i)) := by
  obtain ⟨h1, _, h3⟩ := firstPass_tripped env st L S P K target (st.memberBranch L P K i)
    (st.memberComp L P K i) hav0 htrip R0 (st.equipList L P K).NumComps
  refine ⟨h1, ?_⟩
  rcases h3 with hdone | ⟨_, hnot⟩
  · exact hdone
  · exact absurd ⟨rfl, rfl⟩ (hnot i hi1 hi2)

/-- A later pass keeps a component that is shut down for free cooling as it
is. -/
theorem laterPass_keeps_shut (env : Env) (L S P K : Nat)
    (body : PlantState × ℚ → Nat → PlantState × ℚ)
    (hbody : (∃ d, body = optimalStep2Body env L S P K d) ∨
      body = optimalStep3Body env L S P K ∨ body = uniformStep2Body env L S P K)
    (st : PlantState) (acc : PlantState × ℚ) (B0 C0 n : Nat)
    (h : SameSkeleton st acc.1 ∧ shutForFreeCooling (acc.1.comp L S B0 C0)) :
    SameSkeleton st (forLoop body acc n).1 ∧
      shutForFreeCooling ((forLoop body acc n).1.comp L S B0 C0) := by
  obtain ⟨s, R⟩ := acc
  obtain ⟨h1, h2⟩ := laterPass_unavailable env L S P K body hbody s R B0 C0 h.2.2.1 n
  refine ⟨h.1.trans h1, ?_⟩
  rw [h2]
  exact h.2

/-- A property of the running pair that the first pass establishes and the
later passes keep holds after the optimal distribution. -/
theorem distributeOptimal_induction (env : Env) (L S P K N : Nat) (acc : PlantState × ℚ)
    (Q : PlantState × ℚ → Prop)
    (h1 : Q (forLoop (firstPassBody env L S P K optimalTarget) acc N))
    (h2 : ∀ a d, Q a → Q (forLoop (optimalStep2Body env L S P K d) a N))
    (h3 : ∀ a, Q a → Q (forLoop (optimalStep3Body env L S P K) a N)) :
    Q (distributeOptimal env L S P K N acc) := by
  unfold distributeOptimal
  simp only []
  generalize forLoop (firstPassBody env L S P K optimalTarget) acc N = a1 at h1 ⊢
  have h12 : Q (if |a1.2| > env.SmallLoad then
      forLoop (optimalStep2Body env L S P K (|a1.2| / (N : ℚ))) a1 N else a1) := by
    split
    · exact h2 _ _ h1
    · exact h1
  generalize (if |a1.2| > env.SmallLoad then
      forLoop (optimalStep2Body env L S P K (|a1.2| / (N : ℚ))) a1 N else a1) = a2 at h12 ⊢
  split
  · exact h3 _ h12
  · exact h12

/-- The same for the uniform distribution. -/
theorem distributeUniform_induction (env : Env) (L S P K N : Nat) (acc : PlantState × ℚ)
    (Q : PlantState × ℚ → Prop)
    (h1 : ∀ u, Q (forLoop (firstPassBody env L S P K (uniformTarget u)) acc N))
    (h2 : ∀ a, Q a → Q (forLoop (uniformStep2Body env L S P K) a N)) :
    Q (distributeUniform env L S P K N acc) := by
  unfold distributeUniform
  simp only []
  split
  · exact h2 _ (h1 _)
  · exact h1 _

/-- The distribution proper (the three policies, before the closing loop)
leaves a tripped member shut down. -/
theorem distribute_tripped (env : Env) (st : PlantState) (L S P K : Nat) (D : ℚ) (i : Nat)
    (hi1 : 1 ≤ i) (hi2 : i ≤ (st.equipList L P K).NumComps)
    (hav0 : (st.member L S P K i).Available = true)
    (htrip : freeCoolTripped env st (st.member L S P K i)) :
    (SameSkeleton st (distributeOptimal env L S P K (st.equipList L P K).NumComps (st, D)).1 ∧
      shutForFreeCooling ((distributeOptimal env L S P K (st.equipList L P K).NumComps
        (st, D)).1.comp L S (st.memberBranch L P K i) (st.memberComp L P K i))) ∧
    (SameSkeleton st (distributeSequential env L S P K (st.equipList L P K).NumComps (st, D)).1 ∧
      shutForFreeCooling ((distributeSequential env L S P K (st.equipList L P K).NumComps
        (st, D)).1.comp L S (st.memberBranch L P K i) (st.memberComp L P K i))) ∧
    (SameSkeleton st (distributeUniform env L S P K (st.equipList L P K).NumComps (st, D)).1 ∧
      shutForFreeCooling ((distributeUniform env L S P K (st.equipList L P K).NumComps
        (st, D)).1.comp L S (st.memberBranch L P K i) (st.memberComp L P K i))) := by
  refine ⟨?_, ?_, ?_⟩
  · apply distributeOptimal_induction env L S P K _ (st, D)
      (fun a => SameSkeleton st a.1 ∧
        shutForFreeCooling (a.1.comp L S (st.memberBranch L P K i) (st.memberComp L P K i)))
    · exact firstPass_tripped_done env st L S P K optimalTarget i hi1 hi2 hav0 htrip D
    · intro a d ha
      exact laterPass_keeps_shut env L S P K _ (Or.inl ⟨d, rfl⟩) st a _ _ _ ha
    · intro a ha
      exact laterPass_keeps_shut env L S P K _ (Or.inr (Or.inl rfl)) st a _ _ _ ha
  · unfold distributeSequential
    exact firstPass_tripped_done env st L S P K sequentialTarget i hi1 hi2 hav0 htrip D
  · apply distributeUniform_induction env L S P K _ (st, D)
      (fun a => SameSkeleton st a.1 ∧
        shutForFreeCooling (a.1.comp L S (st.memberBranch L P K i) (st.memberComp L P K i)))
    · intro u
      exact firstPass_tripped_done env st L S P K (uniformTarget u) i hi1 hi2 hav0 htrip D
    · intro a ha
      exact laterPass_keeps_shut env L S P K _ (Or.inr (Or.inr rfl)) st a _ _ _ ha


/-! # Claim on the free cooling shut-down -/

/-- `DistributePlantLoad` on a non-empty list with a demand that is not below
`SmallLoad`: the distribution proper under the policy of the loop, then the
closing loop. -/
theorem DistributePlantLoad_eq (env : Env) (st : PlantState) (L S P K : Nat) (D : ℚ)
    (hn : (st.equipList L P K).NumComps ≠ 0) (hD : env.SmallLoad ≤ |D|) :
    DistributePlantLoad env st L S P K D =
      (forLoop (updateOnFlagBody env L S P K)
          (match (st.PlantLoop L).LoadDistribution with
            | LoadingScheme.OptimalLoading =>
                distributeOptimal env L S P K (st.equipList L P K).NumComps (st, D)
            | LoadingScheme.SequentialLoading =>
                distributeSequential env L S P K (st.equipList L P K).NumComps (st, D)
            | LoadingScheme.UniformLoading =>
                distributeUniform env L S P K (st.equipList L P K).NumComps (st, D)
            | LoadingScheme.UnsetLoading => (st, D)).1 (st.equipList L P K).NumComps,
        (match (st.PlantLoop L).LoadDistribution with
            | LoadingScheme.OptimalLoading =>
                distributeOptimal env L S P K (st.equipList L P K).NumComps (st, D)
            | LoadingScheme.SequentialLoading =>
                distributeSequential env L S P K (st.equipList L P K).NumComps (st, D)
            | LoadingScheme.UniformLoading =>
                distributeUniform env L S P K (st.equipList L P K).NumComps (st, D)
            | LoadingScheme.UnsetLoading => (st, D)).2) := by
  unfold DistributePlantLoad
  simp only []
  rw [if_neg hn, if_neg (not_lt.mpr hD)]

/-- C15 (as amended). For each of the three distribution policies and every
demand with `|LoopDemand| >= SmallLoad` (`SmallLoad > 0`), however large: a
member of the list that is available on entry, is in free cooling shut-down
mode (alone or combined with the low outlet limit) and whose configured sensor
(wet bulb, dry bulb or loop node) reads below `FreeCoolCntrlMinCntrlTemp` ends
`DistributePlantLoad` with `MyLoad = 0`, `Available = false`,
`FreeCoolCntrlShutDown = true` and `ON = false`. -/
theorem C15_free_cooling_shuts_member_down (env : Env) (st : PlantState)
    (LoopNum LoopSideNum CurSchemePtr ListPtr : Nat) (LoopDemand : ℚ) (i : Nat)
    (hsmall : 0 < env.SmallLoad) (hD : env.SmallLoad ≤ |LoopDemand|)
    (hpol : (st.PlantLoop LoopNum).LoadDistribution ≠ LoadingScheme.UnsetLoading)
    (hi1 : 1 ≤ i) (hi2 : i ≤ (st.equipList LoopNum CurSchemePtr ListPtr).NumComps)
    (hav : (st.member LoopNum LoopSideNum CurSchemePtr ListPtr i).Available = true)
    (htrip : freeCoolTripped env st (st.member LoopNum LoopSideNum CurSchemePtr ListPtr i)) :
    ((DistributePlantLoad env st LoopNum LoopSideNum CurSchemePtr ListPtr LoopDemand).1.member
        LoopNum LoopSideNum CurSchemePtr ListPtr i).MyLoad = 0 ∧
    ((DistributePlantLoad env st LoopNum LoopSideNum CurSchemePtr ListPtr LoopDemand).1.member
        LoopNum LoopSideNum CurSchemePtr ListPtr i).Available = false ∧
    ((DistributePlantLoad env st LoopNum LoopSideNum CurSchemePtr ListPtr LoopDemand).1.member
        LoopNum LoopSideNum CurSchemePtr ListPtr i).FreeCoolCntrlShutDown = true ∧
    ((DistributePlantLoad env st LoopNum LoopSideNum CurSchemePtr ListPtr LoopDemand).1.member
        LoopNum LoopSideNum CurSchemePtr ListPtr i).ON = false := by
  have hn : (st.equipList LoopNum CurSchemePtr ListPtr).NumComps ≠ 0 := by omega
  obtain ⟨ho, hs, hu⟩ := distribute_tripped env st LoopNum LoopSideNum CurSchemePtr ListPtr
    LoopDemand i hi1 hi2 hav htrip
  rw [DistributePlantLoad_eq env st LoopNum LoopSideNum CurSchemePtr ListPtr LoopDemand hn hD]
  simp only []
  have ha : SameSkeleton st
        (match (st.PlantLoop LoopNum).LoadDistribution with
          | LoadingScheme.OptimalLoading =>
              distributeOptimal env LoopNum LoopSideNum CurSchemePtr ListPtr
                (st.equipList LoopNum CurSchemePtr ListPtr).NumComps (st, LoopDemand)
          | LoadingScheme.SequentialLoading =>
              distributeSequential env LoopNum LoopSideNum CurSchemePtr ListPtr
                (st.equipList LoopNum CurSchemePtr ListPtr).NumComps (st, LoopDemand)
          | LoadingScheme.UniformLoading =>
              distributeUniform env LoopNum LoopSideNum CurSchemePtr ListPtr
                (st.equipList LoopNum CurSchemePtr ListPtr).NumComps (st, LoopDemand)
          | LoadingScheme.UnsetLoading => (st, LoopDemand)).1 ∧
      shutForFreeCooling
        ((match (st.PlantLoop LoopNum).LoadDistribution with
          | LoadingScheme.OptimalLoading =>
              distributeOptimal env LoopNum LoopSideNum CurSchemePtr ListPtr
                (st.equipList LoopNum CurSchemePtr ListPtr).NumComps (st, LoopDemand)
          | LoadingScheme.SequentialLoading =>
              distributeSequential env LoopNum LoopSideNum CurSchemePtr ListPtr
                (st.equipList LoopNum CurSchemePtr ListPtr).NumComps (st, LoopDemand)
          | LoadingScheme.UniformLoading =>
              distributeUniform env LoopNum LoopSideNum CurSchemePtr ListPtr
                (st.equipList LoopNum CurSchemePtr ListPtr).NumComps (st, LoopDemand)
          | LoadingScheme.UnsetLoading => (st, LoopDemand)).1.comp LoopNum LoopSideNum
            (st.memberBranch LoopNum CurSchemePtr ListPtr i)
            (st.memberComp LoopNum CurSchemePtr ListPtr i)) := by
    split
    · exact ho
    · exact hs
    · exact hu
    · rename_i hp; exact absurd hp hpol
  generalize (match (st.PlantLoop LoopNum).LoadDistribution with
          | LoadingScheme.OptimalLoading =>
              distributeOptimal env LoopNum LoopSideNum CurSchemePtr ListPtr
                (st.equipList LoopNum CurSchemePtr ListPtr).NumComps (st, LoopDemand)
          | LoadingScheme.SequentialLoading =>
              distributeSequential env LoopNum LoopSideNum CurSchemePtr ListPtr
                (st.equipList LoopNum CurSchemePtr ListPtr).NumComps (st, LoopDemand)
          | LoadingScheme.UniformLoading =>
              distributeUniform env LoopNum LoopSideNum CurSchemePtr ListPtr
                (st.equipList LoopNum CurSchemePtr ListPtr).NumComps (st, LoopDemand)
          | LoadingScheme.UnsetLoading => (st, LoopDemand)) = a at ha ⊢
  obtain ⟨hsk, hshut⟩ := ha
  obtain ⟨hsk2, hc, hon⟩ := closingLoop_comp env LoopNum LoopSideNum CurSchemePtr ListPtr a.1
    (st.memberBranch LoopNum CurSchemePtr ListPtr i)
    (st.memberComp LoopNum CurSchemePtr ListPtr i)
    (st.equipList LoopNum CurSchemePtr ListPtr).NumComps
  have hmem : (forLoop (updateOnFlagBody env LoopNum LoopSideNum CurSchemePtr ListPtr) a.1
        (st.equipList LoopNum CurSchemePtr ListPtr).NumComps).member
        LoopNum LoopSideNum CurSchemePtr ListPtr i =
      (forLoop (updateOnFlagBody env LoopNum LoopSideNum CurSchemePtr ListPtr) a.1
        (st.equipList LoopNum CurSchemePtr ListPtr).NumComps).comp LoopNum LoopSideNum
        (st.memberBranch LoopNum CurSchemePtr ListPtr i)
        (st.memberComp LoopNum CurSchemePtr ListPtr i) := by
    unfold PlantState.member
    rw [(hsk.trans hsk2).memberBranch, (hsk.trans hsk2).memberComp]
  have hon2 := hon ⟨i, hi1, hi2, hsk.memberBranch _ _ _ _, hsk.memberComp _ _ _ _⟩
  obtain ⟨h1, h2, h3⟩ := hshut
  rw [hmem]
  refine ⟨?_, ?_, ?_, ?_⟩
  · rw [hc]; exact h1
  · rw [hc]; exact h2
  · rw [hc]; exact h3
  · rw [hon2, h1]
    simp only [abs_zero, decide_eq_false_iff_not, not_not]
    exact hsmall

/-- The sample chiller's free cooling control is tripped at the sample
environment: the outdoor dry bulb temperature is 20 C, the threshold 25 C. -/
theorem freeCoolChiller_tripped (lowLimit : Bool) (st : PlantState) :
    freeCoolTripped demoEnv st (freeCoolChiller lowLimit) := by
  unfold freeCoolTripped freeCoolTsensor
  refine ⟨?_, ?_, ?_⟩
  · cases lowLimit
    · left; rfl
    · right; rfl
  · simp [freeCoolChiller]
  · simp only [freeCoolChiller, demoEnv]
    norm_num

/-- C15 at the first sample plant: two chillers with free cooling control
(the first with the low outlet limit as well), optimal policy, cooling demand
of 1 MW; the first chiller ends with no load, unavailable, shut down for free
cooling and off. -/
theorem C15_free_cooling_witness :
    ((DistributePlantLoad demoEnv
        (demoPlant LoadingScheme.OptimalLoading 2 0 1000 (fun B => freeCoolChiller (B = 1)))
        1 2 1 1 (-1000000)).1.member 1 2 1 1 1).MyLoad = 0 ∧
    ((DistributePlantLoad demoEnv
        (demoPlant LoadingScheme.OptimalLoading 2 0 1000 (fun B => freeCoolChiller (B = 1)))
        1 2 1 1 (-1000000)).1.member 1 2 1 1 1).Available = false ∧
    ((DistributePlantLoad demoEnv
        (demoPlant LoadingScheme.OptimalLoading 2 0 1000 (fun B => freeCoolChiller (B = 1)))
        1 2 1 1 (-1000000)).1.member 1 2 1 1 1).FreeCoolCntrlShutDown = true ∧
    ((DistributePlantLoad demoEnv
        (demoPlant LoadingScheme.OptimalLoading 2 0 1000 (fun B => freeCoolChiller (B = 1)))
        1 2 1 1 (-1000000)).1.member 1 2 1 1 1).ON = false :=
  C15_free_cooling_shuts_member_down demoEnv
    (demoPlant LoadingScheme.OptimalLoading 2 0 1000 (fun B => freeCoolChiller (B = 1)))
    1 2 1 1 (-1000000) 1
    (by norm_num [demoEnv]) (by norm_num [demoEnv, abs_of_neg]) (by simp) (le_refl 1)
    (by simp) (by simp [freeCoolChiller])
    (by rw [demoPlant_member]; exact freeCoolChiller_tripped _ _)

/-- C15 (counterexample). First sample plant with one chiller with free
cooling control whose sensor (20 C) is below its threshold (25 C), sequential
policy, demand 0.5 W (`SmallLoad = 1`): nothing is distributed and the chiller
is still available and not shut down for free cooling when
`DistributePlantLoad` returns. -/
theorem C15_small_demand_leaves_member_available :
    ((demoPlant LoadingScheme.SequentialLoading 1 0 1000
        (fun _ => freeCoolChiller false)).member 1 2 1 1 1).Available = true ∧
    freeCoolTripped demoEnv
      (demoPlant LoadingScheme.SequentialLoading 1 0 1000 (fun _ => freeCoolChiller false))
      ((demoPlant LoadingScheme.SequentialLoading 1 0 1000
        (fun _ => freeCoolChiller false)).member 1 2 1 1 1) ∧
    ((DistributePlantLoad demoEnv
        (demoPlant LoadingScheme.SequentialLoading 1 0 1000 (fun _ => freeCoolChiller false))
        1 2 1 1 (1 / 2)).1.member 1 2 1 1 1).Available = true ∧
    ((DistributePlantLoad demoEnv
        (demoPlant LoadingScheme.SequentialLoading 1 0 1000 (fun _ => freeCoolChiller false))
        1 2 1 1 (1 / 2)).1.member 1 2 1 1 1).FreeCoolCntrlShutDown = false := by
  have e : DistributePlantLoad demoEnv
      (demoPlant LoadingScheme.SequentialLoading 1 0 1000 (fun _ => freeCoolChiller false))
      1 2 1 1 (1 / 2) =
      ((demoPlant LoadingScheme.SequentialLoading 1 0 1000
          (fun _ => freeCoolChiller false)).modifyComp 1 2 1 1
        (fun c => { c with ON := false }), 1 / 2) := by
    unfold DistributePlantLoad
    norm_num [forLoop, updateOnFlagBody_eq, demoEnv, freeCoolChiller, abs_of_pos]
  refine ⟨by simp [freeCoolChiller], by rw [demoPlant_member]; exact freeCoolChiller_tripped _ _,
    ?_, ?_⟩
  · rw [e]
    simp [PlantState.member, PlantState.memberBranch, PlantState.memberComp, freeCoolChiller]
  · rw [e]
    simp [PlantState.member, PlantState.memberBranch, PlantState.memberComp, freeCoolChiller]

/-! # The clean-up loop and the pipes, component by component -/

/-- A relation between the records of a plant and those of a plant derived
from it is kept by a component assignment that keeps it. -/
theorem rel_modifyComp (Rel : CompData → CompData → Prop) (f : CompData → CompData)
    (st s : PlantState) (L S B C : Nat)
    (hf : Rel (st.comp L S B C) (s.comp L S B C) → Rel (st.comp L S B C) (f (s.comp L S B C)))
    (h : ∀ L2 S2 B2 C2, Rel (st.comp L2 S2 B2 C2) (s.comp L2 S2 B2 C2)) :
    ∀ L2 S2 B2 C2, Rel (st.comp L2 S2 B2 C2) ((s.modifyComp L S B C f).comp L2 S2 B2 C2) := by
  intro L2 S2 B2 C2
  rw [comp_modifyComp]
  split
  · rename_i hp
    obtain ⟨rfl, rfl, rfl, rfl⟩ := hp
    exact hf (h _ _ _ _)
  · exact h _ _ _ _

/-- The clean-up loop of the driver clears loads and does nothing else. -/
theorem nullOtherLists_comp (st : PlantState) (L S P n cur : Nat) :
    ∀ L2 S2 B2 C2, loadCleared (st.comp L2 S2 B2 C2)
      ((nullOtherLists st L S P n cur).comp L2 S2 B2 C2) := by
  unfold nullOtherLists
  apply forLoop_induction
    (fun s : PlantState => ∀ L2 S2 B2 C2, loadCleared (st.comp L2 S2 B2 C2) (s.comp L2 S2 B2 C2))
  · intro L2 S2 B2 C2; exact Or.inl rfl
  · intro s i hs
    simp only []
    split
    · exact hs
    · apply forLoop_induction
        (fun s : PlantState => ∀ L2 S2 B2 C2, loadCleared (st.comp L2 S2 B2 C2) (s.comp L2 S2 B2 C2))
      · exact hs
      · intro s2 k hs2
        apply rel_modifyComp loadCleared _ st s2 _ _ _ _ _ hs2
        intro h
        rcases h with h | h
        · right; rw [h]
        · right; rw [h]

/-- `TurnOnPlantLoopPipes` touches component records only. -/
theorem TurnOnPlantLoopPipes_skeleton (st : PlantState) (L S : Nat) :
    SameSkeleton st (TurnOnPlantLoopPipes st L S) := by
  unfold TurnOnPlantLoopPipes
  apply forLoop_induction (fun s => SameSkeleton st s)
  · exact SameSkeleton.refl st
  · intro s i hs
    apply forLoop_induction (fun s => SameSkeleton st s)
    · exact hs
    · intro s2 k hs2
      split
      · exact hs2.trans (SameSkeleton.modifyComp _ _ _ _ _ _)
      · exact hs2.trans (SameSkeleton.modifyComp _ _ _ _ _ _)
      · exact hs2.trans (SameSkeleton.modifyComp _ _ _ _ _ _)
      · exact hs2.trans (SameSkeleton.modifyComp _ _ _ _ _ _)
      · exact hs2

/-- `TurnOnPlantLoopPipes` switches pipes on and does nothing else. -/
theorem TurnOnPlantLoopPipes_comp (st : PlantState) (L S : Nat) :
    ∀ L2 S2 B2 C2, pipeSwitchedOn (st.comp L2 S2 B2 C2)
      ((TurnOnPlantLoopPipes st L S).comp L2 S2 B2 C2) := by
  have hstep : ∀ (s : PlantState) (B C : Nat),
      isPipeType (s.comp L S B C).TypeOf_Num →
      (∀ L2 S2 B2 C2, pipeSwitchedOn (st.comp L2 S2 B2 C2) (s.comp L2 S2 B2 C2)) →
      ∀ L2 S2 B2 C2, pipeSwitchedOn (st.comp L2 S2 B2 C2)
        ((s.modifyComp L S B C (fun c => { c with ON := true })).comp L2 S2 B2 C2) := by
    intro s B C hpipe hs
    apply rel_modifyComp pipeSwitchedOn _ st s _ _ _ _ _ hs
    intro h
    rcases h with h | ⟨hp, h⟩
    · right
      rw [h] at hpipe
      exact ⟨hpipe, by rw [h]⟩
    · right
      exact ⟨hp, by rw [h]⟩
  unfold TurnOnPlantLoopPipes
  apply forLoop_induction
    (fun s : PlantState => ∀ L2 S2 B2 C2, pipeSwitchedOn (st.comp L2 S2 B2 C2) (s.comp L2 S2 B2 C2))
  · intro L2 S2 B2 C2; exact Or.inl rfl
  · intro s i hs
    apply forLoop_induction
      (fun s : PlantState => ∀ L2 S2 B2 C2, pipeSwitchedOn (st.comp L2 S2 B2 C2) (s.comp L2 S2 B2 C2))
    · exact hs
    · intro s2 k hs2
      split
      · rename_i h; exact hstep s2 i k (Or.inl h) hs2
      · rename_i h; exact hstep s2 i k (Or.inr (Or.inl h)) hs2
      · rename_i h; exact hstep s2 i k (Or.inr (Or.inr (Or.inl h))) hs2
      · rename_i h; exact hstep s2 i k (Or.inr (Or.inr (Or.inr h))) hs2
      · exact hs2

/-! # Distribution on a branch shut by a supervisory override -/

theorem SameSkeleton.blocked {st st' : PlantState} (h : SameSkeleton st st') (L S B : Nat)
    (hb : emsBlocked st L S B) : emsBlocked st' L S B := by
  unfold emsBlocked at *
  rw [h.sideEMSCtrl, h.sideEMSValue, h.branchEMSCtrlOverrideOn, h.branchEMSCtrlOverrideValue]
  exact hb

theorem atRest.cleared {c0 c c' : CompData} (h : atRest c0 c) (hc : loadCleared c c') :
    atRest c0 c' := by
  rcases hc with hc | hc
  · rw [hc]; exact h
  · rw [hc]
    exact ⟨h.1.setMyLoad 0, rfl, h.2.2⟩

theorem atRest.piped {c0 c c' : CompData} (h : atRest c0 c) (hc : pipeSwitchedOn c c') :
    atRest c0 c' := by
  rcases hc with hc | ⟨hp, hc⟩
  · rw [hc]; exact h
  · rw [hc]
    refine ⟨h.1.setON true, h.2.1, ?_⟩
    intro _
    have : c.TypeOf_Num = c0.TypeOf_Num := by rw [h.1]
    rw [← this]
    exact hp

/-- A first pass over a list on a half loop that is shut by its supervisory
override: a component at rest stays at rest. -/
theorem firstPass_rest (env : Env) (L S P K : Nat) (target : CompData → ℚ → ℚ)
    (s0 : PlantState) (R0 : ℚ)
    (hside : (s0.side L S).EMSCtrl = true ∧ (s0.side L S).EMSValue ≤ 0) :
    ∀ k, SameSkeleton s0 (forLoop (firstPassBody env L S P K target) (s0, R0) k).1 ∧
      ∀ B C c0, atRest c0 (s0.comp L S B C) →
        atRest c0 ((forLoop (firstPassBody env L S P K target) (s0, R0) k).1.comp L S B C) := by
  intro k
  induction k with
  | zero => exact ⟨SameSkeleton.refl s0, fun _ _ _ h => h⟩
  | succ k ih =>
    simp only [forLoop]
    generalize forLoop (firstPassBody env L S P K target) (s0, R0) k = acc at ih ⊢
    obtain ⟨s, R⟩ := acc
    obtain ⟨hsk, hrest⟩ := ih
    simp only [] at hsk hrest
    obtain ⟨hs2, hc2⟩ := firstPassBody_comp env L S P K target s R (k + 1)
    refine ⟨hsk.trans hs2, ?_⟩
    intro B C c0 h0
    have hr := hrest B C c0 h0
    rw [hc2]
    split
    · rename_i hcond
      obtain ⟨⟨_, _, hB, hC⟩, _⟩ := hcond
      have hmem : s.member L S P K (k + 1) = s.comp L S B C := by
        unfold PlantState.member; rw [← hB, ← hC]
      have hz := adjustChangeInLoad_blocked env s L S P K (s.memberBranch L P K (k + 1))
        (s.memberComp L P K (k + 1)) (target (s.member L S P K (k + 1)) R)
        (hsk.blocked L S _ (Or.inl hside))
      rw [hmem] at hz ⊢
      refine ⟨(hr.1.followedBy (sameMachine.flagsFrom _ _)).setMyLoad _, ?_, ?_⟩
      · simp only [hz]
        exact sign_zero_left R
      · exact hr.2.2
    · exact hr

/-- The closing loop keeps a component at rest at rest (`SmallLoad > 0`). -/
theorem closingLoop_rest (env : Env) (L S P K : Nat) (s0 : PlantState)
    (hsmall : 0 < env.SmallLoad) :
    ∀ n B C c0, atRest c0 (s0.comp L S B C) →
      atRest c0 ((forLoop (updateOnFlagBody env L S P K) s0 n).comp L S B C) := by
  intro n
  induction n with
  | zero => exact fun _ _ _ h => h
  | succ n ih =>
    intro B C c0 h0
    simp only [forLoop]
    have hr := ih B C c0 h0
    generalize forLoop (updateOnFlagBody env L S P K) s0 n = s at hr ⊢
    obtain ⟨_, hc2⟩ := updateOnFlagBody_comp env L S P K s (n + 1)
    rw [hc2]
    split
    · rename_i hcond
      obtain ⟨_, _, hB, hC⟩ := hcond
      have hmem : s.member L S P K (n + 1) = s.comp L S B C := by
        unfold PlantState.member; rw [← hB, ← hC]
      rw [hmem]
      refine ⟨hr.1.setON _, hr.2.1, ?_⟩
      intro hon
      simp only [hr.2.1, abs_zero, decide_eq_true_eq, not_lt] at hon
      exact absurd hsmall (not_lt.mpr hon)
    · exact hr

/-- `DistributePlantLoad` under the sequential policy on a half loop that is
shut by its supervisory override: a component at rest stays at rest. -/
theorem DistributePlantLoad_rest (env : Env) (st : PlantState) (L S P K : Nat) (D : ℚ)
    (hseq : (st.PlantLoop L).LoadDistribution = LoadingScheme.SequentialLoading)
    (hside : (st.side L S).EMSCtrl = true ∧ (st.side L S).EMSValue ≤ 0)
    (hsmall : 0 < env.SmallLoad) :
    ∀ B C c0, atRest c0 (st.comp L S B C) →
      atRest c0 ((DistributePlantLoad env st L S P K D).1.comp L S B C) := by
  intro B C c0 h0
  unfold DistributePlantLoad
  simp only []
  split
  · exact h0
  · simp only []
    apply closingLoop_rest env L S P K _ hsmall
    split
    · exact h0
    · rw [hseq]
      simp only []
      unfold distributeSequential
      exact (firstPass_rest env L S P K sequentialTarget st D hside _).2 B C c0 h0

/-- A first pass seen from an available member `( B0, C0 )` on a branch shut
by a supervisory override: after `k` iterations the member has been given a
zero load, or it is untouched and is none of the first `k` members. -/
theorem firstPass_blocked (env : Env) (st : PlantState) (L S P K : Nat)
    (target : CompData → ℚ → ℚ) (B0 C0 : Nat)
    (hav0 : (st.comp L S B0 C0).Available = true)
    (hblk : emsBlocked st L S B0) (R0 : ℚ) :
    ∀ k,
      SameSkeleton st (forLoop (firstPassBody env L S P K target) (st, R0) k).1 ∧
      (((forLoop (firstPassBody env L S P K target) (st, R0) k).1.comp L S B0 C0).MyLoad = 0 ∨
       ((forLoop (firstPassBody env L S P K target) (st, R0) k).1.comp L S B0 C0 =
          st.comp L S B0 C0 ∧
        ∀ j, 1 ≤ j → j ≤ k →
          ¬ (st.memberBranch L P K j = B0 ∧ st.memberComp L P K j = C0))) := by
  intro k
  induction k with
  | zero =>
    refine ⟨SameSkeleton.refl st, Or.inr ⟨rfl, ?_⟩⟩
    intro j h1 h2; omega
  | succ k ih =>
    simp only [forLoop]
    generalize forLoop (firstPassBody env L S P K target) (st, R0) k = acc at ih ⊢
    obtain ⟨s, R⟩ := acc
    obtain ⟨hsk, hcase⟩ := ih
    simp only [] at hsk hcase
    obtain ⟨hs2, hc2⟩ := firstPassBody_comp env L S P K target s R (k + 1)
    have hmB := hsk.memberBranch L P K (k + 1)
    have hmC := hsk.memberComp L P K (k + 1)
    refine ⟨hsk.trans hs2, ?_⟩
    rw [hc2]
    by_cases hcond : (L = L ∧ S = S ∧ B0 = s.memberBranch L P K (k + 1) ∧
        C0 = s.memberComp L P K (k + 1)) ∧ (s.member L S P K (k + 1)).Available = true
    · rw [if_pos hcond]
      obtain ⟨⟨_, _, hB, hC⟩, _⟩ := hcond
      left
      have hz := adjustChangeInLoad_blocked env s L S P K (s.memberBranch L P K (k + 1))
        (s.memberComp L P K (k + 1)) (target (s.member L S P K (k + 1)) R)
        (hsk.blocked L S _ (by rw [← hB]; exact hblk))
      simp only [hz]
      exact sign_zero_left R
    · rw [if_neg hcond]
      rcases hcase with hdone | ⟨hsame, hnot⟩
      · exact Or.inl hdone
      · right
        refine ⟨hsame, ?_⟩
        intro j hj1 hj2
        by_cases hjk : j ≤ k
        · exact hnot j hj1 hjk
        · have hj : j = k + 1 := by omega
          subst hj
          intro hpos
          apply hcond
          rw [hmB, hmC]
          refine ⟨⟨rfl, rfl, hpos.1.symm, hpos.2.symm⟩, ?_⟩
          unfold PlantState.member
          rw [hmB, hmC, hpos.1, hpos.2, hsame]
          exact hav0

/-- `DistributePlantLoad` under the sequential policy, for a demand that is
not below `SmallLoad`: a member that is available on entry and lies on a branch
shut by a supervisory override ends with no load and off. -/
theorem DistributePlantLoad_blocked_member (env : Env) (st : PlantState) (L S P K : Nat)
    (D : ℚ) (i : Nat)
    (hseq : (st.PlantLoop L).LoadDistribution = LoadingScheme.SequentialLoading)
    (hsmall : 0 < env.SmallLoad) (hD : env.SmallLoad ≤ |D|)
    (hi1 : 1 ≤ i) (hi2 : i ≤ (st.equipList L P K).NumComps)
    (hav : (st.member L S P K i).Available = true)
    (hblk : emsBlocked st L S (st.memberBranch L P K i)) :
    ((DistributePlantLoad env st L S P K D).1.comp L S (st.memberBranch L P K i)
        (st.memberComp L P K i)).MyLoad = 0 ∧
    ((DistributePlantLoad env st L S P K D).1.comp L S (st.memberBranch L P K i)
        (st.memberComp L P K i)).ON = false := by
  have hn : (st.equipList L P K).NumComps ≠ 0 := by omega
  rw [DistributePlantLoad_eq env st L S P K D hn hD, hseq]
  simp only []
  unfold distributeSequential
  obtain ⟨hsk, hcase⟩ := firstPass_blocked env st L S P K sequentialTarget
    (st.memberBranch L P K i) (st.memberComp L P K i) hav hblk D (st.equipList L P K).NumComps
  have hzero : ((forLoop (firstPassBody env L S P K sequentialTarget) (st, D)
      (st.equipList L P K).NumComps).1.comp L S (st.memberBranch L P K i)
      (st.memberComp L P K i)).MyLoad = 0 := by
    rcases hcase with h | ⟨_, hnot⟩
    · exact h
    · exact absurd ⟨rfl, rfl⟩ (hnot i hi1 hi2)
  obtain ⟨_, hc, hon⟩ := closingLoop_comp env L S P K
    (forLoop (firstPassBody env L S P K sequentialTarget) (st, D)
      (st.equipList L P K).NumComps).1
    (st.memberBranch L P K i) (st.memberComp L P K i) (st.equipList L P K).NumComps
  have hon2 := hon ⟨i, hi1, hi2, hsk.memberBranch _ _ _ _, hsk.memberComp _ _ _ _⟩
  refine ⟨by rw [hc]; exact hzero, ?_⟩
  rw [hon2, hzero]
  simp only [abs_zero, decide_eq_false_iff_not, not_not]
  exact hsmall

/-! # Exact effect of the pipes and frame of the distribution -/

/-- `TurnOnPlantLoopPipes` component by component: the components of the half
loop within the branch and component counts are `switchedOnIfPipe`, every other
component record is untouched. -/
theorem TurnOnPlantLoopPipes_spec (st : PlantState) (L S : Nat) :
    ∀ L2 S2 B2 C2, (TurnOnPlantLoopPipes st L S).comp L2 S2 B2 C2 =
      if L2 = L ∧ S2 = S ∧ (1 ≤ B2 ∧ B2 ≤ (st.side L S).TotalBranches) ∧ 1 ≤ C2 ∧
          C2 ≤ (st.branch L S B2).TotalComponents
      then switchedOnIfPipe (st.comp L2 S2 B2 C2) else st.comp L2 S2 B2 C2 := by
  have e : TurnOnPlantLoopPipes st L S =
      forLoop (fun st B => forLoop (fun st C => st.modifyComp L S B C switchedOnIfPipe) st
        (st.branch L S B).TotalComponents) st (st.side L S).TotalBranches := by
    unfold TurnOnPlantLoopPipes
    congr 1
    funext s B
    congr 1
    funext s C
    unfold switchedOnIfPipe
    split
    · rename_i h
      apply modifyComp_congr
      simp only [h]
    · rename_i h
      apply modifyComp_congr
      simp only [h]
    · rename_i h
      apply modifyComp_congr
      simp only [h]
    · rename_i h
      apply modifyComp_congr
      simp only [h]
    · rename_i h1 h2 h3 h4
      symm
      apply modifyComp_eq_self
      split
      · rename_i h; exact absurd h h1
      · rename_i h; exact absurd h h2
      · rename_i h; exact absurd h h3
      · rename_i h; exact absurd h h4
      · rfl
  rw [e]
  exact (forLoop_branches_modifyComp L S switchedOnIfPipe st _).2

/-- A loop whose iterations write only the member at their position writes
only the members it runs through. -/
theorem forLoop_frame (L S P K : Nat) (body : PlantState × ℚ → Nat → PlantState × ℚ)
    (hbody : ∀ s R i, SameSkeleton s (body (s, R) i).1 ∧
      ∀ L2 S2 B2 C2,
        ¬ (L2 = L ∧ S2 = S ∧ B2 = s.memberBranch L P K i ∧ C2 = s.memberComp L P K i) →
        (body (s, R) i).1.comp L2 S2 B2 C2 = s.comp L2 S2 B2 C2)
    (acc : PlantState × ℚ) :
    ∀ n, SameSkeleton acc.1 (forLoop body acc n).1 ∧
      ∀ L2 S2 B2 C2,
        (∀ j, 1 ≤ j → j ≤ n →
          ¬ (L2 = L ∧ S2 = S ∧ B2 = acc.1.memberBranch L P K j ∧
            C2 = acc.1.memberComp L P K j)) →
        (forLoop body acc n).1.comp L2 S2 B2 C2 = acc.1.comp L2 S2 B2 C2 := by
  intro n
  induction n with
  | zero => exact ⟨SameSkeleton.refl _, fun _ _ _ _ _ => rfl⟩
  | succ n ih =>
    simp only [forLoop]
    obtain ⟨hsk, hc⟩ := ih
    generalize forLoop body acc n = a at hsk hc ⊢
    obtain ⟨s, R⟩ := a
    simp only [] at hsk hc
    obtain ⟨hs2, hc2⟩ := hbody s R (n + 1)
    refine ⟨hsk.trans hs2, ?_⟩
    intro L2 S2 B2 C2 hnot
    rw [hc2, hc]
    · intro j hj1 hj2
      exact hnot j hj1 (by omega)
    · rw [hsk.memberBranch, hsk.memberComp]
      exact hnot (n + 1) (by omega) (le_refl _)

/-- Each loop body of the distribution writes only the member at its position. -/
theorem firstPassBody_frame (env : Env) (L S P K : Nat) (target : CompData → ℚ → ℚ)
    (s : PlantState) (R : ℚ) (i : Nat) :
    SameSkeleton s (firstPassBody env L S P K target (s, R) i).1 ∧
    ∀ L2 S2 B2 C2,
      ¬ (L2 = L ∧ S2 = S ∧ B2 = s.memberBranch L P K i ∧ C2 = s.memberComp L P K i) →
      (firstPassBody env L S P K target (s, R) i).1.comp L2 S2 B2 C2 = s.comp L2 S2 B2 C2 := by
  obtain ⟨h1, h2⟩ := firstPassBody_comp env L S P K target s R i
  refine ⟨h1, ?_⟩
  intro L2 S2 B2 C2 hne
  rw [h2, if_neg (fun h => hne h.1)]

theorem laterPass_frame (env : Env) (L S P K : Nat)
    (body : PlantState × ℚ → Nat → PlantState × ℚ)
    (hbody : (∃ d, body = optimalStep2Body env L S P K d) ∨
      body = optimalStep3Body env L S P K ∨ body = uniformStep2Body env L S P K)
    (s : PlantState) (R : ℚ) (i : Nat) :
    SameSkeleton s (body (s, R) i).1 ∧
    ∀ L2 S2 B2 C2,
      ¬ (L2 = L ∧ S2 = S ∧ B2 = s.memberBranch L P K i ∧ C2 = s.memberComp L P K i) →
      (body (s, R) i).1.comp L2 S2 B2 C2 = s.comp L2 S2 B2 C2 := by
  obtain ⟨h1, h2⟩ := laterPass_comp env L S P K s R i body hbody
  refine ⟨h1, ?_⟩
  intro L2 S2 B2 C2 hne
  rw [h2, if_neg (fun h => hne h.1)]

/-- The closing loop writes only the members of the list. -/
theorem closingLoop_frame (env : Env) (L S P K : Nat) (s : PlantState) :
    ∀ n, SameSkeleton s (forLoop (updateOnFlagBody env L S P K) s n) ∧
      ∀ L2 S2 B2 C2,
        (∀ j, 1 ≤ j → j ≤ n →
          ¬ (L2 = L ∧ S2 = S ∧ B2 = s.memberBranch L P K j ∧ C2 = s.memberComp L P K j)) →
        (forLoop (updateOnFlagBody env L S P K) s n).comp L2 S2 B2 C2 = s.comp L2 S2 B2 C2 := by
  intro n
  induction n with
  | zero => exact ⟨SameSkeleton.refl _, fun _ _ _ _ _ => rfl⟩
  | succ n ih =>
    simp only [forLoop]
    obtain ⟨hsk, hc⟩ := ih
    generalize forLoop (updateOnFlagBody env L S P K) s n = s1 at hsk hc ⊢
    obtain ⟨hs2, hc2⟩ := updateOnFlagBody_comp env L S P K s1 (n + 1)
    refine ⟨hsk.trans hs2, ?_⟩
    intro L2 S2 B2 C2 hnot
    rw [hc2, if_neg, hc]
    · intro j hj1 hj2
      exact hnot j hj1 (by omega)
    · rw [hsk.memberBranch, hsk.memberComp]
      exact hnot (n + 1) (by omega) (le_refl _)

/-- `DistributePlantLoad` keeps the skeleton and writes only the members of
the list it is given. -/
theorem DistributePlantLoad_frame (env : Env) (st : PlantState) (L S P K : Nat) (D : ℚ) :
    SameSkeleton st (DistributePlantLoad env st L S P K D).1 ∧
    ∀ L2 S2 B2 C2,
      (∀ j, 1 ≤ j → j ≤ (st.equipList L P K).NumComps →
        ¬ (L2 = L ∧ S2 = S ∧ B2 = st.memberBranch L P K j ∧ C2 = st.memberComp L P K j)) →
      (DistributePlantLoad env st L S P K D).1.comp L2 S2 B2 C2 = st.comp L2 S2 B2 C2 := by
  have hQ : ∀ (body : PlantState × ℚ → Nat → PlantState × ℚ),
      (∀ s R i, SameSkeleton s (body (s, R) i).1 ∧
        ∀ L2 S2 B2 C2,
          ¬ (L2 = L ∧ S2 = S ∧ B2 = s.memberBranch L P K i ∧ C2 = s.memberComp L P K i) →
          (body (s, R) i).1.comp L2 S2 B2 C2 = s.comp L2 S2 B2 C2) →
      ∀ a : PlantState × ℚ,
        (SameSkeleton st a.1 ∧ ∀ L2 S2 B2 C2,
          (∀ j, 1 ≤ j → j ≤ (st.equipList L P K).NumComps →
            ¬ (L2 = L ∧ S2 = S ∧ B2 = st.memberBranch L P K j ∧
              C2 = st.memberComp L P K j)) →
          a.1.comp L2 S2 B2 C2 = st.comp L2 S2 B2 C2) →
        (SameSkeleton st (forLoop body a (st.equipList L P K).NumComps).1 ∧ ∀ L2 S2 B2 C2,
          (∀ j, 1 ≤ j → j ≤ (st.equipList L P K).NumComps →
            ¬ (L2 = L ∧ S2 = S ∧ B2 = st.memberBranch L P K j ∧
              C2 = st.memberComp L P K j)) →
          (forLoop body a (st.equipList L P K).NumComps).1.comp L2 S2 B2 C2 =
            st.comp L2 S2 B2 C2) := by
    intro body hbody a ha
    obtain ⟨h1, h2⟩ := forLoop_frame L S P K body hbody a (st.equipList L P K).NumComps
    refine ⟨ha.1.trans h1, ?_⟩
    intro L2 S2 B2 C2 hnot
    rw [h2, ha.2 _ _ _ _ hnot]
    intro j hj1 hj2
    rw [ha.1.memberBranch, ha.1.memberComp]
    exact hnot j hj1 hj2
  have h0 : SameSkeleton st (st, D).1 ∧ ∀ L2 S2 B2 C2,
      (∀ j, 1 ≤ j → j ≤ (st.equipList L P K).NumComps →
        ¬ (L2 = L ∧ S2 = S ∧ B2 = st.memberBranch L P K j ∧ C2 = st.memberComp L P K j)) →
      (st, D).1.comp L2 S2 B2 C2 = st.comp L2 S2 B2 C2 :=
    ⟨SameSkeleton.refl st, fun _ _ _ _ _ => rfl⟩
  have hdist : SameSkeleton st
        (if |D| < env.SmallLoad then (st, D)
          else
            match (st.PlantLoop L).LoadDistribution with
            | LoadingScheme.OptimalLoading =>
                distributeOptimal env L S P K (st.equipList L P K).NumComps (st, D)
            | LoadingScheme.SequentialLoading =>
                distributeSequential env L S P K (st.equipList L P K).NumComps (st, D)
            | LoadingScheme.UniformLoading =>
                distributeUniform env L S P K (st.equipList L P K).NumComps (st, D)
            | LoadingScheme.UnsetLoading => (st, D)).1 ∧
      ∀ L2 S2 B2 C2,
        (∀ j, 1 ≤ j → j ≤ (st.equipList L P K).NumComps →
          ¬ (L2 = L ∧ S2 = S ∧ B2 = st.memberBranch L P K j ∧ C2 = st.memberComp L P K j)) →
        (if |D| < env.SmallLoad then (st, D)
          else
            match (st.PlantLoop L).LoadDistribution with
            | LoadingScheme.OptimalLoading =>
                distributeOptimal env L S P K (st.equipList L P K).NumComps (st, D)
            | LoadingScheme.SequentialLoading =>
                distributeSequential env L S P K (st.equipList L P K).NumComps (st, D)
            | LoadingScheme.UniformLoading =>
                distributeUniform env L S P K (st.equipList L P K).NumComps (st, D)
            | LoadingScheme.UnsetLoading => (st, D)).1.comp L2 S2 B2 C2 =
          st.comp L2 S2 B2 C2 := by
    split
    · exact h0
    · split
      · apply distributeOptimal_induction env L S P K _ (st, D)
          (fun a : PlantState × ℚ => SameSkeleton st a.1 ∧ ∀ L2 S2 B2 C2,
            (∀ j, 1 ≤ j → j ≤ (st.equipList L P K).NumComps →
              ¬ (L2 = L ∧ S2 = S ∧ B2 = st.memberBranch L P K j ∧
                C2 = st.memberComp L P K j)) →
            a.1.comp L2 S2 B2 C2 = st.comp L2 S2 B2 C2)
        · exact hQ _ (firstPassBody_frame env L S P K optimalTarget) _ h0
        · intro a d ha
          exact hQ _ (laterPass_frame env L S P K _ (Or.inl ⟨d, rfl⟩)) a ha
        · intro a ha
          exact hQ _ (laterPass_frame env L S P K _ (Or.inr (Or.inl rfl))) a ha
      · unfold distributeSequential
        exact hQ _ (firstPassBody_frame env L S P K sequentialTarget) _ h0
      · apply distributeUniform_induction env L S P K _ (st, D)
          (fun a : PlantState × ℚ => SameSkeleton st a.1 ∧ ∀ L2 S2 B2 C2,
            (∀ j, 1 ≤ j → j ≤ (st.equipList L P K).NumComps →
              ¬ (L2 = L ∧ S2 = S ∧ B2 = st.memberBranch L P K j ∧
                C2 = st.memberComp L P K j)) →
            a.1.comp L2 S2 B2 C2 = st.comp L2 S2 B2 C2)
        · intro u
          exact hQ _ (firstPassBody_frame env L S P K (uniformTarget u)) _ h0
        · intro a ha
          exact hQ _ (laterPass_frame env L S P K _ (Or.inr (Or.inr rfl))) a ha
      · exact h0
  have key : ∀ a : PlantState × ℚ,
      (SameSkeleton st a.1 ∧ ∀ L2 S2 B2 C2,
        (∀ j, 1 ≤ j → j ≤ (st.equipList L P K).NumComps →
          ¬ (L2 = L ∧ S2 = S ∧ B2 = st.memberBranch L P K j ∧ C2 = st.memberComp L P K j)) →
        a.1.comp L2 S2 B2 C2 = st.comp L2 S2 B2 C2) →
      (SameSkeleton st (forLoop (updateOnFlagBody env L S P K) a.1
          (st.equipList L P K).NumComps) ∧ ∀ L2 S2 B2 C2,
        (∀ j, 1 ≤ j → j ≤ (st.equipList L P K).NumComps →
          ¬ (L2 = L ∧ S2 = S ∧ B2 = st.memberBranch L P K j ∧ C2 = st.memberComp L P K j)) →
        (forLoop (updateOnFlagBody env L S P K) a.1
          (st.equipList L P K).NumComps).comp L2 S2 B2 C2 = st.comp L2 S2 B2 C2) := by
    intro a ha
    obtain ⟨h1, h2⟩ := closingLoop_frame env L S P K a.1 (st.equipList L P K).NumComps
    refine ⟨ha.1.trans h1, ?_⟩
    intro L2 S2 B2 C2 hnot
    rw [h2, ha.2 _ _ _ _ hnot]
    intro j hj1 hj2
    rw [ha.1.memberBranch, ha.1.memberComp]
    exact hnot j hj1 hj2
  unfold DistributePlantLoad
  simp only []
  split
  · exact ⟨SameSkeleton.refl st, fun _ _ _ _ _ => rfl⟩
  · exact key _ hdist

/-! # The driver on a half loop at rest -/

theorem loadCleared_Available {c c' : CompData} (h : loadCleared c c') :
    c'.Available = c.Available := by
  rcases h with h | h <;> rw [h]

theorem pipeSwitchedOn_Available {c c' : CompData} (h : pipeSwitchedOn c c') :
    c'.Available = c.Available := by
  rcases h with h | ⟨_, h⟩ <;> rw [h]

/-- The range variable is read from the scheme data only. -/
theorem rangeVariableOf_skeleton (env : Env) {st st' : PlantState} (h : SameSkeleton st st')
    (L P : Nat) (D : ℚ) : rangeVariableOf env st' L P D = rangeVariableOf env st L P D := by
  unfold rangeVariableOf FindRangeVariable
  rw [h.opScheme]

theorem turnedOff_OpScheme (c : CompData) : (turnedOff c).OpScheme = c.OpScheme := by
  unfold turnedOff
  split <;> rfl

/-- A component that is not a pump is at rest once it is turned off. -/
theorem atRest_turnedOff (c : CompData)
    (h : c.GeneralEquipType ≠ GenEquipType.GenEquipTypes_Pump) : atRest c (turnedOff c) := by
  unfold turnedOff
  rw [if_pos h]
  refine ⟨rfl, rfl, ?_⟩
  intro hon
  simp only [] at hon
  exact absurd hon (by simp)

/-- The range based branch of the driver under the sequential policy on a
half loop that is shut by its supervisory override: a component at rest stays
at rest. -/
theorem dispatchRangeBased_rest (env : Env) (s : PlantState) (L S B C q P n : Nat)
    (v D R : ℚ) (flag : Bool) (perf : Option Bool)
    (hseq : (s.PlantLoop L).LoadDistribution = LoadingScheme.SequentialLoading)
    (hside : (s.side L S).EMSCtrl = true ∧ (s.side L S).EMSValue ≤ 0)
    (hsmall : 0 < env.SmallLoad) :
    ∀ B2 C2 c0, atRest c0 (s.comp L S B2 C2) →
      atRest c0 ((dispatchRangeBased env s L S B C q P n v D R flag perf).st.comp L S B2 C2) := by
  intro B2 C2 c0 h0
  unfold dispatchRangeBased
  simp only []
  generalize (selectEquipList s L S B C q P v n 1 0).1 = j0
  generalize (selectEquipList s L S B C q P v n 1 0).2 = K
  have hnull : atRest c0 ((nullOtherLists s L S P n j0).comp L S B2 C2) :=
    h0.cleared (nullOtherLists_comp s L S P n j0 L S B2 C2)
  have hsk1 := nullOtherLists_skeleton s L S P n j0
  have hsk2 := TurnOnPlantLoopPipes_skeleton (nullOtherLists s L S P n j0) L S
  split
  · split
    · simp only []
      apply DistributePlantLoad_rest env _ L S P K D
      · rw [(hsk1.trans hsk2).loadDistribution]; exact hseq
      · rw [(hsk1.trans hsk2).sideEMSCtrl, (hsk1.trans hsk2).sideEMSValue]; exact hside
      · exact hsmall
      · exact hnull.piped (TurnOnPlantLoopPipes_comp _ L S L S B2 C2)
    · exact hnull
  · exact h0

/-! # Components outside the dispatched list -/

theorem switchedOnIfPipe_pipe (c : CompData) (h : isPipeType c.TypeOf_Num) :
    switchedOnIfPipe c = { c with ON := true } := by
  unfold switchedOnIfPipe
  rcases h with h | h | h | h <;> simp only [h]

theorem switchedOnIfPipe_other (c : CompData) (h : ¬ isPipeType c.TypeOf_Num) :
    switchedOnIfPipe c = c := by
  unfold switchedOnIfPipe
  split
  · rename_i e; exact absurd (Or.inl e) h
  · rename_i e; exact absurd (Or.inr (Or.inl e)) h
  · rename_i e; exact absurd (Or.inr (Or.inr (Or.inl e))) h
  · rename_i e; exact absurd (Or.inr (Or.inr (Or.inr e))) h
  · rfl

theorem loadCleared_TypeOf_Num {c c' : CompData} (h : loadCleared c c') :
    c'.TypeOf_Num = c.TypeOf_Num := by
  rcases h with h | h <;> rw [h]

theorem loadCleared_ON {c c' : CompData} (h : loadCleared c c') : c'.ON = c.ON := by
  rcases h with h | h <;> rw [h]

/-- The range based branch of the driver, when a list with members is
dispatched, seen from a component of the half loop that is not on that list:
the clean-up may clear its load, the pipes are switched on, and the
distribution does not touch it. -/
theorem dispatchRangeBased_outsider (env : Env) (s : PlantState) (L S B C q P n : Nat)
    (v D R : ℚ) (flag : Bool) (perf : Option Bool) (j0 K : Nat)
    (hsel : selectEquipList s L S B C q P v n 1 0 = (j0, K)) (hj0 : 0 < j0)
    (hcomps : 0 < (s.equipList L P K).NumComps) (B2 C2 : Nat)
    (hB1 : 1 ≤ B2) (hB2 : B2 ≤ (s.side L S).TotalBranches)
    (hC1 : 1 ≤ C2) (hC2 : C2 ≤ (s.branch L S B2).TotalComponents)
    (hout : ∀ j, 1 ≤ j → j ≤ (s.equipList L P K).NumComps →
      ¬ (B2 = s.memberBranch L P K j ∧ C2 = s.memberComp L P K j)) :
    ∃ c1, loadCleared (s.comp L S B2 C2) c1 ∧
      (dispatchRangeBased env s L S B C q P n v D R flag perf).st.comp L S B2 C2 =
        switchedOnIfPipe c1 := by
  rw [dispatchRangeBased_selected env s L S B C q P n v D R flag perf j0 K hsel hj0 hcomps]
  simp only []
  have hsk1 := nullOtherLists_skeleton s L S P n j0
  have hsk2 := TurnOnPlantLoopPipes_skeleton (nullOtherLists s L S P n j0) L S
  have hsk := hsk1.trans hsk2
  obtain ⟨_, hfr⟩ := DistributePlantLoad_frame env
    (TurnOnPlantLoopPipes (nullOtherLists s L S P n j0) L S) L S P K D
  refine ⟨(nullOtherLists s L S P n j0).comp L S B2 C2, nullOtherLists_comp s L S P n j0 L S B2 C2,
    ?_⟩
  rw [hfr, TurnOnPlantLoopPipes_spec, if_pos]
  · rw [hsk1.totalBranches, hsk1.totalComponents]
    exact ⟨rfl, rfl, ⟨hB1, hB2⟩, hC1, hC2⟩
  · intro j hj1 hj2 hmem
    rw [hsk.equipList] at hj2
    rw [hsk.memberBranch, hsk.memberComp] at hmem
    exact hout j hj1 hj2 ⟨hmem.2.2.1, hmem.2.2.2⟩

/-- A pipe outside the dispatched list is on when the range based branch is done. -/
theorem dispatchRangeBased_pipe_on (env : Env) (s : PlantState) (L S B C q P n : Nat)
    (v D R : ℚ) (flag : Bool) (perf : Option Bool) (j0 K : Nat)
    (hsel : selectEquipList s L S B C q P v n 1 0 = (j0, K)) (hj0 : 0 < j0)
    (hcomps : 0 < (s.equipList L P K).NumComps) (B2 C2 : Nat)
    (hB1 : 1 ≤ B2) (hB2 : B2 ≤ (s.side L S).TotalBranches)
    (hC1 : 1 ≤ C2) (hC2 : C2 ≤ (s.branch L S B2).TotalComponents)
    (hout : ∀ j, 1 ≤ j → j ≤ (s.equipList L P K).NumComps →
      ¬ (B2 = s.memberBranch L P K j ∧ C2 = s.memberComp L P K j))
    (hpipe : isPipeType (s.comp L S B2 C2).TypeOf_Num) :
    ((dispatchRangeBased env s L S B C q P n v D R flag perf).st.comp L S B2 C2).ON = true := by
  obtain ⟨c1, hc1, he⟩ := dispatchRangeBased_outsider env s L S B C q P n v D R flag perf j0 K
    hsel hj0 hcomps B2 C2 hB1 hB2 hC1 hC2 hout
  rw [he, switchedOnIfPipe_pipe c1 (by rw [loadCleared_TypeOf_Num hc1]; exact hpipe)]

/-- A component outside the dispatched list that is not a pipe keeps its
`ON` flag through the range based branch. -/
theorem dispatchRangeBased_outsider_on (env : Env) (s : PlantState) (L S B C q P n : Nat)
    (v D R : ℚ) (flag : Bool) (perf : Option Bool) (j0 K : Nat)
    (hsel : selectEquipList s L S B C q P v n 1 0 = (j0, K)) (hj0 : 0 < j0)
    (hcomps : 0 < (s.equipList L P K).NumComps) (B2 C2 : Nat)
    (hB1 : 1 ≤ B2) (hB2 : B2 ≤ (s.side L S).TotalBranches)
    (hC1 : 1 ≤ C2) (hC2 : C2 ≤ (s.branch L S B2).TotalComponents)
    (hout : ∀ j, 1 ≤ j → j ≤ (s.equipList L P K).NumComps →
      ¬ (B2 = s.memberBranch L P K j ∧ C2 = s.memberComp L P K j))
    (hpipe : ¬ isPipeType (s.comp L S B2 C2).TypeOf_Num) :
    ((dispatchRangeBased env s L S B C q P n v D R flag perf).st.comp L S B2 C2).ON =
      (s.comp L S B2 C2).ON := by
  obtain ⟨c1, hc1, he⟩ := dispatchRangeBased_outsider env s L S B C q P n v D R flag perf j0 K
    hsel hj0 hcomps B2 C2 hB1 hB2 hC1 hC2 hout
  rw [he, switchedOnIfPipe_other c1 (by rw [loadCleared_TypeOf_Num hc1]; exact hpipe),
    loadCleared_ON hc1]

/-- The load scheme of the third sample plant at a heating demand of 25 W: the
range variable is the demand. -/
theorem emsPlant_rangeVariable (policy : LoadingScheme) (sideEMS branchEMS : Bool)
    (c : CompData) (P : Nat) :
    rangeVariableOf (sampleEnv 10 1 7 5 7) (emsPlant policy sideEMS branchEMS c) 1 P 25 =
      some 25 := by
  unfold rangeVariableOf
  norm_num

/-- The list search of the third sample plant at a range variable of 25: the
single list `[0, 100]` is taken. -/
theorem emsPlant_selectEquipList (policy : LoadingScheme) (sideEMS branchEMS : Bool)
    (typ : PlantEquipType) (mx : ℚ) (ovr : Bool) (u : ℚ) :
    selectEquipList (emsPlant policy sideEMS branchEMS (emsMachine typ mx ovr u))
      1 2 2 1 1 1 25 1 1 0 = (1, 1) := by
  have := selectEquipList_stops_at (emsPlant policy sideEMS branchEMS (emsMachine typ mx ovr u))
    1 2 2 1 1 1 25 1 1 1 0 (le_refl 1) (by norm_num)
    (fun j h1 h2 => absurd h2 (by omega))
    (Or.inl (by rw [emsPlant_equipList]; norm_num [abs_of_pos]))
  rw [this]
  rfl

/-! # Claims on the half loop and branch overrides in the driver -/

/-- C11 (as amended). With the half loop override of the calling component's
side on at a value `<= 0` (the loop level shut-down not applying,
`LoopShutDownFlag` false on entry, some scheme of the loop available,
`SmallLoad > 0`), for a calling component that has no current scheme, or whose
current scheme is range based (the zero-demand exit not being taken) on a loop
with the sequential policy: `ManagePlantLoadDistribution` returns with
`LoopShutDownFlag = false`, and in the plant it returns every component of that
half loop that is not a pump has `MyLoad = 0` and, unless it is a pipe,
`ON = false`. -/
theorem C11_half_loop_override_leaves_side_at_rest (env : Env) (st : PlantState)
    (LoopNum LoopSideNum BranchNum CompNum : Nat) (LoopDemand RemLoopDemand : ℚ)
    (FirstHVACIteration : Bool) (perf : Option Bool) (v : ℚ)
    (havail : anyOpSchemeAvailable st LoopNum = true)
    (hloop : ¬ ((st.PlantLoop LoopNum).EMSCtrl = true ∧ (st.PlantLoop LoopNum).EMSValue ≤ 0))
    (hside : (st.side LoopNum LoopSideNum).EMSCtrl = true)
    (hval : (st.side LoopNum LoopSideNum).EMSValue ≤ 0)
    (hsmall : 0 < env.SmallLoad)
    (hpath : (st.comp LoopNum LoopSideNum BranchNum CompNum).CurCompLevelOpNum = 0 ∨
      ((st.comp LoopNum LoopSideNum BranchNum CompNum).CurCompLevelOpNum ≠ 0 ∧
        rangeVariableOf env st LoopNum
          ((st.comp LoopNum LoopSideNum BranchNum CompNum).OpScheme
            (st.comp LoopNum LoopSideNum BranchNum CompNum).CurCompLevelOpNum).OpSchemePtr
          LoopDemand = some v ∧
        (st.PlantLoop LoopNum).LoadDistribution = LoadingScheme.SequentialLoading)) :
    ∃ r, ManagePlantLoadDistribution env st LoopNum LoopSideNum BranchNum CompNum LoopDemand
        RemLoopDemand FirstHVACIteration false perf = Except.ok r ∧
      r.LoopShutDownFlag = false ∧
      ∀ B C, 1 ≤ B → B ≤ (st.side LoopNum LoopSideNum).TotalBranches → 1 ≤ C →
        C ≤ (st.branch LoopNum LoopSideNum B).TotalComponents →
        (st.comp LoopNum LoopSideNum B C).GeneralEquipType ≠ GenEquipType.GenEquipTypes_Pump →
        (r.st.comp LoopNum LoopSideNum B C).MyLoad = 0 ∧
        (¬ isPipeType (st.comp LoopNum LoopSideNum B C).TypeOf_Num →
          (r.st.comp LoopNum LoopSideNum B C).ON = false) := by
  have e : ActivateEMSControls env st LoopNum LoopSideNum BranchNum CompNum =
      (TurnOffLoopSideEquipment st LoopNum LoopSideNum, false) := by
    unfold ActivateEMSControls
    rw [if_neg hloop, if_pos ⟨hside, hval⟩]
  obtain ⟨hsk, hc⟩ := TurnOffLoopSideEquipment_spec st LoopNum LoopSideNum
  have hcall : (TurnOffLoopSideEquipment st LoopNum LoopSideNum).comp
        LoopNum LoopSideNum BranchNum CompNum = st.comp LoopNum LoopSideNum BranchNum CompNum ∨
      (TurnOffLoopSideEquipment st LoopNum LoopSideNum).comp
        LoopNum LoopSideNum BranchNum CompNum =
        turnedOff (st.comp LoopNum LoopSideNum BranchNum CompNum) := by
    rw [hc]
    split
    · exact Or.inr rfl
    · exact Or.inl rfl
  have hqeq : ((TurnOffLoopSideEquipment st LoopNum LoopSideNum).comp
        LoopNum LoopSideNum BranchNum CompNum).CurCompLevelOpNum =
      (st.comp LoopNum LoopSideNum BranchNum CompNum).CurCompLevelOpNum := by
    rcases hcall with h | h
    · rw [h]
    · rw [h, turnedOff_CurCompLevelOpNum]
  have hopeq : ((TurnOffLoopSideEquipment st LoopNum LoopSideNum).comp
        LoopNum LoopSideNum BranchNum CompNum).OpScheme =
      (st.comp LoopNum LoopSideNum BranchNum CompNum).OpScheme := by
    rcases hcall with h | h
    · rw [h]
    · rw [h, turnedOff_OpScheme]
  have hrest : ∀ B C, 1 ≤ B → B ≤ (st.side LoopNum LoopSideNum).TotalBranches → 1 ≤ C →
      C ≤ (st.branch LoopNum LoopSideNum B).TotalComponents →
      (st.comp LoopNum LoopSideNum B C).GeneralEquipType ≠ GenEquipType.GenEquipTypes_Pump →
      atRest (st.comp LoopNum LoopSideNum B C)
        ((TurnOffLoopSideEquipment st LoopNum LoopSideNum).comp LoopNum LoopSideNum B C) := by
    intro B C hB1 hB2 hC1 hC2 hp
    rw [hc, if_pos ⟨rfl, rfl, ⟨hB1, hB2⟩, hC1, hC2⟩]
    exact atRest_turnedOff _ hp
  have hfin : ∀ (s : PlantState),
      (∀ B C c0, atRest c0 ((TurnOffLoopSideEquipment st LoopNum LoopSideNum).comp
          LoopNum LoopSideNum B C) → atRest c0 (s.comp LoopNum LoopSideNum B C)) →
      ∀ B C, 1 ≤ B → B ≤ (st.side LoopNum LoopSideNum).TotalBranches → 1 ≤ C →
        C ≤ (st.branch LoopNum LoopSideNum B).TotalComponents →
        (st.comp LoopNum LoopSideNum B C).GeneralEquipType ≠ GenEquipType.GenEquipTypes_Pump →
        (s.comp LoopNum LoopSideNum B C).MyLoad = 0 ∧
        (¬ isPipeType (st.comp LoopNum LoopSideNum B C).TypeOf_Num →
          (s.comp LoopNum LoopSideNum B C).ON = false) := by
    intro s hs B C hB1 hB2 hC1 hC2 hp
    obtain ⟨_, h2, h3⟩ := hs B C _ (hrest B C hB1 hB2 hC1 hC2 hp)
    refine ⟨h2, ?_⟩
    intro hnp
    cases hon : (s.comp LoopNum LoopSideNum B C).ON
    · rfl
    · exact absurd (h3 hon) hnp
  rcases hpath with hq0 | ⟨hq, hv, hseq⟩
  · have h := Manage_no_current_scheme env st LoopNum LoopSideNum BranchNum CompNum LoopDemand
      RemLoopDemand FirstHVACIteration perf havail (by rw [e]; simp only []; rw [hqeq]; exact hq0)
    rw [h, e]
    exact ⟨_, rfl, rfl, hfin _ (fun _ _ _ h => h)⟩
  · have h := Manage_range_based env st LoopNum LoopSideNum BranchNum CompNum LoopDemand
      RemLoopDemand FirstHVACIteration perf v havail
      (by rw [e]; simp only []; rw [hqeq]; exact hq)
      (by rw [e]; simp only []; rw [hqeq, hopeq, rangeVariableOf_skeleton env hsk]; exact hv)
    rw [h, e]
    refine ⟨_, rfl, dispatchRangeBased_flag _ _ _ _ _ _ _ _ _ _ _ _ _ _, ?_⟩
    apply hfin
    intro B C c0 h0
    exact dispatchRangeBased_rest env _ LoopNum LoopSideNum BranchNum CompNum _ _ _ v LoopDemand
      RemLoopDemand false perf
      (by rw [hsk.loadDistribution]; exact hseq)
      (by rw [hsk.sideEMSCtrl, hsk.sideEMSValue]; exact ⟨hside, hval⟩) hsmall B C c0 h0

/-- C11 at the third sample plant (sequential policy, supply side override on
at value 0), called for the machine at a heating demand of 25 W: the machine
(which carried 5 W and was on) and the valve are off, and the machine and the
pipe carry no load. -/
theorem C11_half_loop_override_witness :
    ∃ r, ManagePlantLoadDistribution (sampleEnv 10 1 7 5 7)
        (emsPlant LoadingScheme.SequentialLoading true false
          (emsMachine (PlantEquipType.TypeOf_Other 1) 40 false 0))
        1 2 2 1 25 25 false false none = Except.ok r ∧
      (r.st.comp 1 2 2 1).MyLoad = 0 ∧ (r.st.comp 1 2 2 1).ON = false ∧
      (r.st.comp 1 2 2 2).ON = false ∧ (r.st.comp 1 2 1 1).MyLoad = 0 := by
  obtain ⟨r, hr, _, hall⟩ := C11_half_loop_override_leaves_side_at_rest (sampleEnv 10 1 7 5 7)
    (emsPlant LoadingScheme.SequentialLoading true false
      (emsMachine (PlantEquipType.TypeOf_Other 1) 40 false 0))
    1 2 2 1 25 25 false none 25
    (emsPlant_anyOpSchemeAvailable _ _ _ _) (by simp) (by simp) (by simp) (by norm_num)
    (Or.inr ⟨by simp [emsMachine], by
      simp only [emsPlant_comp_machine, emsMachine]
      exact emsPlant_rangeVariable _ _ _ _ _, by simp⟩)
  have h1 := hall 2 1 (by norm_num) (by simp) (by norm_num) (by simp) (by simp [emsMachine])
  have h2 := hall 2 2 (by norm_num) (by simp) (by norm_num) (by simp) (by simp [emsValve])
  have h3 := hall 1 1 (by norm_num) (by simp) (by norm_num) (by simp) (by simp [emsPipe])
  exact ⟨r, hr, h1.1, h1.2 (by simp [emsMachine, isPipeType]),
    h2.2 (by simp [emsValve, isPipeType]), h3.1⟩

/-- C11 (counterexample). Third sample plant, sequential policy, supply side
override on at value 0, called for the machine at a heating demand of 25 W: the
driver goes on to the range based dispatch after the half loop is turned off,
and the pipe of branch 1, which is not a pump, is `ON` when it returns. -/
theorem C11_pipe_on_after_half_loop_shutdown :
    ((emsPlant LoadingScheme.SequentialLoading true false
        (emsMachine (PlantEquipType.TypeOf_Other 1) 40 false 0)).side 1 2).EMSCtrl = true ∧
    ((emsPlant LoadingScheme.SequentialLoading true false
        (emsMachine (PlantEquipType.TypeOf_Other 1) 40 false 0)).side 1 2).EMSValue ≤ 0 ∧
    ((emsPlant LoadingScheme.SequentialLoading true false
        (emsMachine (PlantEquipType.TypeOf_Other 1) 40 false 0)).comp 1 2 1 1).GeneralEquipType ≠
      GenEquipType.GenEquipTypes_Pump ∧
    ∃ r, ManagePlantLoadDistribution (sampleEnv 10 1 7 5 7)
        (emsPlant LoadingScheme.SequentialLoading true false
          (emsMachine (PlantEquipType.TypeOf_Other 1) 40 false 0))
        1 2 2 1 25 25 false false none = Except.ok r ∧
      (r.st.comp 1 2 1 1).ON = true := by
  refine ⟨by simp, by simp, by simp [emsPipe], ?_⟩
  have e : ActivateEMSControls (sampleEnv 10 1 7 5 7)
      (emsPlant LoadingScheme.SequentialLoading true false
        (emsMachine (PlantEquipType.TypeOf_Other 1) 40 false 0)) 1 2 2 1 =
      (TurnOffLoopSideEquipment (emsPlant LoadingScheme.SequentialLoading true false
        (emsMachine (PlantEquipType.TypeOf_Other 1) 40 false 0)) 1 2, false) := by
    unfold ActivateEMSControls
    rw [if_neg (by simp), if_pos (by simp)]
  obtain ⟨hsk, hc⟩ := TurnOffLoopSideEquipment_spec
    (emsPlant LoadingScheme.SequentialLoading true false
      (emsMachine (PlantEquipType.TypeOf_Other 1) 40 false 0)) 1 2
  have hm : (TurnOffLoopSideEquipment (emsPlant LoadingScheme.SequentialLoading true false
        (emsMachine (PlantEquipType.TypeOf_Other 1) 40 false 0)) 1 2).comp 1 2 2 1 =
      turnedOff (emsMachine (PlantEquipType.TypeOf_Other 1) 40 false 0) := by
    rw [hc]; simp
  have hp : (TurnOffLoopSideEquipment (emsPlant LoadingScheme.SequentialLoading true false
        (emsMachine (PlantEquipType.TypeOf_Other 1) 40 false 0)) 1 2).comp 1 2 1 1 =
      turnedOff emsPipe := by
    rw [hc]; simp
  have hq : (turnedOff (emsMachine (PlantEquipType.TypeOf_Other 1) 40 false 0)).CurCompLevelOpNum
      = 1 := by rw [turnedOff_CurCompLevelOpNum]; rfl
  have hop : (turnedOff (emsMachine (PlantEquipType.TypeOf_Other 1) 40 false 0)).OpScheme =
      fun _ => { NumEquipLists := 1, OpSchemePtr := 1,
                 EquipList := fun _ => { ListPtr := 1, CompPtr := 1 } } := by
    rw [turnedOff_OpScheme]; rfl
  have h := Manage_range_based (sampleEnv 10 1 7 5 7)
    (emsPlant LoadingScheme.SequentialLoading true false
      (emsMachine (PlantEquipType.TypeOf_Other 1) 40 false 0)) 1 2 2 1 25 25 false none 25
    (emsPlant_anyOpSchemeAvailable _ _ _ _)
    (by rw [e]; simp only []; rw [hm, hq]; norm_num)
    (by
      rw [e]; simp only []
      rw [hm, hq, hop, rangeVariableOf_skeleton _ hsk]
      exact emsPlant_rangeVariable _ _ _ _ _)
  rw [h, e]
  simp only []
  rw [hm, hq, hop]
  simp only []
  generalize TurnOffLoopSideEquipment (emsPlant LoadingScheme.SequentialLoading true false
        (emsMachine (PlantEquipType.TypeOf_Other 1) 40 false 0)) 1 2 = s1 at hsk hc hm hp
  have hel : ∀ K, s1.equipList 1 1 K =
      { RangeLowerLimit := 0, RangeUpperLimit := 100, NumComps := 1,
        Comp := fun _ =>
          { LoopNumPtr := 1, LoopSideNumPtr := 2, BranchNumPtr := 2, CompNumPtr := 1 } } := by
    intro K; rw [hsk.equipList]; rfl
  have hsel : selectEquipList s1 1 2 2 1 1 1 25 1 1 0 = (1, 1) := by
    have := selectEquipList_stops_at s1 1 2 2 1 1 1 25 1 1 1 0 (le_refl 1) (by norm_num)
      (fun j h1 h2 => absurd h2 (by omega))
      (Or.inl (by rw [hel]; norm_num [abs_of_pos]))
    rw [this, hm, hop]
  refine ⟨_, rfl, ?_⟩
  apply dispatchRangeBased_pipe_on _ s1 1 2 2 1 1 1 1 25 25 25 false none 1 1 hsel (by norm_num)
    (by rw [hel]; norm_num) 1 1 (le_refl 1)
    (by rw [hsk.totalBranches]; simp) (le_refl 1) (by rw [hsk.totalComponents]; simp)
  · intro j _ _ hmem
    have := hmem.1
    unfold PlantState.memberBranch at this
    rw [hel] at this
    simp at this
  · rw [hp]
    unfold turnedOff
    simp [emsPipe, isPipeType]

/-- C12 (as amended). With the override of a branch on at a value `<= 0` (no
loop or half loop shut-down applying, the calling component without a
component load override, `LoopShutDownFlag` false on entry, some scheme of the
loop available, `SmallLoad > 0`), for a calling component whose current scheme
is range based (the zero-demand exit not being taken) and whose list search
stops at list `K`, on a loop with the sequential policy and a demand with
`|LoopDemand| >= SmallLoad`: `ManagePlantLoadDistribution` returns, and every
member of list `K` that lies on that branch and was available on entry has
`MyLoad = 0` and `ON = false` in the plant it returns. The override switches
nothing else off: a component of the half loop that is not on list `K` is `ON`
when it is a pipe and keeps its `ON` flag otherwise, on the overridden branch
as on any other. -/
theorem C12_branch_override_blocks_listed_members (env : Env) (st : PlantState)
    (LoopNum LoopSideNum BranchNum CompNum : Nat) (LoopDemand RemLoopDemand : ℚ)
    (FirstHVACIteration : Bool) (perf : Option Bool) (v : ℚ) (j0 K i : Nat)
    (havail : anyOpSchemeAvailable st LoopNum = true)
    (hloop : ¬ ((st.PlantLoop LoopNum).EMSCtrl = true ∧ (st.PlantLoop LoopNum).EMSValue ≤ 0))
    (hside : ¬ ((st.side LoopNum LoopSideNum).EMSCtrl = true ∧
      (st.side LoopNum LoopSideNum).EMSValue ≤ 0))
    (hcomp : (st.comp LoopNum LoopSideNum BranchNum CompNum).EMSLoadOverrideOn = false)
    (hq : (st.comp LoopNum LoopSideNum BranchNum CompNum).CurCompLevelOpNum ≠ 0)
    (hv : rangeVariableOf env st LoopNum
      ((st.comp LoopNum LoopSideNum BranchNum CompNum).OpScheme
        (st.comp LoopNum LoopSideNum BranchNum CompNum).CurCompLevelOpNum).OpSchemePtr
      LoopDemand = some v)
    (hsel : selectEquipList st LoopNum LoopSideNum BranchNum CompNum
      (st.comp LoopNum LoopSideNum BranchNum CompNum).CurCompLevelOpNum
      ((st.comp LoopNum LoopSideNum BranchNum CompNum).OpScheme
        (st.comp LoopNum LoopSideNum BranchNum CompNum).CurCompLevelOpNum).OpSchemePtr v
      ((st.comp LoopNum LoopSideNum BranchNum CompNum).OpScheme
        (st.comp LoopNum LoopSideNum BranchNum CompNum).CurCompLevelOpNum).NumEquipLists 1 0 =
      (j0, K))
    (hj0 : 0 < j0)
    (hseq : (st.PlantLoop LoopNum).LoadDistribution = LoadingScheme.SequentialLoading)
    (hsmall : 0 < env.SmallLoad) (hD : env.SmallLoad ≤ |LoopDemand|)
    (hi1 : 1 ≤ i)
    (hi2 : i ≤ (st.equipList LoopNum
      ((st.comp LoopNum LoopSideNum BranchNum CompNum).OpScheme
        (st.comp LoopNum LoopSideNum BranchNum CompNum).CurCompLevelOpNum).OpSchemePtr K).NumComps)
    (hav : (st.member LoopNum LoopSideNum
      ((st.comp LoopNum LoopSideNum BranchNum CompNum).OpScheme
        (st.comp LoopNum LoopSideNum BranchNum CompNum).CurCompLevelOpNum).OpSchemePtr K
      i).Available = true)
    (hon : (st.branch LoopNum LoopSideNum (st.memberBranch LoopNum
      ((st.comp LoopNum LoopSideNum BranchNum CompNum).OpScheme
        (st.comp LoopNum LoopSideNum BranchNum CompNum).CurCompLevelOpNum).OpSchemePtr K
      i)).EMSCtrlOverrideOn = true)
    (hval : (st.branch LoopNum LoopSideNum (st.memberBranch LoopNum
      ((st.comp LoopNum LoopSideNum BranchNum CompNum).OpScheme
        (st.comp LoopNum LoopSideNum BranchNum CompNum).CurCompLevelOpNum).OpSchemePtr K
      i)).EMSCtrlOverrideValue ≤ 0) :
    ∃ r, ManagePlantLoadDistribution env st LoopNum LoopSideNum BranchNum CompNum LoopDemand
        RemLoopDemand FirstHVACIteration false perf = Except.ok r ∧
      (r.st.comp LoopNum LoopSideNum
        (st.memberBranch LoopNum
          ((st.comp LoopNum LoopSideNum BranchNum CompNum).OpScheme
            (st.comp LoopNum LoopSideNum BranchNum CompNum).CurCompLevelOpNum).OpSchemePtr K i)
        (st.memberComp LoopNum
          ((st.comp LoopNum LoopSideNum BranchNum CompNum).OpScheme
            (st.comp LoopNum LoopSideNum BranchNum CompNum).CurCompLevelOpNum).OpSchemePtr K
          i)).MyLoad = 0 ∧
      (r.st.comp LoopNum LoopSideNum
        (st.memberBranch LoopNum
          ((st.comp LoopNum LoopSideNum BranchNum CompNum).OpScheme
            (st.comp LoopNum LoopSideNum BranchNum CompNum).CurCompLevelOpNum).OpSchemePtr K i)
        (st.memberComp LoopNum
          ((st.comp LoopNum LoopSideNum BranchNum CompNum).OpScheme
            (st.comp LoopNum LoopSideNum BranchNum CompNum).CurCompLevelOpNum).OpSchemePtr K
          i)).ON = false ∧
      ∀ B2 C2, 1 ≤ B2 → B2 ≤ (st.side LoopNum LoopSideNum).TotalBranches → 1 ≤ C2 →
        C2 ≤ (st.branch LoopNum LoopSideNum B2).TotalComponents →
        (∀ j, 1 ≤ j → j ≤ (st.equipList LoopNum
            ((st.comp LoopNum LoopSideNum BranchNum CompNum).OpScheme
              (st.comp LoopNum LoopSideNum BranchNum CompNum).CurCompLevelOpNum).OpSchemePtr
            K).NumComps →
          ¬ (B2 = st.memberBranch LoopNum
              ((st.comp LoopNum LoopSideNum BranchNum CompNum).OpScheme
                (st.comp LoopNum LoopSideNum BranchNum CompNum).CurCompLevelOpNum).OpSchemePtr K j ∧
            C2 = st.memberComp LoopNum
              ((st.comp LoopNum LoopSideNum BranchNum CompNum).OpScheme
                (st.comp LoopNum LoopSideNum BranchNum CompNum).CurCompLevelOpNum).OpSchemePtr K
              j)) →
        (isPipeType (st.comp LoopNum LoopSideNum B2 C2).TypeOf_Num →
          (r.st.comp LoopNum LoopSideNum B2 C2).ON = true) ∧
        (¬ isPipeType (st.comp LoopNum LoopSideNum B2 C2).TypeOf_Num →
          (r.st.comp LoopNum LoopSideNum B2 C2).ON = (st.comp LoopNum LoopSideNum B2 C2).ON) := by
  have e : ActivateEMSControls env st LoopNum LoopSideNum BranchNum CompNum = (st, false) := by
    unfold ActivateEMSControls
    rw [if_neg hloop, if_neg hside, if_neg (by rw [hcomp]; simp)]
  have h := Manage_range_based env st LoopNum LoopSideNum BranchNum CompNum LoopDemand
    RemLoopDemand FirstHVACIteration perf v havail
    (by rw [e]; exact hq) (by rw [e]; exact hv)
  rw [h, e]
  simp only []
  generalize (st.comp LoopNum LoopSideNum BranchNum CompNum).CurCompLevelOpNum = q at *
  generalize ((st.comp LoopNum LoopSideNum BranchNum CompNum).OpScheme q).OpSchemePtr = P at *
  generalize ((st.comp LoopNum LoopSideNum BranchNum CompNum).OpScheme q).NumEquipLists = n at *
  have hout : ∀ B2 C2, 1 ≤ B2 → B2 ≤ (st.side LoopNum LoopSideNum).TotalBranches → 1 ≤ C2 →
      C2 ≤ (st.branch LoopNum LoopSideNum B2).TotalComponents →
      (∀ j, 1 ≤ j → j ≤ (st.equipList LoopNum P K).NumComps →
        ¬ (B2 = st.memberBranch LoopNum P K j ∧ C2 = st.memberComp LoopNum P K j)) →
      (isPipeType (st.comp LoopNum LoopSideNum B2 C2).TypeOf_Num →
        ((dispatchRangeBased env st LoopNum LoopSideNum BranchNum CompNum q P n v LoopDemand
          RemLoopDemand false perf).st.comp LoopNum LoopSideNum B2 C2).ON = true) ∧
      (¬ isPipeType (st.comp LoopNum LoopSideNum B2 C2).TypeOf_Num →
        ((dispatchRangeBased env st LoopNum LoopSideNum BranchNum CompNum q P n v LoopDemand
          RemLoopDemand false perf).st.comp LoopNum LoopSideNum B2 C2).ON =
          (st.comp LoopNum LoopSideNum B2 C2).ON) := by
    intro B2 C2 hB1 hB2 hC1 hC2 hno
    exact ⟨dispatchRangeBased_pipe_on env st LoopNum LoopSideNum BranchNum CompNum q P n v
        LoopDemand RemLoopDemand false perf j0 K hsel hj0 (by omega) B2 C2 hB1 hB2 hC1 hC2 hno,
      dispatchRangeBased_outsider_on env st LoopNum LoopSideNum BranchNum CompNum q P n v
        LoopDemand RemLoopDemand false perf j0 K hsel hj0 (by omega) B2 C2 hB1 hB2 hC1 hC2 hno⟩
  refine ⟨_, rfl, ?_⟩
  rw [← and_assoc]
  refine ⟨?_, hout⟩
  rw [dispatchRangeBased_selected env st LoopNum LoopSideNum BranchNum CompNum q P n v LoopDemand
    RemLoopDemand false perf j0 K hsel hj0 (by omega)]
  simp only []
  have hsk1 := nullOtherLists_skeleton st LoopNum LoopSideNum P n j0
  have hsk2 := TurnOnPlantLoopPipes_skeleton (nullOtherLists st LoopNum LoopSideNum P n j0)
    LoopNum LoopSideNum
  have hsk := hsk1.trans hsk2
  have hmb := hsk.memberBranch LoopNum P K i
  have hmc := hsk.memberComp LoopNum P K i
  have hres := DistributePlantLoad_blocked_member env
    (TurnOnPlantLoopPipes (nullOtherLists st LoopNum LoopSideNum P n j0) LoopNum LoopSideNum)
    LoopNum LoopSideNum P K LoopDemand i
    (by rw [hsk.loadDistribution]; exact hseq) hsmall hD hi1
    (by rw [hsk.equipList]; exact hi2)
    (by
      unfold PlantState.member
      rw [hmb, hmc,
        pipeSwitchedOn_Available (TurnOnPlantLoopPipes_comp _ LoopNum LoopSideNum _ _ _ _),
        loadCleared_Available (nullOtherLists_comp st LoopNum LoopSideNum P n j0 _ _ _ _)]
      exact hav)
    (by
      rw [hmb]
      exact hsk.blocked LoopNum LoopSideNum _ (Or.inr ⟨hon, hval⟩))
  rw [hmb, hmc] at hres
  exact hres

/-- C12 at the third sample plant (sequential policy, override of branch 2 on
at value 0), called for the machine of branch 2 at a heating demand of 25 W:
the machine, which carried 5 W and was on, ends with no load and off, and the
pipe of branch 1, which is not on the list, is on. -/
theorem C12_branch_override_witness :
    ∃ r, ManagePlantLoadDistribution (sampleEnv 10 1 7 5 7)
        (emsPlant LoadingScheme.SequentialLoading false true
          (emsMachine (PlantEquipType.TypeOf_Other 1) 40 false 0))
        1 2 2 1 25 25 false false none = Except.ok r ∧
      (r.st.comp 1 2 2 1).MyLoad = 0 ∧ (r.st.comp 1 2 2 1).ON = false ∧
      (r.st.comp 1 2 1 1).ON = true := by
  obtain ⟨r, hr, h1, h2, hall⟩ := C12_branch_override_blocks_listed_members (sampleEnv 10 1 7 5 7)
    (emsPlant LoadingScheme.SequentialLoading false true
      (emsMachine (PlantEquipType.TypeOf_Other 1) 40 false 0))
    1 2 2 1 25 25 false none 25 1 1 1
    (emsPlant_anyOpSchemeAvailable _ _ _ _) (by simp) (by simp) (by simp [emsMachine])
    (by simp [emsMachine])
    (by
      simp only [emsPlant_comp_machine, emsMachine]
      exact emsPlant_rangeVariable _ _ _ _ _)
    (by
      simp only [emsPlant_comp_machine]
      exact emsPlant_selectEquipList _ _ _ _ _ _ _)
    (by norm_num) (by simp) (by norm_num) (by norm_num [abs_of_pos]) (le_refl 1) (by simp)
    (by simp [PlantState.member, PlantState.memberBranch, PlantState.memberComp, emsMachine])
    (by simp [PlantState.memberBranch]) (by simp [PlantState.memberBranch])
  exact ⟨r, hr, h1, h2,
    (hall 1 1 (le_refl 1) (by simp) (le_refl 1) (by simp)
      (by
        intro j _ _ h
        simp [PlantState.memberBranch] at h)).1 (by simp [emsPipe, isPipeType])⟩

/-- C12 (counterexample). Third sample plant, sequential policy, override of
branch 2 on at value 0, called for the machine of branch 2 at a heating demand
of 25 W: the valve of branch 2, which is not a pump and was on, is still `ON`
when the driver returns. -/
theorem C12_valve_on_branch_stays_on :
    ((emsPlant LoadingScheme.SequentialLoading false true
        (emsMachine (PlantEquipType.TypeOf_Other 1) 40 false 0)).branch 1 2 2).EMSCtrlOverrideOn
      = true ∧
    ((emsPlant LoadingScheme.SequentialLoading false true
        (emsMachine (PlantEquipType.TypeOf_Other 1) 40 false 0)).branch 1 2 2).EMSCtrlOverrideValue
      ≤ 0 ∧
    ((emsPlant LoadingScheme.SequentialLoading false true
        (emsMachine (PlantEquipType.TypeOf_Other 1) 40 false 0)).comp 1 2 2 2).GeneralEquipType ≠
      GenEquipType.GenEquipTypes_Pump ∧
    ∃ r, ManagePlantLoadDistribution (sampleEnv 10 1 7 5 7)
        (emsPlant LoadingScheme.SequentialLoading false true
          (emsMachine (PlantEquipType.TypeOf_Other 1) 40 false 0))
        1 2 2 1 25 25 false false none = Except.ok r ∧
      (r.st.comp 1 2 2 2).ON = true := by
  refine ⟨by simp, by simp, by simp [emsValve], ?_⟩
  have e : ActivateEMSControls (sampleEnv 10 1 7 5 7)
      (emsPlant LoadingScheme.SequentialLoading false true
        (emsMachine (PlantEquipType.TypeOf_Other 1) 40 false 0)) 1 2 2 1 =
      (emsPlant LoadingScheme.SequentialLoading false true
        (emsMachine (PlantEquipType.TypeOf_Other 1) 40 false 0), false) := by
    unfold ActivateEMSControls
    rw [if_neg (by simp), if_neg (by simp), if_neg (by simp [emsMachine])]
  have h := Manage_range_based (sampleEnv 10 1 7 5 7)
    (emsPlant LoadingScheme.SequentialLoading false true
      (emsMachine (PlantEquipType.TypeOf_Other 1) 40 false 0)) 1 2 2 1 25 25 false none 25
    (emsPlant_anyOpSchemeAvailable _ _ _ _)
    (by rw [e]; simp [emsMachine])
    (by
      rw [e]
      simp only [emsPlant_comp_machine, emsMachine]
      exact emsPlant_rangeVariable _ _ _ _ _)
  rw [h, e]
  simp only [emsPlant_comp_machine]
  refine ⟨_, rfl, ?_⟩
  have key := dispatchRangeBased_outsider_on (sampleEnv 10 1 7 5 7)
    (emsPlant LoadingScheme.SequentialLoading false true
      (emsMachine (PlantEquipType.TypeOf_Other 1) 40 false 0))
    1 2 2 1 1 1 1 25 25 25 false none 1 1
    (emsPlant_selectEquipList _ _ _ _ _ _ _) (by norm_num) (by simp) 2 2 (by norm_num) (by simp)
    (by norm_num) (by simp)
    (by
      intro j _ _ hmem
      have := hmem.2
      simp [PlantState.memberComp] at this)
    (by simp [emsValve, isPipeType])
  exact key.trans (by simp [emsValve])

/-! # Claims on the user defined dispatch and on the exits of the distribution -/

theorem equipList_modifyListMember_self (st : PlantState) (L P K i : Nat)
    (f : EquipListCompData → EquipListCompData) :
    ((st.modifyListMember L P K i f).equipList L P K).Comp i =
      f ((st.equipList L P K).Comp i) := by
  simp [PlantState.modifyListMember, PlantState.modifyOpScheme, PlantState.equipList,
    PlantState.opScheme]

theorem comp_modifyListMember (st : PlantState) (L P K i : Nat)
    (f : EquipListCompData → EquipListCompData) (L2 S2 B2 C2 : Nat) :
    (st.modifyListMember L P K i f).comp L2 S2 B2 C2 = st.comp L2 S2 B2 C2 := by
  unfold PlantState.modifyListMember PlantState.modifyOpScheme PlantState.comp
  by_cases h : L2 = L
  · subst h; simp
  · simp [Function.update_noteq h]

theorem DistributeUserDefinedPlantLoad_eq (env : Env) (st : PlantState)
    (L S B C q P : Nat) (D R : ℚ) :
    DistributeUserDefinedPlantLoad env st L S B C q P D R =
      ((userProgramOutput env st L S B C q P D).modifyComp L S B C
        (fun c => { c with MyLoad := userActuatorValue env st L S B C q P D,
                           EquipDemand := userActuatorValue env st L S B C q P D,
                           ON := decide (|userActuatorValue env st L S B C q P D| >
                             env.LoopDemandTol) }), R) := rfl

/-- C21. `DistributeUserDefinedPlantLoad` hands the user program plant data in
which the internal variable of the member holds `LoopDemand` (and whose
components are those of the call); when it returns, the component has `MyLoad`
and `EquipDemand` equal to the actuator value found after the program, as it
is, `ON` is true iff `|MyLoad| > LoopDemandTol`, every other field of the
component and every other component are as the program left them, and
`RemLoopDemand` is the value passed in. -/
theorem C21_user_defined_load_adopted (env : Env) (st : PlantState)
    (LoopNum LoopSideNum BranchNum CompNum CurCompLevelOpNum CurSchemePtr : Nat)
    (LoopDemand RemLoopDemand : ℚ) :
    (((userProgramInput st LoopNum LoopSideNum BranchNum CompNum CurCompLevelOpNum CurSchemePtr
        LoopDemand).equipList LoopNum CurSchemePtr 1).Comp
      (userCompPtr st LoopNum LoopSideNum BranchNum CompNum
        CurCompLevelOpNum)).EMSIntVarRemainingLoadValue = LoopDemand ∧
    (∀ L S B C, (userProgramInput st LoopNum LoopSideNum BranchNum CompNum CurCompLevelOpNum
        CurSchemePtr LoopDemand).comp L S B C = st.comp L S B C) ∧
    ((DistributeUserDefinedPlantLoad env st LoopNum LoopSideNum BranchNum CompNum
        CurCompLevelOpNum CurSchemePtr LoopDemand RemLoopDemand).1.comp
        LoopNum LoopSideNum BranchNum CompNum).MyLoad =
      userActuatorValue env st LoopNum LoopSideNum BranchNum CompNum CurCompLevelOpNum
        CurSchemePtr LoopDemand ∧
    ((DistributeUserDefinedPlantLoad env st LoopNum LoopSideNum BranchNum CompNum
        CurCompLevelOpNum CurSchemePtr LoopDemand RemLoopDemand).1.comp
        LoopNum LoopSideNum BranchNum CompNum).EquipDemand =
      userActuatorValue env st LoopNum LoopSideNum BranchNum CompNum CurCompLevelOpNum
        CurSchemePtr LoopDemand ∧
    (((DistributeUserDefinedPlantLoad env st LoopNum LoopSideNum BranchNum CompNum
        CurCompLevelOpNum CurSchemePtr LoopDemand RemLoopDemand).1.comp
        LoopNum LoopSideNum BranchNum CompNum).ON = true ↔
      |((DistributeUserDefinedPlantLoad env st LoopNum LoopSideNum BranchNum CompNum
        CurCompLevelOpNum CurSchemePtr LoopDemand RemLoopDemand).1.comp
        LoopNum LoopSideNum BranchNum CompNum).MyLoad| > env.LoopDemandTol) ∧
    (DistributeUserDefinedPlantLoad env st LoopNum LoopSideNum BranchNum CompNum
        CurCompLevelOpNum CurSchemePtr LoopDemand RemLoopDemand).1.comp
        LoopNum LoopSideNum BranchNum CompNum =
      { (userProgramOutput env st LoopNum LoopSideNum BranchNum CompNum CurCompLevelOpNum
          CurSchemePtr LoopDemand).comp LoopNum LoopSideNum BranchNum CompNum with
        MyLoad := userActuatorValue env st LoopNum LoopSideNum BranchNum CompNum
          CurCompLevelOpNum CurSchemePtr LoopDemand,
        EquipDemand := userActuatorValue env st LoopNum LoopSideNum BranchNum CompNum
          CurCompLevelOpNum CurSchemePtr LoopDemand,
        ON := ((DistributeUserDefinedPlantLoad env st LoopNum LoopSideNum BranchNum CompNum
          CurCompLevelOpNum CurSchemePtr LoopDemand RemLoopDemand).1.comp
          LoopNum LoopSideNum BranchNum CompNum).ON } ∧
    (∀ L S B C, ¬ (L = LoopNum ∧ S = LoopSideNum ∧ B = BranchNum ∧ C = CompNum) →
      (DistributeUserDefinedPlantLoad env st LoopNum LoopSideNum BranchNum CompNum
        CurCompLevelOpNum CurSchemePtr LoopDemand RemLoopDemand).1.comp L S B C =
      (userProgramOutput env st LoopNum LoopSideNum BranchNum CompNum CurCompLevelOpNum
        CurSchemePtr LoopDemand).comp L S B C) ∧
    (DistributeUserDefinedPlantLoad env st LoopNum LoopSideNum BranchNum CompNum
        CurCompLevelOpNum CurSchemePtr LoopDemand RemLoopDemand).2 = RemLoopDemand := by
  rw [DistributeUserDefinedPlantLoad_eq]
  refine ⟨?_, ?_, ?_, ?_, ?_, ?_, ?_, rfl⟩
  · unfold userProgramInput
    rw [equipList_modifyListMember_self]
  · intro L S B C
    unfold userProgramInput
    rw [comp_modifyListMember]
  · simp
  · simp
  · simp
  · simp
  · intro L S B C h
    simp only []
    rw [comp_modifyComp, if_neg h]

/-- The closing loop leaves every field of every component but `ON` as it is. -/
theorem closingLoop_only_ON (env : Env) (L S P K : Nat) (s : PlantState) :
    ∀ n L2 S2 B2 C2, (forLoop (updateOnFlagBody env L S P K) s n).comp L2 S2 B2 C2 =
      { s.comp L2 S2 B2 C2 with
        ON := ((forLoop (updateOnFlagBody env L S P K) s n).comp L2 S2 B2 C2).ON } := by
  intro n
  induction n with
  | zero => intro L2 S2 B2 C2; rfl
  | succ n ih =>
    intro L2 S2 B2 C2
    simp only [forLoop]
    generalize forLoop (updateOnFlagBody env L S P K) s n = s1 at ih ⊢
    obtain ⟨_, hc⟩ := updateOnFlagBody_comp env L S P K s1 (n + 1)
    rw [hc]
    split
    · rename_i h
      obtain ⟨rfl, rfl, rfl, rfl⟩ := h
      have := ih L2 S2 (s1.memberBranch L2 P K (n + 1)) (s1.memberComp L2 P K (n + 1))
      unfold PlantState.member
      rw [this]
    · exact ih L2 S2 B2 C2

/-- `DistributePlantLoad` for a list with members and a demand below
`SmallLoad`: only the closing loop runs. -/
theorem DistributePlantLoad_small (env : Env) (st : PlantState) (L S P K : Nat) (D : ℚ)
    (hn : 0 < (st.equipList L P K).NumComps) (hD : |D| < env.SmallLoad) :
    DistributePlantLoad env st L S P K D =
      (forLoop (updateOnFlagBody env L S P K) st (st.equipList L P K).NumComps, D) := by
  unfold DistributePlantLoad
  simp only []
  rw [if_neg (by omega), if_pos hD]

/-- C26 (as amended). For a list with members and every demand with
`|LoopDemand| < SmallLoad`, `DistributePlantLoad` distributes nothing: it
returns `RemLoopDemand = LoopDemand`, and every component has the `MyLoad` it
had (only `ON` flags are written, by the closing loop). -/
theorem C26_small_demand_is_not_distributed (env : Env) (st : PlantState)
    (LoopNum LoopSideNum CurSchemePtr ListPtr : Nat) (LoopDemand : ℚ)
    (hn : 0 < (st.equipList LoopNum CurSchemePtr ListPtr).NumComps)
    (hD : |LoopDemand| < env.SmallLoad) :
    (DistributePlantLoad env st LoopNum LoopSideNum CurSchemePtr ListPtr LoopDemand).2 =
      LoopDemand ∧
    SameSkeleton st
      (DistributePlantLoad env st LoopNum LoopSideNum CurSchemePtr ListPtr LoopDemand).1 ∧
    (∀ L S B C,
      ((DistributePlantLoad env st LoopNum LoopSideNum CurSchemePtr ListPtr LoopDemand).1.comp
        L S B C).MyLoad = (st.comp L S B C).MyLoad) ∧
    (∀ L S B C,
      (DistributePlantLoad env st LoopNum LoopSideNum CurSchemePtr ListPtr LoopDemand).1.comp
        L S B C =
      { st.comp L S B C with
        ON := ((DistributePlantLoad env st LoopNum LoopSideNum CurSchemePtr ListPtr
          LoopDemand).1.comp L S B C).ON }) := by
  rw [DistributePlantLoad_small env st _ _ _ _ _ hn hD]
  refine ⟨rfl, (closingLoop_frame env _ _ _ _ st _).1, ?_, ?_⟩
  · intro L S B C
    rw [closingLoop_only_ON]
  · intro L S B C
    exact closingLoop_only_ON env _ _ _ _ st _ L S B C

/-- C26 at the first sample plant: one machine carrying 7 W, sequential
policy, demand 0.5 W with `SmallLoad = 1`; the remaining demand comes back as
0.5 W and the machine still carries 7 W. -/
theorem C26_small_demand_witness :
    (DistributePlantLoad demoEnv
      (demoPlant LoadingScheme.SequentialLoading 1 0 1000
        (fun _ => { demoComp 20 40 with MyLoad := 7 })) 1 2 1 1 (1 / 2)).2 = 1 / 2 ∧
    ((DistributePlantLoad demoEnv
      (demoPlant LoadingScheme.SequentialLoading 1 0 1000
        (fun _ => { demoComp 20 40 with MyLoad := 7 })) 1 2 1 1 (1 / 2)).1.comp
        1 2 1 1).MyLoad = 7 := by
  obtain ⟨h1, _, h3, _⟩ := C26_small_demand_is_not_distributed demoEnv
    (demoPlant LoadingScheme.SequentialLoading 1 0 1000
      (fun _ => { demoComp 20 40 with MyLoad := 7 })) 1 2 1 1 (1 / 2)
    (by simp) (by norm_num [demoEnv, abs_of_pos])
  exact ⟨h1, by rw [h3]; simp [demoComp]⟩

/-- C26 (counterexample). First sample plant with one machine, sequential
policy, demand 0.5 W with `SmallLoad = 1`: the list has a member, the demand is
below `SmallLoad`, and `RemLoopDemand` comes back as 0.5, not 0. -/
theorem C26_remaining_demand_not_zeroed :
    0 < ((demoPlant LoadingScheme.SequentialLoading 1 0 1000
        (fun _ => demoComp 20 40)).equipList 1 1 1).NumComps ∧
    |(1 / 2 : ℚ)| < demoEnv.SmallLoad ∧
    (DistributePlantLoad demoEnv
      (demoPlant LoadingScheme.SequentialLoading 1 0 1000 (fun _ => demoComp 20 40))
      1 2 1 1 (1 / 2)).2 = 1 / 2 ∧
    (DistributePlantLoad demoEnv
      (demoPlant LoadingScheme.SequentialLoading 1 0 1000 (fun _ => demoComp 20 40))
      1 2 1 1 (1 / 2)).2 ≠ 0 := by
  have hn : 0 < ((demoPlant LoadingScheme.SequentialLoading 1 0 1000
      (fun _ => demoComp 20 40)).equipList 1 1 1).NumComps := by simp
  have hD : |(1 / 2 : ℚ)| < demoEnv.SmallLoad := by norm_num [demoEnv, abs_of_pos]
  rw [DistributePlantLoad_small demoEnv _ 1 2 1 1 (1 / 2) hn hD]
  exact ⟨hn, hD, rfl, by norm_num⟩

/-- C27. `DistributePlantLoad` on a list without members returns
`RemLoopDemand = LoopDemand` and the plant data it was given, whatever the
demand and the policy. -/
theorem C27_empty_list_returns_demand (env : Env) (st : PlantState)
    (LoopNum LoopSideNum CurSchemePtr ListPtr : Nat) (LoopDemand : ℚ)
    (hn : (st.equipList LoopNum CurSchemePtr ListPtr).NumComps = 0) :
    DistributePlantLoad env st LoopNum LoopSideNum CurSchemePtr ListPtr LoopDemand =
      (st, LoopDemand) := by
  unfold DistributePlantLoad
  simp only []
  rw [if_pos hn]

/-- C27 at the first sample plant with an empty list, optimal policy and a
cooling demand of 1 MW. -/
theorem C27_empty_list_witness :
    DistributePlantLoad demoEnv
        (demoPlant LoadingScheme.OptimalLoading 0 0 1000 (fun _ => demoComp 20 40))
        1 2 1 1 (-1000000) =
      (demoPlant LoadingScheme.OptimalLoading 0 0 1000 (fun _ => demoComp 20 40), -1000000) :=
  C27_empty_list_returns_demand demoEnv
    (demoPlant LoadingScheme.OptimalLoading 0 0 1000 (fun _ => demoComp 20 40))
    1 2 1 1 (-1000000) (by simp)

/-- The list search reads the range variable through its absolute value only. -/
theorem selectEquipList_neg (st : PlantState) (L S B C q P : Nat) (v : ℚ) :
    ∀ remaining start ptr0,
      selectEquipList st L S B C q P (-v) remaining start ptr0 =
        selectEquipList st L S B C q P v remaining start ptr0 := by
  intro remaining
  induction remaining with
  | zero => intro start ptr0; rfl
  | succ k ih =>
    intro start ptr0
    unfold selectEquipList
    simp only [abs_neg]
    rw [ih]

/-- C28. The list search, and with it the whole range based dispatch, gives
for the range variable `-v` what it gives for `v`, whatever the plant data, the
calling component and the scheme: the limits of a list are compared with
`|v|`. -/
theorem C28_list_selection_ignores_sign (env : Env) (st : PlantState)
    (LoopNum LoopSideNum BranchNum CompNum CurCompLevelOpNum CurSchemePtr NumEquipLists : Nat)
    (RangeVariable LoopDemand RemLoopDemand : ℚ) (LoopShutDownFlag : Bool)
    (LoadDistributionWasPerformed : Option Bool) :
    selectEquipList st LoopNum LoopSideNum BranchNum CompNum CurCompLevelOpNum CurSchemePtr
        (-RangeVariable) NumEquipLists 1 0 =
      selectEquipList st LoopNum LoopSideNum BranchNum CompNum CurCompLevelOpNum CurSchemePtr
        RangeVariable NumEquipLists 1 0 ∧
    dispatchRangeBased env st LoopNum LoopSideNum BranchNum CompNum CurCompLevelOpNum
        CurSchemePtr NumEquipLists (-RangeVariable) LoopDemand RemLoopDemand LoopShutDownFlag
        LoadDistributionWasPerformed =
      dispatchRangeBased env st LoopNum LoopSideNum BranchNum CompNum CurCompLevelOpNum
        CurSchemePtr NumEquipLists RangeVariable LoopDemand RemLoopDemand LoopShutDownFlag
        LoadDistributionWasPerformed := by
  refine ⟨selectEquipList_neg _ _ _ _ _ _ _ _ _ _ _, ?_⟩
  unfold dispatchRangeBased
  rw [selectEquipList_neg]

/-! # The clean-up of the other lists -/

/-- C25 (failing input). Second sample plant (lists `[0, 10]`, `[10, 20]`,
`[20, 30]` of one heating load scheme), called at a demand of 25 W for the
boiler of branch 4, which is on list 3 only: list 3 is selected (the first and
only entry of the component's own list table), the clean-up loop runs over that
one entry and skips it, and the boiler of branch 3, a member of lists 1 and 2
and not of list 3, still carries its load of 5 W from the earlier call when the
driver returns after distributing the demand. -/
theorem C25_stale_load_left_on_other_list :
    selectEquipList (rangePlant false false) 1 2 4 1 1 1 25 1 1 0 = (1, 3) ∧
    (rangePlant false false).memberBranch 1 1 1 2 = 3 ∧
    (rangePlant false false).memberBranch 1 1 2 2 = 3 ∧
    (rangePlant false false).memberBranch 1 1 3 1 = 2 ∧
    (rangePlant false false).memberBranch 1 1 3 2 = 4 ∧
    ((rangePlant false false).comp 1 2 3 1).MyLoad = 5 ∧
    ∃ r, ManagePlantLoadDistribution demoEnv (rangePlant false false) 1 2 4 1 25 0 true false
        (some false) = Except.ok r ∧
      r.LoadDistributionWasPerformed = some true ∧
      (r.st.comp 1 2 3 1).MyLoad = 5 := by
  have hsel : selectEquipList (rangePlant false false) 1 2 4 1 1 1 25 1 1 0 = (1, 3) := by
    have := selectEquipList_stops_at (rangePlant false false) 1 2 4 1 1 1 25 1 1 1 0 (le_refl 1)
      (by norm_num) (fun j h1 h2 => absurd h2 (by omega))
      (Or.inl (by norm_num [rangeSupplyComp, rangeList, abs_of_pos]))
    rw [this]
    simp [rangeSupplyComp]
  have hact := rangePlant_activate_none 4 (by norm_num)
  have hm := Manage_range_based demoEnv (rangePlant false false) 1 2 4 1 25 0 true (some false) 25
    (rangePlant_anyOpSchemeAvailable false false)
    (by rw [hact]; simp [rangeSupplyComp])
    (by rw [hact]; norm_num [rangeVariableOf, demoEnv])
  refine ⟨hsel, by simp [PlantState.memberBranch, rangeList],
    by simp [PlantState.memberBranch, rangeList], by simp [PlantState.memberBranch, rangeList],
    by simp [PlantState.memberBranch, rangeList], by simp [rangeSupplyComp], ?_⟩
  rw [hm, hact]
  have hd := dispatchRangeBased_selected demoEnv (rangePlant false false) 1 2 4 1 1 1 1 25 25 0
    false (some false) 1 3 hsel (by norm_num) (by simp [rangeList])
  have hnull : nullOtherLists (rangePlant false false) 1 2 1 1 1 = rangePlant false false := by
    simp [nullOtherLists, forLoop]
  rw [hnull] at hd
  refine ⟨_, rfl, ?_, ?_⟩
  · have := congrArg ManageResult.LoadDistributionWasPerformed hd
    simp only [rangePlant_comp_supply] at this ⊢
    exact this.trans rfl
  · have := congrArg (fun r => (r.st.comp 1 2 3 1).MyLoad) hd
    simp only [rangePlant_comp_supply] at this ⊢
    refine this.trans ?_
    obtain ⟨_, hfr⟩ := DistributePlantLoad_frame demoEnv
      (TurnOnPlantLoopPipes (rangePlant false false) 1 2) 1 2 1 3 25
    have hsk := TurnOnPlantLoopPipes_skeleton (rangePlant false false) 1 2
    rw [hfr, TurnOnPlantLoopPipes_spec]
    · simp [switchedOnIfPipe, rangeSupplyComp]
    · intro j hj1 hj2 hmem
      rw [hsk.memberBranch] at hmem
      have hb := hmem.2.2.1
      by_cases h1 : j = 1 <;> simp [PlantState.memberBranch, rangeList, h1] at hb

/-! # The overlap check of the range limits -/

@[simp] theorem overlapPlant_equipList (lo1 hi1 lo2 hi2 : ℚ) (L P K : Nat) :
    (overlapPlant lo1 hi1 lo2 hi2).equipList L P K =
      if K = 1 then { RangeLowerLimit := lo1, RangeUpperLimit := hi1 }
      else { RangeLowerLimit := lo2, RangeUpperLimit := hi2 } := rfl

/-- What one pass of the inner loop adds to the log. -/
theorem mem_overlapInnerBody (st : PlantState) (L P i : Nat) (log : List OverlapWarning)
    (j : Nat) (w : OverlapWarning) :
    w ∈ overlapInnerBody st L P i log j ↔
      w ∈ log ∨ (j ≠ i ∧
        ((w = OverlapWarning.lowerLimitWithin j i ∧
            (st.equipList L P j).RangeLowerLimit > (st.equipList L P i).RangeLowerLimit ∧
            (st.equipList L P j).RangeLowerLimit < (st.equipList L P i).RangeUpperLimit) ∨
          (w = OverlapWarning.upperLimitWithin j i ∧
            (st.equipList L P j).RangeUpperLimit > (st.equipList L P i).RangeLowerLimit ∧
            (st.equipList L P j).RangeUpperLimit < (st.equipList L P i).RangeUpperLimit))) := by
  unfold overlapInnerBody
  simp only []
  by_cases hji : j = i
  · simp [hji]
  · rw [if_neg hji]
    by_cases h1 : (st.equipList L P j).RangeLowerLimit > (st.equipList L P i).RangeLowerLimit ∧
        (st.equipList L P j).RangeLowerLimit < (st.equipList L P i).RangeUpperLimit
    · by_cases h2 : (st.equipList L P j).RangeUpperLimit > (st.equipList L P i).RangeLowerLimit ∧
          (st.equipList L P j).RangeUpperLimit < (st.equipList L P i).RangeUpperLimit
      · rw [if_pos h1, if_pos h2]
        simp only [List.mem_append, List.mem_singleton]
        tauto
      · rw [if_pos h1, if_neg h2]
        simp only [List.mem_append, List.mem_singleton]
        tauto
    · by_cases h2 : (st.equipList L P j).RangeUpperLimit > (st.equipList L P i).RangeLowerLimit ∧
          (st.equipList L P j).RangeUpperLimit < (st.equipList L P i).RangeUpperLimit
      · rw [if_neg h1, if_pos h2]
        simp only [List.mem_append, List.mem_singleton]
        tauto
      · rw [if_neg h1, if_neg h2]
        tauto

/-- What the inner loop over the ranges `1 .. n` adds to the log. -/
theorem mem_overlapInnerLoop (st : PlantState) (L P i : Nat) (log : List OverlapWarning)
    (w : OverlapWarning) :
    ∀ n, w ∈ forLoop (overlapInnerBody st L P i) log n ↔
      w ∈ log ∨ ∃ j, 1 ≤ j ∧ j ≤ n ∧ j ≠ i ∧
        ((w = OverlapWarning.lowerLimitWithin j i ∧
            (st.equipList L P j).RangeLowerLimit > (st.equipList L P i).RangeLowerLimit ∧
            (st.equipList L P j).RangeLowerLimit < (st.equipList L P i).RangeUpperLimit) ∨
          (w = OverlapWarning.upperLimitWithin j i ∧
            (st.equipList L P j).RangeUpperLimit > (st.equipList L P i).RangeLowerLimit ∧
            (st.equipList L P j).RangeUpperLimit < (st.equipList L P i).RangeUpperLimit)) := by
  intro n
  induction n with
  | zero =>
    simp only [forLoop]
    constructor
    · intro h; exact Or.inl h
    · rintro (h | ⟨j, h1, h2, _⟩)
      · exact h
      · omega
  | succ n ih =>
    simp only [forLoop]
    rw [mem_overlapInnerBody, ih]
    constructor
    · rintro ((h | ⟨j, h1, h2, h3⟩) | ⟨hne, h⟩)
      · exact Or.inl h
      · exact Or.inr ⟨j, h1, by omega, h3⟩
      · exact Or.inr ⟨n + 1, by omega, le_refl _, hne, h⟩
    · rintro (h | ⟨j, h1, h2, hne, h⟩)
      · exact Or.inl (Or.inl h)
      · by_cases hj : j = n + 1
        · subst hj
          exact Or.inr ⟨hne, h⟩
        · exact Or.inl (Or.inr ⟨j, h1, by omega, hne, h⟩)

/-- The warnings of the overlap check: one for each ordered pair of distinct
lists whose inner lower, or upper, limit lies strictly inside the outer range. -/
theorem mem_checkRangeOverlap (st : PlantState) (L P n : Nat) (w : OverlapWarning) :
    w ∈ checkRangeOverlap st L P n ↔
      ∃ i j, 1 ≤ i ∧ i ≤ n ∧ 1 ≤ j ∧ j ≤ n ∧ j ≠ i ∧
        ((w = OverlapWarning.lowerLimitWithin j i ∧
            (st.equipList L P j).RangeLowerLimit > (st.equipList L P i).RangeLowerLimit ∧
            (st.equipList L P j).RangeLowerLimit < (st.equipList L P i).RangeUpperLimit) ∨
          (w = OverlapWarning.upperLimitWithin j i ∧
            (st.equipList L P j).RangeUpperLimit > (st.equipList L P i).RangeLowerLimit ∧
            (st.equipList L P j).RangeUpperLimit < (st.equipList L P i).RangeUpperLimit)) := by
  unfold checkRangeOverlap
  have key : ∀ m, w ∈ forLoop (fun log ListNum =>
        forLoop (overlapInnerBody st L P ListNum) log n) [] m ↔
      ∃ i j, 1 ≤ i ∧ i ≤ m ∧ 1 ≤ j ∧ j ≤ n ∧ j ≠ i ∧
        ((w = OverlapWarning.lowerLimitWithin j i ∧
            (st.equipList L P j).RangeLowerLimit > (st.equipList L P i).RangeLowerLimit ∧
            (st.equipList L P j).RangeLowerLimit < (st.equipList L P i).RangeUpperLimit) ∨
          (w = OverlapWarning.upperLimitWithin j i ∧
            (st.equipList L P j).RangeUpperLimit > (st.equipList L P i).RangeLowerLimit ∧
            (st.equipList L P j).RangeUpperLimit < (st.equipList L P i).RangeUpperLimit)) := by
    intro m
    induction m with
    | zero =>
      simp only [forLoop]
      constructor
      · intro h; cases h
      · rintro ⟨i, j, h1, h2, _⟩; omega
    | succ m ih =>
      simp only [forLoop]
      rw [mem_overlapInnerLoop, ih]
      constructor
      · rintro (⟨i, j, h1, h2, h3⟩ | ⟨j, h1, h2, h3⟩)
        · exact ⟨i, j, h1, by omega, h3⟩
        · exact ⟨m + 1, j, by omega, le_refl _, h1, h2, h3⟩
      · rintro ⟨i, j, h1, h2, h3⟩
        by_cases hi : i = m + 1
        · subst hi
          exact Or.inr ⟨j, h3⟩
        · exact Or.inl ⟨i, j, h1, by omega, h3⟩
  exact key n

/-- The overlap check on two lists with proper ranges (lower limit below upper
limit): a warning naming the pair is shown exactly when the ranges share more
than one point and are not identical. -/
theorem overlap_warning_iff (st : PlantState) (L P n i j : Nat)
    (hi1 : 1 ≤ i) (hi2 : i ≤ n) (hj1 : 1 ≤ j) (hj2 : j ≤ n) (hij : i ≠ j)
    (hi : (st.equipList L P i).RangeLowerLimit < (st.equipList L P i).RangeUpperLimit)
    (hj : (st.equipList L P j).RangeLowerLimit < (st.equipList L P j).RangeUpperLimit) :
    (∃ w, w ∈ checkRangeOverlap st L P n ∧ warningNames w i j) ↔
      (rangesOverlap st L P i j ∧ ¬ rangesIdentical st L P i j) := by
  unfold rangesOverlap rangesIdentical warningNames
  constructor
  · rintro ⟨w, hw, hname⟩
    rw [mem_checkRangeOverlap] at hw
    obtain ⟨a, b, _, _, _, _, hab, hcase⟩ := hw
    rw [lt_min_iff, max_lt_iff, max_lt_iff]
    rcases hcase with ⟨rfl, h1, h2⟩ | ⟨rfl, h1, h2⟩
    · rcases hname with h | h | h | h
      · injection h with e1 e2
        subst e1; subst e2
        exact ⟨⟨⟨by linarith, by linarith⟩, ⟨by linarith, by linarith⟩⟩,
          fun hid => by linarith [hid.1]⟩
      · cases h
      · injection h with e1 e2
        subst e1; subst e2
        exact ⟨⟨⟨by linarith, by linarith⟩, ⟨by linarith, by linarith⟩⟩,
          fun hid => by linarith [hid.1]⟩
      · cases h
    · rcases hname with h | h | h | h
      · cases h
      · injection h with e1 e2
        subst e1; subst e2
        exact ⟨⟨⟨by linarith, by linarith⟩, ⟨by linarith, by linarith⟩⟩,
          fun hid => by linarith [hid.2]⟩
      · cases h
      · injection h with e1 e2
        subst e1; subst e2
        exact ⟨⟨⟨by linarith, by linarith⟩, ⟨by linarith, by linarith⟩⟩,
          fun hid => by linarith [hid.2]⟩
  · rintro ⟨hov, hnid⟩
    rw [lt_min_iff, max_lt_iff, max_lt_iff] at hov
    obtain ⟨⟨h1, h2⟩, ⟨h3, h4⟩⟩ := hov
    rcases lt_trichotomy (st.equipList L P i).RangeLowerLimit
        (st.equipList L P j).RangeLowerLimit with hlt | heq | hgt
    · refine ⟨OverlapWarning.lowerLimitWithin j i, ?_, Or.inr (Or.inr (Or.inl rfl))⟩
      rw [mem_checkRangeOverlap]
      exact ⟨i, j, hi1, hi2, hj1, hj2, fun h => hij h.symm, Or.inl ⟨rfl, hlt, h2⟩⟩
    · rcases lt_trichotomy (st.equipList L P i).RangeUpperLimit
          (st.equipList L P j).RangeUpperLimit with hlt | heq2 | hgt
      · refine ⟨OverlapWarning.upperLimitWithin i j, ?_, Or.inr (Or.inl rfl)⟩
        rw [mem_checkRangeOverlap]
        exact ⟨j, i, hj1, hj2, hi1, hi2, hij, Or.inr ⟨rfl, by linarith, hlt⟩⟩
      · exact absurd ⟨heq, heq2⟩ hnid
      · refine ⟨OverlapWarning.upperLimitWithin j i, ?_, Or.inr (Or.inr (Or.inr rfl))⟩
        rw [mem_checkRangeOverlap]
        exact ⟨i, j, hi1, hi2, hj1, hj2, fun h => hij h.symm, Or.inr ⟨rfl, by linarith, hgt⟩⟩
    · refine ⟨OverlapWarning.lowerLimitWithin i j, ?_, Or.inl rfl⟩
      rw [mem_checkRangeOverlap]
      exact ⟨j, i, hj1, hj2, hi1, hi2, hij, Or.inl ⟨rfl, hgt, h3⟩⟩

/-- C29 (failing input). A scheme with two lists of the same range `[0, 50]`:
the ranges share more than one point, and the overlap check shows no warning.
For comparison, the ranges `[0, 50]` and `[25, 75]` give two warnings, and the
ranges `[0, 50]` and `[50, 100]`, which touch at 50, none. -/
theorem C29_identical_ranges_raise_no_warning :
    rangesOverlap (overlapPlant 0 50 0 50) 1 1 1 2 ∧
    checkRangeOverlap (overlapPlant 0 50 0 50) 1 1 2 = [] ∧
    checkRangeOverlap (overlapPlant 0 50 25 75) 1 1 2 =
      [OverlapWarning.lowerLimitWithin 2 1, OverlapWarning.upperLimitWithin 1 2] ∧
    checkRangeOverlap (overlapPlant 0 50 50 100) 1 1 2 = [] := by
  refine ⟨?_, ?_, ?_, ?_⟩
  · unfold rangesOverlap
    norm_num
  · norm_num [checkRangeOverlap, forLoop, overlapInnerBody]
  · norm_num [checkRangeOverlap, forLoop, overlapInnerBody]
  · norm_num [checkRangeOverlap, forLoop, overlapInnerBody]

/-! # The schedule update, visit by visit -/

theorem modifyComp_modifyComp (st : PlantState) (L S B C : Nat) (f g : CompData → CompData) :
    (st.modifyComp L S B C f).modifyComp L S B C g = st.modifyComp L S B C (fun c => g (f c)) := by
  unfold PlantState.modifyComp
  simp [Function.update_idem]

/-- A loop of conditional assignments to one component is one assignment. -/
theorem forLoop_cond_modifyComp (L S B C : Nat) (cond : CompData → Nat → Prop)
    [∀ c n, Decidable (cond c n)] (g : Nat → CompData → CompData) (s : PlantState) :
    ∀ N, forLoop (fun st n => if cond (st.comp L S B C) n then st.modifyComp L S B C (g n) else st)
        s N =
      s.modifyComp L S B C
        (fun c => forLoop (fun c n => if cond c n then g n c else c) c N) := by
  intro N
  induction N with
  | zero =>
    simp only [forLoop]
    exact (modifyComp_eq_self s L S B C _ rfl).symm
  | succ N ih =>
    simp only [forLoop]
    rw [ih, comp_modifyComp_self]
    by_cases h : cond (forLoop (fun c n => if cond c n then g n c else c) (s.comp L S B C) N)
        (N + 1)
    · rw [if_pos h, modifyComp_modifyComp]
      apply modifyComp_congr
      rw [if_pos h]
    · rw [if_neg h]
      apply modifyComp_congr
      rw [if_neg h]

/-- One member of a list, as one assignment: the component it points to is
visited, and `errFlag2` is raised when that component has the pump scheme type. -/
theorem activateListMember_eq (L P K : Nat) (s : PlantState) (e : Bool) (i : Nat) :
    activateListMember L P K (s, e) i =
      (s.modifyComp ((s.equipList L P K).Comp i).LoopNumPtr
          ((s.equipList L P K).Comp i).LoopSideNumPtr
          ((s.equipList L P K).Comp i).BranchNumPtr
          ((s.equipList L P K).Comp i).CompNumPtr
          (compVisit (s.opScheme L P).OpSchemeType P),
        e || decide ((s.comp ((s.equipList L P K).Comp i).LoopNumPtr
          ((s.equipList L P K).Comp i).LoopSideNumPtr
          ((s.equipList L P K).Comp i).BranchNumPtr
          ((s.equipList L P K).Comp i).CompNumPtr).CurOpSchemeType =
            OpSchemeType.PumpOpSchemeType)) := by
  unfold activateListMember
  simp only []
  generalize ((s.equipList L P K).Comp i).LoopNumPtr = L2
  generalize ((s.equipList L P K).Comp i).LoopSideNumPtr = S2
  generalize ((s.equipList L P K).Comp i).BranchNumPtr = B2
  generalize ((s.equipList L P K).Comp i).CompNumPtr = C2
  by_cases hp : (s.comp L2 S2 B2 C2).CurOpSchemeType ≠ OpSchemeType.PumpOpSchemeType
  · rw [if_pos hp]
    simp only []
    rw [forLoop_cond_modifyComp L2 S2 B2 C2
      (fun c n => (c.OpScheme n).OpSchemePtr = P) (fun n c => { c with CurCompLevelOpNum := n }),
      modifyComp_modifyComp, comp_modifyComp_self]
    refine Prod.ext ?_ ?_
    · simp only []
      apply modifyComp_congr
      unfold compVisit
      simp only [if_pos hp]
    · simp [hp]
  · rw [if_neg hp]
    simp only []
    rw [forLoop_cond_modifyComp L2 S2 B2 C2
      (fun c n => (c.OpScheme n).OpSchemePtr = P) (fun n c => { c with CurCompLevelOpNum := n })]
    refine Prod.ext ?_ ?_
    · simp only []
      apply modifyComp_congr
      unfold compVisit
      simp only [if_neg hp]
    · have : (s.comp L2 S2 B2 C2).CurOpSchemeType = OpSchemeType.PumpOpSchemeType := by
        by_contra h; exact hp h
      simp [this]

/-! # Topology kept by the schedule update -/

section ModifyOpScheme
variable (st : PlantState) (L P : Nat) (f : OpSchemeData → OpSchemeData)

theorem opScheme_modifyOpScheme (L2 P2 : Nat) :
    (st.modifyOpScheme L P f).opScheme L2 P2 =
      if L2 = L ∧ P2 = P then f (st.opScheme L P) else st.opScheme L2 P2 := by
  unfold PlantState.modifyOpScheme PlantState.opScheme
  by_cases hL : L2 = L
  · subst hL
    by_cases hP : P2 = P
    · subst hP; simp
    · simp [hP]
  · simp [hL]

@[simp] theorem comp_modifyOpScheme (L2 S2 B2 C2 : Nat) :
    (st.modifyOpScheme L P f).comp L2 S2 B2 C2 = st.comp L2 S2 B2 C2 := by
  unfold PlantState.modifyOpScheme PlantState.comp
  by_cases hL : L2 = L
  · subst hL; simp
  · simp [hL]

@[simp] theorem side_modifyOpScheme (L2 S2 : Nat) :
    (st.modifyOpScheme L P f).side L2 S2 = st.side L2 S2 := by
  unfold PlantState.modifyOpScheme PlantState.side
  by_cases hL : L2 = L
  · subst hL; simp
  · simp [hL]

@[simp] theorem branch_modifyOpScheme (L2 S2 B2 : Nat) :
    (st.modifyOpScheme L P f).branch L2 S2 B2 = st.branch L2 S2 B2 := by
  unfold PlantState.modifyOpScheme PlantState.branch
  by_cases hL : L2 = L
  · subst hL; simp
  · simp [hL]

@[simp] theorem modifyOpScheme_TotNumLoops :
    (st.modifyOpScheme L P f).TotNumLoops = st.TotNumLoops := rfl

@[simp] theorem modifyOpScheme_NumOpSchemes (L2 : Nat) :
    ((st.modifyOpScheme L P f).PlantLoop L2).NumOpSchemes = (st.PlantLoop L2).NumOpSchemes := by
  unfold PlantState.modifyOpScheme
  by_cases hL : L2 = L
  · subst hL; simp
  · simp [hL]

end ModifyOpScheme

theorem SameTopology.same (st : PlantState) : SameTopology st st := by
  constructor <;> intros <;> rfl

theorem SameTopology.chain {a b c : PlantState} (h1 : SameTopology a b) (h2 : SameTopology b c) :
    SameTopology a c := by
  constructor
  · rw [h2.totNumLoops, h1.totNumLoops]
  · intro L; rw [h2.numOpSchemes, h1.numOpSchemes]
  · intro L P; rw [h2.schemeData, h1.schemeData]
  · intro L S; rw [h2.totalBranches, h1.totalBranches]
  · intro L S B; rw [h2.totalComponents, h1.totalComponents]

theorem SameTopology.back {a b : PlantState} (h : SameTopology a b) : SameTopology b a := by
  constructor
  · rw [h.totNumLoops]
  · intro L; rw [h.numOpSchemes]
  · intro L P; rw [h.schemeData]
  · intro L S; rw [h.totalBranches]
  · intro L S B; rw [h.totalComponents]

theorem SameSkeleton.topology {st st' : PlantState} (h : SameSkeleton st st') :
    SameTopology st st' := by
  constructor
  · exact h.totNumLoops
  · exact h.numOpSchemes
  · intro L P; rw [h.opScheme]
  · exact h.totalBranches
  · exact h.totalComponents

theorem SameTopology.setAvailable (st : PlantState) (L P : Nat) (b : Bool) :
    SameTopology st (st.modifyOpScheme L P (fun o => { o with Available := b })) := by
  constructor
  · rfl
  · intro L2; simp
  · intro L2 P2
    rw [opScheme_modifyOpScheme]
    split
    · rename_i h; obtain ⟨rfl, rfl⟩ := h; rfl
    · rfl
  · intro L2 S2; simp
  · intro L2 S2 B2; simp

theorem SameTopology.opSchemeType {st st' : PlantState} (h : SameTopology st st') (L P : Nat) :
    (st'.opScheme L P).OpSchemeType = (st.opScheme L P).OpSchemeType := by
  have := congrArg OpSchemeData.OpSchemeType (h.schemeData L P)
  exact this

theorem SameTopology.schedPtr {st st' : PlantState} (h : SameTopology st st') (L P : Nat) :
    (st'.opScheme L P).SchedPtr = (st.opScheme L P).SchedPtr := by
  have := congrArg OpSchemeData.SchedPtr (h.schemeData L P)
  exact this

theorem SameTopology.numEquipLists {st st' : PlantState} (h : SameTopology st st') (L P : Nat) :
    (st'.opScheme L P).NumEquipLists = (st.opScheme L P).NumEquipLists := by
  have := congrArg OpSchemeData.NumEquipLists (h.schemeData L P)
  exact this

theorem SameTopology.lists {st st' : PlantState} (h : SameTopology st st') (L P K : Nat) :
    st'.equipList L P K = st.equipList L P K := by
  have := congrArg OpSchemeData.EquipList (h.schemeData L P)
  simp only [] at this
  unfold PlantState.equipList
  unfold PlantState.opScheme at this
  rw [this]

/-! # Visit lists depend on the topology only -/

theorem memberVisits_congr {st st' : PlantState} (h : SameTopology st st')
    (L P K i L2 S2 B2 C2 : Nat) :
    memberVisits st' L P K i L2 S2 B2 C2 = memberVisits st L P K i L2 S2 B2 C2 := by
  unfold memberVisits
  rw [h.lists, h.opSchemeType]

theorem listVisits_congr {st st' : PlantState} (h : SameTopology st st')
    (L P K L2 S2 B2 C2 : Nat) :
    listVisits st' L P K L2 S2 B2 C2 = listVisits st L P K L2 S2 B2 C2 := by
  unfold listVisits
  rw [h.lists]
  congr 1
  funext i
  exact memberVisits_congr h _ _ _ _ _ _ _ _

theorem schemeVisits_congr (env : Env) {st st' : PlantState} (h : SameTopology st st')
    (L P L2 S2 B2 C2 : Nat) :
    schemeVisits env st' L P L2 S2 B2 C2 = schemeVisits env st L P L2 S2 B2 C2 := by
  unfold schemeVisits
  rw [h.schedPtr, h.numEquipLists]
  congr 2
  funext K
  exact listVisits_congr h _ _ _ _ _ _ _

theorem loopVisits_congr (env : Env) {st st' : PlantState} (h : SameTopology st st')
    (L L2 S2 B2 C2 : Nat) :
    loopVisits env st' L L2 S2 B2 C2 = loopVisits env st L L2 S2 B2 C2 := by
  unfold loopVisits
  rw [h.numOpSchemes]
  congr 1
  funext P
  exact schemeVisits_congr env h _ _ _ _ _ _

theorem gateVisits_congr (env : Env) {st st' : PlantState} (h : SameTopology st st')
    (L2 S2 B2 C2 : Nat) :
    gateVisits env st' L2 S2 B2 C2 = gateVisits env st L2 S2 B2 C2 := by
  unfold gateVisits
  rw [h.totNumLoops]
  congr 1
  funext L
  exact loopVisits_congr env h _ _ _ _ _

/-! # Sequences of visits -/

theorem applyVisits_append (c : CompData) (V W : List (OpSchemeType × Nat)) :
    applyVisits c (V ++ W) = applyVisits (applyVisits c V) W := by
  induction V generalizing c with
  | nil => rfl
  | cons v V ih => exact ih _

theorem visitsRaise_append (c : CompData) (V W : List (OpSchemeType × Nat)) :
    visitsRaise c (V ++ W) = (visitsRaise c V || visitsRaise (applyVisits c V) W) := by
  induction V generalizing c with
  | nil => simp [visitsRaise, applyVisits]
  | cons v V ih =>
    show (decide (c.CurOpSchemeType = OpSchemeType.PumpOpSchemeType) ||
        visitsRaise (compVisit v.1 v.2 c) (V ++ W)) =
      ((decide (c.CurOpSchemeType = OpSchemeType.PumpOpSchemeType) ||
        visitsRaise (compVisit v.1 v.2 c) V) ||
        visitsRaise (applyVisits (compVisit v.1 v.2 c) V) W)
    rw [ih, Bool.or_assoc]

theorem visitsUpTo_succ {α : Type} (f : Nat → List α) (n : Nat) :
    visitsUpTo f (n + 1) = visitsUpTo f n ++ f (n + 1) := rfl

theorem visitsUpTo_zero {α : Type} (f : Nat → List α) : visitsUpTo f 0 = [] := rfl

theorem mem_visitsUpTo {α : Type} (f : Nat → List α) (x : α) :
    ∀ n, x ∈ visitsUpTo f n ↔ ∃ i, 1 ≤ i ∧ i ≤ n ∧ x ∈ f i := by
  intro n
  induction n with
  | zero =>
    rw [visitsUpTo_zero]
    constructor
    · intro h; cases h
    · rintro ⟨i, h1, h2, _⟩; omega
  | succ n ih =>
    rw [visitsUpTo_succ, List.mem_append, ih]
    constructor
    · rintro (⟨i, h1, h2, h3⟩ | h)
      · exact ⟨i, h1, by omega, h3⟩
      · exact ⟨n + 1, by omega, le_refl _, h⟩
    · rintro ⟨i, h1, h2, h3⟩
      by_cases hi : i = n + 1
      · subst hi; exact Or.inr h3
      · exact Or.inl ⟨i, h1, by omega, h3⟩

/-! # The loops of the schedule update as sequences of visits -/

theorem visitStep.none (acc : PlantState × Bool) : visitStep acc acc (fun _ _ _ _ => []) := by
  refine ⟨SameTopology.same _, fun _ _ _ _ => rfl, ?_⟩
  constructor
  · intro h; exact Or.inl h
  · rintro (h | ⟨_, _, _, _, h⟩)
    · exact h
    · simp [visitsRaise] at h

theorem visitStep.append {a b c : PlantState × Bool}
    {V W : Nat → Nat → Nat → Nat → List (OpSchemeType × Nat)}
    (h1 : visitStep a b V) (h2 : visitStep b c W) :
    visitStep a c (fun L S B C => V L S B C ++ W L S B C) := by
  obtain ⟨t1, c1, e1⟩ := h1
  obtain ⟨t2, c2, e2⟩ := h2
  refine ⟨t1.chain t2, ?_, ?_⟩
  · intro L S B C
    rw [c2, c1, applyVisits_append]
  · rw [e2, e1]
    constructor
    · rintro ((h | ⟨L, S, B, C, h⟩) | ⟨L, S, B, C, h⟩)
      · exact Or.inl h
      · exact Or.inr ⟨L, S, B, C, by simp only []; rw [visitsRaise_append, h]; rfl⟩
      · refine Or.inr ⟨L, S, B, C, ?_⟩
        simp only []
        rw [visitsRaise_append, ← c1, h]
        simp
    · rintro (h | ⟨L, S, B, C, h⟩)
      · exact Or.inl (Or.inl h)
      · simp only [] at h
        rw [visitsRaise_append, Bool.or_eq_true] at h
        rcases h with h | h
        · exact Or.inl (Or.inr ⟨L, S, B, C, h⟩)
        · exact Or.inr ⟨L, S, B, C, by rw [c1]; exact h⟩

theorem visitStep.congr {a b : PlantState × Bool}
    {V W : Nat → Nat → Nat → Nat → List (OpSchemeType × Nat)}
    (h : visitStep a b V) (hVW : ∀ L S B C, V L S B C = W L S B C) : visitStep a b W := by
  have : V = W := by funext L S B C; exact hVW L S B C
  rw [← this]; exact h

/-- A loop whose iterations amount to the visits `vis i` (for plant data with
the topology of `a0`) amounts to these visits one after the other. -/
theorem forLoop_visitStep (a0 : PlantState) (body : PlantState × Bool → Nat → PlantState × Bool)
    (vis : Nat → Nat → Nat → Nat → Nat → List (OpSchemeType × Nat))
    (hbody : ∀ acc i, SameTopology a0 acc.1 → visitStep acc (body acc i) (vis i))
    (acc : PlantState × Bool) (h0 : SameTopology a0 acc.1) :
    ∀ n, visitStep acc (forLoop body acc n)
      (fun L S B C => visitsUpTo (fun i => vis i L S B C) n) := by
  intro n
  induction n with
  | zero => exact visitStep.none acc
  | succ n ih =>
    simp only [forLoop]
    have h2 := hbody (forLoop body acc n) (n + 1) (h0.chain ih.1)
    exact (ih.append h2).congr (fun L S B C => rfl)

/-- One member of a list. -/
theorem activateListMember_visitStep (a0 : PlantState) (L P K : Nat) (acc : PlantState × Bool)
    (i : Nat) (h0 : SameTopology a0 acc.1) :
    visitStep acc (activateListMember L P K acc i) (memberVisits a0 L P K i) := by
  obtain ⟨s, e⟩ := acc
  simp only [] at h0
  rw [activateListMember_eq]
  have hm : ∀ L2 S2 B2 C2, memberVisits a0 L P K i L2 S2 B2 C2 =
      if ((s.equipList L P K).Comp i).LoopNumPtr = L2 ∧
          ((s.equipList L P K).Comp i).LoopSideNumPtr = S2 ∧
          ((s.equipList L P K).Comp i).BranchNumPtr = B2 ∧
          ((s.equipList L P K).Comp i).CompNumPtr = C2 then
        [((s.opScheme L P).OpSchemeType, P)]
      else [] := by
    intro L2 S2 B2 C2
    rw [← memberVisits_congr h0]
    rfl
  generalize ((s.equipList L P K).Comp i).LoopNumPtr = Lp at hm ⊢
  generalize ((s.equipList L P K).Comp i).LoopSideNumPtr = Sp at hm ⊢
  generalize ((s.equipList L P K).Comp i).BranchNumPtr = Bp at hm ⊢
  generalize ((s.equipList L P K).Comp i).CompNumPtr = Cp at hm ⊢
  refine ⟨(SameSkeleton.modifyComp s Lp Sp Bp Cp _).topology, ?_, ?_⟩
  · intro L2 S2 B2 C2
    simp only []
    rw [comp_modifyComp, hm]
    by_cases h : L2 = Lp ∧ S2 = Sp ∧ B2 = Bp ∧ C2 = Cp
    · obtain ⟨rfl, rfl, rfl, rfl⟩ := h
      simp [applyVisits]
    · have h2 : ¬ (Lp = L2 ∧ Sp = S2 ∧ Bp = B2 ∧ Cp = C2) := fun hh =>
        h ⟨hh.1.symm, hh.2.1.symm, hh.2.2.1.symm, hh.2.2.2.symm⟩
      rw [if_neg h, if_neg h2]
      rfl
  · simp only [Bool.or_eq_true, decide_eq_true_eq]
    constructor
    · rintro (h | h)
      · exact Or.inl h
      · refine Or.inr ⟨Lp, Sp, Bp, Cp, ?_⟩
        rw [hm, if_pos ⟨rfl, rfl, rfl, rfl⟩]
        simp [visitsRaise, h]
    · rintro (h | ⟨L2, S2, B2, C2, h⟩)
      · exact Or.inl h
      · rw [hm] at h
        split at h
        · rename_i hp
          obtain ⟨rfl, rfl, rfl, rfl⟩ := hp
          simp [visitsRaise] at h
          exact Or.inr h
        · simp [visitsRaise] at h

/-- The members of one list. -/
theorem listLoop_visitStep (a0 : PlantState) (L P K : Nat) (acc : PlantState × Bool)
    (h0 : SameTopology a0 acc.1) :
    visitStep acc
      (forLoop (activateListMember L P K) acc (acc.1.equipList L P K).NumComps)
      (listVisits a0 L P K) := by
  have h := forLoop_visitStep a0 (activateListMember L P K)
    (fun i => memberVisits a0 L P K i)
    (fun acc i h => activateListMember_visitStep a0 L P K acc i h) acc h0
    (acc.1.equipList L P K).NumComps
  rw [h0.lists] at h ⊢
  exact h

/-- One scheme of one loop. -/
theorem updateOpScheme_visitStep (env : Env) (a0 : PlantState) (L : Nat)
    (acc : PlantState × Bool) (P : Nat) (h0 : SameTopology a0 acc.1) :
    visitStep acc (updateOpScheme env L acc P) (schemeVisits env a0 L P) := by
  unfold updateOpScheme schemeVisits
  simp only []
  rw [h0.schedPtr]
  by_cases hon : env.GetCurrentScheduleValue (a0.opScheme L P).SchedPtr > 0
  · rw [if_pos hon]
    simp only [if_pos hon]
    have hA : visitStep acc
        (acc.1.modifyOpScheme L P (fun o => { o with Available := true }), acc.2)
        (fun _ _ _ _ => []) := by
      refine ⟨SameTopology.setAvailable _ _ _ _, fun _ _ _ _ => by simp [applyVisits], ?_⟩
      constructor
      · intro h; exact Or.inl h
      · rintro (h | ⟨_, _, _, _, h⟩)
        · exact h
        · simp [visitsRaise] at h
    have h1 : SameTopology a0
        (acc.1.modifyOpScheme L P (fun o => { o with Available := true }), acc.2).1 :=
      h0.chain (SameTopology.setAvailable _ _ _ _)
    have hB := forLoop_visitStep a0
      (fun acc K => forLoop (activateListMember L P K) acc (acc.1.equipList L P K).NumComps)
      (fun K => listVisits a0 L P K)
      (fun acc K h => listLoop_visitStep a0 L P K acc h)
      (acc.1.modifyOpScheme L P (fun o => { o with Available := true }), acc.2) h1
      ((acc.1.modifyOpScheme L P (fun o => { o with Available := true })).opScheme L P).NumEquipLists
    have hn : ((acc.1.modifyOpScheme L P (fun o => { o with Available := true })).opScheme
        L P).NumEquipLists = (a0.opScheme L P).NumEquipLists := h1.numEquipLists L P
    rw [hn] at hB ⊢
    exact (hA.append hB).congr (fun L2 S2 B2 C2 => by simp)
  · rw [if_neg hon]
    simp only [if_neg hon]
    refine ⟨SameTopology.setAvailable _ _ _ _, fun _ _ _ _ => by simp [applyVisits], ?_⟩
    constructor
    · intro h; exact Or.inl h
    · rintro (h | ⟨_, _, _, _, h⟩)
      · exact h
      · simp [visitsRaise] at h

/-- The schemes of one loop. -/
theorem loopBody_visitStep (env : Env) (a0 : PlantState) (L : Nat) (acc : PlantState × Bool)
    (h0 : SameTopology a0 acc.1) :
    visitStep acc
      (forLoop (updateOpScheme env L) acc (acc.1.PlantLoop L).NumOpSchemes)
      (loopVisits env a0 L) := by
  have h := forLoop_visitStep a0 (updateOpScheme env L)
    (fun P => schemeVisits env a0 L P)
    (fun acc P h => updateOpScheme_visitStep env a0 L acc P h) acc h0
    (acc.1.PlantLoop L).NumOpSchemes
  rw [h0.numOpSchemes] at h ⊢
  exact h

/-- The whole schedule update, started on plant data `s`. -/
theorem gateLoops_visitStep (env : Env) (s : PlantState) (e : Bool) :
    visitStep (s, e)
      (forLoop (fun acc LoopNum =>
          forLoop (updateOpScheme env LoopNum) acc (acc.1.PlantLoop LoopNum).NumOpSchemes)
        (s, e) s.TotNumLoops)
      (gateVisits env s) :=
  forLoop_visitStep s
    (fun acc LoopNum =>
      forLoop (updateOpScheme env LoopNum) acc (acc.1.PlantLoop LoopNum).NumOpSchemes)
    (fun L => loopVisits env s L)
    (fun acc L h => loopBody_visitStep env s L acc h) (s, e) (SameTopology.same s) s.TotNumLoops

/-! # The reset of the first HVAC iteration -/

theorem forLoop_succ {σ : Type} (body : σ → Nat → σ) (init : σ) (n : Nat) :
    forLoop body init (n + 1) = body (forLoop body init n) (n + 1) := rfl

/-- The reset of the two half loops of one loop. -/
theorem resetLoop_spec (st : PlantState) (L : Nat) :
    SameSkeleton st
      (forLoop (fun st LoopSideNum =>
        forLoop (fun st BranchNum =>
          forLoop (fun st CompNum => st.modifyComp L LoopSideNum BranchNum CompNum resetComp)
            st (st.branch L LoopSideNum BranchNum).TotalComponents)
          st (st.side L LoopSideNum).TotalBranches) st 2) ∧
    ∀ L2 S2 B2 C2,
      (forLoop (fun st LoopSideNum =>
        forLoop (fun st BranchNum =>
          forLoop (fun st CompNum => st.modifyComp L LoopSideNum BranchNum CompNum resetComp)
            st (st.branch L LoopSideNum BranchNum).TotalComponents)
          st (st.side L LoopSideNum).TotalBranches) st 2).comp L2 S2 B2 C2 =
      if L2 = L ∧ (S2 = 1 ∨ S2 = 2) ∧ (1 ≤ B2 ∧ B2 ≤ (st.side L S2).TotalBranches) ∧ 1 ≤ C2 ∧
          C2 ≤ (st.branch L S2 B2).TotalComponents
      then resetComp (st.comp L2 S2 B2 C2) else st.comp L2 S2 B2 C2 := by
  simp only [forLoop]
  obtain ⟨s1, c1⟩ := forLoop_branches_modifyComp L 1 resetComp st (st.side L 1).TotalBranches
  generalize forLoop (fun st B => forLoop (fun st C => st.modifyComp L 1 B C resetComp) st
    (st.branch L 1 B).TotalComponents) st (st.side L 1).TotalBranches = r1 at s1 c1 ⊢
  obtain ⟨s2, c2⟩ := forLoop_branches_modifyComp L 2 resetComp r1 (r1.side L 2).TotalBranches
  refine ⟨s1.trans s2, ?_⟩
  intro L2 S2 B2 C2
  rw [c2, c1, s1.totalBranches, s1.totalComponents]
  by_cases hL : L2 = L
  · subst hL
    by_cases hS1 : S2 = 1
    · subst hS1
      simp
    · by_cases hS2 : S2 = 2
      · subst hS2
        simp
      · simp [hS1, hS2]
  · simp [hL]

/-- `resetAllComps`, component by component: the components of the plant are
reset, every other record is untouched, and the skeleton is kept. -/
theorem resetAllComps_spec (st : PlantState) :
    SameSkeleton st (resetAllComps st) ∧
    (∀ L S B C, inPlant st L S B C →
      (resetAllComps st).comp L S B C = resetComp (st.comp L S B C)) ∧
    (∀ L S B C, ¬ inPlant st L S B C → (resetAllComps st).comp L S B C = st.comp L S B C) := by
  have key : ∀ n, SameSkeleton st
      (forLoop (fun st LoopNum =>
        forLoop (fun st LoopSideNum =>
          forLoop (fun st BranchNum =>
            forLoop (fun st CompNum =>
              st.modifyComp LoopNum LoopSideNum BranchNum CompNum resetComp)
              st (st.branch LoopNum LoopSideNum BranchNum).TotalComponents)
            st (st.side LoopNum LoopSideNum).TotalBranches)
          st 2) st n) ∧
      ∀ L2 S2 B2 C2,
        (forLoop (fun st LoopNum =>
          forLoop (fun st LoopSideNum =>
            forLoop (fun st BranchNum =>
              forLoop (fun st CompNum =>
                st.modifyComp LoopNum LoopSideNum BranchNum CompNum resetComp)
                st (st.branch LoopNum LoopSideNum BranchNum).TotalComponents)
              st (st.side LoopNum LoopSideNum).TotalBranches)
            st 2) st n).comp L2 S2 B2 C2 =
        if (1 ≤ L2 ∧ L2 ≤ n) ∧ (S2 = 1 ∨ S2 = 2) ∧
            (1 ≤ B2 ∧ B2 ≤ (st.side L2 S2).TotalBranches) ∧ 1 ≤ C2 ∧
            C2 ≤ (st.branch L2 S2 B2).TotalComponents
        then resetComp (st.comp L2 S2 B2 C2) else st.comp L2 S2 B2 C2 := by
    intro n
    induction n with
    | zero =>
      refine ⟨SameSkeleton.refl st, ?_⟩
      intro L2 S2 B2 C2
      rw [if_neg (by omega)]
      rfl
    | succ n ih =>
      obtain ⟨ihs, ihc⟩ := ih
      rw [forLoop_succ]
      generalize forLoop (fun st LoopNum =>
          forLoop (fun st LoopSideNum =>
            forLoop (fun st BranchNum =>
              forLoop (fun st CompNum =>
                st.modifyComp LoopNum LoopSideNum BranchNum CompNum resetComp)
                st (st.branch LoopNum LoopSideNum BranchNum).TotalComponents)
              st (st.side LoopNum LoopSideNum).TotalBranches)
            st 2) st n = r at ihs ihc ⊢
      obtain ⟨hs, hc⟩ := resetLoop_spec r (n + 1)
      refine ⟨ihs.trans hs, ?_⟩
      intro L2 S2 B2 C2
      rw [hc, ihc, ihs.totalBranches, ihs.totalComponents]
      by_cases hL : L2 = n + 1
      · subst hL
        have h1 : ¬ ((1 ≤ n + 1 ∧ n + 1 ≤ n) ∧ (S2 = 1 ∨ S2 = 2) ∧
            (1 ≤ B2 ∧ B2 ≤ (st.side (n + 1) S2).TotalBranches) ∧ 1 ≤ C2 ∧
            C2 ≤ (st.branch (n + 1) S2 B2).TotalComponents) := by omega
        rw [if_neg h1]
        by_cases h2 : (S2 = 1 ∨ S2 = 2) ∧
            (1 ≤ B2 ∧ B2 ≤ (st.side (n + 1) S2).TotalBranches) ∧ 1 ≤ C2 ∧
            C2 ≤ (st.branch (n + 1) S2 B2).TotalComponents
        · rw [if_pos ⟨rfl, h2⟩, if_pos ⟨⟨by omega, le_refl _⟩, h2⟩]
        · rw [if_neg (fun h => h2 h.2), if_neg (fun h => h2 h.2)]
      · rw [if_neg (fun h => hL h.1)]
        by_cases h2 : (1 ≤ L2 ∧ L2 ≤ n) ∧ (S2 = 1 ∨ S2 = 2) ∧
            (1 ≤ B2 ∧ B2 ≤ (st.side L2 S2).TotalBranches) ∧ 1 ≤ C2 ∧
            C2 ≤ (st.branch L2 S2 B2).TotalComponents
        · rw [if_pos h2, if_pos ⟨⟨h2.1.1, by omega⟩, h2.2⟩]
        · rw [if_neg h2, if_neg (fun h => h2 ⟨⟨h.1.1, by omega⟩, h.2⟩)]
  obtain ⟨hs, hc⟩ := key st.TotNumLoops
  refine ⟨hs, ?_, ?_⟩
  · intro L S B C hin
    unfold inPlant at hin
    unfold resetAllComps
    rw [hc, if_pos hin]
  · intro L S B C hin
    unfold inPlant at hin
    unfold resetAllComps
    rw [hc, if_neg hin]

/-- `firstHVACInits` component by component: every component record is the
record after the reset (or the old record, outside the plant) after the visits
the schedule update pays to it; `errFlag2` is raised exactly when one of these
visits finds the pump scheme type. -/
theorem firstHVACInits_spec (env : Env) (st : PlantState) :
    SameTopology st (firstHVACInits env st).1 ∧
    (∀ L S B C, (firstHVACInits env st).1.comp L S B C =
      applyVisits ((resetAllComps st).comp L S B C) (gateVisits env st L S B C)) ∧
    ((firstHVACInits env st).2 = true ↔
      ∃ L S B C, visitsRaise ((resetAllComps st).comp L S B C) (gateVisits env st L S B C) =
        true) := by
  obtain ⟨hs, _, _⟩ := resetAllComps_spec st
  have h := gateLoops_visitStep env (resetAllComps st) false
  rw [hs.totNumLoops] at h
  have hv : ∀ L S B C, gateVisits env (resetAllComps st) L S B C = gateVisits env st L S B C :=
    fun L S B C => gateVisits_congr env hs.topology L S B C
  obtain ⟨h1, h2, h3⟩ := h
  refine ⟨hs.topology.chain h1, ?_, ?_⟩
  · intro L S B C
    rw [← hv]
    exact h2 L S B C
  · unfold firstHVACInits
    rw [h3]
    constructor
    · rintro (h | ⟨L, S, B, C, h⟩)
      · cases h
      · exact ⟨L, S, B, C, by rw [← hv]; exact h⟩
    · rintro ⟨L, S, B, C, h⟩
      exact Or.inr ⟨L, S, B, C, by rw [hv]; exact h⟩

/-! # The `Available` flags after the schedule update -/

/-- The loops over the lists of a scheme and their members write component
records only. -/
theorem listsLoop_skeleton (L P : Nat) (acc : PlantState × Bool) (n : Nat) :
    SameSkeleton acc.1
      (forLoop (fun acc K =>
        forLoop (activateListMember L P K) acc (acc.1.equipList L P K).NumComps) acc n).1 := by
  apply forLoop_induction (fun r : PlantState × Bool => SameSkeleton acc.1 r.1)
  · exact SameSkeleton.refl _
  · intro r K hr
    apply forLoop_induction (fun r2 : PlantState × Bool => SameSkeleton acc.1 r2.1)
    · exact hr
    · intro r2 i hr2
      obtain ⟨s, e⟩ := r2
      rw [activateListMember_eq]
      exact hr2.trans (SameSkeleton.modifyComp _ _ _ _ _ _)

/-- One scheme: its `Available` flag is set from the schedule, no other scheme
record changes. -/
theorem updateOpScheme_opScheme (env : Env) (L : Nat) (acc : PlantState × Bool) (P : Nat) :
    ∀ L2 P2, (updateOpScheme env L acc P).1.opScheme L2 P2 =
      if L2 = L ∧ P2 = P then scheduled env (acc.1.opScheme L P) else acc.1.opScheme L2 P2 := by
  intro L2 P2
  unfold updateOpScheme
  simp only []
  by_cases hon : env.GetCurrentScheduleValue (acc.1.opScheme L P).SchedPtr > 0
  · rw [if_pos hon]
    have hs := listsLoop_skeleton L P
      (acc.1.modifyOpScheme L P (fun o => { o with Available := true }), acc.2)
      ((acc.1.modifyOpScheme L P (fun o => { o with Available := true })).opScheme L P).NumEquipLists
    rw [hs.opScheme, opScheme_modifyOpScheme]
    unfold scheduled
    simp only [hon, decide_True]
  · rw [if_neg hon]
    simp only []
    rw [opScheme_modifyOpScheme]
    unfold scheduled
    simp only [hon, decide_False]

/-- The schemes `1 .. k` of one loop. -/
theorem schemesLoop_opScheme (env : Env) (L : Nat) (acc : PlantState × Bool) :
    ∀ k L2 P2, (forLoop (updateOpScheme env L) acc k).1.opScheme L2 P2 =
      if L2 = L ∧ 1 ≤ P2 ∧ P2 ≤ k then scheduled env (acc.1.opScheme L2 P2)
      else acc.1.opScheme L2 P2 := by
  intro k
  induction k with
  | zero =>
    intro L2 P2
    rw [if_neg (by omega)]
    rfl
  | succ k ih =>
    intro L2 P2
    rw [forLoop_succ, updateOpScheme_opScheme, ih, ih]
    by_cases h1 : L2 = L ∧ P2 = k + 1
    · obtain ⟨rfl, rfl⟩ := h1
      rw [if_pos ⟨rfl, rfl⟩, if_neg (by omega), if_pos ⟨rfl, by omega, le_refl _⟩]
    · rw [if_neg h1]
      by_cases h2 : L2 = L ∧ 1 ≤ P2 ∧ P2 ≤ k
      · rw [if_pos h2, if_pos ⟨h2.1, h2.2.1, by omega⟩]
      · rw [if_neg h2, if_neg]
        intro h
        by_cases hp : P2 = k + 1
        · exact h1 ⟨h.1, hp⟩
        · exact h2 ⟨h.1, h.2.1, by omega⟩

/-- `firstHVACInits`, scheme by scheme: the schemes within the loop and scheme
counts get their `Available` flag from the schedule, the others are untouched. -/
theorem firstHVACInits_opScheme (env : Env) (st : PlantState) :
    ∀ L P, (firstHVACInits env st).1.opScheme L P =
      if (1 ≤ L ∧ L ≤ st.TotNumLoops) ∧ 1 ≤ P ∧ P ≤ (st.PlantLoop L).NumOpSchemes
      then scheduled env (st.opScheme L P) else st.opScheme L P := by
  obtain ⟨hs, _, _⟩ := resetAllComps_spec st
  have key : ∀ n L P, SameTopology st
        (forLoop (fun acc LoopNum =>
          forLoop (updateOpScheme env LoopNum) acc (acc.1.PlantLoop LoopNum).NumOpSchemes)
          (resetAllComps st, false) n).1 ∧
      (forLoop (fun acc LoopNum =>
          forLoop (updateOpScheme env LoopNum) acc (acc.1.PlantLoop LoopNum).NumOpSchemes)
          (resetAllComps st, false) n).1.opScheme L P =
        if (1 ≤ L ∧ L ≤ n) ∧ 1 ≤ P ∧ P ≤ (st.PlantLoop L).NumOpSchemes
        then scheduled env (st.opScheme L P) else st.opScheme L P := by
    intro n
    induction n with
    | zero =>
      intro L P
      refine ⟨hs.topology, ?_⟩
      rw [if_neg (by omega)]
      exact hs.opScheme L P
    | succ n ih =>
      intro L P
      rw [forLoop_succ]
      have htop := (ih L P).1
      have ihc := fun L P => (ih L P).2
      generalize forLoop (fun acc LoopNum =>
          forLoop (updateOpScheme env LoopNum) acc (acc.1.PlantLoop LoopNum).NumOpSchemes)
          (resetAllComps st, false) n = r at htop ihc ⊢
      refine ⟨htop.chain (loopBody_visitStep env r.1 (n + 1) r (SameTopology.same _)).1, ?_⟩
      rw [schemesLoop_opScheme, ihc, htop.numOpSchemes]
      by_cases h1 : L = n + 1 ∧ 1 ≤ P ∧ P ≤ (st.PlantLoop (n + 1)).NumOpSchemes
      · obtain ⟨rfl, h2, h3⟩ := h1
        rw [if_pos ⟨rfl, h2, h3⟩, if_neg (by omega), if_pos ⟨⟨by omega, le_refl _⟩, h2, h3⟩]
      · rw [if_neg h1]
        by_cases h2 : (1 ≤ L ∧ L ≤ n) ∧ 1 ≤ P ∧ P ≤ (st.PlantLoop L).NumOpSchemes
        · rw [if_pos h2, if_pos ⟨⟨h2.1.1, by omega⟩, h2.2⟩]
        · rw [if_neg h2, if_neg]
          intro h
          by_cases hl : L = n + 1
          · subst hl; exact h1 ⟨rfl, h.2⟩
          · exact h2 ⟨⟨h.1.1, by omega⟩, h.2⟩
  intro L P
  unfold firstHVACInits
  exact (key st.TotNumLoops L P).2

/-! # One component under a sequence of visits -/

theorem resetComp_eq (c : CompData) :
    resetComp c =
      { c with ON := true, Available := true, MyLoad := 0, EMSLoadOverrideOn := false,
               CurOpSchemeType := resetTag c.CurOpSchemeType, CurCompLevelOpNum := 0 } := by
  unfold resetComp resetTag
  simp only []
  split <;> rfl

theorem resetTag_idem (t : OpSchemeType) : resetTag (resetTag t) = resetTag t := by
  unfold resetTag
  split
  · simp
  · rfl

theorem resetTag_ne_pump {t : OpSchemeType} (h : t ≠ OpSchemeType.PumpOpSchemeType) :
    resetTag t ≠ OpSchemeType.PumpOpSchemeType := by
  unfold resetTag
  split
  · simp
  · exact h

theorem resetComp_idem (c : CompData) : resetComp (resetComp c) = resetComp c := by
  rw [resetComp_eq (resetComp c), resetComp_eq c]
  simp only [resetTag_idem]

/-- The inner loop of a visit writes `CurCompLevelOpNum` only. -/
theorem visitLoop_eq (P : Nat) (c : CompData) :
    ∀ N, forLoop (fun c CompOpNum =>
        if (c.OpScheme CompOpNum).OpSchemePtr = P then { c with CurCompLevelOpNum := CompOpNum }
        else c) c N =
      { c with CurCompLevelOpNum := lastMatch c P N } := by
  intro N
  induction N with
  | zero => rfl
  | succ N ih =>
    rw [forLoop_succ, ih]
    unfold lastMatch
    rw [forLoop_succ]
    simp only []
    split <;> rfl

/-- A visit, field by field. -/
theorem compVisit_eq (T : OpSchemeType) (P : Nat) (c : CompData) :
    compVisit T P c =
      { c with
        CurOpSchemeType :=
          if c.CurOpSchemeType ≠ OpSchemeType.PumpOpSchemeType then T else c.CurOpSchemeType,
        CurCompLevelOpNum := lastMatch c P c.NumOpSchemes } := by
  unfold compVisit
  simp only []
  rw [visitLoop_eq]
  split <;> rfl

/-- The last index among `1 .. N` that points to scheme `P`, when there is one. -/
theorem lastMatch_spec (c : CompData) (P : Nat) :
    ∀ N, (∃ n, 1 ≤ n ∧ n ≤ N ∧ (c.OpScheme n).OpSchemePtr = P) →
      (1 ≤ lastMatch c P N ∧ lastMatch c P N ≤ N) ∧
      (c.OpScheme (lastMatch c P N)).OpSchemePtr = P ∧
      ∀ m, lastMatch c P N < m → m ≤ N → (c.OpScheme m).OpSchemePtr ≠ P := by
  intro N
  induction N with
  | zero => rintro ⟨n, h1, h2, _⟩; omega
  | succ N ih =>
    rintro ⟨n, h1, h2, h3⟩
    unfold lastMatch
    rw [forLoop_succ]
    by_cases hm : (c.OpScheme (N + 1)).OpSchemePtr = P
    · simp only [if_pos hm]
      refine ⟨⟨by omega, le_refl _⟩, hm, ?_⟩
      intro m h4 h5; omega
    · simp only [if_neg hm]
      have hn : n ≤ N := by
        by_contra hc
        have : n = N + 1 := by omega
        subst this
        exact hm h3
      obtain ⟨⟨a1, a2⟩, a3, a4⟩ := ih ⟨n, h1, hn, h3⟩
      unfold lastMatch at a1 a2 a3 a4
      refine ⟨⟨a1, by omega⟩, a3, ?_⟩
      intro m h4 h5
      by_cases hmN : m = N + 1
      · subst hmN; exact hm
      · exact a4 m h4 (by omega)

theorem lastMatch_congr (c c' : CompData) (P N : Nat) (h1 : c'.OpScheme = c.OpScheme)
    (h2 : c'.CurCompLevelOpNum = c.CurCompLevelOpNum) : lastMatch c' P N = lastMatch c P N := by
  unfold lastMatch
  rw [h1, h2]

/-- A sequence of visits writes the scheme type and `CurCompLevelOpNum` only. -/
theorem applyVisits_frame (V : List (OpSchemeType × Nat)) :
    ∀ c, applyVisits c V =
      { c with CurOpSchemeType := (applyVisits c V).CurOpSchemeType,
               CurCompLevelOpNum := (applyVisits c V).CurCompLevelOpNum } := by
  induction V with
  | nil => intro c; rfl
  | cons v V ih =>
    intro c
    show applyVisits (compVisit v.1 v.2 c) V =
      { c with CurOpSchemeType := (applyVisits (compVisit v.1 v.2 c) V).CurOpSchemeType,
               CurCompLevelOpNum := (applyVisits (compVisit v.1 v.2 c) V).CurCompLevelOpNum }
    have h := ih (compVisit v.1 v.2 c)
    generalize applyVisits (compVisit v.1 v.2 c) V = r at h ⊢
    rw [compVisit_eq] at h
    conv_lhs => rw [h]

theorem applyVisits_snoc (c : CompData) (V : List (OpSchemeType × Nat))
    (v : OpSchemeType × Nat) :
    applyVisits c (V ++ [v]) = compVisit v.1 v.2 (applyVisits c V) := by
  rw [applyVisits_append]
  rfl

/-- No visit of the sequence raises the flag: the first one finds a component
that has not the pump scheme type. -/
theorem visitsRaise_cons {c : CompData} {v : OpSchemeType × Nat} {V : List (OpSchemeType × Nat)}
    (h : visitsRaise c (v :: V) = false) :
    c.CurOpSchemeType ≠ OpSchemeType.PumpOpSchemeType ∧
      visitsRaise (compVisit v.1 v.2 c) V = false := by
  have h2 : (decide (c.CurOpSchemeType = OpSchemeType.PumpOpSchemeType) ||
      visitsRaise (compVisit v.1 v.2 c) V) = false := h
  rw [Bool.or_eq_false_iff] at h2
  exact ⟨by simpa using h2.1, h2.2⟩

/-- After a sequence of visits none of which raises the flag, the scheme type
is that of the last visit. -/
theorem applyVisits_type (V : List (OpSchemeType × Nat)) :
    ∀ c (hne : V ≠ []), visitsRaise c V = false →
      (applyVisits c V).CurOpSchemeType = (V.getLast hne).1 := by
  induction V with
  | nil => intro c hne; exact absurd rfl hne
  | cons v V ih =>
    intro c hne hr
    obtain ⟨h1, h2⟩ := visitsRaise_cons hr
    cases V with
    | nil =>
      show (compVisit v.1 v.2 c).CurOpSchemeType = v.1
      rw [compVisit_eq]
      simp [h1]
    | cons w V =>
      have := ih (compVisit v.1 v.2 c) (by simp) h2
      rw [List.getLast_cons (by simp)]
      exact this

/-- After a sequence of visits, `CurCompLevelOpNum` is the last index among
the component's own schemes that points to the scheme of the last visit, when
there is such an index. -/
theorem applyVisits_opNum (V : List (OpSchemeType × Nat)) (c : CompData) (hne : V ≠ [])
    (hex : ∃ n, 1 ≤ n ∧ n ≤ c.NumOpSchemes ∧ (c.OpScheme n).OpSchemePtr = (V.getLast hne).2) :
    (1 ≤ (applyVisits c V).CurCompLevelOpNum ∧
      (applyVisits c V).CurCompLevelOpNum ≤ c.NumOpSchemes) ∧
    (c.OpScheme (applyVisits c V).CurCompLevelOpNum).OpSchemePtr = (V.getLast hne).2 ∧
    ∀ m, (applyVisits c V).CurCompLevelOpNum < m → m ≤ c.NumOpSchemes →
      (c.OpScheme m).OpSchemePtr ≠ (V.getLast hne).2 := by
  have hV : V = V.dropLast ++ [V.getLast hne] := (List.dropLast_append_getLast hne).symm
  generalize V.getLast hne = v at hV hex ⊢
  generalize V.dropLast = W at hV
  subst hV
  rw [applyVisits_snoc, compVisit_eq]
  simp only []
  have hfr := applyVisits_frame W c
  have h1 : (applyVisits c W).OpScheme = c.OpScheme := by rw [hfr]
  have h2 : (applyVisits c W).NumOpSchemes = c.NumOpSchemes := by rw [hfr]
  have hs := lastMatch_spec (applyVisits c W) v.2 (applyVisits c W).NumOpSchemes
    (by rw [h1, h2]; exact hex)
  rw [h1, h2] at hs
  rw [h2]
  exact hs

/-! # Which visits a component receives -/

theorem visitsUpTo_nil {α : Type} (f : Nat → List α) :
    ∀ n, (∀ i, 1 ≤ i → i ≤ n → f i = []) → visitsUpTo f n = [] := by
  intro n
  induction n with
  | zero => intro _; rfl
  | succ n ih =>
    intro h
    rw [visitsUpTo_succ, ih (fun i h1 h2 => h i h1 (by omega)), h (n + 1) (by omega) (le_refl _)]
    rfl

theorem visitsUpTo_single {α : Type} (f : Nat → List α) (i0 : Nat) :
    ∀ n, 1 ≤ i0 → i0 ≤ n → (∀ i, 1 ≤ i → i ≤ n → i ≠ i0 → f i = []) →
      visitsUpTo f n = f i0 := by
  intro n
  induction n with
  | zero => intro h1 h2; omega
  | succ n ih =>
    intro h1 h2 h
    rw [visitsUpTo_succ]
    by_cases hi : i0 = n + 1
    · subst hi
      rw [visitsUpTo_nil f n (fun i a b => h i a (by omega) (by omega))]
      rfl
    · rw [ih h1 (by omega) (fun i a b c => h i a (by omega) c),
        h (n + 1) (by omega) (le_refl _) (fun hh => hi hh.symm)]
      exact List.append_nil _

theorem mem_memberVisits (st : PlantState) (L P K i L2 S2 B2 C2 : Nat)
    (v : OpSchemeType × Nat) :
    v ∈ memberVisits st L P K i L2 S2 B2 C2 ↔
      (((st.equipList L P K).Comp i).LoopNumPtr = L2 ∧
        ((st.equipList L P K).Comp i).LoopSideNumPtr = S2 ∧
        ((st.equipList L P K).Comp i).BranchNumPtr = B2 ∧
        ((st.equipList L P K).Comp i).CompNumPtr = C2) ∧
      v = ((st.opScheme L P).OpSchemeType, P) := by
  unfold memberVisits
  split
  · rename_i h
    simp [h]
  · rename_i h
    simp [h]

theorem mem_schemeVisits (env : Env) (st : PlantState) (L P L2 S2 B2 C2 : Nat)
    (v : OpSchemeType × Nat) :
    v ∈ schemeVisits env st L P L2 S2 B2 C2 ↔
      (env.GetCurrentScheduleValue (st.opScheme L P).SchedPtr > 0 ∧
        ∃ K i, (1 ≤ K ∧ K ≤ (st.opScheme L P).NumEquipLists) ∧
          (1 ≤ i ∧ i ≤ (st.equipList L P K).NumComps) ∧
          ((st.equipList L P K).Comp i).LoopNumPtr = L2 ∧
          ((st.equipList L P K).Comp i).LoopSideNumPtr = S2 ∧
          ((st.equipList L P K).Comp i).BranchNumPtr = B2 ∧
          ((st.equipList L P K).Comp i).CompNumPtr = C2) ∧
      v = ((st.opScheme L P).OpSchemeType, P) := by
  unfold schemeVisits
  split
  · rename_i hon
    rw [mem_visitsUpTo]
    constructor
    · rintro ⟨K, hK1, hK2, hv⟩
      unfold listVisits at hv
      rw [mem_visitsUpTo] at hv
      obtain ⟨i, hi1, hi2, hm⟩ := hv
      rw [mem_memberVisits] at hm
      exact ⟨⟨hon, K, i, ⟨hK1, hK2⟩, ⟨hi1, hi2⟩, hm.1⟩, hm.2⟩
    · rintro ⟨⟨_, K, i, ⟨hK1, hK2⟩, ⟨hi1, hi2⟩, hp⟩, hv⟩
      refine ⟨K, hK1, hK2, ?_⟩
      unfold listVisits
      rw [mem_visitsUpTo]
      exact ⟨i, hi1, hi2, (mem_memberVisits _ _ _ _ _ _ _ _ _ _).mpr ⟨hp, hv⟩⟩
  · rename_i hon
    constructor
    · intro h; cases h
    · rintro ⟨⟨h, _⟩, _⟩; exact absurd h hon

/-- The visits paid to a component by the schemes of loop `L`: one or more for
each scheme that lists it, with the type and the index of that scheme. -/
theorem mem_loopVisits (env : Env) (st : PlantState) (L L2 S2 B2 C2 : Nat)
    (v : OpSchemeType × Nat) :
    v ∈ loopVisits env st L L2 S2 B2 C2 ↔
      ∃ P, listedBy env st L P L2 S2 B2 C2 ∧ v = ((st.opScheme L P).OpSchemeType, P) := by
  unfold loopVisits listedBy
  rw [mem_visitsUpTo]
  constructor
  · rintro ⟨P, h1, h2, hv⟩
    rw [mem_schemeVisits] at hv
    exact ⟨P, ⟨⟨h1, h2⟩, hv.1.1, hv.1.2⟩, hv.2⟩
  · rintro ⟨P, ⟨⟨h1, h2⟩, hon, hm⟩, hv⟩
    exact ⟨P, h1, h2, (mem_schemeVisits _ _ _ _ _ _ _ _ _).mpr ⟨⟨hon, hm⟩, hv⟩⟩

theorem mem_gateVisits (env : Env) (st : PlantState) (L2 S2 B2 C2 : Nat)
    (v : OpSchemeType × Nat) :
    v ∈ gateVisits env st L2 S2 B2 C2 ↔
      ∃ L P, (1 ≤ L ∧ L ≤ st.TotNumLoops) ∧ listedBy env st L P L2 S2 B2 C2 ∧
        v = ((st.opScheme L P).OpSchemeType, P) := by
  unfold gateVisits
  rw [mem_visitsUpTo]
  constructor
  · rintro ⟨L, h1, h2, hv⟩
    rw [mem_loopVisits] at hv
    obtain ⟨P, hl, hv⟩ := hv
    exact ⟨L, P, ⟨h1, h2⟩, hl, hv⟩
  · rintro ⟨L, P, ⟨h1, h2⟩, hl, hv⟩
    exact ⟨L, h1, h2, (mem_loopVisits _ _ _ _ _ _ _ _).mpr ⟨P, hl, hv⟩⟩

/-- A component that no scheme lists receives no visit. -/
theorem gateVisits_nil (env : Env) (st : PlantState) (L2 S2 B2 C2 : Nat)
    (h : ∀ L P, 1 ≤ L → L ≤ st.TotNumLoops → ¬ listedBy env st L P L2 S2 B2 C2) :
    gateVisits env st L2 S2 B2 C2 = [] := by
  rw [List.eq_nil_iff_forall_not_mem]
  intro v hv
  rw [mem_gateVisits] at hv
  obtain ⟨L, P, ⟨h1, h2⟩, hl, _⟩ := hv
  exact h L P h1 h2 hl

/-- A component listed by schemes of loop `L` only receives the visits of that
loop. -/
theorem gateVisits_own_loop (env : Env) (st : PlantState) (L L2 S2 B2 C2 : Nat)
    (hL1 : 1 ≤ L) (hL2 : L ≤ st.TotNumLoops)
    (h : ∀ L' P, 1 ≤ L' → L' ≤ st.TotNumLoops → L' ≠ L → ¬ listedBy env st L' P L2 S2 B2 C2) :
    gateVisits env st L2 S2 B2 C2 = loopVisits env st L L2 S2 B2 C2 := by
  unfold gateVisits
  apply visitsUpTo_single _ L _ hL1 hL2
  intro L' h1 h2 hne
  rw [List.eq_nil_iff_forall_not_mem]
  intro v hv
  rw [mem_loopVisits] at hv
  obtain ⟨P, hl, _⟩ := hv
  exact h L' P h1 h2 hne hl

/-- In a list put together from `f 1`, ..., `f n`, where the elements of
`f i` carry the index `i`, the last element carries the largest index. -/
theorem visitsUpTo_getLast_max (f : Nat → List (OpSchemeType × Nat))
    (hf : ∀ i v, v ∈ f i → v.2 = i) :
    ∀ n (hne : visitsUpTo f n ≠ []), ∀ v, v ∈ visitsUpTo f n →
      v.2 ≤ ((visitsUpTo f n).getLast hne).2 := by
  intro n
  induction n with
  | zero => intro hne; exact absurd rfl hne
  | succ n ih =>
    intro hne v hv
    have hsplit : visitsUpTo f (n + 1) = visitsUpTo f n ++ f (n + 1) := rfl
    have hbound : ∀ w, w ∈ visitsUpTo f n → w.2 ≤ n := by
      intro w hw
      rw [mem_visitsUpTo] at hw
      obtain ⟨i, _, h2, h3⟩ := hw
      rw [hf i w h3]; exact h2
    by_cases hlast : f (n + 1) = []
    · have e : visitsUpTo f (n + 1) = visitsUpTo f n := by
        rw [hsplit, hlast]; exact List.append_nil _
      have hne2 : visitsUpTo f n ≠ [] := by rw [← e]; exact hne
      have := ih hne2 v (by rw [← e]; exact hv)
      have e2 : (visitsUpTo f (n + 1)).getLast hne = (visitsUpTo f n).getLast hne2 := by
        simp only [e]
      rw [e2]; exact this
    · have e2 : (visitsUpTo f (n + 1)).getLast hne = (f (n + 1)).getLast hlast := by
        simp only [hsplit]
        exact List.getLast_append_of_ne_nil hlast
      rw [e2, hf (n + 1) _ (List.getLast_mem hlast)]
      rw [hsplit, List.mem_append] at hv
      rcases hv with h | h
      · have := hbound v h; omega
      · rw [hf (n + 1) v h]

/-! # The fifth sample plant -/

@[simp] theorem gatePlant_comp (L B C : Nat) :
    gatePlant.comp L 2 B C =
      if B = 1 then gateMachine else if B = 2 then gateCoil else gateValve := rfl

@[simp] theorem gatePlant_totNumLoops : gatePlant.TotNumLoops = 1 := rfl

@[simp] theorem gatePlant_numOpSchemes (L : Nat) : (gatePlant.PlantLoop L).NumOpSchemes = 2 := rfl

@[simp] theorem gatePlant_totalBranches (L : Nat) : (gatePlant.side L 2).TotalBranches = 3 := rfl

@[simp] theorem gatePlant_totalComponents (L B : Nat) :
    (gatePlant.branch L 2 B).TotalComponents = 1 := rfl

@[simp] theorem gatePlant_opSchemeType (L P : Nat) :
    (gatePlant.opScheme L P).OpSchemeType =
      if P = 1 then OpSchemeType.HeatingRBOpSchemeType
      else OpSchemeType.CoolingRBOpSchemeType := rfl

@[simp] theorem gatePlant_schedPtr (L P : Nat) : (gatePlant.opScheme L P).SchedPtr = P := rfl

@[simp] theorem gatePlant_numEquipLists (L P : Nat) :
    (gatePlant.opScheme L P).NumEquipLists = 1 := rfl

@[simp] theorem gatePlant_equipList (L P K : Nat) :
    gatePlant.equipList L P K =
      { RangeLowerLimit := 0, RangeUpperLimit := 100, NumComps := 1,
        Comp := fun _ =>
          { LoopNumPtr := 1, LoopSideNumPtr := 2, BranchNumPtr := 1, CompNumPtr := 1 } } := rfl

@[simp] theorem gateEnv_schedule (v1 v2 : ℚ) (p : Nat) :
    (gateEnv v1 v2).GetCurrentScheduleValue p = if p = 1 then v1 else v2 := rfl

@[simp] theorem gateEnv_noEMS (v1 v2 : ℚ) :
    (gateEnv v1 v2).AnyEMSPlantOpSchemesInModel = false := rfl

/-- In the fifth sample plant only the machine is on a list. -/
theorem gatePlant_listedBy (v1 v2 : ℚ) (L P L2 S2 B2 C2 : Nat) :
    listedBy (gateEnv v1 v2) gatePlant L P L2 S2 B2 C2 ↔
      (1 ≤ P ∧ P ≤ 2) ∧ (if P = 1 then v1 else v2) > 0 ∧
        L2 = 1 ∧ S2 = 2 ∧ B2 = 1 ∧ C2 = 1 := by
  unfold listedBy
  simp only [gatePlant_numOpSchemes, gatePlant_schedPtr, gateEnv_schedule,
    gatePlant_numEquipLists, gatePlant_equipList]
  constructor
  · rintro ⟨h1, h2, K, i, _, _, h3, h4, h5, h6⟩
    exact ⟨h1, h2, h3.symm, h4.symm, h5.symm, h6.symm⟩
  · rintro ⟨h1, h2, rfl, rfl, rfl, rfl⟩
    exact ⟨h1, h2, 1, 1, ⟨le_refl _, le_refl _⟩, ⟨le_refl _, le_refl _⟩, rfl, rfl, rfl, rfl⟩

/-! # Claims on the reset of the first HVAC iteration -/

/-- C23. After the first HVAC iteration part of `InitLoadDistribution`
(`firstHVACInits`) every component of the plant has `ON = true`,
`Available = true`, `MyLoad = 0` and `EMSLoadOverrideOn = false`; a component
that no list of a scheme with a positive schedule value names is the reset
record: its scheme type tag is kept when it was one of demand, pump, water side
economizer and no control, and is "no control" otherwise, and
`CurCompLevelOpNum` is 0. -/
theorem C23_gate_resets_components (env : Env) (st : PlantState) (L S B C : Nat)
    (hin : inPlant st L S B C) :
    ((firstHVACInits env st).1.comp L S B C).ON = true ∧
    ((firstHVACInits env st).1.comp L S B C).Available = true ∧
    ((firstHVACInits env st).1.comp L S B C).MyLoad = 0 ∧
    ((firstHVACInits env st).1.comp L S B C).EMSLoadOverrideOn = false ∧
    ((∀ L' P', 1 ≤ L' → L' ≤ st.TotNumLoops → ¬ listedBy env st L' P' L S B C) →
      (firstHVACInits env st).1.comp L S B C = resetComp (st.comp L S B C) ∧
      ((firstHVACInits env st).1.comp L S B C).CurOpSchemeType =
        (if (st.comp L S B C).CurOpSchemeType = OpSchemeType.DemandOpSchemeType ∨
            (st.comp L S B C).CurOpSchemeType = OpSchemeType.PumpOpSchemeType ∨
            (st.comp L S B C).CurOpSchemeType = OpSchemeType.WSEconOpSchemeType ∨
            (st.comp L S B C).CurOpSchemeType = OpSchemeType.NoControlOpSchemeType
          then (st.comp L S B C).CurOpSchemeType
          else OpSchemeType.NoControlOpSchemeType) ∧
      ((firstHVACInits env st).1.comp L S B C).CurCompLevelOpNum = 0) := by
  obtain ⟨_, hc, _⟩ := firstHVACInits_spec env st
  obtain ⟨_, hr, _⟩ := resetAllComps_spec st
  have hfr := applyVisits_frame (gateVisits env st L S B C) (resetComp (st.comp L S B C))
  rw [hc, hr L S B C hin]
  refine ⟨by rw [hfr, resetComp_eq], by rw [hfr, resetComp_eq], by rw [hfr, resetComp_eq],
    by rw [hfr, resetComp_eq], ?_⟩
  intro hno
  rw [gateVisits_nil env st L S B C hno]
  refine ⟨rfl, ?_, by rw [resetComp_eq]; rfl⟩
  show (resetComp (st.comp L S B C)).CurOpSchemeType = _
  rw [resetComp_eq]
  simp only [resetTag]
  by_cases h1 : (st.comp L S B C).CurOpSchemeType = OpSchemeType.DemandOpSchemeType
  · simp [h1]
  · by_cases h2 : (st.comp L S B C).CurOpSchemeType = OpSchemeType.PumpOpSchemeType
    · simp [h2]
    · by_cases h3 : (st.comp L S B C).CurOpSchemeType = OpSchemeType.WSEconOpSchemeType
      · simp [h3]
      · by_cases h4 : (st.comp L S B C).CurOpSchemeType = OpSchemeType.NoControlOpSchemeType
        · simp [h4]
        · simp [h1, h2, h3, h4]

/-- C23 at the fifth sample plant, both schedules on: the valve, which was on
with a load of 3 W and the setpoint scheme type, comes out on, available,
without load and with the "no control" tag; the coil keeps its demand tag. -/
theorem C23_gate_reset_witness :
    ((firstHVACInits (gateEnv 1 1) gatePlant).1.comp 1 2 3 1).ON = true ∧
    ((firstHVACInits (gateEnv 1 1) gatePlant).1.comp 1 2 3 1).Available = true ∧
    ((firstHVACInits (gateEnv 1 1) gatePlant).1.comp 1 2 3 1).MyLoad = 0 ∧
    ((firstHVACInits (gateEnv 1 1) gatePlant).1.comp 1 2 3 1).CurOpSchemeType =
      OpSchemeType.NoControlOpSchemeType ∧
    ((firstHVACInits (gateEnv 1 1) gatePlant).1.comp 1 2 3 1).CurCompLevelOpNum = 0 := by
  obtain ⟨h1, h2, h3, _, h5⟩ := C23_gate_resets_components (gateEnv 1 1) gatePlant 1 2 3 1
    ⟨⟨le_refl _, le_refl _⟩, Or.inr rfl, ⟨by norm_num, by simp⟩, le_refl _, by simp⟩
  obtain ⟨_, h6, h7⟩ := h5 (by
    intro L' P' _ _ hl
    rw [gatePlant_listedBy] at hl
    omega)
  refine ⟨h1, h2, h3, ?_, h7⟩
  rw [h6]
  simp [gateValve]

/-- `InitLoadDistribution` at the first HVAC iteration returns when
`errFlag2` is not raised, with the plant data of `firstHVACInits`. -/
theorem InitLoadDistribution_ok {env : Env} {st r : PlantState}
    (h : InitLoadDistribution env st true = Except.ok r) :
    (firstHVACInits env (initEMSPrograms env st)).2 = false ∧
      r = (firstHVACInits env (initEMSPrograms env st)).1 := by
  unfold InitLoadDistribution at h
  simp only [if_true] at h
  cases hf : (firstHVACInits env (initEMSPrograms env st)).2
  · rw [hf] at h
    simp only [Bool.false_eq_true, if_false] at h
    injection h with h
    exact ⟨rfl, h.symm⟩
  · rw [hf] at h
    simp only [if_true] at h
    cases h

theorem InitLoadDistribution_of_no_error {env : Env} {st : PlantState}
    (h : (firstHVACInits env (initEMSPrograms env st)).2 = false) :
    InitLoadDistribution env st true =
      Except.ok (firstHVACInits env (initEMSPrograms env st)).1 := by
  unfold InitLoadDistribution
  simp only [if_true]
  rw [h]
  rfl

/-- No visit raises the flag when `firstHVACInits` does not raise it. -/
theorem firstHVACInits_no_raise {env : Env} {st : PlantState}
    (h : (firstHVACInits env st).2 = false) (L S B C : Nat) :
    visitsRaise ((resetAllComps st).comp L S B C) (gateVisits env st L S B C) = false := by
  obtain ⟨_, _, he⟩ := firstHVACInits_spec env st
  cases hv : visitsRaise ((resetAllComps st).comp L S B C) (gateVisits env st L S B C)
  · rfl
  · have := he.mpr ⟨L, S, B, C, hv⟩
    rw [h] at this
    cases this

/-- C22. When `InitLoadDistribution` returns at the first HVAC iteration
(plant data `st1` after the initialisation programs of the user defined
schemes): every scheme within the loop and scheme counts is `Available` iff its
schedule value is positive; a component of the plant that lists of schemes of
its own loop only name has, when `P` is the last scheme in declaration order
with a positive schedule value that lists it, the type of scheme `P` as
`CurOpSchemeType` and, the component's own scheme table having an entry for
`P`, the last such entry as `CurCompLevelOpNum`; a component that no such
scheme lists has `CurCompLevelOpNum = 0`. -/
theorem C22_schedule_gate_last_scheme_wins (env : Env) (st r : PlantState)
    (hret : InitLoadDistribution env st true = Except.ok r) :
    (∀ L P, 1 ≤ L → L ≤ (initEMSPrograms env st).TotNumLoops → 1 ≤ P →
      P ≤ ((initEMSPrograms env st).PlantLoop L).NumOpSchemes →
      ((r.opScheme L P).Available = true ↔
        env.GetCurrentScheduleValue ((initEMSPrograms env st).opScheme L P).SchedPtr > 0)) ∧
    (∀ L S B C P, inPlant (initEMSPrograms env st) L S B C →
      (∀ L' P', 1 ≤ L' → L' ≤ (initEMSPrograms env st).TotNumLoops → L' ≠ L →
        ¬ listedBy env (initEMSPrograms env st) L' P' L S B C) →
      listedBy env (initEMSPrograms env st) L P L S B C →
      (∀ P', listedBy env (initEMSPrograms env st) L P' L S B C → P' ≤ P) →
      (r.comp L S B C).CurOpSchemeType = ((initEMSPrograms env st).opScheme L P).OpSchemeType ∧
      ((∃ n, 1 ≤ n ∧ n ≤ ((initEMSPrograms env st).comp L S B C).NumOpSchemes ∧
          (((initEMSPrograms env st).comp L S B C).OpScheme n).OpSchemePtr = P) →
        (1 ≤ (r.comp L S B C).CurCompLevelOpNum ∧
          (r.comp L S B C).CurCompLevelOpNum ≤
            ((initEMSPrograms env st).comp L S B C).NumOpSchemes) ∧
        (((initEMSPrograms env st).comp L S B C).OpScheme
          (r.comp L S B C).CurCompLevelOpNum).OpSchemePtr = P ∧
        ∀ m, (r.comp L S B C).CurCompLevelOpNum < m →
          m ≤ ((initEMSPrograms env st).comp L S B C).NumOpSchemes →
          (((initEMSPrograms env st).comp L S B C).OpScheme m).OpSchemePtr ≠ P)) ∧
    (∀ L S B C, inPlant (initEMSPrograms env st) L S B C →
      (∀ L' P', 1 ≤ L' → L' ≤ (initEMSPrograms env st).TotNumLoops →
        ¬ listedBy env (initEMSPrograms env st) L' P' L S B C) →
      (r.comp L S B C).CurCompLevelOpNum = 0) := by
  obtain ⟨hflag, rfl⟩ := InitLoadDistribution_ok hret
  generalize initEMSPrograms env st = st1 at hflag ⊢
  obtain ⟨_, hc, _⟩ := firstHVACInits_spec env st1
  obtain ⟨_, hr, _⟩ := resetAllComps_spec st1
  refine ⟨?_, ?_, ?_⟩
  · intro L P hL1 hL2 hP1 hP2
    rw [firstHVACInits_opScheme, if_pos ⟨⟨hL1, hL2⟩, hP1, hP2⟩]
    unfold scheduled
    simp
  · intro L S B C P hin hown hlist hmax
    have hraise := firstHVACInits_no_raise hflag L S B C
    rw [hc]
    rw [hr L S B C hin] at hraise ⊢
    rw [gateVisits_own_loop env st1 L L S B C hin.1.1 hin.1.2 hown] at hraise ⊢
    have hmem : (((st1.opScheme L P).OpSchemeType, P) : OpSchemeType × Nat) ∈
        loopVisits env st1 L L S B C := (mem_loopVisits _ _ _ _ _ _ _ _).mpr ⟨P, hlist, rfl⟩
    have hne : loopVisits env st1 L L S B C ≠ [] := List.ne_nil_of_mem hmem
    have hlast : (loopVisits env st1 L L S B C).getLast hne =
        ((st1.opScheme L P).OpSchemeType, P) := by
      have hin2 := List.getLast_mem hne
      rw [mem_loopVisits] at hin2
      obtain ⟨P1, hl1, he1⟩ := hin2
      have hle := visitsUpTo_getLast_max (fun P' => schemeVisits env st1 L P' L S B C)
        (fun i v hv => by rw [((mem_schemeVisits _ _ _ _ _ _ _ _ _).mp hv).2])
        (st1.PlantLoop L).NumOpSchemes hne _ hmem
      have e : (loopVisits env st1 L L S B C).getLast hne =
          (visitsUpTo (fun P' => schemeVisits env st1 L P' L S B C)
            (st1.PlantLoop L).NumOpSchemes).getLast hne := rfl
      rw [← e, he1] at hle
      simp only [] at hle
      have : P1 = P := le_antisymm (hmax P1 hl1) hle
      rw [he1, this]
    refine ⟨?_, ?_⟩
    · rw [applyVisits_type _ _ hne hraise, hlast]
    · intro hex
      have h := applyVisits_opNum (loopVisits env st1 L L S B C) (resetComp (st1.comp L S B C))
        hne (by rw [hlast]; rw [resetComp_eq]; exact hex)
      rw [hlast] at h
      have e1 : (resetComp (st1.comp L S B C)).NumOpSchemes = (st1.comp L S B C).NumOpSchemes := by
        rw [resetComp_eq]
      have e2 : (resetComp (st1.comp L S B C)).OpScheme = (st1.comp L S B C).OpScheme := by
        rw [resetComp_eq]
      rw [e1, e2] at h
      exact h
  · intro L S B C hin hno
    rw [hc, hr L S B C hin, gateVisits_nil env st1 L S B C hno]
    show (resetComp (st1.comp L S B C)).CurCompLevelOpNum = 0
    rw [resetComp_eq]

/-- A sequence of visits of schemes that have not the pump type raises no flag
on a component that has not the pump scheme type. -/
theorem visitsRaise_false (V : List (OpSchemeType × Nat)) :
    ∀ c : CompData, c.CurOpSchemeType ≠ OpSchemeType.PumpOpSchemeType →
      (∀ v, v ∈ V → v.1 ≠ OpSchemeType.PumpOpSchemeType) → visitsRaise c V = false := by
  induction V with
  | nil => intro c _ _; rfl
  | cons v V ih =>
    intro c hc hV
    show (decide (c.CurOpSchemeType = OpSchemeType.PumpOpSchemeType) ||
      visitsRaise (compVisit v.1 v.2 c) V) = false
    rw [ih (compVisit v.1 v.2 c)
      (by rw [compVisit_eq]; simp only [if_pos hc]; exact hV v (List.mem_cons_self _ _))
      (fun w hw => hV w (List.mem_cons_of_mem _ hw))]
    simp [hc]

/-- The schedule update raises no flag when neither a component nor a scheme
within the counts has the pump scheme type. -/
theorem firstHVACInits_no_error (env : Env) (st : PlantState)
    (hcomp : ∀ L S B C, (st.comp L S B C).CurOpSchemeType ≠ OpSchemeType.PumpOpSchemeType)
    (hsch : ∀ L P, 1 ≤ L → L ≤ st.TotNumLoops → 1 ≤ P → P ≤ (st.PlantLoop L).NumOpSchemes →
      (st.opScheme L P).OpSchemeType ≠ OpSchemeType.PumpOpSchemeType) :
    (firstHVACInits env st).2 = false := by
  obtain ⟨_, _, he⟩ := firstHVACInits_spec env st
  obtain ⟨_, hr1, hr2⟩ := resetAllComps_spec st
  cases hf : (firstHVACInits env st).2
  · rfl
  · obtain ⟨L, S, B, C, hv⟩ := he.mp hf
    have : visitsRaise ((resetAllComps st).comp L S B C) (gateVisits env st L S B C) = false := by
      apply visitsRaise_false
      · by_cases hin : inPlant st L S B C
        · rw [hr1 L S B C hin, resetComp_eq]
          exact resetTag_ne_pump (hcomp L S B C)
        · rw [hr2 L S B C hin]
          exact hcomp L S B C
      · intro v hm
        rw [mem_gateVisits] at hm
        obtain ⟨L', P', ⟨h1, h2⟩, hl, rfl⟩ := hm
        exact hsch L' P' h1 h2 hl.1.1 hl.1.2
    rw [this] at hv
    cases hv

theorem gateEnv_initEMSPrograms (v1 v2 : ℚ) (st : PlantState) :
    initEMSPrograms (gateEnv v1 v2) st = st := by
  unfold initEMSPrograms
  simp

theorem gatePlant_no_pump_comp (L S B C : Nat) :
    (gatePlant.comp L S B C).CurOpSchemeType ≠ OpSchemeType.PumpOpSchemeType := by
  by_cases hS : S = 2
  · subst hS
    rw [gatePlant_comp]
    split
    · simp [gateMachine]
    · split
      · simp [gateCoil]
      · simp [gateValve]
  · have : gatePlant.comp L S B C = {} := by
      unfold gatePlant PlantState.comp
      simp [hS]
    rw [this]
    simp

theorem gatePlant_returns (v1 v2 : ℚ) :
    InitLoadDistribution (gateEnv v1 v2) gatePlant true =
      Except.ok (firstHVACInits (gateEnv v1 v2) gatePlant).1 := by
  have h := firstHVACInits_no_error (gateEnv v1 v2) gatePlant gatePlant_no_pump_comp
    (by
      intro L P _ _ _ _
      rw [gatePlant_opSchemeType]
      split <;> simp)
  have := @InitLoadDistribution_of_no_error (gateEnv v1 v2) gatePlant
    (by rw [gateEnv_initEMSPrograms]; exact h)
  rw [gateEnv_initEMSPrograms] at this
  exact this

/-- C22 at the fifth sample plant with both schedules on: both schemes are
available, the machine, on the lists of the heating scheme 1 and of the cooling
scheme 2, gets the cooling scheme type and `CurCompLevelOpNum = 2`, and the
coil, on no list, gets `CurCompLevelOpNum = 0`. -/
theorem C22_last_scheme_witness :
    ∃ r, InitLoadDistribution (gateEnv 1 1) gatePlant true = Except.ok r ∧
      (r.opScheme 1 1).Available = true ∧ (r.opScheme 1 2).Available = true ∧
      (r.comp 1 2 1 1).CurOpSchemeType = OpSchemeType.CoolingRBOpSchemeType ∧
      (r.comp 1 2 1 1).CurCompLevelOpNum = 2 ∧
      (r.comp 1 2 2 1).CurCompLevelOpNum = 0 := by
  have hret := gatePlant_returns 1 1
  obtain ⟨h1, h2, h3⟩ := C22_schedule_gate_last_scheme_wins (gateEnv 1 1) gatePlant _ hret
  rw [gateEnv_initEMSPrograms] at h1 h2 h3
  refine ⟨_, hret, ?_, ?_, ?_, ?_, ?_⟩
  · exact (h1 1 1 (le_refl _) (le_refl _) (le_refl _) (by simp)).mpr (by simp)
  · exact (h1 1 2 (le_refl _) (le_refl _) (by norm_num) (by simp)).mpr (by simp)
  · have := (h2 1 2 1 1 2
      ⟨⟨le_refl _, le_refl _⟩, Or.inr rfl, ⟨le_refl _, by simp⟩, le_refl _, by simp⟩
      (by intro L' P' a b c; simp at b; omega)
      ((gatePlant_listedBy 1 1 1 2 1 2 1 1).mpr (by norm_num))
      (by intro P' hl; rw [gatePlant_listedBy] at hl; exact hl.1.2)).1
    rw [this]
    simp
  · have := (h2 1 2 1 1 2
      ⟨⟨le_refl _, le_refl _⟩, Or.inr rfl, ⟨le_refl _, by simp⟩, le_refl _, by simp⟩
      (by intro L' P' a b c; simp at b; omega)
      ((gatePlant_listedBy 1 1 1 2 1 2 1 1).mpr (by norm_num))
      (by intro P' hl; rw [gatePlant_listedBy] at hl; exact hl.1.2)).2
      ⟨2, by norm_num, by simp [gateMachine], by simp [gateMachine]⟩
    have e := this.2.1
    simpa [gateMachine] using e
  · exact h3 1 2 2 1
      ⟨⟨le_refl _, le_refl _⟩, Or.inr rfl, ⟨by norm_num, by simp⟩, le_refl _, by simp⟩
      (by intro L' P' _ _ hl; rw [gatePlant_listedBy] at hl; omega)

theorem inPlant_congr {st st' : PlantState} (h : SameTopology st st') (L S B C : Nat) :
    inPlant st' L S B C ↔ inPlant st L S B C := by
  unfold inPlant
  rw [h.totNumLoops, h.totalBranches, h.totalComponents]

theorem scheduled_idem (env : Env) (o : OpSchemeData) :
    scheduled env (scheduled env o) = scheduled env o := rfl

/-- Once the first visit has been paid, the scheme type tag the component
started with does not matter (the pump tag apart). -/
theorem applyVisits_tag_irrelevant (V : List (OpSchemeType × Nat)) (hne : V ≠ []) (c : CompData)
    (t : OpSchemeType) (hc : c.CurOpSchemeType ≠ OpSchemeType.PumpOpSchemeType)
    (ht : t ≠ OpSchemeType.PumpOpSchemeType) :
    applyVisits { c with CurOpSchemeType := t } V = applyVisits c V := by
  cases V with
  | nil => exact absurd rfl hne
  | cons v V =>
    show applyVisits (compVisit v.1 v.2 { c with CurOpSchemeType := t }) V =
      applyVisits (compVisit v.1 v.2 c) V
    have : compVisit v.1 v.2 { c with CurOpSchemeType := t } = compVisit v.1 v.2 c := by
      rw [compVisit_eq, compVisit_eq]
      simp only [if_pos hc, if_pos ht]
      rfl
    rw [this]

/-- The reset of a component record that was reset and then visited. -/
theorem resetComp_applyVisits (V : List (OpSchemeType × Nat)) (c0 : CompData) :
    resetComp (applyVisits (resetComp c0) V) =
      { resetComp c0 with
        CurOpSchemeType := resetTag (applyVisits (resetComp c0) V).CurOpSchemeType } := by
  have hfr := applyVisits_frame V (resetComp c0)
  generalize applyVisits (resetComp c0) V = f at hfr ⊢
  rw [resetComp_eq f]
  conv_lhs => rw [hfr]
  rw [resetComp_eq c0]

/-- C24. When `firstHVACInits`, the first HVAC iteration part of
`InitLoadDistribution`, has run without raising `errFlag2` (no scheme within
the counts being of the pump type), running it again on the plant data it left
raises no flag either and leaves every component of the plant and every scheme
record exactly as the first run left it. -/
theorem C24_schedule_gate_idempotent (env : Env) (st : PlantState)
    (hok : (firstHVACInits env st).2 = false)
    (hsch : ∀ L P, 1 ≤ L → L ≤ st.TotNumLoops → 1 ≤ P → P ≤ (st.PlantLoop L).NumOpSchemes →
      (st.opScheme L P).OpSchemeType ≠ OpSchemeType.PumpOpSchemeType) :
    (firstHVACInits env (firstHVACInits env st).1).2 = false ∧
    (∀ L S B C, inPlant st L S B C →
      (firstHVACInits env (firstHVACInits env st).1).1.comp L S B C =
        (firstHVACInits env st).1.comp L S B C) ∧
    (∀ L P, (firstHVACInits env (firstHVACInits env st).1).1.opScheme L P =
      (firstHVACInits env st).1.opScheme L P) := by
  obtain ⟨htop, hc, _⟩ := firstHVACInits_spec env st
  obtain ⟨_, hr1, hr2⟩ := resetAllComps_spec st
  obtain ⟨_, hc2, he2⟩ := firstHVACInits_spec env (firstHVACInits env st).1
  obtain ⟨_, hq1, hq2⟩ := resetAllComps_spec (firstHVACInits env st).1
  have hV : ∀ L S B C, gateVisits env (firstHVACInits env st).1 L S B C =
      gateVisits env st L S B C := fun L S B C => gateVisits_congr env htop L S B C
  have hnp : ∀ L S B C v, v ∈ gateVisits env st L S B C →
      v.1 ≠ OpSchemeType.PumpOpSchemeType := by
    intro L S B C v hm
    rw [mem_gateVisits] at hm
    obtain ⟨L', P', ⟨h1, h2⟩, hl, rfl⟩ := hm
    exact hsch L' P' h1 h2 hl.1.1 hl.1.2
  -- the tag of a visited component after the first run
  have htag : ∀ L S B C, gateVisits env st L S B C ≠ [] →
      ((firstHVACInits env st).1.comp L S B C).CurOpSchemeType ≠
        OpSchemeType.PumpOpSchemeType := by
    intro L S B C hne
    rw [hc, applyVisits_type _ _ hne (firstHVACInits_no_raise hok L S B C)]
    exact hnp L S B C _ (List.getLast_mem hne)
  refine ⟨?_, ?_, ?_⟩
  · cases hf : (firstHVACInits env (firstHVACInits env st).1).2
    · rfl
    · obtain ⟨L, S, B, C, hv⟩ := he2.mp hf
      rw [hV] at hv
      have : visitsRaise ((resetAllComps (firstHVACInits env st).1).comp L S B C)
          (gateVisits env st L S B C) = false := by
        by_cases hne : gateVisits env st L S B C = []
        · rw [hne]; rfl
        · apply visitsRaise_false
          · by_cases hin : inPlant (firstHVACInits env st).1 L S B C
            · rw [hq1 L S B C hin, resetComp_eq]
              exact resetTag_ne_pump (htag L S B C hne)
            · rw [hq2 L S B C hin]
              exact htag L S B C hne
          · exact hnp L S B C
      rw [this] at hv
      cases hv
  · intro L S B C hin
    have hin2 : inPlant (firstHVACInits env st).1 L S B C := (inPlant_congr htop L S B C).mpr hin
    rw [hc2, hq1 L S B C hin2, hV, hc, hr1 L S B C hin]
    by_cases hne : gateVisits env st L S B C = []
    · rw [hne]
      show resetComp (resetComp (st.comp L S B C)) = resetComp (st.comp L S B C)
      exact resetComp_idem _
    · have hraise := firstHVACInits_no_raise hok L S B C
      rw [hr1 L S B C hin] at hraise
      have ht := htag L S B C hne
      rw [hc, hr1 L S B C hin] at ht
      rw [resetComp_applyVisits]
      apply applyVisits_tag_irrelevant _ hne
      · cases hg : gateVisits env st L S B C with
        | nil => exact absurd hg hne
        | cons v V =>
          rw [hg] at hraise
          exact (visitsRaise_cons hraise).1
      · exact resetTag_ne_pump ht
  · intro L P
    rw [firstHVACInits_opScheme, firstHVACInits_opScheme, htop.totNumLoops, htop.numOpSchemes]
    by_cases h : (1 ≤ L ∧ L ≤ st.TotNumLoops) ∧ 1 ≤ P ∧ P ≤ (st.PlantLoop L).NumOpSchemes
    · rw [if_pos h, if_pos h]
      exact scheduled_idem env _
    · rw [if_neg h, if_neg h]

/-- C24 at the fifth sample plant with both schedules on: a second run raises
no flag and leaves the machine, the coil and the valve and both schemes as the
first run left them. -/
theorem C24_gate_twice_witness :
    (firstHVACInits (gateEnv 1 1) (firstHVACInits (gateEnv 1 1) gatePlant).1).2 = false ∧
    (firstHVACInits (gateEnv 1 1) (firstHVACInits (gateEnv 1 1) gatePlant).1).1.comp 1 2 1 1 =
      (firstHVACInits (gateEnv 1 1) gatePlant).1.comp 1 2 1 1 ∧
    (firstHVACInits (gateEnv 1 1) (firstHVACInits (gateEnv 1 1) gatePlant).1).1.comp 1 2 3 1 =
      (firstHVACInits (gateEnv 1 1) gatePlant).1.comp 1 2 3 1 ∧
    (firstHVACInits (gateEnv 1 1) (firstHVACInits (gateEnv 1 1) gatePlant).1).1.opScheme 1 2 =
      (firstHVACInits (gateEnv 1 1) gatePlant).1.opScheme 1 2 := by
  obtain ⟨h1, h2, h3⟩ := C24_schedule_gate_idempotent (gateEnv 1 1) gatePlant
    (firstHVACInits_no_error (gateEnv 1 1) gatePlant gatePlant_no_pump_comp
      (by intro L P _ _ _ _; rw [gatePlant_opSchemeType]; split <;> simp))
    (by intro L P _ _ _ _; rw [gatePlant_opSchemeType]; split <;> simp)
  exact ⟨h1,
    h2 1 2 1 1 ⟨⟨le_refl _, le_refl _⟩, Or.inr rfl, ⟨le_refl _, by simp⟩, le_refl _, by simp⟩,
    h2 1 2 3 1 ⟨⟨le_refl _, le_refl _⟩, Or.inr rfl, ⟨by norm_num, by simp⟩, le_refl _, by simp⟩,
    h3 1 2⟩

theorem SameLists.unchanged (st : PlantState) : SameLists st st :=
  ⟨rfl, fun _ => rfl, fun _ _ => rfl, fun _ _ _ => rfl⟩

theorem sameLists_modifyListMember {st0 st : PlantState} (h : SameLists st0 st) (L P K i : Nat)
    (f : EquipListCompData → EquipListCompData) :
    SameLists st0 (st.modifyListMember L P K i f) := by
  have hop : ∀ L2 P2, (st.modifyListMember L P K i f).opScheme L2 P2 =
      if L2 = L ∧ P2 = P then
        { st.opScheme L P with
          EquipList := Function.update (st.opScheme L P).EquipList K
            { (st.opScheme L P).EquipList K with
              Comp := Function.update ((st.opScheme L P).EquipList K).Comp i
                (f (((st.opScheme L P).EquipList K).Comp i)) } }
      else st.opScheme L2 P2 := by
    intro L2 P2
    unfold PlantState.modifyListMember
    rw [opScheme_modifyOpScheme]
  refine ⟨h.totNumLoops, ?_, ?_, ?_⟩
  · intro L2
    unfold PlantState.modifyListMember
    rw [modifyOpScheme_NumOpSchemes]
    exact h.numOpSchemes L2
  · intro L2 P2
    rw [hop, ← h.numEquipLists]
    by_cases hc : L2 = L ∧ P2 = P
    · rw [if_pos hc, hc.1, hc.2]
    · rw [if_neg hc]
  · intro L2 P2 K2
    rw [← h.numComps]
    unfold PlantState.equipList
    have := hop L2 P2
    unfold PlantState.opScheme at this
    rw [this]
    by_cases hc : L2 = L ∧ P2 = P
    · rw [if_pos hc, hc.1, hc.2]
      by_cases hk : K2 = K
      · subst hk; simp
      · simp [Function.update_noteq hk]
    · rw [if_neg hc]

theorem resolveListMember_sameLists (senv : ScanEnv) {st0 : PlantState} (L P K : Nat)
    (run : InitRun) (i : Nat) (h : SameLists st0 run.st) :
    SameLists st0 (resolveListMember senv L P K run i).st := by
  unfold resolveListMember
  by_cases ht : run.terminated = true
  · rw [if_pos ht]; exact h
  · rw [if_neg ht]
    simp only []
    split
    · exact h
    · split <;> split <;> dsimp only <;> exact sameLists_modifyListMember h L P K i _

theorem forLoop_entries {σ α : Type} (step : σ → α → σ) (inv : σ → Prop) (body : σ → Nat → σ)
    (f : Nat → List α)
    (hbody : ∀ s i, inv s → body s i = (f i).foldl step s ∧ inv (body s i))
    (s : σ) (hs : inv s) :
    ∀ n, forLoop body s n = (visitsUpTo f n).foldl step s ∧ inv (forLoop body s n) := by
  intro n
  induction n with
  | zero => exact ⟨rfl, hs⟩
  | succ n ih =>
    rw [forLoop_succ, visitsUpTo_succ, List.foldl_append, ← ih.1]
    exact hbody _ _ ih.2

/-- The first one-time loop is the fold of its body over the list entries. -/
theorem resolveListedEquipment_eq (senv : ScanEnv) (st : PlantState) :
    resolveListedEquipment senv st =
      (listEntries st).foldl (resolveEntry senv)
        { st := st, errFlag2 := false, messages := [], terminated := false } := by
  unfold resolveListedEquipment listEntries
  refine (forLoop_entries (resolveEntry senv) (fun s => SameLists st s.st) _ _ ?_ _
    (SameLists.unchanged st) _).1
  intro s L hs
  rw [hs.numOpSchemes]
  refine forLoop_entries (resolveEntry senv) (fun s => SameLists st s.st) _ _ ?_ _ hs _
  intro s P hs
  show forLoop _ s (s.st.opScheme L P).NumEquipLists = _ ∧ _
  rw [hs.numEquipLists]
  refine forLoop_entries (resolveEntry senv) (fun s => SameLists st s.st) _ _ ?_ _ hs _
  intro s K hs
  show forLoop _ s (s.st.equipList L P K).NumComps = _ ∧ _
  rw [hs.numComps]
  refine forLoop_entries (resolveEntry senv) (fun s => SameLists st s.st) _ _ ?_ _ hs _
  intro s i hs
  exact ⟨rfl, resolveListMember_sameLists senv L P K s i hs⟩

theorem mem_listEntries (st : PlantState) (L P K i : Nat) :
    (L, P, K, i) ∈ listEntries st ↔ inLists st L P K i := by
  unfold listEntries inLists
  simp only [mem_visitsUpTo, List.mem_singleton, Prod.mk.injEq]
  constructor
  · rintro ⟨L2, h1, h2, P2, h3, h4, K2, h5, h6, i2, h7, h8, rfl, rfl, rfl, rfl⟩
    exact ⟨⟨h1, h2⟩, ⟨h3, h4⟩, ⟨h5, h6⟩, h7, h8⟩
  · rintro ⟨⟨h1, h2⟩, ⟨h3, h4⟩, ⟨h5, h6⟩, h7, h8⟩
    exact ⟨L, h1, h2, P, h3, h4, K, h5, h6, i, h7, h8, rfl, rfl, rfl, rfl⟩

theorem resolveEntry_terminated (senv : ScanEnv) (run : InitRun) (p : Nat × Nat × Nat × Nat)
    (ht : run.terminated = true) : resolveEntry senv run p = run := by
  unfold resolveEntry resolveListMember
  rw [if_pos ht]

theorem foldl_resolveEntry_terminated (senv : ScanEnv) (l : List (Nat × Nat × Nat × Nat)) :
    ∀ run : InitRun, run.terminated = true → l.foldl (resolveEntry senv) run = run := by
  induction l with
  | nil => intro run _; rfl
  | cons p l ih =>
    intro run ht
    rw [List.foldl_cons, resolveEntry_terminated senv run p ht]
    exact ih run ht

theorem resolveEntry_unresolved (senv : ScanEnv) (run : InitRun) (p : Nat × Nat × Nat × Nat)
    (ht : run.terminated = false) (hu : unresolved senv p.1 p.2.1 p.2.2.1 p.2.2.2 = true) :
    (resolveEntry senv run p).terminated = true ∧
    (resolveEntry senv run p).errFlag2 = run.errFlag2 ∧
    (resolveEntry senv run p).messages = run.messages ++
      [InitMessage.equipmentNotFound p.1 p.2.1 p.2.2.1 p.2.2.2,
        InitMessage.terminatedInOperationScheme] := by
  unfold unresolved at hu
  unfold resolveEntry resolveListMember
  simp only [ht, hu, if_true, Bool.false_eq_true, if_false, and_self]

theorem resolveEntry_resolved (senv : ScanEnv) (run : InitRun) (p : Nat × Nat × Nat × Nat)
    (ht : run.terminated = false) (hu : unresolved senv p.1 p.2.1 p.2.2.1 p.2.2.2 = false) :
    (resolveEntry senv run p).terminated = false ∧
    ((resolveEntry senv run p).errFlag2 = true ↔
      run.errFlag2 = true ∨ typeMessages senv p ≠ []) ∧
    (resolveEntry senv run p).messages = run.messages ++ typeMessages senv p := by
  unfold unresolved at hu
  unfold resolveEntry resolveListMember typeMessages
  simp only [ht, hu, Bool.false_eq_true, if_false]
  split <;> split <;> simp [ht]

theorem entryMessages_append (senv : ScanEnv) (l1 l2 : List (Nat × Nat × Nat × Nat)) :
    entryMessages senv (l1 ++ l2) = entryMessages senv l1 ++ entryMessages senv l2 := by
  induction l1 with
  | nil => rfl
  | cons p l ih =>
    show typeMessages senv p ++ entryMessages senv (l ++ l2) = _
    rw [ih]
    show _ = (typeMessages senv p ++ entryMessages senv l) ++ entryMessages senv l2
    rw [List.append_assoc]

/-- The fold over entries that all resolve. -/
theorem foldl_resolveEntry_resolved (senv : ScanEnv) (l : List (Nat × Nat × Nat × Nat)) :
    ∀ run : InitRun, run.terminated = false →
      (∀ p ∈ l, unresolved senv p.1 p.2.1 p.2.2.1 p.2.2.2 = false) →
      (l.foldl (resolveEntry senv) run).terminated = false ∧
      ((l.foldl (resolveEntry senv) run).errFlag2 = true ↔
        run.errFlag2 = true ∨ ∃ p ∈ l, typeMessages senv p ≠ []) ∧
      (l.foldl (resolveEntry senv) run).messages = run.messages ++ entryMessages senv l := by
  induction l with
  | nil =>
    intro run ht _
    refine ⟨ht, ?_, ?_⟩
    · simp
    · show run.messages = run.messages ++ []
      rw [List.append_nil]
  | cons p l ih =>
    intro run ht hl
    rw [List.foldl_cons]
    obtain ⟨h1, h2, h3⟩ := resolveEntry_resolved senv run p ht (hl p (List.mem_cons_self _ _))
    obtain ⟨g1, g2, g3⟩ := ih (resolveEntry senv run p) h1
      (fun q hq => hl q (List.mem_cons_of_mem _ hq))
    refine ⟨g1, ?_, ?_⟩
    · rw [g2, h2]
      simp only [List.mem_cons, exists_eq_or_imp]
      tauto
    · rw [g3, h3, List.append_assoc]
      rfl

/-- The fold over entries the first unresolved of which is `p`. -/
theorem foldl_resolveEntry_unresolved (senv : ScanEnv) (pre post : List (Nat × Nat × Nat × Nat))
    (p : Nat × Nat × Nat × Nat) (run : InitRun) (ht : run.terminated = false)
    (hpre : ∀ q ∈ pre, unresolved senv q.1 q.2.1 q.2.2.1 q.2.2.2 = false)
    (hp : unresolved senv p.1 p.2.1 p.2.2.1 p.2.2.2 = true) :
    ((pre ++ p :: post).foldl (resolveEntry senv) run).terminated = true ∧
    ((pre ++ p :: post).foldl (resolveEntry senv) run).messages =
      (run.messages ++ entryMessages senv pre) ++
        [InitMessage.equipmentNotFound p.1 p.2.1 p.2.2.1 p.2.2.2,
          InitMessage.terminatedInOperationScheme] := by
  rw [List.foldl_append, List.foldl_cons]
  obtain ⟨g1, _, g3⟩ := foldl_resolveEntry_resolved senv pre run ht hpre
  obtain ⟨h1, _, h3⟩ := resolveEntry_unresolved senv _ p g1 hp
  rw [foldl_resolveEntry_terminated senv post _ h1]
  exact ⟨h1, by rw [h3, g3]⟩

theorem exists_first_unresolved (senv : ScanEnv) (l : List (Nat × Nat × Nat × Nat)) :
    (∃ p ∈ l, unresolved senv p.1 p.2.1 p.2.2.1 p.2.2.2 = true) →
    ∃ pre p post, l = pre ++ p :: post ∧
      (∀ q ∈ pre, unresolved senv q.1 q.2.1 q.2.2.1 q.2.2.2 = false) ∧
      unresolved senv p.1 p.2.1 p.2.2.1 p.2.2.2 = true := by
  induction l with
  | nil => rintro ⟨p, hp, _⟩; cases hp
  | cons a l ih =>
    intro h
    by_cases ha : unresolved senv a.1 a.2.1 a.2.2.1 a.2.2.2 = true
    · exact ⟨[], a, l, rfl, fun q hq => absurd hq (List.not_mem_nil q), ha⟩
    · have hl : ∃ p ∈ l, unresolved senv p.1 p.2.1 p.2.2.1 p.2.2.2 = true := by
        obtain ⟨p, hp, hu⟩ := h
        rcases List.mem_cons.mp hp with rfl | hp
        · exact absurd hu ha
        · exact ⟨p, hp, hu⟩
      obtain ⟨pre, p, post, rfl, h1, h2⟩ := ih hl
      refine ⟨a :: pre, p, post, rfl, ?_, h2⟩
      intro q hq
      rcases List.mem_cons.mp hq with rfl | hq
      · simpa using ha
      · exact h1 q hq

theorem mem_typeMessages (senv : ScanEnv) (p : Nat × Nat × Nat × Nat) (m : InitMessage) :
    m ∈ typeMessages senv p ↔
      (m = InitMessage.notValidOnCondenserLoop p.1 p.2.1 p.2.2.1 p.2.2.2 ∧
        plantTypeOnCondenserLoop senv p.1 p.2.1 p.2.2.1 p.2.2.2) ∨
      (m = InitMessage.notValidOnPlantLoop p.1 p.2.1 p.2.2.1 p.2.2.2 ∧
        condenserTypeOnPlantLoop senv p.1 p.2.1 p.2.2.1 p.2.2.2) := by
  unfold typeMessages
  by_cases h1 : plantTypeOnCondenserLoop senv p.1 p.2.1 p.2.2.1 p.2.2.2 <;>
    by_cases h2 : condenserTypeOnPlantLoop senv p.1 p.2.1 p.2.2.1 p.2.2.2 <;>
    simp only [plantTypeOnCondenserLoop, condenserTypeOnPlantLoop] at h1 h2 ⊢
  · rw [if_pos h1, if_pos h2]
    simp only [List.mem_append, List.mem_singleton]
    tauto
  · rw [if_pos h1, if_neg h2]
    simp only [List.mem_append, List.mem_singleton, List.not_mem_nil]
    tauto
  · rw [if_neg h1, if_pos h2]
    simp only [List.mem_append, List.mem_singleton, List.not_mem_nil]
    tauto
  · rw [if_neg h1, if_neg h2]
    simp only [List.mem_append, List.not_mem_nil]
    tauto

theorem mem_entryMessages (senv : ScanEnv) (l : List (Nat × Nat × Nat × Nat)) (m : InitMessage) :
    m ∈ entryMessages senv l ↔ ∃ p ∈ l, m ∈ typeMessages senv p := by
  induction l with
  | nil => simp [entryMessages]
  | cons p l ih =>
    show m ∈ typeMessages senv p ++ entryMessages senv l ↔ _
    rw [List.mem_append, ih]
    simp only [List.mem_cons, exists_eq_or_imp]

theorem typeMessages_ne_nil (senv : ScanEnv) (p : Nat × Nat × Nat × Nat) :
    typeMessages senv p ≠ [] ↔
      plantTypeOnCondenserLoop senv p.1 p.2.1 p.2.2.1 p.2.2.2 ∨
        condenserTypeOnPlantLoop senv p.1 p.2.1 p.2.2.1 p.2.2.2 := by
  constructor
  · intro h
    obtain ⟨m, hm⟩ := List.exists_mem_of_ne_nil _ h
    rcases (mem_typeMessages senv p m).mp hm with ⟨_, h1⟩ | ⟨_, h2⟩
    · exact Or.inl h1
    · exact Or.inr h2
  · intro h
    rcases h with h | h
    · exact List.ne_nil_of_mem ((mem_typeMessages senv p _).mpr (Or.inl ⟨rfl, h⟩))
    · exact List.ne_nil_of_mem ((mem_typeMessages senv p _).mpr (Or.inr ⟨rfl, h⟩))

theorem closingCheck_eq (run : InitRun) (ht : run.terminated = false) :
    (closingCheck run).terminated = run.errFlag2 ∧
    (closingCheck run).messages =
      if run.errFlag2 then run.messages ++ [InitMessage.fatalPreviousSevereErrors]
      else run.messages := by
  unfold closingCheck
  cases he : run.errFlag2 <;> simp [ht, he]

/-- C30 (amended). In the first loop of the one-time inits of
`InitLoadDistribution`, type failures are accumulated and resolution failures
are not. When every list entry resolves to a component, the loop runs to its
end without a fatal error, every entry whose type is not valid for the loop
class (and no other) is reported, `errFlag2` is raised exactly when there is
such an entry, and the closing check of the function then ends the run with one
fatal error after all these reports. When some entry does not resolve, the run
ends inside the loop: the messages end with the report of one unresolved entry
followed by the fatal error, all entries before it in the loop order resolve,
and no entry after it is examined. -/
theorem C30_type_failures_accumulate (senv : ScanEnv) (st : PlantState) :
    ((∀ L P K i, inLists st L P K i → unresolved senv L P K i = false) →
      (resolveListedEquipment senv st).terminated = false ∧
      (∀ L P K i, InitMessage.notValidOnCondenserLoop L P K i ∈
          (resolveListedEquipment senv st).messages ↔
        inLists st L P K i ∧ plantTypeOnCondenserLoop senv L P K i) ∧
      (∀ L P K i, InitMessage.notValidOnPlantLoop L P K i ∈
          (resolveListedEquipment senv st).messages ↔
        inLists st L P K i ∧ condenserTypeOnPlantLoop senv L P K i) ∧
      (∀ m ∈ (resolveListedEquipment senv st).messages, m.isTypeMessage = true) ∧
      ((resolveListedEquipment senv st).errFlag2 = true ↔
        ∃ L P K i, inLists st L P K i ∧
          (plantTypeOnCondenserLoop senv L P K i ∨ condenserTypeOnPlantLoop senv L P K i)) ∧
      (closingCheck (resolveListedEquipment senv st)).terminated =
        (resolveListedEquipment senv st).errFlag2 ∧
      (closingCheck (resolveListedEquipment senv st)).messages =
        if (resolveListedEquipment senv st).errFlag2 then
          (resolveListedEquipment senv st).messages ++ [InitMessage.fatalPreviousSevereErrors]
        else (resolveListedEquipment senv st).messages) ∧
    ((∃ L P K i, inLists st L P K i ∧ unresolved senv L P K i = true) →
      (resolveListedEquipment senv st).terminated = true ∧
      ∃ pre post L P K i,
        listEntries st = pre ++ (L, P, K, i) :: post ∧
        (∀ q ∈ pre, unresolved senv q.1 q.2.1 q.2.2.1 q.2.2.2 = false) ∧
        unresolved senv L P K i = true ∧
        (resolveListedEquipment senv st).messages =
          entryMessages senv pre ++
            [InitMessage.equipmentNotFound L P K i, InitMessage.terminatedInOperationScheme] ∧
        closingCheck (resolveListedEquipment senv st) = resolveListedEquipment senv st) := by
  rw [resolveListedEquipment_eq]
  constructor
  · intro hres
    obtain ⟨h1, h2, h3⟩ := foldl_resolveEntry_resolved senv (listEntries st)
      { st := st, errFlag2 := false, messages := [], terminated := false } rfl
      (fun p hp => hres p.1 p.2.1 p.2.2.1 p.2.2.2 ((mem_listEntries st _ _ _ _).mp hp))
    have h3' : (List.foldl (resolveEntry senv)
        { st := st, errFlag2 := false, messages := [], terminated := false }
        (listEntries st)).messages = entryMessages senv (listEntries st) := h3
    refine ⟨h1, ?_, ?_, ?_, ?_, closingCheck_eq _ h1⟩
    · intro L P K i
      rw [h3', mem_entryMessages]
      constructor
      · rintro ⟨p, hp, hm⟩
        rcases (mem_typeMessages senv p _).mp hm with ⟨he, ht⟩ | ⟨he, _⟩
        · injection he with e1 e2 e3 e4
          subst e1 e2 e3 e4
          exact ⟨(mem_listEntries st _ _ _ _).mp hp, ht⟩
        · cases he
      · rintro ⟨hin, ht⟩
        exact ⟨(L, P, K, i), (mem_listEntries st L P K i).mpr hin,
          (mem_typeMessages senv _ _).mpr (Or.inl ⟨rfl, ht⟩)⟩
    · intro L P K i
      rw [h3', mem_entryMessages]
      constructor
      · rintro ⟨p, hp, hm⟩
        rcases (mem_typeMessages senv p _).mp hm with ⟨he, _⟩ | ⟨he, ht⟩
        · cases he
        · injection he with e1 e2 e3 e4
          subst e1 e2 e3 e4
          exact ⟨(mem_listEntries st _ _ _ _).mp hp, ht⟩
      · rintro ⟨hin, ht⟩
        exact ⟨(L, P, K, i), (mem_listEntries st L P K i).mpr hin,
          (mem_typeMessages senv _ _).mpr (Or.inr ⟨rfl, ht⟩)⟩
    · intro m hm
      rw [h3', mem_entryMessages] at hm
      obtain ⟨p, _, hm⟩ := hm
      rcases (mem_typeMessages senv p _).mp hm with ⟨he, _⟩ | ⟨he, _⟩ <;> rw [he] <;> rfl
    · rw [h2]
      constructor
      · rintro (h | ⟨p, hp, hne⟩)
        · cases h
        · exact ⟨p.1, p.2.1, p.2.2.1, p.2.2.2, (mem_listEntries st _ _ _ _).mp hp,
            (typeMessages_ne_nil senv p).mp hne⟩
      · rintro ⟨L, P, K, i, hin, ht⟩
        exact Or.inr ⟨(L, P, K, i), (mem_listEntries st L P K i).mpr hin,
          (typeMessages_ne_nil senv _).mpr ht⟩
  · rintro ⟨L, P, K, i, hin, hu⟩
    obtain ⟨pre, p, post, hl, hpre, hp⟩ := exists_first_unresolved senv (listEntries st)
      ⟨(L, P, K, i), (mem_listEntries st L P K i).mpr hin, hu⟩
    obtain ⟨g1, g2⟩ := foldl_resolveEntry_unresolved senv pre post p
      { st := st, errFlag2 := false, messages := [], terminated := false } rfl hpre hp
    rw [hl]
    refine ⟨g1, pre, post, p.1, p.2.1, p.2.2.1, p.2.2.2, rfl, hpre, hp, ?_, ?_⟩
    · rw [g2]; rfl
    · unfold closingCheck
      rw [if_pos g1]

theorem scanPlant_inLists (i : Nat) (h1 : 1 ≤ i) (h3 : i ≤ 3) : inLists scanPlant 1 1 1 i :=
  ⟨⟨le_refl _, le_refl _⟩, ⟨le_refl _, le_refl _⟩, ⟨le_refl _, le_refl _⟩, h1, h3⟩

/-- C30 (amended) at the sixth sample plant. With every entry found and entries
1 and 3 of a type valid on plant loops only, the loop ends without a fatal
error, both entries are reported, and the closing check ends
the run. With entries 1 and 3 not found, the run ends inside the loop. -/
theorem C30_type_failures_witness :
    ((resolveListedEquipment (scanEnv (fun _ => false) (fun t => if t = 2 then 2 else 1))
        scanPlant).terminated = false ∧
      InitMessage.notValidOnCondenserLoop 1 1 1 1 ∈
        (resolveListedEquipment (scanEnv (fun _ => false) (fun t => if t = 2 then 2 else 1))
          scanPlant).messages ∧
      InitMessage.notValidOnCondenserLoop 1 1 1 3 ∈
        (resolveListedEquipment (scanEnv (fun _ => false) (fun t => if t = 2 then 2 else 1))
          scanPlant).messages ∧
      (resolveListedEquipment (scanEnv (fun _ => false) (fun t => if t = 2 then 2 else 1))
        scanPlant).errFlag2 = true ∧
      (closingCheck (resolveListedEquipment
        (scanEnv (fun _ => false) (fun t => if t = 2 then 2 else 1)) scanPlant)).terminated =
          true) ∧
    (resolveListedEquipment (scanEnv (fun i => decide (i ≠ 2)) (fun _ => 2))
      scanPlant).terminated = true := by
  obtain ⟨h1, h2, _, _, h5, h6, _⟩ :=
    (C30_type_failures_accumulate (scanEnv (fun _ => false) (fun t => if t = 2 then 2 else 1))
      scanPlant).1 (fun _ _ _ _ _ => rfl)
  have hB := ((C30_type_failures_accumulate (scanEnv (fun i => decide (i ≠ 2)) (fun _ => 2))
    scanPlant).2 ⟨1, 1, 1, 1, scanPlant_inLists 1 (le_refl _) (by decide), rfl⟩).1
  have he := h5.mpr ⟨1, 1, 1, 1, scanPlant_inLists 1 (le_refl _) (by decide), Or.inl ⟨rfl, rfl⟩⟩
  refine ⟨⟨h1, (h2 1 1 1 1).mpr ⟨scanPlant_inLists 1 (le_refl _) (by decide), rfl, rfl⟩,
    (h2 1 1 1 3).mpr ⟨scanPlant_inLists 3 (by decide) (le_refl _), rfl, rfl⟩, he,
    h6.trans he⟩, hB⟩

/-- C30 as first stated fails on the sixth sample plant when entries 1 and 3
of the list do not resolve: the run ends at entry 1, whose report and the fatal
error are the only messages, and entry 3 is never reported. -/
theorem C30_second_unresolved_entry_not_reported :
    inLists scanPlant 1 1 1 1 ∧ inLists scanPlant 1 1 1 3 ∧
    unresolved (scanEnv (fun i => decide (i ≠ 2)) (fun _ => 2)) 1 1 1 1 = true ∧
    unresolved (scanEnv (fun i => decide (i ≠ 2)) (fun _ => 2)) 1 1 1 3 = true ∧
    (resolveListedEquipment (scanEnv (fun i => decide (i ≠ 2)) (fun _ => 2)) scanPlant).messages =
      [InitMessage.equipmentNotFound 1 1 1 1, InitMessage.terminatedInOperationScheme] ∧
    InitMessage.equipmentNotFound 1 1 1 3 ∉
      (resolveListedEquipment (scanEnv (fun i => decide (i ≠ 2)) (fun _ => 2)) scanPlant).messages := by
  have hm : (resolveListedEquipment (scanEnv (fun i => decide (i ≠ 2)) (fun _ => 2))
      scanPlant).messages =
      [InitMessage.equipmentNotFound 1 1 1 1, InitMessage.terminatedInOperationScheme] := by
    decide
  refine ⟨scanPlant_inLists 1 (le_refl _) (by decide), scanPlant_inLists 3 (by decide) (le_refl _),
    rfl, rfl, hm, ?_⟩
  rw [hm]
  decide

/-- C33. `AdjustChangeInLoadByEMSControls` gives 0 when the half loop override
is on with a value `<= 0`, or the branch override is on with a value `<= 0`, or
the component load override is on with the value 0, and `ChangeInLoad` as it
came in in every other case, a component override with a value other than 0
included. The plant data is only read: the function of the source assigns
nothing but `ChangeInLoad`, and its embedding returns nothing else. -/
theorem C33_ems_adjustment_zeroes_or_keeps (st : PlantState)
    (LoopNum LoopSideNum BranchNum CompNum : Nat) (ChangeInLoad : ℚ) :
    AdjustChangeInLoadByEMSControls st LoopNum LoopSideNum BranchNum CompNum ChangeInLoad =
      (if ((st.side LoopNum LoopSideNum).EMSCtrl = true ∧
            (st.side LoopNum LoopSideNum).EMSValue ≤ 0) ∨
          ((st.branch LoopNum LoopSideNum BranchNum).EMSCtrlOverrideOn = true ∧
            (st.branch LoopNum LoopSideNum BranchNum).EMSCtrlOverrideValue ≤ 0) ∨
          ((st.comp LoopNum LoopSideNum BranchNum CompNum).EMSLoadOverrideOn = true ∧
            (st.comp LoopNum LoopSideNum BranchNum CompNum).EMSLoadOverrideValue = 0)
        then 0 else ChangeInLoad) ∧
    (¬ ((st.side LoopNum LoopSideNum).EMSCtrl = true ∧
          (st.side LoopNum LoopSideNum).EMSValue ≤ 0) →
      ¬ ((st.branch LoopNum LoopSideNum BranchNum).EMSCtrlOverrideOn = true ∧
          (st.branch LoopNum LoopSideNum BranchNum).EMSCtrlOverrideValue ≤ 0) →
      (st.comp LoopNum LoopSideNum BranchNum CompNum).EMSLoadOverrideOn = true →
      0 < (st.comp LoopNum LoopSideNum BranchNum CompNum).EMSLoadOverrideValue →
      AdjustChangeInLoadByEMSControls st LoopNum LoopSideNum BranchNum CompNum ChangeInLoad =
        ChangeInLoad) := by
  unfold AdjustChangeInLoadByEMSControls
  constructor
  · by_cases h1 : (st.side LoopNum LoopSideNum).EMSCtrl = true ∧
        (st.side LoopNum LoopSideNum).EMSValue ≤ 0
    · rw [if_pos h1, if_pos (Or.inl h1)]
    · rw [if_neg h1]
      by_cases h2 : (st.branch LoopNum LoopSideNum BranchNum).EMSCtrlOverrideOn = true ∧
          (st.branch LoopNum LoopSideNum BranchNum).EMSCtrlOverrideValue ≤ 0
      · rw [if_pos h2, if_pos (Or.inr (Or.inl h2))]
      · rw [if_neg h2]
        by_cases h3 : (st.comp LoopNum LoopSideNum BranchNum CompNum).EMSLoadOverrideOn = true ∧
            (st.comp LoopNum LoopSideNum BranchNum CompNum).EMSLoadOverrideValue = 0
        · rw [if_pos h3, if_pos (Or.inr (Or.inr h3))]
        · rw [if_neg h3, if_neg]
          rintro (h | h | h)
          · exact h1 h
          · exact h2 h
          · exact h3 h
  · intro h1 h2 _ hv
    rw [if_neg h1, if_neg h2, if_neg]
    rintro ⟨_, h0⟩
    rw [h0] at hv
    exact lt_irrefl _ hv

theorem setPointClamp_zero (mn mx : ℚ) (hmx : 0 ≤ mx) :
    setPointClamp mn mx 0 = if 0 < mn then mn else 0 := by
  unfold setPointClamp
  have h1 : ¬ (|(0 : ℚ)| > mx) := by rw [abs_zero]; exact not_lt.mpr hmx
  rw [if_neg h1, abs_zero]
  by_cases h : 0 < mn
  · rw [if_pos h, if_pos h]
    unfold sign
    rw [if_pos (le_refl _), abs_of_pos h]
  · rw [if_neg h, if_neg h]

theorem setPointClamp_zero_eq_zero (mn mx : ℚ) (h : setPointClamp mn mx 0 = 0) : mn ≤ 0 := by
  by_contra hmn
  have hpos : 0 < mn := not_le.mp hmn
  unfold setPointClamp at h
  by_cases h1 : |(0 : ℚ)| > mx
  · rw [if_pos h1] at h
    have hneg : mx < 0 := by rwa [abs_zero] at h1
    have hs : sign mx 0 = -mx := by
      unfold sign
      rw [if_pos (le_refl _), abs_of_neg hneg]
    rw [hs] at h
    by_cases h2 : |(-mx)| < mn
    · rw [if_pos h2] at h
      unfold sign at h
      rw [if_pos (by linarith), abs_of_pos hpos] at h
      linarith
    · rw [if_neg h2] at h
      linarith
  · rw [if_neg h1] at h
    rw [abs_zero, if_pos hpos] at h
    unfold sign at h
    rw [if_pos (le_refl _), abs_of_pos hpos] at h
    linarith

/-- C37 (as amended). On the valid-setpoint path of `FindCompSPLoad`, a
component that is decided off (the run flag computed from the demand and the
control type is false) ends with `ON = false`; it ends with `MyLoad = 0` only
when `MinLoad <= 0`; and when its `MaxLoad` is not negative, it ends with
`MyLoad = +MinLoad` when `MinLoad > 0` and with `MyLoad = 0` otherwise. -/
theorem C37_off_component_gets_minimum_load (env : Env) (st : PlantState)
    (LoopNum LoopSideNum BranchNum CompNum OpNum : Nat)
    (hvalid : setPointTarget env st LoopNum LoopSideNum BranchNum CompNum OpNum ≠
      env.SensedNodeFlagValue)
    (hoff : setPointRuns env st LoopNum LoopSideNum BranchNum CompNum OpNum = false) :
    ((FindCompSPLoad env st LoopNum LoopSideNum BranchNum CompNum OpNum).comp
        LoopNum LoopSideNum BranchNum CompNum).ON = false ∧
    (((FindCompSPLoad env st LoopNum LoopSideNum BranchNum CompNum OpNum).comp
        LoopNum LoopSideNum BranchNum CompNum).MyLoad = 0 →
      (st.comp LoopNum LoopSideNum BranchNum CompNum).MinLoad ≤ 0) ∧
    (0 ≤ (st.comp LoopNum LoopSideNum BranchNum CompNum).MaxLoad →
      (0 < (st.comp LoopNum LoopSideNum BranchNum CompNum).MinLoad →
        ((FindCompSPLoad env st LoopNum LoopSideNum BranchNum CompNum OpNum).comp
          LoopNum LoopSideNum BranchNum CompNum).MyLoad =
            (st.comp LoopNum LoopSideNum BranchNum CompNum).MinLoad) ∧
      ((st.comp LoopNum LoopSideNum BranchNum CompNum).MinLoad ≤ 0 →
        ((FindCompSPLoad env st LoopNum LoopSideNum BranchNum CompNum OpNum).comp
          LoopNum LoopSideNum BranchNum CompNum).MyLoad = 0)) := by
  rw [FindCompSPLoad_valid env st _ _ _ _ _ hvalid, hoff]
  simp only [Bool.false_eq_true, if_false]
  refine ⟨trivial, setPointClamp_zero_eq_zero _ _, ?_⟩
  intro hmx
  rw [setPointClamp_zero _ _ hmx]
  exact ⟨fun h => if_pos h, fun h => if_neg (not_lt.mpr h)⟩

theorem setPointPlant_off (mn mx : ℚ) :
    setPointTarget (sampleEnv 10 1 7 5 7)
        (setPointPlant DemandCalcScheme.SingleSetPoint CtrlType.HeatingOp mn mx) 1 2 1 1 1 ≠
      (sampleEnv 10 1 7 5 7).SensedNodeFlagValue ∧
    setPointRuns (sampleEnv 10 1 7 5 7)
        (setPointPlant DemandCalcScheme.SingleSetPoint CtrlType.HeatingOp mn mx) 1 2 1 1 1 =
      false := by
  constructor
  · unfold setPointTarget; norm_num
  · unfold setPointRuns setPointDemand setPointRawDemand
    rw [setPointPlant_mdot, setPointPlant_specHeat, setPointPlant_tempIn]
    unfold setPointTarget
    norm_num [abs_of_neg]

/-- C37 at the fourth sample plant, heating control with the setpoint (7 C)
below the inlet temperature (10 C), `MinLoad = 2` and `MaxLoad = 20000`: the
component is off and carries `MyLoad = 2`. -/
theorem C37_minimum_load_witness :
    ((FindCompSPLoad (sampleEnv 10 1 7 5 7)
        (setPointPlant DemandCalcScheme.SingleSetPoint CtrlType.HeatingOp 2 20000)
        1 2 1 1 1).comp 1 2 1 1).ON = false ∧
    ((FindCompSPLoad (sampleEnv 10 1 7 5 7)
        (setPointPlant DemandCalcScheme.SingleSetPoint CtrlType.HeatingOp 2 20000)
        1 2 1 1 1).comp 1 2 1 1).MyLoad = 2 := by
  have h := C37_off_component_gets_minimum_load (sampleEnv 10 1 7 5 7)
    (setPointPlant DemandCalcScheme.SingleSetPoint CtrlType.HeatingOp 2 20000) 1 2 1 1 1
    (setPointPlant_off 2 20000).1 (setPointPlant_off 2 20000).2
  refine ⟨h.1, ?_⟩
  have h2 := (h.2.2 (by simp [setPointComp])).1 (by simp [setPointComp])
  rw [h2]
  simp [setPointComp]

/-- C37 as first stated fails for a negative `MaxLoad`: at the fourth sample
plant with `MinLoad = 2` and `MaxLoad = -5` the component that is decided off
ends with `MyLoad = 5`, not with `+MinLoad = 2`. -/
theorem C37_negative_capacity_gives_other_load :
    setPointTarget (sampleEnv 10 1 7 5 7)
        (setPointPlant DemandCalcScheme.SingleSetPoint CtrlType.HeatingOp 2 (-5)) 1 2 1 1 1 ≠
      (sampleEnv 10 1 7 5 7).SensedNodeFlagValue ∧
    setPointRuns (sampleEnv 10 1 7 5 7)
        (setPointPlant DemandCalcScheme.SingleSetPoint CtrlType.HeatingOp 2 (-5)) 1 2 1 1 1 =
      false ∧
    0 < ((setPointPlant DemandCalcScheme.SingleSetPoint CtrlType.HeatingOp 2 (-5)).comp
      1 2 1 1).MinLoad ∧
    ((FindCompSPLoad (sampleEnv 10 1 7 5 7)
        (setPointPlant DemandCalcScheme.SingleSetPoint CtrlType.HeatingOp 2 (-5))
        1 2 1 1 1).comp 1 2 1 1).ON = false ∧
    ((FindCompSPLoad (sampleEnv 10 1 7 5 7)
        (setPointPlant DemandCalcScheme.SingleSetPoint CtrlType.HeatingOp 2 (-5))
        1 2 1 1 1).comp 1 2 1 1).MyLoad = 5 ∧
    ((FindCompSPLoad (sampleEnv 10 1 7 5 7)
        (setPointPlant DemandCalcScheme.SingleSetPoint CtrlType.HeatingOp 2 (-5))
        1 2 1 1 1).comp 1 2 1 1).MyLoad ≠
      ((setPointPlant DemandCalcScheme.SingleSetPoint CtrlType.HeatingOp 2 (-5)).comp
        1 2 1 1).MinLoad := by
  have hv := setPointPlant_off 2 (-5)
  have hl : ((FindCompSPLoad (sampleEnv 10 1 7 5 7)
      (setPointPlant DemandCalcScheme.SingleSetPoint CtrlType.HeatingOp 2 (-5))
      1 2 1 1 1).comp 1 2 1 1).MyLoad = 5 := by
    rw [FindCompSPLoad_valid _ _ _ _ _ _ _ hv.1, hv.2]
    simp only [Bool.false_eq_true, if_false, setPointPlant_comp, setPointComp]
    unfold setPointClamp sign
    norm_num [abs_of_pos]
  refine ⟨hv.1, hv.2, by simp [setPointComp], ?_, hl, ?_⟩
  · rw [FindCompSPLoad_valid _ _ _ _ _ _ _ hv.1, hv.2]
  · rw [hl]
    simp [setPointComp]

theorem anyOpSchemeAvailable_false_iff (st : PlantState) (L : Nat) :
    anyOpSchemeAvailable st L = false ↔
      ∀ P, 1 ≤ P → P ≤ (st.PlantLoop L).NumOpSchemes → (st.opScheme L P).Available = false := by
  unfold anyOpSchemeAvailable
  generalize (st.PlantLoop L).NumOpSchemes = n
  induction n with
  | zero =>
    constructor
    · intro _ P h1 h2; omega
    · intro _; rfl
  | succ n ih =>
    rw [forLoop_succ, Bool.or_eq_false_iff, ih]
    constructor
    · rintro ⟨h1, h2⟩ P hP1 hP2
      by_cases hp : P = n + 1
      · rw [hp]; exact h2
      · exact h1 P hP1 (by omega)
    · intro h
      exact ⟨fun P h1 h2 => h P h1 (by omega), h (n + 1) (by omega) (le_refl _)⟩

theorem ActivateEMSControls_none (env : Env) (st : PlantState) (L S B C : Nat)
    (h : noOverrideApplies st L S B C) :
    ActivateEMSControls env st L S B C = (st, false) := by
  obtain ⟨h1, h2, h3⟩ := h
  unfold ActivateEMSControls
  rw [if_neg h1, if_neg h2, if_neg (by rw [h3]; simp)]

/-- C38. A call of `ManagePlantLoadDistribution` with `LoopShutDownFlag` set
returns the plant data that `TurnOffLoopEquipment` leaves, with
`LoopShutDownFlag` still true and the other reference arguments as they came
in: on both half loops of the loop every component within the branch and
component counts that is not a pump has `ON = false` and `MyLoad = 0` (its
other fields kept), every pump and every other component of the plant is
unchanged, and the result is the same whatever the environment (schedules,
weather, nodes), the calling component, the demand and `FirstHVACIteration`. -/
theorem C38_shut_down_flag_turns_loop_off (env : Env) (st : PlantState)
    (LoopNum LoopSideNum BranchNum CompNum : Nat) (LoopDemand RemLoopDemand : ℚ)
    (FirstHVACIteration : Bool) (LoadDistributionWasPerformed : Option Bool) :
    ManagePlantLoadDistribution env st LoopNum LoopSideNum BranchNum CompNum LoopDemand
        RemLoopDemand FirstHVACIteration true LoadDistributionWasPerformed =
      Except.ok { st := TurnOffLoopEquipment st LoopNum, RemLoopDemand := RemLoopDemand,
                  LoopShutDownFlag := true,
                  LoadDistributionWasPerformed := LoadDistributionWasPerformed } ∧
    SameSkeleton st (TurnOffLoopEquipment st LoopNum) ∧
    (∀ S B C, (S = 1 ∨ S = 2) → 1 ≤ B → B ≤ (st.side LoopNum S).TotalBranches → 1 ≤ C →
      C ≤ (st.branch LoopNum S B).TotalComponents →
      ((st.comp LoopNum S B C).GeneralEquipType ≠ GenEquipType.GenEquipTypes_Pump →
        (TurnOffLoopEquipment st LoopNum).comp LoopNum S B C =
          { st.comp LoopNum S B C with ON := false, MyLoad := 0 }) ∧
      ((st.comp LoopNum S B C).GeneralEquipType = GenEquipType.GenEquipTypes_Pump →
        (TurnOffLoopEquipment st LoopNum).comp LoopNum S B C = st.comp LoopNum S B C)) ∧
    (∀ L S B C, ¬ (L = LoopNum ∧ (S = 1 ∨ S = 2) ∧ (1 ≤ B ∧ B ≤ (st.side LoopNum S).TotalBranches) ∧
        1 ≤ C ∧ C ≤ (st.branch LoopNum S B).TotalComponents) →
      (TurnOffLoopEquipment st LoopNum).comp L S B C = st.comp L S B C) ∧
    (∀ (env2 : Env) (S2 B2 C2 : Nat) (D2 : ℚ) (first2 : Bool),
      ManagePlantLoadDistribution env2 st LoopNum S2 B2 C2 D2 RemLoopDemand first2 true
          LoadDistributionWasPerformed =
        ManagePlantLoadDistribution env st LoopNum LoopSideNum BranchNum CompNum LoopDemand
          RemLoopDemand FirstHVACIteration true LoadDistributionWasPerformed) := by
  obtain ⟨hs, hc⟩ := TurnOffLoopEquipment_spec st LoopNum
  refine ⟨rfl, hs, ?_, ?_, fun _ _ _ _ _ _ => rfl⟩
  · intro S B C hS hB1 hB2 hC1 hC2
    rw [hc, if_pos ⟨rfl, hS, ⟨hB1, hB2⟩, hC1, hC2⟩]
    unfold turnedOff
    exact ⟨fun h => if_pos h, fun h => if_neg (not_not.mpr h)⟩
  · intro L S B C h
    rw [hc, if_neg h]

/-- C39. A call of `ManagePlantLoadDistribution` with `LoopShutDownFlag` false
returns the plant data it was given, with `LoopShutDownFlag` still false and
`RemLoopDemand` and `LoadDistributionWasPerformed` as they came in, when no
operation scheme of the loop is `Available` (whatever the overrides), or when
the calling component has no current scheme (`CurCompLevelOpNum = 0`) and no
override applies. -/
theorem C39_no_scheme_leaves_plant_unchanged (env : Env) (st : PlantState)
    (LoopNum LoopSideNum BranchNum CompNum : Nat) (LoopDemand RemLoopDemand : ℚ)
    (FirstHVACIteration : Bool) (LoadDistributionWasPerformed : Option Bool)
    (h : (∀ P, 1 ≤ P → P ≤ (st.PlantLoop LoopNum).NumOpSchemes →
          (st.opScheme LoopNum P).Available = false) ∨
      ((st.comp LoopNum LoopSideNum BranchNum CompNum).CurCompLevelOpNum = 0 ∧
        noOverrideApplies st LoopNum LoopSideNum BranchNum CompNum)) :
    ManagePlantLoadDistribution env st LoopNum LoopSideNum BranchNum CompNum LoopDemand
        RemLoopDemand FirstHVACIteration false LoadDistributionWasPerformed =
      Except.ok { st := st, RemLoopDemand := RemLoopDemand, LoopShutDownFlag := false,
                  LoadDistributionWasPerformed := LoadDistributionWasPerformed } := by
  by_cases havail : anyOpSchemeAvailable st LoopNum = false
  · unfold ManagePlantLoadDistribution
    rw [if_neg (by simp), if_pos havail]
  · have havail2 : anyOpSchemeAvailable st LoopNum = true := by
      cases hb : anyOpSchemeAvailable st LoopNum
      · exact absurd hb havail
      · rfl
    rcases h with h | ⟨hq, hno⟩
    · exact absurd ((anyOpSchemeAvailable_false_iff st LoopNum).mpr h) havail
    · have ha := ActivateEMSControls_none env st LoopNum LoopSideNum BranchNum CompNum hno
      rw [Manage_no_current_scheme env st _ _ _ _ _ _ _ _ havail2 (by rw [ha]; exact hq), ha]

/-- C39 at the fifth sample plant, none of whose schemes is available: a call
made for the machine, whose component load override is on, returns the plant
as it was. -/
theorem C39_no_available_scheme_witness :
    ManagePlantLoadDistribution demoEnv gatePlant 1 2 1 1 25 3 true false (some false) =
      Except.ok { st := gatePlant, RemLoopDemand := 3, LoopShutDownFlag := false,
                  LoadDistributionWasPerformed := some false } :=
  C39_no_scheme_leaves_plant_unchanged demoEnv gatePlant 1 2 1 1 25 3 true (some false)
    (Or.inl (fun _ _ _ => rfl))

/-- C32. A call that reaches the scheme type test (`LoopShutDownFlag` false, a
scheme of the loop available, the calling component with a current scheme)
for a heating load scheme with `LoopDemand < SmallLoad`, or a cooling load
scheme with `LoopDemand > -SmallLoad`, ends as `InitLoadDistribution` ends:
when that returns, the call returns the plant data it left with `MyLoad = 0`
and `ON = false` written to the calling component and nothing else changed,
`RemLoopDemand` and `LoadDistributionWasPerformed` as they came in. When
`FirstHVACIteration` is false the call does return. -/
theorem C32_zero_demand_fast_path (env : Env) (st : PlantState)
    (LoopNum LoopSideNum BranchNum CompNum : Nat) (LoopDemand RemLoopDemand : ℚ)
    (FirstHVACIteration : Bool) (LoadDistributionWasPerformed : Option Bool)
    (havail : anyOpSchemeAvailable st LoopNum = true)
    (hq : ((ActivateEMSControls env st LoopNum LoopSideNum BranchNum CompNum).1.comp
      LoopNum LoopSideNum BranchNum CompNum).CurCompLevelOpNum ≠ 0)
    (hzero : (currentSchemeType env st LoopNum LoopSideNum BranchNum CompNum =
          OpSchemeType.HeatingRBOpSchemeType ∧ LoopDemand < env.SmallLoad) ∨
      (currentSchemeType env st LoopNum LoopSideNum BranchNum CompNum =
          OpSchemeType.CoolingRBOpSchemeType ∧ LoopDemand > -env.SmallLoad)) :
    (∀ e, InitLoadDistribution env
          (ActivateEMSControls env st LoopNum LoopSideNum BranchNum CompNum).1
          FirstHVACIteration = Except.error e →
      ManagePlantLoadDistribution env st LoopNum LoopSideNum BranchNum CompNum LoopDemand
        RemLoopDemand FirstHVACIteration false LoadDistributionWasPerformed = Except.error e) ∧
    (∀ st1, InitLoadDistribution env
          (ActivateEMSControls env st LoopNum LoopSideNum BranchNum CompNum).1
          FirstHVACIteration = Except.ok st1 →
      ManagePlantLoadDistribution env st LoopNum LoopSideNum BranchNum CompNum LoopDemand
          RemLoopDemand FirstHVACIteration false LoadDistributionWasPerformed =
        Except.ok
          { st := st1.modifyComp LoopNum LoopSideNum BranchNum CompNum
              (fun c => { c with MyLoad := 0, ON := false }),
            RemLoopDemand := RemLoopDemand,
            LoopShutDownFlag :=
              (ActivateEMSControls env st LoopNum LoopSideNum BranchNum CompNum).2,
            LoadDistributionWasPerformed := LoadDistributionWasPerformed }) ∧
    (∀ r, ManagePlantLoadDistribution env st LoopNum LoopSideNum BranchNum CompNum LoopDemand
          RemLoopDemand FirstHVACIteration false LoadDistributionWasPerformed = Except.ok r →
      (r.st.comp LoopNum LoopSideNum BranchNum CompNum).MyLoad = 0 ∧
      (r.st.comp LoopNum LoopSideNum BranchNum CompNum).ON = false ∧
      r.RemLoopDemand = RemLoopDemand ∧
      r.LoadDistributionWasPerformed = LoadDistributionWasPerformed) ∧
    (FirstHVACIteration = false →
      ∃ r, ManagePlantLoadDistribution env st LoopNum LoopSideNum BranchNum CompNum LoopDemand
        RemLoopDemand FirstHVACIteration false LoadDistributionWasPerformed = Except.ok r) := by
  have key : ManagePlantLoadDistribution env st LoopNum LoopSideNum BranchNum CompNum LoopDemand
      RemLoopDemand FirstHVACIteration false LoadDistributionWasPerformed =
      zeroDemandExit env (ActivateEMSControls env st LoopNum LoopSideNum BranchNum CompNum).1
        LoopNum LoopSideNum BranchNum CompNum RemLoopDemand FirstHVACIteration
        (ActivateEMSControls env st LoopNum LoopSideNum BranchNum CompNum).2
        LoadDistributionWasPerformed := by
    unfold ManagePlantLoadDistribution
    rw [if_neg (by simp), if_neg (by simp [havail])]
    simp only []
    rw [if_neg hq]
    unfold currentSchemeType at hzero
    rcases hzero with ⟨ht, hd⟩ | ⟨ht, hd⟩
    · rw [ht]
      simp only []
      rw [if_pos hd]
    · rw [ht]
      simp only []
      rw [if_pos (by linarith)]
  have hok : ∀ st1, InitLoadDistribution env
      (ActivateEMSControls env st LoopNum LoopSideNum BranchNum CompNum).1
      FirstHVACIteration = Except.ok st1 →
      ManagePlantLoadDistribution env st LoopNum LoopSideNum BranchNum CompNum LoopDemand
          RemLoopDemand FirstHVACIteration false LoadDistributionWasPerformed =
        Except.ok
          { st := st1.modifyComp LoopNum LoopSideNum BranchNum CompNum
              (fun c => { c with MyLoad := 0, ON := false }),
            RemLoopDemand := RemLoopDemand,
            LoopShutDownFlag :=
              (ActivateEMSControls env st LoopNum LoopSideNum BranchNum CompNum).2,
            LoadDistributionWasPerformed := LoadDistributionWasPerformed } := by
    intro st1 h1
    rw [key]
    unfold zeroDemandExit
    rw [h1]
  refine ⟨?_, hok, ?_, ?_⟩
  · intro e he
    rw [key]
    unfold zeroDemandExit
    rw [he]
  · intro r hr
    cases hi : InitLoadDistribution env
        (ActivateEMSControls env st LoopNum LoopSideNum BranchNum CompNum).1 FirstHVACIteration with
    | error e =>
      rw [key] at hr
      unfold zeroDemandExit at hr
      rw [hi] at hr
      cases hr
    | ok st1 =>
      rw [hok st1 hi] at hr
      cases hr
      refine ⟨?_, ?_, rfl, rfl⟩ <;> simp
  · intro hf
    subst hf
    exact ⟨_, hok _ rfl⟩

/-- C32 at the second sample plant (heating load scheme, `SmallLoad = 1`): a
call made for the boiler of branch 2 at a demand of 0.5, not at the first HVAC
iteration, returns with that boiler off and without load, the boiler of
branch 3 still carrying its load of 5, and `RemLoopDemand` as it came in. -/
theorem C32_zero_demand_witness :
    ∃ r, ManagePlantLoadDistribution demoEnv (rangePlant false false) 1 2 2 1 (1 / 2) 7 false
        false (some false) = Except.ok r ∧
      (r.st.comp 1 2 2 1).MyLoad = 0 ∧ (r.st.comp 1 2 2 1).ON = false ∧
      (r.st.comp 1 2 3 1).MyLoad = 5 ∧
      r.RemLoopDemand = 7 ∧ r.LoadDistributionWasPerformed = some false := by
  have h := C32_zero_demand_fast_path demoEnv (rangePlant false false) 1 2 2 1 (1 / 2) 7 false
    (some false) (rangePlant_anyOpSchemeAvailable false false)
    (by rw [rangePlant_activate_none 2 (by norm_num)]; simp [rangeSupplyComp])
    (Or.inl ⟨by unfold currentSchemeType; rw [rangePlant_activate_none 2 (by norm_num)]; rfl,
      by norm_num [demoEnv]⟩)
  obtain ⟨_, h2, h3, h4⟩ := h
  have hr := h2 (rangePlant false false) (by rw [rangePlant_activate_none 2 (by norm_num)]; rfl)
  refine ⟨_, hr, (h3 _ hr).1, (h3 _ hr).2.1, ?_, rfl, rfl⟩
  simp [rangeSupplyComp]

/-- On a list with members `DistributePlantLoad` ends with the closing loop. -/
theorem DistributePlantLoad_closing (env : Env) (st : PlantState) (L S P K : Nat) (D : ℚ)
    (hn : (st.equipList L P K).NumComps ≠ 0) :
    ∃ a : PlantState × ℚ, DistributePlantLoad env st L S P K D =
      (forLoop (updateOnFlagBody env L S P K) a.1 (st.equipList L P K).NumComps, a.2) := by
  unfold DistributePlantLoad
  simp only []
  rw [if_neg hn]
  exact ⟨_, rfl⟩

/-- C31 (as amended). After `DistributePlantLoad` on a list with members,
whatever the demand and the policy, every member of the list (available or
not) has `ON = true` exactly when `|MyLoad| >= SmallLoad`: a load of exactly
`SmallLoad` switches the member on. -/
theorem C31_on_flag_follows_load (env : Env) (st : PlantState)
    (LoopNum LoopSideNum CurSchemePtr ListPtr : Nat) (LoopDemand : ℚ) (i : Nat)
    (h1 : 1 ≤ i) (h2 : i ≤ (st.equipList LoopNum CurSchemePtr ListPtr).NumComps) :
    (((DistributePlantLoad env st LoopNum LoopSideNum CurSchemePtr ListPtr LoopDemand).1.member
        LoopNum LoopSideNum CurSchemePtr ListPtr i).ON = true ↔
      env.SmallLoad ≤
        |((DistributePlantLoad env st LoopNum LoopSideNum CurSchemePtr ListPtr LoopDemand).1.member
          LoopNum LoopSideNum CurSchemePtr ListPtr i).MyLoad|) := by
  obtain ⟨a, ha⟩ := DistributePlantLoad_closing env st LoopNum LoopSideNum CurSchemePtr ListPtr
    LoopDemand (by omega)
  rw [ha]
  simp only []
  obtain ⟨hs, hc, hon⟩ := closingLoop_comp env LoopNum LoopSideNum CurSchemePtr ListPtr a.1
    (a.1.memberBranch LoopNum CurSchemePtr ListPtr i)
    (a.1.memberComp LoopNum CurSchemePtr ListPtr i)
    (st.equipList LoopNum CurSchemePtr ListPtr).NumComps
  have hon2 := hon ⟨i, h1, h2, rfl, rfl⟩
  unfold PlantState.member
  rw [hs.memberBranch, hs.memberComp]
  have hload : ((forLoop (updateOnFlagBody env LoopNum LoopSideNum CurSchemePtr ListPtr) a.1
      (st.equipList LoopNum CurSchemePtr ListPtr).NumComps).comp LoopNum LoopSideNum
      (a.1.memberBranch LoopNum CurSchemePtr ListPtr i)
      (a.1.memberComp LoopNum CurSchemePtr ListPtr i)).MyLoad =
      (a.1.comp LoopNum LoopSideNum (a.1.memberBranch LoopNum CurSchemePtr ListPtr i)
        (a.1.memberComp LoopNum CurSchemePtr ListPtr i)).MyLoad := by
    rw [hc]
  rw [hon2, hload, decide_eq_true_iff, not_lt]

/-- C31 at the first sample plant (one machine, sequential policy,
`SmallLoad = 1`) with a demand of 15: the machine carries 15 and is on. -/
theorem C31_on_flag_witness :
    (((DistributePlantLoad demoEnv
        (demoPlant LoadingScheme.SequentialLoading 1 0 1000 (fun _ => demoComp 20 40))
        1 2 1 1 15).1.member 1 2 1 1 1).ON = true ↔
      demoEnv.SmallLoad ≤
        |((DistributePlantLoad demoEnv
          (demoPlant LoadingScheme.SequentialLoading 1 0 1000 (fun _ => demoComp 20 40))
          1 2 1 1 15).1.member 1 2 1 1 1).MyLoad|) ∧
    ((DistributePlantLoad demoEnv
        (demoPlant LoadingScheme.SequentialLoading 1 0 1000 (fun _ => demoComp 20 40))
        1 2 1 1 15).1.comp 1 2 1 1).MyLoad = 15 :=
  ⟨C31_on_flag_follows_load demoEnv
      (demoPlant LoadingScheme.SequentialLoading 1 0 1000 (fun _ => demoComp 20 40))
      1 2 1 1 15 1 (le_refl _) (by simp),
    by
      norm_num [DistributePlantLoad, distributeSequential, forLoop, firstPassBody_eq,
        updateOnFlagBody_eq, adjustChangeInLoad, AdjustChangeInLoadByHowServed,
        AdjustChangeInLoadByEMSControls, AdjustChangeInLoadForLastStageUpperRangeLimit,
        sequentialTarget, snapRem, sign, demoComp, demoEnv, abs_of_nonneg, abs_of_neg]⟩

/-- C31 as first stated fails at a load of exactly `SmallLoad`: at the first
sample plant (one machine, sequential policy, `SmallLoad = 1`) a demand of 1
leaves the machine with `MyLoad = 1` and `ON = true`, while `|MyLoad|` does
not exceed `SmallLoad`. -/
theorem C31_load_equal_to_tolerance_is_on :
    0 < ((demoPlant LoadingScheme.SequentialLoading 1 0 1000
        (fun _ => demoComp 20 40)).equipList 1 1 1).NumComps ∧
    ((DistributePlantLoad demoEnv
        (demoPlant LoadingScheme.SequentialLoading 1 0 1000 (fun _ => demoComp 20 40))
        1 2 1 1 1).1.comp 1 2 1 1).MyLoad = 1 ∧
    ((DistributePlantLoad demoEnv
        (demoPlant LoadingScheme.SequentialLoading 1 0 1000 (fun _ => demoComp 20 40))
        1 2 1 1 1).1.comp 1 2 1 1).ON = true ∧
    ¬ |((DistributePlantLoad demoEnv
        (demoPlant LoadingScheme.SequentialLoading 1 0 1000 (fun _ => demoComp 20 40))
        1 2 1 1 1).1.comp 1 2 1 1).MyLoad| > demoEnv.SmallLoad := by
  have hl : ((DistributePlantLoad demoEnv
      (demoPlant LoadingScheme.SequentialLoading 1 0 1000 (fun _ => demoComp 20 40))
      1 2 1 1 1).1.comp 1 2 1 1).MyLoad = 1 := by
    norm_num [DistributePlantLoad, distributeSequential, forLoop, firstPassBody_eq,
      updateOnFlagBody_eq, adjustChangeInLoad, AdjustChangeInLoadByHowServed,
      AdjustChangeInLoadByEMSControls, AdjustChangeInLoadForLastStageUpperRangeLimit,
      sequentialTarget, snapRem, sign, demoComp, demoEnv, abs_of_nonneg, abs_of_neg]
  refine ⟨by simp, hl, ?_, ?_⟩
  · norm_num [DistributePlantLoad, distributeSequential, forLoop, firstPassBody_eq,
      updateOnFlagBody_eq, adjustChangeInLoad, AdjustChangeInLoadByHowServed,
      AdjustChangeInLoadByEMSControls, AdjustChangeInLoadForLastStageUpperRangeLimit,
      sequentialTarget, snapRem, sign, demoComp, demoEnv, abs_of_nonneg, abs_of_neg]
  · rw [hl]
    norm_num [demoEnv]

theorem highestRange_eq (st : PlantState) (L P : Nat) :
    highestRange st L P =
      highestUpperLimit (st.opScheme L P) (st.opScheme L P).NumEquipLists := by
  unfold highestRange
  generalize (st.opScheme L P).NumEquipLists = n
  induction n with
  | zero => rfl
  | succ n ih =>
    rw [forLoop_succ, ih]
    rfl

/-- The recording loop, scheme by scheme, after `n` lists. -/
theorem recordLoop_opScheme (L P : Nat) (h : ℚ) (st : PlantState) :
    ∀ n L2 P2,
      (forLoop (fun st ListNum =>
        if h = (st.equipList L P ListNum).RangeUpperLimit then
          st.modifyOpScheme L P (fun o => { o with EquipListNumForLastStage := ListNum })
        else st) st n).opScheme L2 P2 =
      if L2 = L ∧ P2 = P then
        { st.opScheme L P with
          EquipListNumForLastStage := lastStageIndex (st.opScheme L P) h n }
      else st.opScheme L2 P2 := by
  intro n
  induction n with
  | zero =>
    intro L2 P2
    by_cases hc : L2 = L ∧ P2 = P
    · rw [if_pos hc, hc.1, hc.2]; rfl
    · rw [if_neg hc]; rfl
  | succ n ih =>
    intro L2 P2
    rw [forLoop_succ]
    generalize forLoop (fun st ListNum =>
        if h = (st.equipList L P ListNum).RangeUpperLimit then
          st.modifyOpScheme L P (fun o => { o with EquipListNumForLastStage := ListNum })
        else st) st n = s at ih ⊢
    have hself := ih L P
    rw [if_pos ⟨rfl, rfl⟩] at hself
    have hlim : (s.equipList L P (n + 1)).RangeUpperLimit =
        ((st.opScheme L P).EquipList (n + 1)).RangeUpperLimit := by
      show ((s.opScheme L P).EquipList (n + 1)).RangeUpperLimit = _
      rw [hself]
    simp only []
    rw [hlim]
    by_cases heq : h = ((st.opScheme L P).EquipList (n + 1)).RangeUpperLimit
    · rw [if_pos heq, opScheme_modifyOpScheme]
      by_cases hc : L2 = L ∧ P2 = P
      · rw [if_pos hc, if_pos hc, hself]
        show _ = { st.opScheme L P with
          EquipListNumForLastStage :=
            if h = ((st.opScheme L P).EquipList (n + 1)).RangeUpperLimit then n + 1
            else lastStageIndex (st.opScheme L P) h n }
        rw [if_pos heq]
      · rw [if_neg hc, if_neg hc, ih, if_neg hc]
    · rw [if_neg heq, ih]
      by_cases hc : L2 = L ∧ P2 = P
      · rw [if_pos hc, if_pos hc]
        show _ = { st.opScheme L P with
          EquipListNumForLastStage :=
            if h = ((st.opScheme L P).EquipList (n + 1)).RangeUpperLimit then n + 1
            else lastStageIndex (st.opScheme L P) h n }
        rw [if_neg heq]
      · rw [if_neg hc, if_neg hc]

theorem recordLoop_counts (L P : Nat) (h : ℚ) (st : PlantState) (n : Nat) :
    (forLoop (fun st ListNum =>
        if h = (st.equipList L P ListNum).RangeUpperLimit then
          st.modifyOpScheme L P (fun o => { o with EquipListNumForLastStage := ListNum })
        else st) st n).TotNumLoops = st.TotNumLoops ∧
    ∀ L2, ((forLoop (fun st ListNum =>
        if h = (st.equipList L P ListNum).RangeUpperLimit then
          st.modifyOpScheme L P (fun o => { o with EquipListNumForLastStage := ListNum })
        else st) st n).PlantLoop L2).NumOpSchemes = (st.PlantLoop L2).NumOpSchemes := by
  apply forLoop_induction (fun s : PlantState => s.TotNumLoops = st.TotNumLoops ∧
    ∀ L2, (s.PlantLoop L2).NumOpSchemes = (st.PlantLoop L2).NumOpSchemes)
  · exact ⟨rfl, fun _ => rfl⟩
  · intro s K hs
    split
    · exact ⟨hs.1, fun L2 => by rw [modifyOpScheme_NumOpSchemes]; exact hs.2 L2⟩
    · exact hs

/-- One scheme of the last one-time loop, scheme by scheme. -/
theorem lastStageBody_opScheme (L P : Nat) (st : PlantState) :
    (∀ L2 P2,
      (if (st.opScheme L P).OpSchemeType ≠ OpSchemeType.HeatingRBOpSchemeType ∧
          (st.opScheme L P).OpSchemeType ≠ OpSchemeType.CoolingRBOpSchemeType then st
        else recordLastStage L P (highestRange st L P) st).opScheme L2 P2 =
      if L2 = L ∧ P2 = P then withLastStage (st.opScheme L P) else st.opScheme L2 P2) ∧
    (if (st.opScheme L P).OpSchemeType ≠ OpSchemeType.HeatingRBOpSchemeType ∧
          (st.opScheme L P).OpSchemeType ≠ OpSchemeType.CoolingRBOpSchemeType then st
        else recordLastStage L P (highestRange st L P) st).TotNumLoops = st.TotNumLoops ∧
    ∀ L2, ((if (st.opScheme L P).OpSchemeType ≠ OpSchemeType.HeatingRBOpSchemeType ∧
          (st.opScheme L P).OpSchemeType ≠ OpSchemeType.CoolingRBOpSchemeType then st
        else recordLastStage L P (highestRange st L P) st).PlantLoop L2).NumOpSchemes =
      (st.PlantLoop L2).NumOpSchemes := by
  by_cases ht : (st.opScheme L P).OpSchemeType ≠ OpSchemeType.HeatingRBOpSchemeType ∧
      (st.opScheme L P).OpSchemeType ≠ OpSchemeType.CoolingRBOpSchemeType
  · rw [if_pos ht]
    refine ⟨?_, rfl, fun _ => rfl⟩
    intro L2 P2
    by_cases hc : L2 = L ∧ P2 = P
    · rw [if_pos hc, hc.1, hc.2]
      unfold withLastStage
      rw [if_pos ht]
    · rw [if_neg hc]
  · rw [if_neg ht]
    unfold recordLastStage
    refine ⟨?_, (recordLoop_counts L P _ st _).1, (recordLoop_counts L P _ st _).2⟩
    intro L2 P2
    rw [recordLoop_opScheme, highestRange_eq]
    by_cases hc : L2 = L ∧ P2 = P
    · rw [if_pos hc, if_pos hc]
      unfold withLastStage
      rw [if_neg ht]
    · rw [if_neg hc, if_neg hc]

/-- The schemes `1 .. k` of one loop. -/
theorem lastStageSchemes_opScheme (L : Nat) (st : PlantState) :
    ∀ k,
      (∀ L2 P2, (forLoop (fun st OpNum =>
          if (st.opScheme L OpNum).OpSchemeType ≠ OpSchemeType.HeatingRBOpSchemeType ∧
              (st.opScheme L OpNum).OpSchemeType ≠ OpSchemeType.CoolingRBOpSchemeType then st
          else recordLastStage L OpNum (highestRange st L OpNum) st) st k).opScheme L2 P2 =
        if L2 = L ∧ 1 ≤ P2 ∧ P2 ≤ k then withLastStage (st.opScheme L2 P2)
        else st.opScheme L2 P2) ∧
      (forLoop (fun st OpNum =>
          if (st.opScheme L OpNum).OpSchemeType ≠ OpSchemeType.HeatingRBOpSchemeType ∧
              (st.opScheme L OpNum).OpSchemeType ≠ OpSchemeType.CoolingRBOpSchemeType then st
          else recordLastStage L OpNum (highestRange st L OpNum) st) st k).TotNumLoops =
        st.TotNumLoops ∧
      ∀ L2, ((forLoop (fun st OpNum =>
          if (st.opScheme L OpNum).OpSchemeType ≠ OpSchemeType.HeatingRBOpSchemeType ∧
              (st.opScheme L OpNum).OpSchemeType ≠ OpSchemeType.CoolingRBOpSchemeType then st
          else recordLastStage L OpNum (highestRange st L OpNum) st) st k).PlantLoop L2).NumOpSchemes =
        (st.PlantLoop L2).NumOpSchemes := by
  intro k
  induction k with
  | zero =>
    refine ⟨?_, rfl, fun _ => rfl⟩
    intro L2 P2
    rw [if_neg (by omega)]
    rfl
  | succ k ih =>
    rw [forLoop_succ]
    generalize forLoop (fun st OpNum =>
          if (st.opScheme L OpNum).OpSchemeType ≠ OpSchemeType.HeatingRBOpSchemeType ∧
              (st.opScheme L OpNum).OpSchemeType ≠ OpSchemeType.CoolingRBOpSchemeType then st
          else recordLastStage L OpNum (highestRange st L OpNum) st) st k = s at ih ⊢
    obtain ⟨ih1, ih2, ih3⟩ := ih
    obtain ⟨b1, b2, b3⟩ := lastStageBody_opScheme L (k + 1) s
    refine ⟨?_, by rw [b2, ih2], fun L2 => by rw [b3, ih3]⟩
    intro L2 P2
    show (if (s.opScheme L (k + 1)).OpSchemeType ≠ OpSchemeType.HeatingRBOpSchemeType ∧
          (s.opScheme L (k + 1)).OpSchemeType ≠ OpSchemeType.CoolingRBOpSchemeType then s
        else recordLastStage L (k + 1) (highestRange s L (k + 1)) s).opScheme L2 P2 = _
    rw [b1, ih1, ih1]
    by_cases h1 : L2 = L ∧ P2 = k + 1
    · obtain ⟨rfl, rfl⟩ := h1
      rw [if_pos ⟨rfl, rfl⟩, if_neg (by omega), if_pos ⟨rfl, by omega, le_refl _⟩]
    · rw [if_neg h1]
      by_cases h2 : L2 = L ∧ 1 ≤ P2 ∧ P2 ≤ k
      · rw [if_pos h2, if_pos ⟨h2.1, h2.2.1, by omega⟩]
      · rw [if_neg h2, if_neg]
        intro h
        by_cases hp : P2 = k + 1
        · exact h1 ⟨h.1, hp⟩
        · exact h2 ⟨h.1, h.2.1, by omega⟩

/-- The last of the one-time loops, scheme by scheme: the schemes within the
loop and scheme counts become `withLastStage` of what they were. -/
theorem fillLastStages_opScheme (st : PlantState) :
    ∀ L P, (fillLastStages st).opScheme L P =
      if (1 ≤ L ∧ L ≤ st.TotNumLoops) ∧ 1 ≤ P ∧ P ≤ (st.PlantLoop L).NumOpSchemes
      then withLastStage (st.opScheme L P) else st.opScheme L P := by
  have key : ∀ n,
      (∀ L P, (forLoop (fun st LoopNum =>
          forLoop (fun st OpNum =>
            if (st.opScheme LoopNum OpNum).OpSchemeType ≠ OpSchemeType.HeatingRBOpSchemeType ∧
                (st.opScheme LoopNum OpNum).OpSchemeType ≠ OpSchemeType.CoolingRBOpSchemeType
            then st
            else recordLastStage LoopNum OpNum (highestRange st LoopNum OpNum) st)
            st (st.PlantLoop LoopNum).NumOpSchemes) st n).opScheme L P =
        if (1 ≤ L ∧ L ≤ n) ∧ 1 ≤ P ∧ P ≤ (st.PlantLoop L).NumOpSchemes
        then withLastStage (st.opScheme L P) else st.opScheme L P) ∧
      ∀ L, ((forLoop (fun st LoopNum =>
          forLoop (fun st OpNum =>
            if (st.opScheme LoopNum OpNum).OpSchemeType ≠ OpSchemeType.HeatingRBOpSchemeType ∧
                (st.opScheme LoopNum OpNum).OpSchemeType ≠ OpSchemeType.CoolingRBOpSchemeType
            then st
            else recordLastStage LoopNum OpNum (highestRange st LoopNum OpNum) st)
            st (st.PlantLoop LoopNum).NumOpSchemes) st n).PlantLoop L).NumOpSchemes =
        (st.PlantLoop L).NumOpSchemes := by
    intro n
    induction n with
    | zero =>
      refine ⟨?_, fun _ => rfl⟩
      intro L P
      rw [if_neg (by omega)]
      rfl
    | succ n ih =>
      rw [forLoop_succ]
      generalize forLoop (fun st LoopNum =>
          forLoop (fun st OpNum =>
            if (st.opScheme LoopNum OpNum).OpSchemeType ≠ OpSchemeType.HeatingRBOpSchemeType ∧
                (st.opScheme LoopNum OpNum).OpSchemeType ≠ OpSchemeType.CoolingRBOpSchemeType
            then st
            else recordLastStage LoopNum OpNum (highestRange st LoopNum OpNum) st)
            st (st.PlantLoop LoopNum).NumOpSchemes) st n = s at ih ⊢
      obtain ⟨ih1, ih2⟩ := ih
      obtain ⟨b1, _, b3⟩ := lastStageSchemes_opScheme (n + 1) s (s.PlantLoop (n + 1)).NumOpSchemes
      refine ⟨?_, fun L => by rw [b3, ih2]⟩
      intro L P
      show (forLoop (fun st OpNum =>
          if (st.opScheme (n + 1) OpNum).OpSchemeType ≠ OpSchemeType.HeatingRBOpSchemeType ∧
              (st.opScheme (n + 1) OpNum).OpSchemeType ≠ OpSchemeType.CoolingRBOpSchemeType then st
          else recordLastStage (n + 1) OpNum (highestRange st (n + 1) OpNum) st) s
          (s.PlantLoop (n + 1)).NumOpSchemes).opScheme L P = _
      rw [b1, ih1, ih2]
      by_cases h1 : L = n + 1 ∧ 1 ≤ P ∧ P ≤ (st.PlantLoop (n + 1)).NumOpSchemes
      · obtain ⟨rfl, h2, h3⟩ := h1
        rw [if_pos ⟨rfl, h2, h3⟩, if_neg (by omega), if_pos ⟨⟨by omega, le_refl _⟩, h2, h3⟩]
      · rw [if_neg h1]
        by_cases h2 : (1 ≤ L ∧ L ≤ n) ∧ 1 ≤ P ∧ P ≤ (st.PlantLoop L).NumOpSchemes
        · rw [if_pos h2, if_pos ⟨⟨h2.1.1, by omega⟩, h2.2⟩]
        · rw [if_neg h2, if_neg]
          intro h
          by_cases hl : L = n + 1
          · subst hl; exact h1 ⟨rfl, h.2⟩
          · exact h2 ⟨⟨h.1.1, by omega⟩, h.2⟩
  intro L P
  unfold fillLastStages
  exact (key st.TotNumLoops).1 L P

theorem highestUpperLimit_spec (o : OpSchemeData) :
    ∀ n, 0 ≤ highestUpperLimit o n ∧
      (∀ K, 1 ≤ K → K ≤ n → (o.EquipList K).RangeUpperLimit ≤ highestUpperLimit o n) ∧
      (highestUpperLimit o n = 0 ∨
        ∃ K, 1 ≤ K ∧ K ≤ n ∧ highestUpperLimit o n = (o.EquipList K).RangeUpperLimit) := by
  intro n
  induction n with
  | zero => exact ⟨le_refl _, fun K h1 h2 => by omega, Or.inl rfl⟩
  | succ n ih =>
    obtain ⟨i1, i2, i3⟩ := ih
    show 0 ≤ max (highestUpperLimit o n) (o.EquipList (n + 1)).RangeUpperLimit ∧
      (∀ K, 1 ≤ K → K ≤ n + 1 → (o.EquipList K).RangeUpperLimit ≤
        max (highestUpperLimit o n) (o.EquipList (n + 1)).RangeUpperLimit) ∧
      (max (highestUpperLimit o n) (o.EquipList (n + 1)).RangeUpperLimit = 0 ∨
        ∃ K, 1 ≤ K ∧ K ≤ n + 1 ∧
          max (highestUpperLimit o n) (o.EquipList (n + 1)).RangeUpperLimit =
            (o.EquipList K).RangeUpperLimit)
    refine ⟨le_trans i1 (le_max_left _ _), ?_, ?_⟩
    · intro K h1 h2
      by_cases hk : K = n + 1
      · rw [hk]; exact le_max_right _ _
      · exact le_trans (i2 K h1 (by omega)) (le_max_left _ _)
    · rcases le_total (highestUpperLimit o n) (o.EquipList (n + 1)).RangeUpperLimit with h | h
      · rw [max_eq_right h]
        exact Or.inr ⟨n + 1, by omega, le_refl _, rfl⟩
      · rw [max_eq_left h]
        rcases i3 with h0 | ⟨K, k1, k2, k3⟩
        · exact Or.inl h0
        · exact Or.inr ⟨K, k1, by omega, k3⟩

theorem lastStageIndex_spec (o : OpSchemeData) (h : ℚ) :
    ∀ n, (∃ K, 1 ≤ K ∧ K ≤ n ∧ h = (o.EquipList K).RangeUpperLimit) →
      1 ≤ lastStageIndex o h n ∧ lastStageIndex o h n ≤ n ∧
      h = (o.EquipList (lastStageIndex o h n)).RangeUpperLimit ∧
      ∀ K, lastStageIndex o h n < K → K ≤ n → h ≠ (o.EquipList K).RangeUpperLimit := by
  intro n
  induction n with
  | zero => rintro ⟨K, h1, h2, _⟩; omega
  | succ n ih =>
    intro hex
    show 1 ≤ (if h = (o.EquipList (n + 1)).RangeUpperLimit then n + 1 else lastStageIndex o h n) ∧
      (if h = (o.EquipList (n + 1)).RangeUpperLimit then n + 1 else lastStageIndex o h n) ≤ n + 1 ∧
      h = (o.EquipList (if h = (o.EquipList (n + 1)).RangeUpperLimit then n + 1
        else lastStageIndex o h n)).RangeUpperLimit ∧
      ∀ K, (if h = (o.EquipList (n + 1)).RangeUpperLimit then n + 1
        else lastStageIndex o h n) < K → K ≤ n + 1 → h ≠ (o.EquipList K).RangeUpperLimit
    by_cases heq : h = (o.EquipList (n + 1)).RangeUpperLimit
    · rw [if_pos heq]
      exact ⟨by omega, le_refl _, heq, fun K h1 h2 => by omega⟩
    · rw [if_neg heq]
      have hex2 : ∃ K, 1 ≤ K ∧ K ≤ n ∧ h = (o.EquipList K).RangeUpperLimit := by
        obtain ⟨K, k1, k2, k3⟩ := hex
        by_cases hk : K = n + 1
        · rw [hk] at k3; exact absurd k3 heq
        · exact ⟨K, k1, by omega, k3⟩
      obtain ⟨j1, j2, j3, j4⟩ := ih hex2
      refine ⟨j1, by omega, j3, ?_⟩
      intro K h1 h2
      by_cases hk : K = n + 1
      · rw [hk]; exact heq
      · exact j4 K h1 (by omega)

/-- C34. After the last of the one-time loops of `InitLoadDistribution`
(`fillLastStages`), for a scheme within the loop and scheme counts: when it is
a heating load or cooling load scheme with a list whose upper limit is not
negative, `EquipListNumForLastStage` is the index of a list of the scheme
whose `RangeUpperLimit` is the largest of all its lists, and the highest such
index; when it is of any other type, its record is as it was; in both cases
nothing but `EquipListNumForLastStage` changes in the record. -/
theorem C34_last_stage_is_highest_range (st : PlantState) (L P : Nat)
    (hL : 1 ≤ L ∧ L ≤ st.TotNumLoops) (hP : 1 ≤ P ∧ P ≤ (st.PlantLoop L).NumOpSchemes) :
    (((st.opScheme L P).OpSchemeType = OpSchemeType.HeatingRBOpSchemeType ∨
        (st.opScheme L P).OpSchemeType = OpSchemeType.CoolingRBOpSchemeType) →
      (∃ K, 1 ≤ K ∧ K ≤ (st.opScheme L P).NumEquipLists ∧
        0 ≤ (st.equipList L P K).RangeUpperLimit) →
      (1 ≤ ((fillLastStages st).opScheme L P).EquipListNumForLastStage ∧
        ((fillLastStages st).opScheme L P).EquipListNumForLastStage ≤
          (st.opScheme L P).NumEquipLists) ∧
      (∀ K, 1 ≤ K → K ≤ (st.opScheme L P).NumEquipLists →
        (st.equipList L P K).RangeUpperLimit ≤
          (st.equipList L P
            ((fillLastStages st).opScheme L P).EquipListNumForLastStage).RangeUpperLimit) ∧
      (∀ K, ((fillLastStages st).opScheme L P).EquipListNumForLastStage < K →
        K ≤ (st.opScheme L P).NumEquipLists →
        (st.equipList L P K).RangeUpperLimit <
          (st.equipList L P
            ((fillLastStages st).opScheme L P).EquipListNumForLastStage).RangeUpperLimit)) ∧
    ((st.opScheme L P).OpSchemeType ≠ OpSchemeType.HeatingRBOpSchemeType →
      (st.opScheme L P).OpSchemeType ≠ OpSchemeType.CoolingRBOpSchemeType →
      (fillLastStages st).opScheme L P = st.opScheme L P) ∧
    (fillLastStages st).opScheme L P =
      { st.opScheme L P with
        EquipListNumForLastStage :=
          ((fillLastStages st).opScheme L P).EquipListNumForLastStage } := by
  have hfill := fillLastStages_opScheme st L P
  rw [if_pos ⟨hL, hP⟩] at hfill
  refine ⟨?_, ?_, ?_⟩
  · intro ht hex
    have hnot : ¬ ((st.opScheme L P).OpSchemeType ≠ OpSchemeType.HeatingRBOpSchemeType ∧
        (st.opScheme L P).OpSchemeType ≠ OpSchemeType.CoolingRBOpSchemeType) := by
      rintro ⟨h1, h2⟩
      rcases ht with ht | ht
      · exact h1 ht
      · exact h2 ht
    have hidx : ((fillLastStages st).opScheme L P).EquipListNumForLastStage =
        lastStageIndex (st.opScheme L P)
          (highestUpperLimit (st.opScheme L P) (st.opScheme L P).NumEquipLists)
          (st.opScheme L P).NumEquipLists := by
      rw [hfill]
      unfold withLastStage
      rw [if_neg hnot]
    obtain ⟨g1, g2, g3⟩ := highestUpperLimit_spec (st.opScheme L P) (st.opScheme L P).NumEquipLists
    have hmem : ∃ K, 1 ≤ K ∧ K ≤ (st.opScheme L P).NumEquipLists ∧
        highestUpperLimit (st.opScheme L P) (st.opScheme L P).NumEquipLists =
          ((st.opScheme L P).EquipList K).RangeUpperLimit := by
      rcases g3 with h0 | h
      · obtain ⟨K, k1, k2, k3⟩ := hex
        refine ⟨K, k1, k2, ?_⟩
        have := g2 K k1 k2
        rw [h0] at this ⊢
        exact le_antisymm k3 this
      · exact h
    obtain ⟨j1, j2, j3, j4⟩ := lastStageIndex_spec (st.opScheme L P) _ _ hmem
    rw [hidx]
    refine ⟨⟨j1, j2⟩, ?_, ?_⟩
    · intro K k1 k2
      show ((st.opScheme L P).EquipList K).RangeUpperLimit ≤
        ((st.opScheme L P).EquipList _).RangeUpperLimit
      rw [← j3]
      exact g2 K k1 k2
    · intro K k1 k2
      show ((st.opScheme L P).EquipList K).RangeUpperLimit <
        ((st.opScheme L P).EquipList _).RangeUpperLimit
      rw [← j3]
      exact lt_of_le_of_ne (g2 K (by omega) k2) (fun h => j4 K k1 k2 h.symm)
  · intro h1 h2
    rw [hfill]
    unfold withLastStage
    rw [if_pos ⟨h1, h2⟩]
  · rw [hfill]
    unfold withLastStage
    split <;> rfl

/-- C34 at a heating load scheme with three lists of upper limits 10, 30 and
30: the last stage is list 3, the higher of the two lists that reach 30. -/
theorem C34_last_stage_witness :
    ((fillLastStages (stagePlant OpSchemeType.HeatingRBOpSchemeType
        (fun K => if K = 1 then 10 else 30))).opScheme 1 1).EquipListNumForLastStage = 3 := by
  obtain ⟨h1, _, _⟩ := C34_last_stage_is_highest_range
    (stagePlant OpSchemeType.HeatingRBOpSchemeType (fun K => if K = 1 then 10 else 30)) 1 1
    ⟨le_refl _, le_refl _⟩ ⟨le_refl _, le_refl _⟩
  obtain ⟨⟨_, hb⟩, _, hc⟩ := h1 (Or.inl rfl) ⟨1, le_refl _, by decide, by
    show (0 : ℚ) ≤ if (1 : Nat) = 1 then 10 else 30
    norm_num⟩
  have hb2 : ((fillLastStages (stagePlant OpSchemeType.HeatingRBOpSchemeType
      (fun K => if K = 1 then 10 else 30))).opScheme 1 1).EquipListNumForLastStage ≤ 3 := hb
  by_contra hne
  have hlt : ((fillLastStages (stagePlant OpSchemeType.HeatingRBOpSchemeType
      (fun K => if K = 1 then 10 else 30))).opScheme 1 1).EquipListNumForLastStage < 3 := by
    omega
  have h3 := hc 3 hlt (le_refl _)
  have h3b : ((30 : ℚ)) < if ((fillLastStages (stagePlant OpSchemeType.HeatingRBOpSchemeType
      (fun K => if K = 1 then 10 else 30))).opScheme 1 1).EquipListNumForLastStage = 1
      then 10 else 30 := h3
  split at h3b <;> norm_num at h3b

/-! # Bounds on the load changes of the first passes -/

theorem outletLimitCorrection_le (env : Env) (st : PlantState) (L S B C : Nat) (low : Bool)
    (x : ℚ) : outletLimitCorrection env st L S B C low x ≤ x := by
  unfold outletLimitCorrection
  simp only []
  split
  · exact min_le_left _ _
  · exact le_refl _

theorem AdjustChangeInLoadByHowServed_le (env : Env) (st : PlantState) (L S B C : Nat) (x : ℚ) :
    (AdjustChangeInLoadByHowServed env st L S B C x).2 ≤ max 0 x := by
  unfold AdjustChangeInLoadByHowServed
  simp only []
  split
  · exact le_trans (outletLimitCorrection_le _ _ _ _ _ _ _ _) (le_max_right _ _)
  · split
    · exact le_max_left _ _
    · exact le_max_right _ _
  · split
    · exact le_max_left _ _
    · exact le_trans (outletLimitCorrection_le _ _ _ _ _ _ _ _) (le_max_right _ _)
  · exact le_trans (outletLimitCorrection_le _ _ _ _ _ _ _ _) (le_max_right _ _)
  · exact le_max_right _ _
  · exact le_max_right _ _

/-- The adjusted load change lies between 0 and the unadjusted one. -/
theorem adjustChangeInLoad_le (env : Env) (st : PlantState) (L S P K B C : Nat) (x : ℚ) :
    (adjustChangeInLoad env st L S P K B C x).2 ≤ max 0 x := by
  unfold adjustChangeInLoad
  simp only []
  apply max_le (le_max_left _ _)
  refine le_trans (AdjustChangeInLoadByHowServed_le _ _ _ _ _ _ _) ?_
  apply max_le (le_max_left _ _)
  have h1 : AdjustChangeInLoadForLastStageUpperRangeLimit st L P K x ≤ x := by
    unfold AdjustChangeInLoadForLastStageUpperRangeLimit
    split
    · exact min_le_left _ _
    · exact le_refl _
  have h2 : AdjustChangeInLoadByEMSControls st L S B C
      (AdjustChangeInLoadForLastStageUpperRangeLimit st L P K x) ≤ max 0 x := by
    unfold AdjustChangeInLoadByEMSControls
    split
    · exact le_max_left _ _
    · split
      · exact le_max_left _ _
      · split
        · exact le_max_left _ _
        · exact le_trans h1 (le_max_right _ _)
  exact h2

theorem sequentialTarget_le_max (c : CompData) (R : ℚ) (h : 0 < c.MaxLoad) :
    sequentialTarget c R ≤ c.MaxLoad := by
  unfold sequentialTarget
  rw [if_pos h]
  exact min_le_left _ _

theorem uniformTarget_le_max (u : ℚ) (c : CompData) (R : ℚ) (h : 0 < c.MaxLoad) :
    uniformTarget u c R ≤ c.MaxLoad := by
  unfold uniformTarget
  rw [if_pos h]
  exact min_le_left _ _

theorem sequentialTarget_le_abs (c : CompData) (R : ℚ) : sequentialTarget c R ≤ |R| := by
  unfold sequentialTarget
  split
  · exact min_le_right _ _
  · exact le_refl _

theorem sameMachine.maxLoad {c c' : CompData} (h : sameMachine c c') : c'.MaxLoad = c.MaxLoad := by
  unfold sameMachine at h
  rw [h]

/-- A first pass whose target respects `MaxLoad`, seen from a component
`( B0, C0 )` that is available on entry with `MaxLoad > 0`: after `k`
iterations its load is within `MaxLoad`, or it is untouched and is none of the
first `k` members. -/
theorem firstPass_capacity (env : Env) (st : PlantState) (L S P K : Nat)
    (target : CompData → ℚ → ℚ)
    (htarget : ∀ c R, 0 < c.MaxLoad → target c R ≤ c.MaxLoad) (B0 C0 : Nat)
    (hav0 : (st.comp L S B0 C0).Available = true)
    (hmax : 0 < (st.comp L S B0 C0).MaxLoad) (R0 : ℚ) :
    ∀ k,
      SameSkeleton st (forLoop (firstPassBody env L S P K target) (st, R0) k).1 ∧
      sameMachine (st.comp L S B0 C0)
        ((forLoop (firstPassBody env L S P K target) (st, R0) k).1.comp L S B0 C0) ∧
      (|((forLoop (firstPassBody env L S P K target) (st, R0) k).1.comp L S B0 C0).MyLoad| ≤
          (st.comp L S B0 C0).MaxLoad ∨
       ((forLoop (firstPassBody env L S P K target) (st, R0) k).1.comp L S B0 C0 =
          st.comp L S B0 C0 ∧
        ∀ j, 1 ≤ j → j ≤ k →
          ¬ (st.memberBranch L P K j = B0 ∧ st.memberComp L P K j = C0))) := by
  intro k
  induction k with
  | zero =>
    refine ⟨SameSkeleton.refl st, sameMachine.ofSelf _, Or.inr ⟨rfl, ?_⟩⟩
    intro j h1 h2; omega
  | succ k ih =>
    simp only [forLoop]
    generalize forLoop (firstPassBody env L S P K target) (st, R0) k = acc at ih ⊢
    obtain ⟨s, R⟩ := acc
    obtain ⟨hsk, hsm, hcase⟩ := ih
    simp only [] at hsk hsm hcase
    obtain ⟨hs2, hc2⟩ := firstPassBody_comp env L S P K target s R (k + 1)
    have hmB := hsk.memberBranch L P K (k + 1)
    have hmC := hsk.memberComp L P K (k + 1)
    refine ⟨hsk.trans hs2, ?_, ?_⟩
    · rw [hc2]
      split
      · rename_i h
        obtain ⟨⟨_, _, hB, hC⟩, _⟩ := h
        have hmem : s.member L S P K (k + 1) = s.comp L S B0 C0 := by
          unfold PlantState.member; rw [← hB, ← hC]
        rw [hmem]
        exact (hsm.followedBy (sameMachine.flagsFrom _ _)).setMyLoad _
      · exact hsm
    · rw [hc2]
      by_cases hcond : (L = L ∧ S = S ∧ B0 = s.memberBranch L P K (k + 1) ∧
          C0 = s.memberComp L P K (k + 1)) ∧ (s.member L S P K (k + 1)).Available = true
      · rw [if_pos hcond]
        obtain ⟨⟨_, _, hB, hC⟩, hav⟩ := hcond
        have hmem : s.member L S P K (k + 1) = s.comp L S B0 C0 := by
          unfold PlantState.member; rw [← hB, ← hC]
        left
        show |sign (adjustChangeInLoad env s L S P K (s.memberBranch L P K (k + 1))
          (s.memberComp L P K (k + 1)) (target (s.member L S P K (k + 1)) R)).2 R| ≤ _
        rw [abs_sign, abs_of_nonneg (adjustChangeInLoad_nonneg _ _ _ _ _ _ _ _ _)]
        refine le_trans (adjustChangeInLoad_le _ _ _ _ _ _ _ _ _) ?_
        have hM : (s.member L S P K (k + 1)).MaxLoad = (st.comp L S B0 C0).MaxLoad := by
          rw [hmem]; exact hsm.maxLoad
        apply max_le (le_of_lt hmax)
        rw [← hM]
        exact htarget _ _ (by rw [hM]; exact hmax)
      · rw [if_neg hcond]
        rcases hcase with hdone | ⟨hsame, hnot⟩
        · exact Or.inl hdone
        · right
          refine ⟨hsame, ?_⟩
          intro j hj1 hj2
          by_cases hjk : j ≤ k
          · exact hnot j hj1 hjk
          · have hj : j = k + 1 := by omega
            subst hj
            intro hpos
            apply hcond
            rw [hmB, hmC]
            refine ⟨⟨rfl, rfl, hpos.1.symm, hpos.2.symm⟩, ?_⟩
            unfold PlantState.member
            rw [hmB, hmC, hpos.1, hpos.2, hsame]
            exact hav0

theorem abs_add_sign_le (m M R : ℚ) (h : |m| ≤ M) :
    |m + sign (max 0 (min (M - |m|) |R|)) R| ≤ M := by
  have hd : 0 ≤ M - |m| := by linarith
  have hc : max 0 (min (M - |m|) |R|) ≤ M - |m| := max_le hd (min_le_left _ _)
  have hs : |sign (max 0 (min (M - |m|) |R|)) R| = max 0 (min (M - |m|) |R|) := by
    rw [abs_sign, abs_of_nonneg (le_max_left _ _)]
  have := abs_add m (sign (max 0 (min (M - |m|) |R|)) R)
  linarith

/-- The second step of the uniform policy keeps a load that is within the
capacity `M` of its component within it. -/
theorem uniformStep2_capacity (env : Env) (L S P K : Nat) (s : PlantState) (R : ℚ)
    (B0 C0 : Nat) (M : ℚ) (hM : (s.comp L S B0 C0).MaxLoad = M)
    (hle : |(s.comp L S B0 C0).MyLoad| ≤ M) :
    ∀ n, SameSkeleton s (forLoop (uniformStep2Body env L S P K) (s, R) n).1 ∧
      ((forLoop (uniformStep2Body env L S P K) (s, R) n).1.comp L S B0 C0).MaxLoad = M ∧
      |((forLoop (uniformStep2Body env L S P K) (s, R) n).1.comp L S B0 C0).MyLoad| ≤ M := by
  intro n
  induction n with
  | zero => exact ⟨SameSkeleton.refl s, hM, hle⟩
  | succ n ih =>
    simp only [forLoop]
    generalize forLoop (uniformStep2Body env L S P K) (s, R) n = acc at ih ⊢
    obtain ⟨s1, R1⟩ := acc
    obtain ⟨hsk, h1, h2⟩ := ih
    simp only [] at hsk h1 h2
    rw [uniformStep2Body_eq]
    simp only []
    split
    · exact ⟨hsk, h1, h2⟩
    · dsimp only
      refine ⟨hsk.trans (SameSkeleton.modifyComp _ _ _ _ _ _), ?_, ?_⟩
      · rw [comp_modifyComp]
        split
        · rename_i h
          obtain ⟨_, _, hB, hC⟩ := h
          rw [← hB, ← hC]
          exact h1
        · exact h1
      · rw [comp_modifyComp]
        split
        · rename_i h
          obtain ⟨_, _, hB, hC⟩ := h
          dsimp only
          rw [← hB, ← hC, h1]
          exact abs_add_sign_le _ _ _ h2
        · exact h2

/-- C36 (as amended). Under the sequential and the uniform policy, a member of
the list that is available on entry and has `MaxLoad > 0` ends
`DistributePlantLoad` with `|MyLoad| <= MaxLoad` for every demand with
`|LoopDemand| >= SmallLoad`; for a smaller demand nothing is assigned and the
bound holds when the load the member carried on entry was within `MaxLoad`.
`MaxLoad` itself is not changed. The members need not be distinct. -/
theorem C36_capacity_respected (env : Env) (st : PlantState)
    (LoopNum LoopSideNum CurSchemePtr ListPtr : Nat) (LoopDemand : ℚ)
    (hpol : (st.PlantLoop LoopNum).LoadDistribution = LoadingScheme.SequentialLoading ∨
      (st.PlantLoop LoopNum).LoadDistribution = LoadingScheme.UniformLoading)
    (i : Nat) (h1 : 1 ≤ i) (h2 : i ≤ (st.equipList LoopNum CurSchemePtr ListPtr).NumComps)
    (hav : (st.member LoopNum LoopSideNum CurSchemePtr ListPtr i).Available = true)
    (hmax : 0 < (st.member LoopNum LoopSideNum CurSchemePtr ListPtr i).MaxLoad)
    (hD : env.SmallLoad ≤ |LoopDemand| ∨
      |(st.member LoopNum LoopSideNum CurSchemePtr ListPtr i).MyLoad| ≤
        (st.member LoopNum LoopSideNum CurSchemePtr ListPtr i).MaxLoad) :
    |((DistributePlantLoad env st LoopNum LoopSideNum CurSchemePtr ListPtr LoopDemand).1.member
        LoopNum LoopSideNum CurSchemePtr ListPtr i).MyLoad| ≤
      (st.member LoopNum LoopSideNum CurSchemePtr ListPtr i).MaxLoad ∧
    ((DistributePlantLoad env st LoopNum LoopSideNum CurSchemePtr ListPtr LoopDemand).1.member
        LoopNum LoopSideNum CurSchemePtr ListPtr i).MaxLoad =
      (st.member LoopNum LoopSideNum CurSchemePtr ListPtr i).MaxLoad := by
  have hn : (st.equipList LoopNum CurSchemePtr ListPtr).NumComps ≠ 0 := by omega
  have hskel := (DistributePlantLoad_frame env st LoopNum LoopSideNum CurSchemePtr ListPtr
    LoopDemand).1
  -- what the closing loop keeps
  have hclose : ∀ s : PlantState,
      |(s.comp LoopNum LoopSideNum (st.memberBranch LoopNum CurSchemePtr ListPtr i)
          (st.memberComp LoopNum CurSchemePtr ListPtr i)).MyLoad| ≤
        (st.member LoopNum LoopSideNum CurSchemePtr ListPtr i).MaxLoad →
      (s.comp LoopNum LoopSideNum (st.memberBranch LoopNum CurSchemePtr ListPtr i)
          (st.memberComp LoopNum CurSchemePtr ListPtr i)).MaxLoad =
        (st.member LoopNum LoopSideNum CurSchemePtr ListPtr i).MaxLoad →
      |((forLoop (updateOnFlagBody env LoopNum LoopSideNum CurSchemePtr ListPtr) s
          (st.equipList LoopNum CurSchemePtr ListPtr).NumComps).comp LoopNum LoopSideNum
          (st.memberBranch LoopNum CurSchemePtr ListPtr i)
          (st.memberComp LoopNum CurSchemePtr ListPtr i)).MyLoad| ≤
        (st.member LoopNum LoopSideNum CurSchemePtr ListPtr i).MaxLoad ∧
      ((forLoop (updateOnFlagBody env LoopNum LoopSideNum CurSchemePtr ListPtr) s
          (st.equipList LoopNum CurSchemePtr ListPtr).NumComps).comp LoopNum LoopSideNum
          (st.memberBranch LoopNum CurSchemePtr ListPtr i)
          (st.memberComp LoopNum CurSchemePtr ListPtr i)).MaxLoad =
        (st.member LoopNum LoopSideNum CurSchemePtr ListPtr i).MaxLoad := by
    intro s ha hb
    rw [closingLoop_only_ON]
    exact ⟨ha, hb⟩
  -- the first pass
  have hfirst : ∀ target : CompData → ℚ → ℚ,
      (∀ c R, 0 < c.MaxLoad → target c R ≤ c.MaxLoad) →
      |((forLoop (firstPassBody env LoopNum LoopSideNum CurSchemePtr ListPtr target)
          (st, LoopDemand) (st.equipList LoopNum CurSchemePtr ListPtr).NumComps).1.comp
          LoopNum LoopSideNum (st.memberBranch LoopNum CurSchemePtr ListPtr i)
          (st.memberComp LoopNum CurSchemePtr ListPtr i)).MyLoad| ≤
        (st.member LoopNum LoopSideNum CurSchemePtr ListPtr i).MaxLoad ∧
      ((forLoop (firstPassBody env LoopNum LoopSideNum CurSchemePtr ListPtr target)
          (st, LoopDemand) (st.equipList LoopNum CurSchemePtr ListPtr).NumComps).1.comp
          LoopNum LoopSideNum (st.memberBranch LoopNum CurSchemePtr ListPtr i)
          (st.memberComp LoopNum CurSchemePtr ListPtr i)).MaxLoad =
        (st.member LoopNum LoopSideNum CurSchemePtr ListPtr i).MaxLoad := by
    intro target ht
    obtain ⟨_, hsm, hcase⟩ := firstPass_capacity env st LoopNum LoopSideNum CurSchemePtr ListPtr
      target ht (st.memberBranch LoopNum CurSchemePtr ListPtr i)
      (st.memberComp LoopNum CurSchemePtr ListPtr i) hav hmax LoopDemand
      (st.equipList LoopNum CurSchemePtr ListPtr).NumComps
    refine ⟨?_, hsm.maxLoad⟩
    rcases hcase with hb | ⟨_, hnot⟩
    · exact hb
    · exact absurd ⟨rfl, rfl⟩ (hnot i h1 h2)
  unfold PlantState.member at hD ⊢
  rw [hskel.memberBranch, hskel.memberComp]
  by_cases hsmall : |LoopDemand| < env.SmallLoad
  · rw [DistributePlantLoad_small env st _ _ _ _ _ (by omega) hsmall]
    rcases hD with hD | hD
    · exact absurd hsmall (not_lt.mpr hD)
    · exact hclose st hD rfl
  · have hge : env.SmallLoad ≤ |LoopDemand| := not_lt.mp hsmall
    rw [DistributePlantLoad_eq env st _ _ _ _ _ hn hge]
    rcases hpol with hp | hp
    · rw [hp]
      simp only []
      unfold distributeSequential
      obtain ⟨ha, hb⟩ := hfirst sequentialTarget sequentialTarget_le_max
      exact hclose _ ha hb
    · rw [hp]
      simp only []
      unfold distributeUniform
      simp only []
      obtain ⟨ha, hb⟩ := hfirst
        (uniformTarget (|LoopDemand| / ((st.equipList LoopNum CurSchemePtr ListPtr).NumComps : ℚ)))
        (uniformTarget_le_max _)
      split
      · generalize forLoop (firstPassBody env LoopNum LoopSideNum CurSchemePtr ListPtr
          (uniformTarget (|LoopDemand| /
            ((st.equipList LoopNum CurSchemePtr ListPtr).NumComps : ℚ)))) (st, LoopDemand)
          (st.equipList LoopNum CurSchemePtr ListPtr).NumComps = a1 at ha hb ⊢
        obtain ⟨s, R⟩ := a1
        obtain ⟨_, g1, g2⟩ := uniformStep2_capacity env LoopNum LoopSideNum CurSchemePtr ListPtr
          s R (st.memberBranch LoopNum CurSchemePtr ListPtr i)
          (st.memberComp LoopNum CurSchemePtr ListPtr i) _ hb ha
          (st.equipList LoopNum CurSchemePtr ListPtr).NumComps
        exact hclose _ g2 g1
      · exact hclose _ ha hb

/-- C36 at the first sample plant with two machines of `MaxLoad = 10` under
the uniform policy and a demand of 15 (`SmallLoad = 1`): the first machine ends
with a load within 10. -/
theorem C36_capacity_witness :
    |((DistributePlantLoad demoEnv
        (demoPlant LoadingScheme.UniformLoading 2 0 1000 (fun _ => demoComp 5 10))
        1 2 1 1 15).1.member 1 2 1 1 1).MyLoad| ≤ 10 := by
  have h := (C36_capacity_respected demoEnv
    (demoPlant LoadingScheme.UniformLoading 2 0 1000 (fun _ => demoComp 5 10)) 1 2 1 1 15
    (Or.inr rfl) 1 (le_refl _) (by simp) (by simp [demoComp]) (by simp [demoComp])
    (Or.inl (by norm_num [demoEnv, abs_of_nonneg]))).1
  simpa [demoComp] using h

/-- C36 as first stated fails for a demand below `SmallLoad`: a machine that is
available, has `MaxLoad = 40` and carries a load of 50 from an earlier call
still carries 50 after a call with a demand of 0.5 (`SmallLoad = 1`), under the
sequential policy. -/
theorem C36_stale_load_above_capacity :
    ((demoPlant LoadingScheme.SequentialLoading 1 0 1000
        (fun _ => { demoComp 20 40 with MyLoad := 50 })).member 1 2 1 1 1).Available = true ∧
    (0 : ℚ) < ((demoPlant LoadingScheme.SequentialLoading 1 0 1000
        (fun _ => { demoComp 20 40 with MyLoad := 50 })).member 1 2 1 1 1).MaxLoad ∧
    ((DistributePlantLoad demoEnv
      (demoPlant LoadingScheme.SequentialLoading 1 0 1000
        (fun _ => { demoComp 20 40 with MyLoad := 50 })) 1 2 1 1 (1 / 2)).1.comp
        1 2 1 1).MyLoad = 50 ∧
    ¬ |((DistributePlantLoad demoEnv
      (demoPlant LoadingScheme.SequentialLoading 1 0 1000
        (fun _ => { demoComp 20 40 with MyLoad := 50 })) 1 2 1 1 (1 / 2)).1.comp
        1 2 1 1).MyLoad| ≤
      ((demoPlant LoadingScheme.SequentialLoading 1 0 1000
        (fun _ => { demoComp 20 40 with MyLoad := 50 })).member 1 2 1 1 1).MaxLoad := by
  have hl : ((DistributePlantLoad demoEnv
      (demoPlant LoadingScheme.SequentialLoading 1 0 1000
        (fun _ => { demoComp 20 40 with MyLoad := 50 })) 1 2 1 1 (1 / 2)).1.comp
        1 2 1 1).MyLoad = 50 := by
    rw [DistributePlantLoad_small demoEnv _ 1 2 1 1 (1 / 2) (by simp)
      (by norm_num [demoEnv, abs_of_pos])]
    simp only []
    rw [closingLoop_only_ON]
    simp [demoComp]
  refine ⟨by simp [demoComp], by simp [demoComp], hl, ?_⟩
  rw [hl]
  simp [demoComp]
  norm_num [abs_of_pos]

/-- A load change between 0 and `|R|`, signed by `R`, and what is left of `R`. -/
theorem sign_step (c R : ℚ) (h0 : 0 ≤ c) (h1 : c ≤ |R|) :
    (0 ≤ R → 0 ≤ sign c R ∧ 0 ≤ R - sign c R ∧ R - sign c R ≤ R) ∧
    (R ≤ 0 → sign c R ≤ 0 ∧ R ≤ R - sign c R ∧ R - sign c R ≤ 0) := by
  constructor
  · intro hR
    rw [sign_of_nonneg _ _ hR, abs_of_nonneg h0]
    rw [abs_of_nonneg hR] at h1
    exact ⟨h0, by linarith, by linarith⟩
  · intro hR
    rcases lt_or_eq_of_le hR with hlt | heq
    · rw [sign_of_neg _ _ hlt, abs_of_nonneg h0]
      rw [abs_of_neg hlt] at h1
      exact ⟨by linarith, by linarith, by linarith⟩
    · rw [heq, abs_zero] at h1
      have hc : c = 0 := le_antisymm h1 h0
      rw [heq, hc, sign_of_nonneg _ _ (le_refl _), abs_zero]
      exact ⟨le_refl _, by linarith, by linarith⟩

theorem snapRem_cases (env : Env) (r : ℚ) :
    (snapRem env r = 0 ∧ |r| < env.SmallLoad) ∨ snapRem env r = r := by
  unfold snapRem
  by_cases h : |r| < env.SmallLoad
  · rw [if_pos h]; exact Or.inl ⟨rfl, h⟩
  · rw [if_neg h]; exact Or.inr rfl

/-- The remaining demand after one iteration of a first pass. -/
theorem firstPassBody_rem (env : Env) (L S P K : Nat) (target : CompData → ℚ → ℚ)
    (s : PlantState) (R : ℚ) (i : Nat) :
    (firstPassBody env L S P K target (s, R) i).2 =
      if (s.member L S P K i).Available = true then
        snapRem env (R - sign (adjustChangeInLoad env s L S P K (s.memberBranch L P K i)
          (s.memberComp L P K i) (target (s.member L S P K i) R)).2 R)
      else R := by
  rw [firstPassBody_eq]
  simp only []
  by_cases h : (s.member L S P K i).Available = true
  · rw [if_pos h, if_neg]
    · rfl
    · unfold PlantState.member PlantState.memberBranch PlantState.memberComp at h
      rw [h]; decide
  · rw [if_neg h, if_pos]
    unfold PlantState.member PlantState.memberBranch PlantState.memberComp at h
    cases hb : (s.comp L S ((s.equipList L P K).Comp i).BranchNumPtr
      ((s.equipList L P K).Comp i).CompNumPtr).Available
    · rfl
    · exact absurd hb h

/-- Invariant of the sequential loop on a list of distinct components, after
`k` iterations: components that are none of the first `k` members are
untouched; the remaining demand lies between 0 and the demand; the loads given
to the members that are available on entry have the sign of the demand; and
these loads and the remaining demand add up to the demand, up to one remainder
below `SmallLoad` that was dropped when the remaining demand was set to 0. -/
theorem sequential_invariant (env : Env) (st : PlantState) (L S P K : Nat) (D : ℚ)
    (hsmall : 0 < env.SmallLoad)
    (hdist : ∀ i j, 1 ≤ i → i ≤ (st.equipList L P K).NumComps → 1 ≤ j →
      j ≤ (st.equipList L P K).NumComps → i ≠ j →
      ¬ (st.memberBranch L P K i = st.memberBranch L P K j ∧
         st.memberComp L P K i = st.memberComp L P K j)) :
    ∀ k, k ≤ (st.equipList L P K).NumComps →
      SameSkeleton st (forLoop (firstPassBody env L S P K sequentialTarget) (st, D) k).1 ∧
      (∀ B C, (∀ j, 1 ≤ j → j ≤ k →
          ¬ (st.memberBranch L P K j = B ∧ st.memberComp L P K j = C)) →
        (forLoop (firstPassBody env L S P K sequentialTarget) (st, D) k).1.comp L S B C =
          st.comp L S B C) ∧
      ((0 ≤ D → 0 ≤ (forLoop (firstPassBody env L S P K sequentialTarget) (st, D) k).2 ∧
          (forLoop (firstPassBody env L S P K sequentialTarget) (st, D) k).2 ≤ D) ∧
        (D ≤ 0 → D ≤ (forLoop (firstPassBody env L S P K sequentialTarget) (st, D) k).2 ∧
          (forLoop (firstPassBody env L S P K sequentialTarget) (st, D) k).2 ≤ 0)) ∧
      (∀ j, 1 ≤ j → j ≤ k → (st.member L S P K j).Available = true →
        (0 ≤ D → 0 ≤ ((forLoop (firstPassBody env L S P K sequentialTarget) (st, D) k).1.comp
          L S (st.memberBranch L P K j) (st.memberComp L P K j)).MyLoad) ∧
        (D ≤ 0 → ((forLoop (firstPassBody env L S P K sequentialTarget) (st, D) k).1.comp
          L S (st.memberBranch L P K j) (st.memberComp L P K j)).MyLoad ≤ 0)) ∧
      ∃ e : ℚ, |e| < env.SmallLoad ∧
        (e = 0 ∨ (forLoop (firstPassBody env L S P K sequentialTarget) (st, D) k).2 = 0) ∧
        (∑ i in Finset.range k,
            if (st.member L S P K (i + 1)).Available = true then
              ((forLoop (firstPassBody env L S P K sequentialTarget) (st, D) k).1.comp L S
                (st.memberBranch L P K (i + 1)) (st.memberComp L P K (i + 1))).MyLoad
            else 0) +
          (forLoop (firstPassBody env L S P K sequentialTarget) (st, D) k).2 + e = D := by
  intro k
  induction k with
  | zero =>
    intro _
    refine ⟨SameSkeleton.refl st, fun _ _ _ => rfl,
      ⟨fun h => ⟨h, le_refl _⟩, fun h => ⟨le_refl _, h⟩⟩, fun j h1 h2 => by omega,
      0, by rw [abs_zero]; exact hsmall, Or.inl rfl, ?_⟩
    show (∑ i in Finset.range 0, _) + D + 0 = D
    rw [Finset.sum_range_zero]
    ring
  | succ k ih =>
    intro hk
    obtain ⟨hsk, hfr, hR, hld, e, he1, he2, hsum⟩ := ih (by omega)
    rw [forLoop_succ]
    generalize forLoop (firstPassBody env L S P K sequentialTarget) (st, D) k = acc
      at hsk hfr hR hld he2 hsum ⊢
    obtain ⟨s, R⟩ := acc
    simp only [] at hsk hfr hR hld he2 hsum
    obtain ⟨hs2, hc2⟩ := firstPassBody_comp env L S P K sequentialTarget s R (k + 1)
    have hrem := firstPassBody_rem env L S P K sequentialTarget s R (k + 1)
    have hmB := hsk.memberBranch L P K (k + 1)
    have hmC := hsk.memberComp L P K (k + 1)
    have hmem : s.member L S P K (k + 1) = st.member L S P K (k + 1) := by
      unfold PlantState.member
      rw [hmB, hmC]
      exact hfr _ _ (fun j h1 h2 => hdist j (k + 1) h1 (by omega) (by omega) hk (by omega))
    have hc0 := adjustChangeInLoad_nonneg env s L S P K (s.memberBranch L P K (k + 1))
      (s.memberComp L P K (k + 1)) (sequentialTarget (s.member L S P K (k + 1)) R)
    have hc1 : (adjustChangeInLoad env s L S P K (s.memberBranch L P K (k + 1))
        (s.memberComp L P K (k + 1)) (sequentialTarget (s.member L S P K (k + 1)) R)).2 ≤ |R| :=
      le_trans (adjustChangeInLoad_le _ _ _ _ _ _ _ _ _)
        (max_le (abs_nonneg R) (sequentialTarget_le_abs _ _))
    generalize (adjustChangeInLoad env s L S P K (s.memberBranch L P K (k + 1))
        (s.memberComp L P K (k + 1)) (sequentialTarget (s.member L S P K (k + 1)) R)).2 = c
      at hc2 hrem hc0 hc1
    generalize (adjustChangeInLoad env s L S P K (s.memberBranch L P K (k + 1))
        (s.memberComp L P K (k + 1)) (sequentialTarget (s.member L S P K (k + 1)) R)).1 = sadj
      at hc2
    rw [hmem] at hc2 hrem
    rw [hmB, hmC] at hc2
    generalize firstPassBody env L S P K sequentialTarget (s, R) (k + 1) = acc2
      at hs2 hc2 hrem ⊢
    obtain ⟨s2, R2⟩ := acc2
    simp only [] at hs2 hc2 hrem
    dsimp only
    have hother : ∀ j, 1 ≤ j → j ≤ k →
        s2.comp L S (st.memberBranch L P K j) (st.memberComp L P K j) =
          s.comp L S (st.memberBranch L P K j) (st.memberComp L P K j) := by
      intro j h1 h2
      rw [hc2, if_neg]
      rintro ⟨⟨_, _, hB, hC⟩, _⟩
      exact hdist j (k + 1) h1 (by omega) (by omega) hk (by omega) ⟨hB, hC⟩
    have hsumeq : (∑ i in Finset.range k,
          if (st.member L S P K (i + 1)).Available = true then
            (s2.comp L S (st.memberBranch L P K (i + 1)) (st.memberComp L P K (i + 1))).MyLoad
          else 0) =
        ∑ i in Finset.range k,
          if (st.member L S P K (i + 1)).Available = true then
            (s.comp L S (st.memberBranch L P K (i + 1)) (st.memberComp L P K (i + 1))).MyLoad
          else 0 := by
      apply Finset.sum_congr rfl
      intro i hi
      rw [hother (i + 1) (by omega) (by have := Finset.mem_range.mp hi; omega)]
    have hfr2 : ∀ B C, (∀ j, 1 ≤ j → j ≤ k + 1 →
          ¬ (st.memberBranch L P K j = B ∧ st.memberComp L P K j = C)) →
        s2.comp L S B C = st.comp L S B C := by
      intro B C hnot
      rw [hc2, if_neg]
      · exact hfr B C (fun j h1 h2 => hnot j h1 (by omega))
      · rintro ⟨⟨_, _, hB, hC⟩, _⟩
        exact hnot (k + 1) (by omega) (le_refl _) ⟨hB.symm, hC.symm⟩
    by_cases hav : (st.member L S P K (k + 1)).Available = true
    · rw [if_pos hav] at hrem
      have hself : (s2.comp L S (st.memberBranch L P K (k + 1))
          (st.memberComp L P K (k + 1))).MyLoad = sign c R := by
        rw [hc2, if_pos ⟨⟨rfl, rfl, rfl, rfl⟩, hav⟩]
      obtain ⟨hpos, hneg⟩ := sign_step c R hc0 hc1
      have hsnap := snapRem_cases env (R - sign c R)
      rw [← hrem] at hsnap
      refine ⟨hsk.trans hs2, hfr2, ⟨?_, ?_⟩, ?_, ?_⟩
      · intro hD
        obtain ⟨r1, r2⟩ := hR.1 hD
        obtain ⟨_, p2, p3⟩ := hpos r1
        rcases hsnap with ⟨h0, _⟩ | h1
        · rw [h0]; exact ⟨le_refl _, hD⟩
        · rw [h1]; exact ⟨p2, by linarith⟩
      · intro hD
        obtain ⟨r1, r2⟩ := hR.2 hD
        obtain ⟨_, p2, p3⟩ := hneg r2
        rcases hsnap with ⟨h0, _⟩ | h1
        · rw [h0]; exact ⟨hD, le_refl _⟩
        · rw [h1]; exact ⟨by linarith, p3⟩
      · intro j h1 h2 hj
        by_cases hjk : j ≤ k
        · rw [hother j h1 hjk]
          exact hld j h1 hjk hj
        · have hje : j = k + 1 := by omega
          subst hje
          rw [hself]
          exact ⟨fun hD => (hpos (hR.1 hD).1).1, fun hD => (hneg (hR.2 hD).2).1⟩
      · rw [Finset.sum_range_succ, hsumeq, if_pos hav, hself]
        rcases he2 with he0 | hR0
        · rcases hsnap with ⟨h0, hlt⟩ | h1
          · refine ⟨R - sign c R, hlt, Or.inr h0, ?_⟩
            rw [h0]
            rw [he0] at hsum
            linarith
          · refine ⟨0, by rw [abs_zero]; exact hsmall, Or.inl rfl, ?_⟩
            rw [h1]
            rw [he0] at hsum
            linarith
        · have hcz : c = 0 := by
            rw [hR0, abs_zero] at hc1
            exact le_antisymm hc1 hc0
          have hsz : sign c R = 0 := by
            rw [hcz]; exact sign_zero_left R
          have hR2 : R2 = 0 := by
            rw [hrem, hsz, hR0]
            simp only [sub_zero]
            exact snapRem_zero env
          refine ⟨e, he1, Or.inr hR2, ?_⟩
          rw [hR2, hsz]
          rw [hR0] at hsum
          linarith
    · rw [if_neg hav] at hrem
      have hsame : ∀ B C, s2.comp L S B C = s.comp L S B C := by
        intro B C
        rw [hc2, if_neg]
        rintro ⟨_, h⟩
        exact hav h
      subst hrem
      refine ⟨hsk.trans hs2, hfr2, hR, ?_, e, he1, he2, ?_⟩
      · intro j h1 h2 hj
        by_cases hjk : j ≤ k
        · rw [hsame]
          exact hld j h1 hjk hj
        · have hje : j = k + 1 := by omega
          subst hje
          exact absurd hj hav
      · rw [Finset.sum_range_succ, hsumeq, if_neg hav]
        linarith

/-- C35. Under the sequential policy `DistributePlantLoad` never overshoots.
For every list of distinct components and every demand (with the positive
tolerance `SmallLoad`): the returned `RemLoopDemand` is zero or of the sign of
`LoopDemand` and `|RemLoopDemand| <= |LoopDemand|`; every load assigned by the
call (to a member available on entry, when the distribution runs) is zero or
of the sign of `LoopDemand`; and the sum of the assigned loads plus
`RemLoopDemand` differs from `LoopDemand` by less than `SmallLoad`. -/
theorem C35_sequential_never_overshoots (env : Env) (st : PlantState)
    (LoopNum LoopSideNum CurSchemePtr ListPtr : Nat) (LoopDemand : ℚ)
    (hpol : (st.PlantLoop LoopNum).LoadDistribution = LoadingScheme.SequentialLoading)
    (hsmall : 0 < env.SmallLoad)
    (hdist : ∀ i j, 1 ≤ i → i ≤ (st.equipList LoopNum CurSchemePtr ListPtr).NumComps → 1 ≤ j →
      j ≤ (st.equipList LoopNum CurSchemePtr ListPtr).NumComps → i ≠ j →
      ¬ (st.memberBranch LoopNum CurSchemePtr ListPtr i =
            st.memberBranch LoopNum CurSchemePtr ListPtr j ∧
         st.memberComp LoopNum CurSchemePtr ListPtr i =
            st.memberComp LoopNum CurSchemePtr ListPtr j)) :
    ((0 ≤ LoopDemand →
        0 ≤ (DistributePlantLoad env st LoopNum LoopSideNum CurSchemePtr ListPtr LoopDemand).2) ∧
      (LoopDemand ≤ 0 →
        (DistributePlantLoad env st LoopNum LoopSideNum CurSchemePtr ListPtr LoopDemand).2 ≤ 0)) ∧
    |(DistributePlantLoad env st LoopNum LoopSideNum CurSchemePtr ListPtr LoopDemand).2| ≤
      |LoopDemand| ∧
    (∀ i, 1 ≤ i → i ≤ (st.equipList LoopNum CurSchemePtr ListPtr).NumComps →
      loadAssigned env st LoopNum LoopSideNum CurSchemePtr ListPtr LoopDemand i = true →
      (0 ≤ LoopDemand →
        0 ≤ ((DistributePlantLoad env st LoopNum LoopSideNum CurSchemePtr ListPtr
          LoopDemand).1.member LoopNum LoopSideNum CurSchemePtr ListPtr i).MyLoad) ∧
      (LoopDemand ≤ 0 →
        ((DistributePlantLoad env st LoopNum LoopSideNum CurSchemePtr ListPtr
          LoopDemand).1.member LoopNum LoopSideNum CurSchemePtr ListPtr i).MyLoad ≤ 0)) ∧
    |(∑ i in Finset.range (st.equipList LoopNum CurSchemePtr ListPtr).NumComps,
          if loadAssigned env st LoopNum LoopSideNum CurSchemePtr ListPtr LoopDemand (i + 1) = true
          then ((DistributePlantLoad env st LoopNum LoopSideNum CurSchemePtr ListPtr
            LoopDemand).1.member LoopNum LoopSideNum CurSchemePtr ListPtr (i + 1)).MyLoad
          else 0) +
        (DistributePlantLoad env st LoopNum LoopSideNum CurSchemePtr ListPtr LoopDemand).2 -
        LoopDemand| < env.SmallLoad := by
  have hskel := (DistributePlantLoad_frame env st LoopNum LoopSideNum CurSchemePtr ListPtr
    LoopDemand).1
  have hmember : ∀ i, (DistributePlantLoad env st LoopNum LoopSideNum CurSchemePtr ListPtr
        LoopDemand).1.member LoopNum LoopSideNum CurSchemePtr ListPtr i =
      (DistributePlantLoad env st LoopNum LoopSideNum CurSchemePtr ListPtr LoopDemand).1.comp
        LoopNum LoopSideNum (st.memberBranch LoopNum CurSchemePtr ListPtr i)
        (st.memberComp LoopNum CurSchemePtr ListPtr i) := by
    intro i
    unfold PlantState.member
    rw [hskel.memberBranch, hskel.memberComp]
  simp only [hmember]
  by_cases hn : (st.equipList LoopNum CurSchemePtr ListPtr).NumComps = 0
  · have hret : DistributePlantLoad env st LoopNum LoopSideNum CurSchemePtr ListPtr LoopDemand =
        (st, LoopDemand) := by
      unfold DistributePlantLoad
      simp only []
      rw [if_pos hn]
    rw [hret, hn, Finset.sum_range_zero]
    refine ⟨⟨id, id⟩, le_refl _, fun i h1 h2 => by omega, ?_⟩
    dsimp only
    rw [zero_add, sub_self, abs_zero]
    exact hsmall
  · by_cases hlt : |LoopDemand| < env.SmallLoad
    · rw [DistributePlantLoad_small env st _ _ _ _ _ (by omega) hlt]
      have hla : ∀ i, loadAssigned env st LoopNum LoopSideNum CurSchemePtr ListPtr LoopDemand i =
          false := by
        intro i
        unfold loadAssigned
        rw [decide_eq_false (not_le.mpr hlt), Bool.false_and]
      refine ⟨⟨id, id⟩, le_refl _, fun i _ _ h => ?_, ?_⟩
      · rw [hla] at h
        cases h
      · dsimp only
        rw [Finset.sum_eq_zero, zero_add, sub_self, abs_zero]
        · exact hsmall
        · intro i _
          rw [hla, if_neg (by decide)]
    · have hge : env.SmallLoad ≤ |LoopDemand| := not_lt.mp hlt
      rw [DistributePlantLoad_sequential env st _ _ _ _ _ hpol hn hge]
      obtain ⟨_, _, hR, hld, e, he1, _, hsum⟩ := sequential_invariant env st LoopNum LoopSideNum
        CurSchemePtr ListPtr LoopDemand hsmall hdist
        (st.equipList LoopNum CurSchemePtr ListPtr).NumComps (le_refl _)
      have hla : ∀ i, loadAssigned env st LoopNum LoopSideNum CurSchemePtr ListPtr LoopDemand i =
          (st.member LoopNum LoopSideNum CurSchemePtr ListPtr i).Available := by
        intro i
        unfold loadAssigned
        rw [decide_eq_true hge, Bool.true_and]
      have hmy : ∀ (s : PlantState) (B C : Nat),
          ((forLoop (updateOnFlagBody env LoopNum LoopSideNum CurSchemePtr ListPtr) s
            (st.equipList LoopNum CurSchemePtr ListPtr).NumComps).comp LoopNum LoopSideNum
            B C).MyLoad = (s.comp LoopNum LoopSideNum B C).MyLoad := by
        intro s B C
        rw [closingLoop_only_ON]
      simp only [hla, hmy]
      generalize forLoop (firstPassBody env LoopNum LoopSideNum CurSchemePtr ListPtr
        sequentialTarget) (st, LoopDemand) (st.equipList LoopNum CurSchemePtr ListPtr).NumComps =
        acc at hR hld hsum ⊢
      obtain ⟨s, R⟩ := acc
      simp only [] at hR hld hsum
      dsimp only
      refine ⟨⟨fun h => (hR.1 h).1, fun h => (hR.2 h).2⟩, ?_, hld, ?_⟩
      · rcases le_total 0 LoopDemand with h | h
        · rw [abs_of_nonneg h, abs_of_nonneg (hR.1 h).1]
          exact (hR.1 h).2
        · rw [abs_of_nonpos h, abs_of_nonpos (hR.2 h).2]
          linarith [(hR.2 h).1]
      · have hneg : (∑ i in Finset.range (st.equipList LoopNum CurSchemePtr ListPtr).NumComps,
              if (st.member LoopNum LoopSideNum CurSchemePtr ListPtr (i + 1)).Available = true then
                (s.comp LoopNum LoopSideNum (st.memberBranch LoopNum CurSchemePtr ListPtr (i + 1))
                  (st.memberComp LoopNum CurSchemePtr ListPtr (i + 1))).MyLoad
              else 0) + R - LoopDemand = -e := by
          linarith
        rw [hneg, abs_neg]
        exact he1

/-- C35 at the sample plant: two distinct machines with `MaxLoad = 10` under
the sequential policy and a heating demand of 15 (`SmallLoad = 1`). -/
theorem C35_sequential_witness :
    (0 : ℚ) < demoEnv.SmallLoad ∧
    (((0 : ℚ) ≤ 15 →
        0 ≤ (DistributePlantLoad demoEnv
          (demoPlant LoadingScheme.SequentialLoading 2 0 1000 (fun _ => demoComp 5 10))
          1 2 1 1 15).2) ∧
      ((15 : ℚ) ≤ 0 →
        (DistributePlantLoad demoEnv
          (demoPlant LoadingScheme.SequentialLoading 2 0 1000 (fun _ => demoComp 5 10))
          1 2 1 1 15).2 ≤ 0)) ∧
    |(DistributePlantLoad demoEnv
        (demoPlant LoadingScheme.SequentialLoading 2 0 1000 (fun _ => demoComp 5 10))
        1 2 1 1 15).2| ≤ |(15 : ℚ)| ∧
    (∀ i, 1 ≤ i → i ≤ 2 →
      loadAssigned demoEnv
        (demoPlant LoadingScheme.SequentialLoading 2 0 1000 (fun _ => demoComp 5 10))
        1 2 1 1 15 i = true →
      ((0 : ℚ) ≤ 15 →
        0 ≤ ((DistributePlantLoad demoEnv
          (demoPlant LoadingScheme.SequentialLoading 2 0 1000 (fun _ => demoComp 5 10))
          1 2 1 1 15).1.member 1 2 1 1 i).MyLoad) ∧
      ((15 : ℚ) ≤ 0 →
        ((DistributePlantLoad demoEnv
          (demoPlant LoadingScheme.SequentialLoading 2 0 1000 (fun _ => demoComp 5 10))
          1 2 1 1 15).1.member 1 2 1 1 i).MyLoad ≤ 0)) ∧
    |(∑ i in Finset.range 2,
          if loadAssigned demoEnv
            (demoPlant LoadingScheme.SequentialLoading 2 0 1000 (fun _ => demoComp 5 10))
            1 2 1 1 15 (i + 1) = true
          then ((DistributePlantLoad demoEnv
            (demoPlant LoadingScheme.SequentialLoading 2 0 1000 (fun _ => demoComp 5 10))
            1 2 1 1 15).1.member 1 2 1 1 (i + 1)).MyLoad
          else 0) +
        (DistributePlantLoad demoEnv
          (demoPlant LoadingScheme.SequentialLoading 2 0 1000 (fun _ => demoComp 5 10))
          1 2 1 1 15).2 - 15| < demoEnv.SmallLoad :=
  ⟨by norm_num [demoEnv], C35_sequential_never_overshoots demoEnv
    (demoPlant LoadingScheme.SequentialLoading 2 0 1000 (fun _ => demoComp 5 10)) 1 2 1 1 15
    (by simp) (by norm_num [demoEnv])
    (by
      intro i j _ _ _ _ hij h
      simp only [demoPlant_memberBranch] at h
      exact hij h.1)⟩


end PlantCondLoopOperation
